import Mathlib

/-!
# WorldSession: opcode dispatch, anti-flood limiter and receive queue

A shallow embedding of `src/server/game/Server/WorldSession.cpp`.

* Machine integers are `Nat` with an explicit `% 2^w` where the source narrows a value
  (`uint16` opcodes, `uint32` counters); `time_t` is `Int`.
* Effects that leave the session object (log lines, script hooks, handler calls, socket
  closure, ban requests, `delete`) are recorded, in program order, in a list of `Event`s.
* Declarations the translation unit only includes (the opcode numbering, the opcode table,
  configuration values, the bodies of the opcode handlers) are fields of `Env`.
* Reads of the wall clock are inputs (`UpdateClock`).
-/

/-! ## Opcodes and descriptors -/

/-- The opcode names the session engine mentions. Their numeric values are declared in
`Opcodes.h`; the numbering is the field `Env.code`. -/
inductive OpcodeName where
  | NULL_OPCODE | UNKNOWN_OPCODE | CMSG_PLAYER_LOGIN | CMSG_NAME_QUERY | CMSG_PET_NAME_QUERY
  | CMSG_NPC_TEXT_QUERY | CMSG_ATTACKSTOP | CMSG_QUERY_QUESTS_COMPLETED | CMSG_QUERY_TIME
  | CMSG_CORPSE_MAP_POSITION_QUERY | CMSG_MOVE_TIME_SKIPPED | MSG_QUERY_NEXT_MAIL_TIME
  | CMSG_SETSHEATHED | MSG_RAID_TARGET_UPDATE | CMSG_PLAYER_LOGOUT | CMSG_LOGOUT_REQUEST
  | CMSG_PET_RENAME | CMSG_QUESTGIVER_REQUEST_REWARD | CMSG_COMPLETE_CINEMATIC
  | CMSG_BANKER_ACTIVATE | CMSG_BUY_BANK_SLOT | CMSG_OPT_OUT_OF_LOOT | CMSG_DUEL_ACCEPTED
  | CMSG_DUEL_CANCELLED | CMSG_CALENDAR_COMPLAIN | CMSG_QUEST_QUERY | CMSG_GAMEOBJECT_QUERY
  | CMSG_CREATURE_QUERY | CMSG_QUESTGIVER_STATUS_QUERY | CMSG_GUILD_QUERY | CMSG_ARENA_TEAM_QUERY
  | CMSG_TAXINODE_STATUS_QUERY | CMSG_TAXIQUERYAVAILABLENODES | CMSG_QUESTGIVER_QUERY_QUEST
  | CMSG_PAGE_TEXT_QUERY | MSG_CORPSE_QUERY | MSG_MOVE_SET_FACING | CMSG_REQUEST_PARTY_MEMBER_STATS
  | CMSG_QUESTGIVER_COMPLETE_QUEST | CMSG_SET_ACTION_BUTTON | CMSG_RESET_INSTANCES
  | CMSG_HEARTH_AND_RESURRECT | CMSG_TOGGLE_PVP | CMSG_PET_ABANDON | CMSG_ACTIVATETAXIEXPRESS
  | CMSG_ACTIVATETAXI | CMSG_SELF_RES | CMSG_UNLEARN_SKILL | CMSG_EQUIPMENT_SET_SAVE
  | CMSG_DELETEEQUIPMENT_SET | CMSG_DISMISS_CRITTER | CMSG_REPOP_REQUEST | CMSG_GROUP_INVITE
  | CMSG_GROUP_UNINVITE_GUID | CMSG_GROUP_DISBAND | CMSG_BATTLEMASTER_JOIN_ARENA
  | CMSG_LOGOUT_CANCEL | CMSG_REALM_SPLIT | CMSG_ALTER_APPEARANCE | CMSG_QUEST_CONFIRM_ACCEPT
  | CMSG_READY_FOR_ACCOUNT_DATA_TIMES | CMSG_QUESTGIVER_STATUS_MULTIPLE_QUERY | CMSG_BEGIN_TRADE
  | CMSG_INITIATE_TRADE | CMSG_INSPECT | CMSG_AREA_SPIRIT_HEALER_QUERY | CMSG_STANDSTATECHANGE
  | MSG_RANDOM_ROLL | CMSG_TIME_SYNC_RESP | CMSG_TRAINER_BUY_SPELL | CMSG_QUESTGIVER_ACCEPT_QUEST
  | CMSG_QUESTLOG_REMOVE_QUEST | CMSG_QUESTGIVER_CHOOSE_REWARD | CMSG_CONTACT_LIST
  | CMSG_LEARN_PREVIEW_TALENTS | CMSG_AUTOBANK_ITEM | CMSG_AUTOSTORE_BANK_ITEM | CMSG_WHO
  | CMSG_PLAYER_VEHICLE_ENTER | CMSG_LEARN_PREVIEW_TALENTS_PET | MSG_MOVE_HEARTBEAT
  | CMSG_SET_CONTACT_NOTES | CMSG_CALENDAR_GET_CALENDAR | CMSG_GUILD_BANK_QUERY_TAB
  | CMSG_QUERY_INSPECT_ACHIEVEMENTS | CMSG_GAMEOBJ_REPORT_USE | CMSG_GAMEOBJ_USE
  | MSG_PETITION_DECLINE | CMSG_QUEST_POI_QUERY | CMSG_GM_REPORT_LAG | CMSG_SPELLCLICK
  | CMSG_DISMISS_CONTROLLED_VEHICLE | CMSG_PETITION_SIGN | CMSG_TURN_IN_PETITION
  | CMSG_GROUP_CHANGE_SUB_GROUP | CMSG_PETITION_QUERY | CMSG_CHAR_RACE_CHANGE | CMSG_CHAR_CUSTOMIZE
  | CMSG_CHAR_FACTION_CHANGE | CMSG_CHAR_DELETE | CMSG_DEL_FRIEND | CMSG_ADD_FRIEND
  | CMSG_CHAR_RENAME | CMSG_GMSURVEY_SUBMIT | CMSG_BUG | CMSG_GROUP_SET_LEADER
  | CMSG_GROUP_RAID_CONVERT | CMSG_GROUP_ASSISTANT_LEADER | CMSG_CALENDAR_ADD_EVENT
  | CMSG_PETITION_BUY | CMSG_CHANGE_SEATS_ON_CONTROLLED_VEHICLE | CMSG_REQUEST_VEHICLE_PREV_SEAT
  | CMSG_REQUEST_VEHICLE_NEXT_SEAT | CMSG_REQUEST_VEHICLE_SWITCH_SEAT | CMSG_REQUEST_VEHICLE_EXIT
  | CMSG_ITEM_REFUND | CMSG_SOCKET_GEMS | CMSG_WRAP_ITEM | CMSG_REPORT_PVP_AFK | CMSG_CHAR_CREATE
  | CMSG_CHAR_ENUM | CMSG_GMTICKET_CREATE | CMSG_GMTICKET_UPDATETEXT | CMSG_GMTICKET_DELETETICKET
  | CMSG_GMRESPONSE_RESOLVE | CMSG_CALENDAR_UPDATE_EVENT | CMSG_CALENDAR_REMOVE_EVENT
  | CMSG_CALENDAR_COPY_EVENT | CMSG_CALENDAR_EVENT_INVITE | CMSG_CALENDAR_EVENT_SIGNUP
  | CMSG_CALENDAR_EVENT_RSVP | CMSG_CALENDAR_EVENT_REMOVE_INVITE
  | CMSG_CALENDAR_EVENT_MODERATOR_STATUS | CMSG_ARENA_TEAM_INVITE | CMSG_ARENA_TEAM_ACCEPT
  | CMSG_ARENA_TEAM_DECLINE | CMSG_ARENA_TEAM_LEAVE | CMSG_ARENA_TEAM_DISBAND
  | CMSG_ARENA_TEAM_REMOVE | CMSG_ARENA_TEAM_LEADER | CMSG_LOOT_METHOD | CMSG_GUILD_INVITE
  | CMSG_GUILD_ACCEPT | CMSG_GUILD_DECLINE | CMSG_GUILD_LEAVE | CMSG_GUILD_DISBAND
  | CMSG_GUILD_MOTD | CMSG_GUILD_ADD_RANK | CMSG_GUILD_DEL_RANK | CMSG_GUILD_INFO_TEXT
  | CMSG_GUILD_BANK_DEPOSIT_MONEY | CMSG_GUILD_BANK_WITHDRAW_MONEY | CMSG_GUILD_BANK_BUY_TAB
  | CMSG_GUILD_BANK_UPDATE_TAB | CMSG_SET_GUILD_BANK_TEXT | MSG_SAVE_GUILD_EMBLEM
  | MSG_PETITION_RENAME | MSG_TALENT_WIPE_CONFIRM | MSG_SET_DUNGEON_DIFFICULTY
  | MSG_SET_RAID_DIFFICULTY | MSG_PARTY_ASSIGNMENT | MSG_RAID_READY_CHECK | CMSG_ITEM_REFUND_INFO
  deriving DecidableEq, Repr

/-- The `Status` of an opcode descriptor: the session phases in which it may be handled. -/
inductive SessionStatus where
  | STATUS_AUTHED
  | STATUS_LOGGEDIN
  | STATUS_TRANSFER
  | STATUS_LOGGEDIN_OR_RECENTLY_LOGGOUT
  | STATUS_NEVER
  | STATUS_UNHANDLED
  deriving DecidableEq, Repr

/-- The `ProcessingPlace` of an opcode descriptor. -/
inductive PacketProcessing where
  | PROCESS_INPLACE
  | PROCESS_THREADUNSAFE
  | PROCESS_THREADSAFE
  deriving DecidableEq, Repr

/-- A received packet. `addr` is the identity of the heap object (the value of the
`WorldPacket*` the queue holds), `opcode` is `GetOpcode()`, `rpos`/`wpos` are the read and
write positions of its buffer. -/
structure WorldPacket where
  addr : Nat
  opcode : Nat
  rpos : Nat
  wpos : Nat
  deriving DecidableEq, Repr

/-! ## Session state -/

/-- The part of the attached `Player` the session engine reads: `IsInWorld()`. -/
structure Player where
  inWorld : Bool
  deriving DecidableEq, Repr

/-- The part of `WorldSocket` the session engine reads and writes: `IsClosed()`. -/
structure WorldSocket where
  closed : Bool
  deriving DecidableEq, Repr

/-- One entry of the anti-flood map: `time_t lastReceiveTime; uint32 amountCounter`. -/
structure PacketCounter where
  lastReceiveTime : Int
  amountCounter : Nat
  deriving DecidableEq, Repr

/-- The flood policy of `DosProtection`. `_policy` is read from an integer setting, so a
value outside the three named ones is possible (`invalid`, the `default:` label). -/
inductive Policy where
  | POLICY_LOG
  | POLICY_KICK
  | POLICY_BAN
  | invalid
  deriving DecidableEq, Repr

/-- The ban mode setting; `other` is an integer outside the three named modes. -/
inductive BanMode where
  | BAN_ACCOUNT
  | BAN_CHARACTER
  | BAN_IP
  | other
  deriving DecidableEq, Repr

/-- The anti-flood limiter of one session. `_PacketThrottlingMap` is a map keyed by the
`uint16` opcode; `none` means the map holds no counter for the key. -/
structure DosProtection where
  _policy : Policy
  _PacketThrottlingMap : Nat → Option PacketCounter

/-- One slot of `PacketThrottler::m_opcodes`. -/
structure ThrottleEntry where
  time : Int
  count : Nat
  deriving DecidableEq, Repr

/-- The throttler of `QueuePacket`: `m_opcodes` is an array indexed by opcode,
`m_discarded` an ordered map from opcode to a count (kept sorted by key), `m_lastLog` the
time of the last report. -/
structure PacketThrottler where
  m_opcodes : Nat → ThrottleEntry
  m_discarded : List (Nat × Nat)
  m_lastLog : Int

/-- The fields of `WorldSession` the dispatch loop, the limiter and `QueuePacket` use. The
receive queue is the list of queued packets, head first. -/
structure WorldSession where
  _player : Option Player
  m_Socket : Option WorldSocket
  _accountId : Nat
  m_Address : String
  m_inQueue : Bool
  m_playerLogout : Bool
  m_playerRecentlyLogout : Bool
  _recvQueue : List WorldPacket
  AntiDOS : DosProtection
  m_packetThrottler : PacketThrottler

/-! ## Effects -/

/-- Severity of a log call (`outTrace`, `outDebug`, `outInfo`, `outError`). -/
inductive LogLevel where
  | Trace
  | Debug
  | Info
  | Error
  deriving DecidableEq, Repr

/-- The log filter a message is sent to (`LOG_FILTER_*`). -/
inductive LogFilter where
  | OPCODES
  | BAD_OPCODE_HANDLER
  | NETWORK
  | GENERAL
  | KICK
  deriving DecidableEq, Repr

/-- The log messages of the modelled functions, each with the arguments it formats. -/
inductive LogMsg where
  | unexpectedOpcode (opcode : Nat) (status reason : String)
  | reenqueue (opcode : Nat)
  | unprocessed (opcode rpos wpos : Nat)
  | unprocessedTail (opcode rpos wpos : Nat)
  | notAllowedOpcode (opcode : Nat)
  | statusUnhandled (opcode size : Nat)
  | notHandledOpcode (opcode : Nat)
  | exceptionInfo (opcode size : Nat)
  | byteBufferException (opcode : Nat) (address : String) (account : Nat)
  | antiDosKicked
  | antiDosBanned (duration : Nat)
  | kick (account : Nat) (reason : String)
  | discarded (count opcode account : Nat) (address : String)
  deriving DecidableEq, Repr

/-- An effect visible outside the session object. -/
inductive Event where
  | log (level : LogLevel) (filter : LogFilter) (msg : LogMsg)
  | OnPacketReceive (packet : WorldPacket)
  | Handler (packet : WorldPacket)
  | dump (packet : WorldPacket)
  | slowOpcode (opcode time : Nat)
  | delete (addr : Nat)
  | CloseSocket
  | BanAccount (mode : BanMode) (nameOrIp duration reason author : String)
  deriving DecidableEq, Repr

/-! ## Environment -/

/-- What running an opcode handler body does: the session it leaves, the read position it
leaves in the packet, and whether it ended by throwing `ByteBufferException`. -/
structure HandlerResult where
  session : WorldSession
  rpos : Nat
  threw : Bool

/-- An entry of `opcodeTable`. -/
structure OpcodeHandler where
  Status : SessionStatus
  ProcessingPlace : PacketProcessing
  Handler : WorldSession → WorldPacket → HandlerResult

/-- Declarations from other translation units, taken as parameters. -/
structure Env where
  /-- the numbering of `enum Opcodes` -/
  code : OpcodeName → Nat
  MAX_QUEST_LOG_SIZE : Nat
  PLAYER_SLOTS_COUNT : Nat
  /-- the global `opcodeTable`; `none` is a null entry -/
  opcodeTable : Nat → Option OpcodeHandler
  DropHighBytes : Nat → Nat
  /-- the table `opcodePerSecond` of the throttler -/
  opcodePerSecond : Nat → Nat
  LOG_INTERVAL : Int
  CONFIG_PACKET_SPOOF_BANMODE : BanMode
  CONFIG_PACKET_SPOOF_BANDURATION : Nat
  /-- the result of `sAccountMgr->GetName(id, name)`; `none` when the lookup fails -/
  accountName : Nat → Option String
  /-- the value of `sLog->ShouldLog(LOG_FILTER_OPCODES, LOG_LEVEL_TRACE)` -/
  shouldLogOpcodesTrace : Bool

/-! ## The anti-flood limiter -/

/-- Case labels of `GetMaxPacketCounterAllowed` that set the ceiling 0 (no limit). -/
def casesUnlimited : List OpcodeName :=
  [.CMSG_PLAYER_LOGIN, .CMSG_NAME_QUERY, .CMSG_PET_NAME_QUERY, .CMSG_NPC_TEXT_QUERY,
   .CMSG_ATTACKSTOP, .CMSG_QUERY_QUESTS_COMPLETED, .CMSG_QUERY_TIME,
   .CMSG_CORPSE_MAP_POSITION_QUERY, .CMSG_MOVE_TIME_SKIPPED, .MSG_QUERY_NEXT_MAIL_TIME,
   .CMSG_SETSHEATHED, .MSG_RAID_TARGET_UPDATE, .CMSG_PLAYER_LOGOUT, .CMSG_LOGOUT_REQUEST,
   .CMSG_PET_RENAME, .CMSG_QUESTGIVER_REQUEST_REWARD, .CMSG_COMPLETE_CINEMATIC,
   .CMSG_BANKER_ACTIVATE, .CMSG_BUY_BANK_SLOT, .CMSG_OPT_OUT_OF_LOOT, .CMSG_DUEL_ACCEPTED,
   .CMSG_DUEL_CANCELLED, .CMSG_CALENDAR_COMPLAIN, .CMSG_QUEST_QUERY, .CMSG_GAMEOBJECT_QUERY,
   .CMSG_CREATURE_QUERY, .CMSG_QUESTGIVER_STATUS_QUERY, .CMSG_GUILD_QUERY, .CMSG_ARENA_TEAM_QUERY,
   .CMSG_TAXINODE_STATUS_QUERY, .CMSG_TAXIQUERYAVAILABLENODES, .CMSG_QUESTGIVER_QUERY_QUEST,
   .CMSG_PAGE_TEXT_QUERY, .MSG_CORPSE_QUERY, .MSG_MOVE_SET_FACING,
   .CMSG_REQUEST_PARTY_MEMBER_STATS, .CMSG_QUESTGIVER_COMPLETE_QUEST, .CMSG_SET_ACTION_BUTTON,
   .CMSG_RESET_INSTANCES, .CMSG_HEARTH_AND_RESURRECT, .CMSG_TOGGLE_PVP, .CMSG_PET_ABANDON,
   .CMSG_ACTIVATETAXIEXPRESS, .CMSG_ACTIVATETAXI, .CMSG_SELF_RES, .CMSG_UNLEARN_SKILL,
   .CMSG_EQUIPMENT_SET_SAVE, .CMSG_DELETEEQUIPMENT_SET, .CMSG_DISMISS_CRITTER, .CMSG_REPOP_REQUEST,
   .CMSG_GROUP_INVITE, .CMSG_GROUP_UNINVITE_GUID, .CMSG_GROUP_DISBAND,
   .CMSG_BATTLEMASTER_JOIN_ARENA, .CMSG_LOGOUT_CANCEL, .CMSG_REALM_SPLIT, .CMSG_ALTER_APPEARANCE,
   .CMSG_QUEST_CONFIRM_ACCEPT, .CMSG_READY_FOR_ACCOUNT_DATA_TIMES,
   .CMSG_QUESTGIVER_STATUS_MULTIPLE_QUERY, .CMSG_BEGIN_TRADE, .CMSG_INITIATE_TRADE, .CMSG_INSPECT,
   .CMSG_AREA_SPIRIT_HEALER_QUERY, .CMSG_STANDSTATECHANGE, .MSG_RANDOM_ROLL, .CMSG_TIME_SYNC_RESP,
   .CMSG_TRAINER_BUY_SPELL]

/-- Case labels with ceiling 200. -/
def cases200 : List OpcodeName :=
  [.CMSG_QUESTGIVER_ACCEPT_QUEST, .CMSG_QUESTLOG_REMOVE_QUEST, .CMSG_QUESTGIVER_CHOOSE_REWARD,
   .CMSG_CONTACT_LIST, .CMSG_LEARN_PREVIEW_TALENTS, .CMSG_AUTOBANK_ITEM, .CMSG_AUTOSTORE_BANK_ITEM,
   .CMSG_WHO, .CMSG_PLAYER_VEHICLE_ENTER, .CMSG_LEARN_PREVIEW_TALENTS_PET, .MSG_MOVE_HEARTBEAT]

/-- Case labels with ceiling 50. -/
def cases50 : List OpcodeName :=
  [.CMSG_SET_CONTACT_NOTES, .CMSG_CALENDAR_GET_CALENDAR, .CMSG_GUILD_BANK_QUERY_TAB,
   .CMSG_QUERY_INSPECT_ACHIEVEMENTS, .CMSG_GAMEOBJ_REPORT_USE, .CMSG_GAMEOBJ_USE,
   .MSG_PETITION_DECLINE]

/-- Case labels with ceiling 20. -/
def cases20 : List OpcodeName :=
  [.CMSG_GM_REPORT_LAG, .CMSG_SPELLCLICK, .CMSG_DISMISS_CONTROLLED_VEHICLE]

/-- Case labels with ceiling 10. -/
def cases10 : List OpcodeName :=
  [.CMSG_PETITION_SIGN, .CMSG_TURN_IN_PETITION, .CMSG_GROUP_CHANGE_SUB_GROUP, .CMSG_PETITION_QUERY,
   .CMSG_CHAR_RACE_CHANGE, .CMSG_CHAR_CUSTOMIZE, .CMSG_CHAR_FACTION_CHANGE, .CMSG_CHAR_DELETE,
   .CMSG_DEL_FRIEND, .CMSG_ADD_FRIEND, .CMSG_CHAR_RENAME, .CMSG_GMSURVEY_SUBMIT, .CMSG_BUG,
   .CMSG_GROUP_SET_LEADER, .CMSG_GROUP_RAID_CONVERT, .CMSG_GROUP_ASSISTANT_LEADER,
   .CMSG_CALENDAR_ADD_EVENT, .CMSG_PETITION_BUY, .CMSG_CHANGE_SEATS_ON_CONTROLLED_VEHICLE,
   .CMSG_REQUEST_VEHICLE_PREV_SEAT, .CMSG_REQUEST_VEHICLE_NEXT_SEAT,
   .CMSG_REQUEST_VEHICLE_SWITCH_SEAT, .CMSG_REQUEST_VEHICLE_EXIT, .CMSG_ITEM_REFUND,
   .CMSG_SOCKET_GEMS, .CMSG_WRAP_ITEM, .CMSG_REPORT_PVP_AFK]

/-- Case labels with ceiling 3. -/
def cases3 : List OpcodeName :=
  [.CMSG_CHAR_CREATE, .CMSG_CHAR_ENUM, .CMSG_GMTICKET_CREATE, .CMSG_GMTICKET_UPDATETEXT,
   .CMSG_GMTICKET_DELETETICKET, .CMSG_GMRESPONSE_RESOLVE, .CMSG_CALENDAR_UPDATE_EVENT,
   .CMSG_CALENDAR_REMOVE_EVENT, .CMSG_CALENDAR_COPY_EVENT, .CMSG_CALENDAR_EVENT_INVITE,
   .CMSG_CALENDAR_EVENT_SIGNUP, .CMSG_CALENDAR_EVENT_RSVP, .CMSG_CALENDAR_EVENT_REMOVE_INVITE,
   .CMSG_CALENDAR_EVENT_MODERATOR_STATUS, .CMSG_ARENA_TEAM_INVITE, .CMSG_ARENA_TEAM_ACCEPT,
   .CMSG_ARENA_TEAM_DECLINE, .CMSG_ARENA_TEAM_LEAVE, .CMSG_ARENA_TEAM_DISBAND,
   .CMSG_ARENA_TEAM_REMOVE, .CMSG_ARENA_TEAM_LEADER, .CMSG_LOOT_METHOD, .CMSG_GUILD_INVITE,
   .CMSG_GUILD_ACCEPT, .CMSG_GUILD_DECLINE, .CMSG_GUILD_LEAVE, .CMSG_GUILD_DISBAND,
   .CMSG_GUILD_MOTD, .CMSG_GUILD_ADD_RANK, .CMSG_GUILD_DEL_RANK, .CMSG_GUILD_INFO_TEXT,
   .CMSG_GUILD_BANK_DEPOSIT_MONEY, .CMSG_GUILD_BANK_WITHDRAW_MONEY, .CMSG_GUILD_BANK_BUY_TAB,
   .CMSG_GUILD_BANK_UPDATE_TAB, .CMSG_SET_GUILD_BANK_TEXT, .MSG_SAVE_GUILD_EMBLEM,
   .MSG_PETITION_RENAME, .MSG_TALENT_WIPE_CONFIRM, .MSG_SET_DUNGEON_DIFFICULTY,
   .MSG_SET_RAID_DIFFICULTY, .MSG_PARTY_ASSIGNMENT, .MSG_RAID_READY_CHECK]

/-- `DosProtection::GetMaxPacketCounterAllowed(uint16 opcode)`: the `switch` over the case
labels, group by group in source order (the labels of a `switch` are pairwise distinct, so
testing the groups in order selects the labelled group); the result is a `uint32`. -/
def DosProtection.GetMaxPacketCounterAllowed (E : Env) (opcode : Nat) : Nat :=
  if opcode ∈ casesUnlimited.map E.code then 0
  else if opcode ∈ cases200.map E.code then 200
  else if opcode ∈ cases50.map E.code then 50
  else if opcode = E.code .CMSG_QUEST_POI_QUERY then E.MAX_QUEST_LOG_SIZE % 2 ^ 32
  else if opcode ∈ cases20.map E.code then 20
  else if opcode ∈ cases10.map E.code then 10
  else if opcode ∈ cases3.map E.code then 3
  else if opcode = E.code .CMSG_ITEM_REFUND_INFO then E.PLAYER_SLOTS_COUNT % 2 ^ 32
  else 100

/-- Assignment to one key of a map or one slot of an array. -/
def setAt {α : Type} (f : Nat → α) (k : Nat) (v : α) : Nat → α :=
  fun j => if j = k then v else f j

/-- `WorldSession::KickPlayer`: one log line, then the socket is closed if there is one. -/
def WorldSession.KickPlayer (s : WorldSession) (reason : String) : WorldSession × List Event :=
  match s.m_Socket with
  | some sock =>
    ({ s with m_Socket := some { sock with closed := true } },
      [Event.log .Info .KICK (.kick s._accountId reason), Event.CloseSocket])
  | none => (s, [Event.log .Info .KICK (.kick s._accountId reason)])

/-- The target of the ban issued under `POLICY_BAN`: the inner `switch (bm)`, where
`BAN_CHARACTER` shares the statement of `BAN_ACCOUNT` and `nameOrIp` starts empty. -/
def DosProtection.banTarget (E : Env) (s : WorldSession) (bm : BanMode) : String :=
  match bm with
  | .BAN_CHARACTER => (E.accountName s._accountId).getD ""
  | .BAN_ACCOUNT => (E.accountName s._accountId).getD ""
  | .BAN_IP => s.m_Address
  | .other => ""

/-- The counter of key `opcode` after the statements
`PacketCounter& packetCounter = _PacketThrottlingMap[opcode]; if (packetCounter.lastReceiveTime
!= time) { reset }; ++packetCounter.amountCounter` of `EvaluateOpcode`: the subscript creates
a zero counter when the key is absent, and the increment is on a `uint32`. -/
def DosProtection.bump (d : DosProtection) (opcode : Nat) (time : Int) : PacketCounter :=
  let found : PacketCounter := (d._PacketThrottlingMap opcode).getD ⟨0, 0⟩
  let reset : PacketCounter := if found.lastReceiveTime ≠ time then ⟨time, 0⟩ else found
  { reset with amountCounter := (reset.amountCounter + 1) % 2 ^ 32 }

/-- The policy `switch` of `EvaluateOpcode`, reached when the ceiling is exceeded. -/
def DosProtection.applyPolicy (E : Env) (s : WorldSession) : Bool × WorldSession × List Event :=
  match s.AntiDOS._policy with
  | .POLICY_LOG => (true, s, [])
  | .POLICY_KICK =>
    let k := s.KickPlayer "AntiDos"
    (false, k.1, Event.log .Error .GENERAL .antiDosKicked :: k.2)
  | .POLICY_BAN =>
    let bm := E.CONFIG_PACKET_SPOOF_BANMODE
    let duration := E.CONFIG_PACKET_SPOOF_BANDURATION
    let nameOrIp := DosProtection.banTarget E s bm
    let k := s.KickPlayer "AntiDos"
    (false, k.1,
      Event.BanAccount bm nameOrIp "-1" "DOS (Packet Flooding/Spoofing" "Server: AutoDOS" ::
        Event.log .Error .GENERAL (.antiDosBanned duration) :: k.2)
  | .invalid => (true, s, [])

/-- The session with the limiter's counter for key `k` set to `pc`. -/
def WorldSession.withCounter (s : WorldSession) (k : Nat) (pc : PacketCounter) : WorldSession :=
  { s with AntiDOS := { s.AntiDOS with
      _PacketThrottlingMap := setAt s.AntiDOS._PacketThrottlingMap k (some pc) } }

/-- `DosProtection::EvaluateOpcode(p, time)` on the session that owns the limiter. Returns
the admission result, the session afterwards and the effects. The opcode is narrowed to
`uint16` both for the ceiling and for the map key. -/
def DosProtection.EvaluateOpcode (E : Env) (s : WorldSession) (p : WorldPacket) (time : Int) :
    Bool × WorldSession × List Event :=
  let opcode := p.opcode % 65536
  let maxPacketCounterAllowed := DosProtection.GetMaxPacketCounterAllowed E opcode
  if maxPacketCounterAllowed = 0 then (true, s, [])
  else
    let packetCounter := s.AntiDOS.bump opcode time
    let s1 := s.withCounter opcode packetCounter
    if packetCounter.amountCounter ≤ maxPacketCounterAllowed then (true, s1, [])
    else DosProtection.applyPolicy E s1

/-- Consecutive `EvaluateOpcode` calls, one per `(packet, time)` pair, each on the session
the previous call left. Returns the results in call order, the final session and all
effects. -/
def DosProtection.EvaluateOpcodes (E : Env) :
    WorldSession → List (WorldPacket × Int) → List Bool × WorldSession × List Event
  | s, [] => ([], s, [])
  | s, (p, t) :: rest =>
    let r := DosProtection.EvaluateOpcode E s p t
    let rs := DosProtection.EvaluateOpcodes E r.2.1 rest
    (r.1 :: rs.1, rs.2.1, r.2.2 ++ rs.2.2)

/-! ## The throttler of `QueuePacket` -/

/-- The update `if found ++count else map[opcode] = 1` of the ordered map `m_discarded`. -/
def DiscardMap.increment (opcode : Nat) : List (Nat × Nat) → List (Nat × Nat)
  | [] => [(opcode, 1)]
  | (k, v) :: rest =>
    if k = opcode then (k, (v + 1) % 2 ^ 32) :: rest
    else if opcode < k then (opcode, 1) :: (k, v) :: rest
    else (k, v) :: DiscardMap.increment opcode rest

/-- `PacketThrottler::LogDiscarded`; `logNow` is the clock value its `time(NULL)` reads. -/
def PacketThrottler.LogDiscarded (t : PacketThrottler) (account : Nat) (address : String)
    (logNow : Int) : PacketThrottler × List Event :=
  ({ t with m_lastLog := logNow, m_discarded := [] },
    t.m_discarded.map fun e => Event.log .Info .NETWORK (.discarded e.2 e.1 account address))

/-- `PacketThrottler::MustDiscard(uint16 opcode, account, address)`; `now` is the clock
value its `time(NULL)` reads. -/
def PacketThrottler.MustDiscard (E : Env) (t : PacketThrottler) (opcode account : Nat)
    (address : String) (now logNow : Int) : Bool × PacketThrottler × List Event :=
  let maxCount := E.opcodePerSecond opcode % 2 ^ 32
  if maxCount ≠ 0 then
    if now = (t.m_opcodes opcode).time then
      let count := ((t.m_opcodes opcode).count + 1) % 2 ^ 32
      let t1 : PacketThrottler :=
        { t with m_opcodes := setAt t.m_opcodes opcode ⟨(t.m_opcodes opcode).time, count⟩ }
      if count > maxCount then
        let t2 : PacketThrottler :=
          { t1 with m_discarded := DiscardMap.increment opcode t1.m_discarded }
        if t2.m_lastLog + E.LOG_INTERVAL < now then
          let l := t2.LogDiscarded account address logNow
          (true, l.1, l.2)
        else (true, t2, [])
      else (false, t1, [])
    else (false, { t with m_opcodes := setAt t.m_opcodes opcode ⟨now, 1⟩ }, [])
  else (false, t, [])

/-! ## The receive queue -/

/-- Modelled from the spec: the queue class behind `_recvQueue` (`LockedQueue`) is not part
of the sources. `push(packet)`: append; a re-enqueued packet goes to the tail, never the
head. -/
def LockedQueue.add (q : List WorldPacket) (p : WorldPacket) : List WorldPacket :=
  q ++ [p]

/-- Modelled from the spec: `is_empty()` of the queue class, which is not part of the
sources. -/
def LockedQueue.empty (q : List WorldPacket) : Bool :=
  q.isEmpty

/-- Modelled from the spec: `peek` of the queue class, which is not part of the sources:
returns the next packet that is eligible under the current filter, without removing it.
`check` is the filter; its result `none` (a fault inside the filter) is passed on. -/
def LockedQueue.peek (check : WorldPacket → Option Bool) :
    List WorldPacket → Option (Option WorldPacket)
  | [] => some none
  | p :: q =>
    match check p with
    | none => none
    | some true => some (some p)
    | some false => LockedQueue.peek check q

/-- Modelled from the spec: `drain_next(filter)` of the queue class, which is not part of
the sources: removes and returns the next packet for which the filter holds, skipping (not
removing) ineligible ones. The result is the packet and the queue without it. -/
def LockedQueue.next (check : WorldPacket → Option Bool) :
    List WorldPacket → Option (Option (WorldPacket × List WorldPacket))
  | [] => some none
  | p :: q =>
    match check p with
    | none => none
    | some true => some (some (p, q))
    | some false =>
      match LockedQueue.next check q with
      | none => none
      | some none => some none
      | some (some r) => some (some (r.1, p :: r.2))

/-- `WorldSession::QueuePacket`: the packet is destroyed when the throttler says so and is
appended to the receive queue otherwise. -/
def WorldSession.QueuePacket (E : Env) (s : WorldSession) (new_packet : WorldPacket)
    (now logNow : Int) : WorldSession × List Event :=
  let r := s.m_packetThrottler.MustDiscard E (new_packet.opcode % 65536) s._accountId
    s.m_Address now logNow
  if r.1 then
    ({ s with m_packetThrottler := r.2.1 }, r.2.2 ++ [Event.delete new_packet.addr])
  else
    ({ s with m_packetThrottler := r.2.1, _recvQueue := LockedQueue.add s._recvQueue new_packet },
      r.2.2)

/-! ## Packet filters -/

/-- The two implementations of `PacketFilter` that `Update` is called with. -/
inductive PacketFilter where
  | MapSessionFilter
  | WorldSessionFilter
  deriving DecidableEq, Repr

/-- `MapSessionFilter::Process`; `none` is the dereference of a null table entry. -/
def MapSessionFilter.Process (E : Env) (s : WorldSession) (packet : WorldPacket) : Option Bool :=
  match E.opcodeTable (E.DropHighBytes packet.opcode) with
  | none => none
  | some opHandle =>
    if opHandle.ProcessingPlace = .PROCESS_INPLACE then some true
    else if opHandle.ProcessingPlace = .PROCESS_THREADUNSAFE then some false
    else
      match s._player with
      | none => some false
      | some player => some player.inWorld

/-- `WorldSessionFilter::Process`; `none` is the dereference of a null table entry. -/
def WorldSessionFilter.Process (E : Env) (s : WorldSession) (packet : WorldPacket) : Option Bool :=
  match E.opcodeTable (E.DropHighBytes packet.opcode) with
  | none => none
  | some opHandle =>
    if opHandle.ProcessingPlace = .PROCESS_INPLACE then some true
    else if opHandle.ProcessingPlace = .PROCESS_THREADUNSAFE then some true
    else
      match s._player with
      | none => some true
      | some player => some (player.inWorld == false)

/-- The virtual call `updater.Process(packet)`. -/
def PacketFilter.Process (E : Env) (updater : PacketFilter) (s : WorldSession)
    (packet : WorldPacket) : Option Bool :=
  match updater with
  | .MapSessionFilter => MapSessionFilter.Process E s packet
  | .WorldSessionFilter => WorldSessionFilter.Process E s packet

/-! ## `WorldSession::Update`: the dispatch loop -/

/-- The clock values one `Update` call reads: `currentTime` is the `time(NULL)` taken once
before the loop; in the loop iteration numbered `k` (from 0), `throttleTime k` is what
`MustDiscard` reads, `logTime k` what `LogDiscarded` reads, and `processTime k` is the
handling time `GetMSTimeDiffToNow(opcodeStartTime)` in milliseconds. -/
structure UpdateClock where
  currentTime : Int
  throttleTime : Nat → Int
  logTime : Nat → Int
  processTime : Nat → Nat

/-- The session together with the locals of `Update` that live across loop iterations and
the effects so far (oldest first). `firstDelayedPacket` is a pointer value: `none` is
`NULL`. `iter` counts the completed iterations. -/
structure UpdateState where
  session : WorldSession
  trace : List Event
  deletePacket : Bool
  firstDelayedPacket : Option Nat
  iter : Nat

/-- `WorldSession::LogUnexpectedOpcode`. -/
def WorldSession.LogUnexpectedOpcode (packet : WorldPacket) (status reason : String) : List Event :=
  [Event.log .Error .OPCODES (.unexpectedOpcode packet.opcode status reason)]

/-- `WorldSession::LogUnprocessedTail`. -/
def WorldSession.LogUnprocessedTail (E : Env) (packet : WorldPacket) : List Event :=
  (if packet.rpos < packet.wpos then
    [Event.log .Info .BAD_OPCODE_HANDLER
      (.unprocessed packet.opcode (packet.rpos % 2 ^ 32) (packet.wpos % 2 ^ 32))]
   else []) ++
  (if !E.shouldLogOpcodesTrace || decide (packet.rpos ≥ packet.wpos) then []
   else
    [Event.log .Trace .OPCODES
      (.unprocessedTail packet.opcode (packet.rpos % 2 ^ 32) (packet.wpos % 2 ^ 32)),
     Event.dump packet])

/-- The block `OnPacketReceive; (this->*opHandle->Handler)(*packet); LogUnprocessedTail`
that four branches of the `switch` share, together with the `catch (ByteBufferException &)`
that ends the `try` when the handler throws. -/
def WorldSession.Update.invoke (E : Env) (s : WorldSession) (packet : WorldPacket)
    (opHandle : OpcodeHandler) : WorldSession × List Event :=
  let r := opHandle.Handler s packet
  if r.threw then
    (r.session,
      [Event.OnPacketReceive packet, Event.Handler packet,
       Event.log .Info .BAD_OPCODE_HANDLER (.exceptionInfo packet.opcode packet.wpos),
       Event.log .Error .NETWORK
         (.byteBufferException packet.opcode r.session.m_Address r.session._accountId),
       Event.dump packet])
  else
    (r.session,
      [Event.OnPacketReceive packet, Event.Handler packet] ++
        WorldSession.LogUnprocessedTail E { packet with rpos := r.rpos })

/-- The body of the `try`: `switch (opHandle->Status)`. -/
def WorldSession.Update.dispatch (E : Env) (clock : UpdateClock) (st : UpdateState)
    (packet : WorldPacket) (opHandle : OpcodeHandler) : UpdateState :=
  let s := st.session
  match opHandle.Status with
  | .STATUS_LOGGEDIN =>
    match s._player with
    | none =>
      if !s.m_playerRecentlyLogout then
        let q := s.QueuePacket E packet (clock.throttleTime st.iter) (clock.logTime st.iter)
        { st with
          firstDelayedPacket :=
            (if st.firstDelayedPacket.isNone then some packet.addr else st.firstDelayedPacket),
          deletePacket := false,
          session := q.1,
          trace := st.trace ++ q.2 ++ [Event.log .Debug .NETWORK (.reenqueue packet.opcode)] }
      else st
    | some player =>
      if player.inWorld then
        let r := DosProtection.EvaluateOpcode E s packet clock.currentTime
        if r.1 then
          let h := WorldSession.Update.invoke E r.2.1 packet opHandle
          { st with session := h.1, trace := st.trace ++ r.2.2 ++ h.2 }
        else { st with session := r.2.1, trace := st.trace ++ r.2.2 }
      else st
  | .STATUS_LOGGEDIN_OR_RECENTLY_LOGGOUT =>
    if s._player.isNone && !s.m_playerRecentlyLogout && !s.m_playerLogout then
      { st with trace := st.trace ++
          (WorldSession.LogUnexpectedOpcode packet "STATUS_LOGGEDIN_OR_RECENTLY_LOGGOUT"
            "the player has not logged in yet and not recently logout") }
    else
      let r := DosProtection.EvaluateOpcode E s packet clock.currentTime
      if r.1 then
        let h := WorldSession.Update.invoke E r.2.1 packet opHandle
        { st with session := h.1, trace := st.trace ++ r.2.2 ++ h.2 }
      else { st with session := r.2.1, trace := st.trace ++ r.2.2 }
  | .STATUS_TRANSFER =>
    match s._player with
    | none =>
      { st with trace := st.trace ++
          (WorldSession.LogUnexpectedOpcode packet "STATUS_TRANSFER"
            "the player has not logged in yet") }
    | some player =>
      if player.inWorld then
        { st with trace := st.trace ++
            (WorldSession.LogUnexpectedOpcode packet "STATUS_TRANSFER"
              "the player is still in world") }
      else
        let r := DosProtection.EvaluateOpcode E s packet clock.currentTime
        if r.1 then
          let h := WorldSession.Update.invoke E r.2.1 packet opHandle
          { st with session := h.1, trace := st.trace ++ r.2.2 ++ h.2 }
        else { st with session := r.2.1, trace := st.trace ++ r.2.2 }
  | .STATUS_AUTHED =>
    if s.m_inQueue then
      { st with trace := st.trace ++
          (WorldSession.LogUnexpectedOpcode packet "STATUS_AUTHED"
            "the player not pass queue yet") }
    else
      let s0 : WorldSession :=
        if packet.opcode = E.code .CMSG_CHAR_ENUM then { s with m_playerRecentlyLogout := false }
        else s
      let r := DosProtection.EvaluateOpcode E s0 packet clock.currentTime
      if r.1 then
        let h := WorldSession.Update.invoke E r.2.1 packet opHandle
        { st with session := h.1, trace := st.trace ++ r.2.2 ++ h.2 }
      else
        -- no `break`: control falls into `case STATUS_NEVER`
        { st with session := r.2.1, trace := st.trace ++ r.2.2 ++
            [Event.log .Error .OPCODES (.notAllowedOpcode packet.opcode)] }
  | .STATUS_NEVER =>
    { st with trace := st.trace ++ [Event.log .Error .OPCODES (.notAllowedOpcode packet.opcode)] }
  | .STATUS_UNHANDLED =>
    { st with trace := st.trace ++
        [Event.log .Info .BAD_OPCODE_HANDLER (.statusUnhandled packet.opcode packet.wpos),
         Event.log .Error .OPCODES (.notHandledOpcode packet.opcode)] }

/-- The end of the loop body, after the `try`: the slow-opcode record when the measured
time `opcodeProcessTime` (a `uint32`) is at least `opcodeMinTime = 50`, then `delete packet`
when `deletePacket` is set. -/
def WorldSession.Update.closing (clock : UpdateClock) (iter : Nat) (deletePacket : Bool)
    (packet : WorldPacket) : List Event :=
  (if clock.processTime iter % 2 ^ 32 ≥ 50 then
      [Event.slowOpcode packet.opcode (clock.processTime iter % 2 ^ 32)]
    else []) ++
  (if deletePacket then [Event.delete packet.addr] else [])

/-- One pass through the loop body for the dequeued `packet`: the table lookup, the
`switch` and the end of the body. `none` is the dereference of a null table entry. -/
def WorldSession.Update.body (E : Env) (clock : UpdateClock) (st : UpdateState)
    (packet : WorldPacket) : Option UpdateState :=
  match E.opcodeTable packet.opcode with
  | none => none
  | some opHandle =>
    let st1 := WorldSession.Update.dispatch E clock st packet opHandle
    some { st1 with
      trace := st1.trace ++ WorldSession.Update.closing clock st.iter st1.deletePacket packet,
      iter := st.iter + 1 }

/-- The loop condition, evaluated left to right with short circuit. `some none`: the
condition is false; `some (some (packet, st))`: it is true, `packet` has been dequeued and
`st` is the state with the queue without it; `none`: a filter dereferenced a null entry. -/
def WorldSession.Update.cond (E : Env) (updater : PacketFilter) (st : UpdateState) :
    Option (Option (WorldPacket × UpdateState)) :=
  match st.session.m_Socket with
  | none => some none
  | some sock =>
    if sock.closed then some none
    else if LockedQueue.empty st.session._recvQueue then some none
    else
      match LockedQueue.peek (updater.Process E st.session) st.session._recvQueue with
      | none => none
      | some front =>
        if front.map WorldPacket.addr = st.firstDelayedPacket then some none
        else
          match LockedQueue.next (updater.Process E st.session) st.session._recvQueue with
          | none => none
          | some none => some none
          | some (some r) =>
            some (some (r.1, { st with session := { st.session with _recvQueue := r.2 } }))

/-- How a run of the loop ends. -/
inductive LoopResult where
  | finished (st : UpdateState)
  | nullDeref (st : UpdateState)
  | outOfFuel (st : UpdateState)

/-- The `while` loop of `Update`, run for at most `fuel` iterations. -/
def WorldSession.Update.loop (E : Env) (clock : UpdateClock) (updater : PacketFilter) :
    Nat → UpdateState → LoopResult
  | 0, st =>
    match WorldSession.Update.cond E updater st with
    | none => .nullDeref st
    | some none => .finished st
    | some (some _) => .outOfFuel st
  | fuel + 1, st =>
    match WorldSession.Update.cond E updater st with
    | none => .nullDeref st
    | some none => .finished st
    | some (some r) =>
      match WorldSession.Update.body E clock r.2 r.1 with
      | none => .nullDeref r.2
      | some st1 => WorldSession.Update.loop E clock updater fuel st1

/-- The state in which the loop starts: `deletePacket = true`, `firstDelayedPacket = NULL`. -/
def WorldSession.Update.initial (s : WorldSession) : UpdateState :=
  { session := s, trace := [], deletePacket := true, firstDelayedPacket := none, iter := 0 }

/-! ## Helper definitions for statements -/

/-- The number of `EvaluateOpcode` calls the limiter has counted for key `k` in the second
`time`: the stored count when the stored time is `time`, and 0 otherwise. -/
def DosProtection.countAt (d : DosProtection) (k : Nat) (time : Int) : Nat :=
  match d._PacketThrottlingMap k with
  | none => 0
  | some pc => if pc.lastReceiveTime = time then pc.amountCounter else 0

/-- The result of `EvaluateOpcode` once the ceiling is exceeded, by policy. -/
def Policy.admitsOverCeiling : Policy → Bool
  | .POLICY_KICK => false
  | .POLICY_BAN => false
  | .POLICY_LOG => true
  | .invalid => true

/-- Whether an effect is a log line. -/
def Event.isLog : Event → Bool
  | .log _ _ _ => true
  | _ => false

/-- Whether an effect is a kick or a ban: the kick log line, the closing of the socket or
a ban request. -/
def Event.isKickOrBan : Event → Bool
  | .log _ _ (.kick _ _) => true
  | .log _ _ .antiDosKicked => true
  | .log _ _ (.antiDosBanned _) => true
  | .CloseSocket => true
  | .BanAccount _ _ _ _ _ => true
  | _ => false

/-- Whether an effect is the invocation of an opcode handler. -/
def Event.isHandler : Event → Bool
  | .Handler _ => true
  | _ => false

/-- The state a run of the loop ended in. -/
def LoopResult.state : LoopResult → UpdateState
  | .finished st => st
  | .nullDeref st => st
  | .outOfFuel st => st

/-- Whether the run stopped because the loop condition became false. -/
def LoopResult.isFinished : LoopResult → Bool
  | .finished _ => true
  | _ => false

/-- The effects appended between the states `st` and `st'`. -/
def UpdateState.eventsSince (st' st : UpdateState) : List Event :=
  st'.trace.drop st.trace.length

/-! ## A concrete environment -/

/-- A numbering of the opcode names: the position in the declaration, `NULL_OPCODE = 0`. -/
def sampleCode (n : OpcodeName) : Nat :=
  n.toCtorIdx

/-- A handler body that reads the whole packet and changes nothing. -/
def sampleHandler (s : WorldSession) (p : WorldPacket) : HandlerResult :=
  { session := s, rpos := p.wpos, threw := false }

/-- A small opcode table: four registered opcodes, every other entry null. -/
def sampleTable (opcode : Nat) : Option OpcodeHandler :=
  if opcode = sampleCode .CMSG_CHAR_ENUM then
    some ⟨.STATUS_AUTHED, .PROCESS_THREADUNSAFE, sampleHandler⟩
  else if opcode = sampleCode .CMSG_LOGOUT_REQUEST then
    some ⟨.STATUS_LOGGEDIN, .PROCESS_THREADUNSAFE, sampleHandler⟩
  else if opcode = sampleCode .CMSG_NAME_QUERY then
    some ⟨.STATUS_LOGGEDIN, .PROCESS_THREADSAFE, sampleHandler⟩
  else if opcode = sampleCode .CMSG_WHO then
    some ⟨.STATUS_LOGGEDIN, .PROCESS_THREADSAFE, sampleHandler⟩
  else if opcode = sampleCode .CMSG_BUG then
    some ⟨.STATUS_NEVER, .PROCESS_INPLACE, sampleHandler⟩
  else if opcode = sampleCode .CMSG_SPELLCLICK then
    some ⟨.STATUS_UNHANDLED, .PROCESS_INPLACE, sampleHandler⟩
  else none

/-- A concrete environment: `CMSG_WHO` is throttled to one packet a second by
`QueuePacket`, no other opcode is. -/
def sampleEnv : Env where
  code := sampleCode
  MAX_QUEST_LOG_SIZE := 50
  PLAYER_SLOTS_COUNT := 150
  opcodeTable := sampleTable
  DropHighBytes := fun n => n % 65536
  opcodePerSecond := fun n => if n = sampleCode .CMSG_WHO then 1 else 0
  LOG_INTERVAL := 5
  CONFIG_PACKET_SPOOF_BANMODE := .BAN_ACCOUNT
  CONFIG_PACKET_SPOOF_BANDURATION := 86400
  accountName := fun _ => some "ACCOUNT"
  shouldLogOpcodesTrace := false

/-- A session past the login queue, socket open, no player attached, empty receive queue,
fresh limiter with the given policy and fresh throttler. -/
def sampleSession (policy : Policy) : WorldSession where
  _player := none
  m_Socket := some ⟨false⟩
  _accountId := 1
  m_Address := "127.0.0.1"
  m_inQueue := false
  m_playerLogout := false
  m_playerRecentlyLogout := false
  _recvQueue := []
  AntiDOS := ⟨policy, fun _ => none⟩
  m_packetThrottler := ⟨fun _ => ⟨0, 0⟩, [], 0⟩

/-- A packet of four unread bytes with the given address and opcode name. -/
def samplePacket (addr : Nat) (n : OpcodeName) : WorldPacket :=
  { addr := addr, opcode := sampleCode n, rpos := 0, wpos := 4 }

/-- A clock that stands still at second 1000 and measures 0 ms for every packet. -/
def sampleClock : UpdateClock where
  currentTime := 1000
  throttleTime := fun _ => 1000
  logTime := fun _ => 1000
  processTime := fun _ => 0

/-- The session `s` after the packets `ps` arrived from the socket, each through
`QueuePacket` at clock value `now`. -/
def sampleArrivals (s : WorldSession) (now : Int) : List WorldPacket → WorldSession
  | [] => s
  | p :: ps => sampleArrivals (s.QueuePacket sampleEnv p now now).1 now ps

/-- The sample session after one `STATUS_NEVER` packet arrived from the socket. -/
def sampleNeverSession : WorldSession :=
  sampleArrivals (sampleSession .POLICY_KICK) 1000 [samplePacket 1 .CMSG_BUG]

/-- The sample session after one `STATUS_UNHANDLED` packet arrived from the socket. -/
def sampleUnhandledSession : WorldSession :=
  sampleArrivals (sampleSession .POLICY_KICK) 1000 [samplePacket 1 .CMSG_SPELLCLICK]

/-- A session still waiting in the login queue, with the recently-logged-out flag set, after
a `CMSG_CHAR_ENUM` packet (`STATUS_AUTHED`) arrived from the socket. -/
def sampleQueuedSession : WorldSession :=
  sampleArrivals
    { sampleSession .POLICY_KICK with m_inQueue := true, m_playerRecentlyLogout := true } 1000
    [samplePacket 1 .CMSG_CHAR_ENUM]

/-- A session with a player attached (`inWorld` as given) after a `CMSG_NAME_QUERY` packet
(`STATUS_LOGGEDIN`) arrived from the socket. -/
def samplePlayerSession (inWorld : Bool) : WorldSession :=
  sampleArrivals { sampleSession .POLICY_KICK with _player := some ⟨inWorld⟩ } 1000
    [samplePacket 1 .CMSG_NAME_QUERY]

/-- The loop state once the loop condition has dequeued the only packet of session `s`. -/
def sampleDequeued (s : WorldSession) : UpdateState :=
  { WorldSession.Update.initial s with session := { s with _recvQueue := [] } }

/-- The sample session after a `CMSG_WHO` packet (`STATUS_LOGGEDIN`, throttled to one a
second) arrived from the socket in second 1000; no player is attached yet. -/
def sampleThrottledSession : WorldSession :=
  sampleArrivals (sampleSession .POLICY_KICK) 1000 [samplePacket 1 .CMSG_WHO]

/-- The sample session after a `CMSG_WHO` packet and then a `CMSG_NAME_QUERY` packet (both
`STATUS_LOGGEDIN`, the second not throttled) arrived from the socket in second 1000; no
player is attached yet. -/
def sampleStuckSession : WorldSession :=
  sampleArrivals (sampleSession .POLICY_KICK) 1000
    [samplePacket 1 .CMSG_WHO, samplePacket 2 .CMSG_NAME_QUERY]

/-- The sample session after a `CMSG_NAME_QUERY` packet (`STATUS_LOGGEDIN`) and then a
`CMSG_BUG` packet (`STATUS_NEVER`) arrived from the socket; no player is attached yet. -/
def sampleLeakSession : WorldSession :=
  sampleArrivals (sampleSession .POLICY_KICK) 1000
    [samplePacket 1 .CMSG_NAME_QUERY, samplePacket 2 .CMSG_BUG]

/-- The loop states in which only the unthrottled packet 2 is queued, the socket is open, no
player is attached and `firstDelayedPacket` still holds the address of packet 1. -/
def sampleStuck (st : UpdateState) : Prop :=
  st.session._recvQueue = [samplePacket 2 .CMSG_NAME_QUERY] ∧
  st.session.m_Socket = some ⟨false⟩ ∧
  st.session._player = none ∧
  st.session.m_playerRecentlyLogout = false ∧
  st.firstDelayedPacket = some 1

/-! ## `WorldSession::Update`: the rate-limited branches -/

/-- The session on which the `switch` of the loop body calls `AntiDOS.EvaluateOpcode` for a
packet with descriptor `opHandle`, and `none` when the branch taken does not call it. For
`STATUS_AUTHED` the session is the one after `m_playerRecentlyLogout = false` when the
opcode is `CMSG_CHAR_ENUM`. -/
def WorldSession.Update.consulted (E : Env) (s : WorldSession) (packet : WorldPacket)
    (opHandle : OpcodeHandler) : Option WorldSession :=
  match opHandle.Status with
  | .STATUS_LOGGEDIN =>
    match s._player with
    | none => none
    | some player => if player.inWorld then some s else none
  | .STATUS_LOGGEDIN_OR_RECENTLY_LOGGOUT =>
    if s._player.isNone && !s.m_playerRecentlyLogout && !s.m_playerLogout then none else some s
  | .STATUS_TRANSFER =>
    match s._player with
    | none => none
    | some player => if player.inWorld then none else some s
  | .STATUS_AUTHED =>
    if s.m_inQueue then none
    else
      some (if packet.opcode = E.code .CMSG_CHAR_ENUM then
        { s with m_playerRecentlyLogout := false } else s)
  | .STATUS_NEVER => none
  | .STATUS_UNHANDLED => none

/-- The state after `if (AntiDOS.EvaluateOpcode(*packet, currentTime)) { ... }` evaluated on
the session `s'`: the handler block when the call returns true, and otherwise the effects
`rejected` of the code that control reaches next (the `STATUS_NEVER` log line for
`STATUS_AUTHED`, nothing for the other statuses). -/
def WorldSession.Update.evaluated (E : Env) (clock : UpdateClock) (st : UpdateState)
    (s' : WorldSession) (packet : WorldPacket) (opHandle : OpcodeHandler)
    (rejected : List Event) : UpdateState :=
  if (DosProtection.EvaluateOpcode E s' packet clock.currentTime).1 then
    { st with
      session := (WorldSession.Update.invoke E
        (DosProtection.EvaluateOpcode E s' packet clock.currentTime).2.1 packet opHandle).1,
      trace := st.trace ++ (DosProtection.EvaluateOpcode E s' packet clock.currentTime).2.2 ++
        (WorldSession.Update.invoke E
          (DosProtection.EvaluateOpcode E s' packet clock.currentTime).2.1 packet opHandle).2 }
  else
    { st with
      session := (DosProtection.EvaluateOpcode E s' packet clock.currentTime).2.1,
      trace := st.trace ++ (DosProtection.EvaluateOpcode E s' packet clock.currentTime).2.2 ++
        rejected }

/-- The effects of the code reached when `EvaluateOpcode` returns false: `STATUS_AUTHED`
has no `break` there and falls into the log line of `case STATUS_NEVER`. -/
def WorldSession.Update.rejected (packet : WorldPacket) (opHandle : OpcodeHandler) : List Event :=
  if opHandle.Status = .STATUS_AUTHED then
    [Event.log .Error .OPCODES (.notAllowedOpcode packet.opcode)]
  else []

/-- The loop body for a packet whose descriptor `opHandle` has been looked up: the
`switch` and the end of the body. -/
def WorldSession.Update.bodyWith (E : Env) (clock : UpdateClock) (st : UpdateState)
    (packet : WorldPacket) (opHandle : OpcodeHandler) : UpdateState :=
  { WorldSession.Update.dispatch E clock st packet opHandle with
    trace := (WorldSession.Update.dispatch E clock st packet opHandle).trace ++
      WorldSession.Update.closing clock st.iter
        (WorldSession.Update.dispatch E clock st packet opHandle).deletePacket packet,
    iter := st.iter + 1 }

/-! ## `WorldSession::Update`: the whole call -/

/-- What the statements of `Update` outside the loop read and call that is not part of the
translation unit's own state: values of inline members declared in `WorldSession.h` and
calls into the warden, the query callbacks and the logout procedure. Each call is an
arbitrary step on the session with its effects. -/
structure UpdateCalls where
  /-- the value of `IsConnectionIdle()` after `UpdateTimeOutTime(diff)` -/
  idle : Bool
  /-- whether `_warden` is set -/
  hasWarden : Bool
  /-- the call `_warden->Update()` -/
  wardenUpdate : WorldSession → WorldSession × List Event
  /-- the call `ProcessQueryCallbacks()` -/
  ProcessQueryCallbacks : WorldSession → WorldSession × List Event
  /-- the value of `updater.ProcessLogout()` -/
  ProcessLogout : Bool
  /-- the value of `ShouldLogOut(currTime) && !m_playerLoading` -/
  logoutDue : Bool
  /-- the call `LogoutPlayer(true)` -/
  LogoutPlayer : WorldSession → WorldSession × List Event

/-- The top of `Update`: `UpdateTimeOutTime(diff); if (IsConnectionIdle())
m_Socket->CloseSocket();` and the initialisation of the locals. `none` is the call through a
null `m_Socket`. -/
def WorldSession.Update.start (X : UpdateCalls) (s : WorldSession) : Option UpdateState :=
  if X.idle then
    match s.m_Socket with
    | none => none
    | some sock =>
      some { session := { s with m_Socket := some { sock with closed := true } },
             trace := [Event.CloseSocket], deletePacket := true, firstDelayedPacket := none,
             iter := 0 }
  else some (WorldSession.Update.initial s)

/-- What `Update` returns: the "session still alive" value, with the session and the effects
at that point. -/
structure UpdateReturn where
  alive : Bool
  session : WorldSession
  trace : List Event

/-- The statements of `Update` between the loop and the `if (updater.ProcessLogout())`:
the warden update when the socket is set and open and a warden exists, then
`ProcessQueryCallbacks()`. -/
def WorldSession.Update.afterLoop (X : UpdateCalls) (s : WorldSession) :
    WorldSession × List Event :=
  let w1 : WorldSession × List Event :=
    match s.m_Socket with
    | some sock => if !sock.closed && X.hasWarden then X.wardenUpdate s else (s, [])
    | none => (s, [])
  let q := X.ProcessQueryCallbacks w1.1
  (q.1, w1.2 ++ q.2)

/-- The first statements inside `if (updater.ProcessLogout())`: the logout when it is due,
then a warden update when socket, player and warden are all set. -/
def WorldSession.Update.logoutPart (X : UpdateCalls) (s : WorldSession) :
    WorldSession × List Event :=
  let l : WorldSession × List Event := if X.logoutDue then X.LogoutPlayer s else (s, [])
  let w2 : WorldSession × List Event :=
    if l.1.m_Socket.isSome && l.1._player.isSome && X.hasWarden then X.wardenUpdate l.1
    else (l.1, [])
  (w2.1, l.2 ++ w2.2)

/-- The statement `if (m_Socket && m_Socket->IsClosed()) { m_Socket->RemoveReference();
m_Socket = NULL; }`. -/
def WorldSession.Update.cleanupSocket (s : WorldSession) : WorldSession :=
  match s.m_Socket with
  | some sock => if sock.closed then { s with m_Socket := none } else s
  | none => s

/-- The statements of `Update` after the loop. -/
def WorldSession.Update.finish (X : UpdateCalls) (st : UpdateState) : UpdateReturn :=
  let a := WorldSession.Update.afterLoop X st.session
  if X.ProcessLogout then
    let l := WorldSession.Update.logoutPart X a.1
    let s5 := WorldSession.Update.cleanupSocket l.1
    if s5.m_Socket.isNone then
      { alive := false, session := s5, trace := st.trace ++ a.2 ++ l.2 }
    else { alive := true, session := s5, trace := st.trace ++ a.2 ++ l.2 }
  else { alive := true, session := a.1, trace := st.trace ++ a.2 }

/-- How a call of `Update` ends. -/
inductive UpdateOutcome where
  | returned (r : UpdateReturn)
  | nullDeref
  | outOfFuel

/-- The part of `Update` after the loop, by the way the loop ended. -/
def WorldSession.Update.conclude (X : UpdateCalls) : LoopResult → UpdateOutcome
  | .finished st => .returned (WorldSession.Update.finish X st)
  | .nullDeref _ => .nullDeref
  | .outOfFuel _ => .outOfFuel

/-- `WorldSession::Update(diff, updater)`, its loop run for at most `fuel` iterations. -/
def WorldSession.Update (E : Env) (X : UpdateCalls) (clock : UpdateClock) (updater : PacketFilter)
    (fuel : Nat) (s : WorldSession) : UpdateOutcome :=
  match WorldSession.Update.start X s with
  | none => .nullDeref
  | some st0 =>
    WorldSession.Update.conclude X (WorldSession.Update.loop E clock updater fuel st0)

/-! ## More of the concrete environment -/

/-- A handler body that stops with `ByteBufferException` before reading anything. -/
def sampleThrowingHandler (s : WorldSession) (p : WorldPacket) : HandlerResult :=
  { session := s, rpos := p.rpos, threw := true }

/-- The sample table with three more registered opcodes: one with
`STATUS_LOGGEDIN_OR_RECENTLY_LOGGOUT`, one with `STATUS_TRANSFER` and one `STATUS_LOGGEDIN`
opcode whose handler throws. -/
def sampleTableMore (opcode : Nat) : Option OpcodeHandler :=
  if opcode = sampleCode .CMSG_REALM_SPLIT then
    some ⟨.STATUS_LOGGEDIN_OR_RECENTLY_LOGGOUT, .PROCESS_THREADUNSAFE, sampleHandler⟩
  else if opcode = sampleCode .CMSG_TIME_SYNC_RESP then
    some ⟨.STATUS_TRANSFER, .PROCESS_THREADUNSAFE, sampleHandler⟩
  else if opcode = sampleCode .CMSG_PET_RENAME then
    some ⟨.STATUS_LOGGEDIN, .PROCESS_THREADUNSAFE, sampleThrowingHandler⟩
  else sampleTable opcode

/-- The sample environment with the larger opcode table. -/
def sampleEnvMore : Env :=
  { sampleEnv with opcodeTable := sampleTableMore }

/-- A session in the middle of a logout (`m_playerLogout` set, player already detached,
`m_playerRecentlyLogout` not yet set) after a `STATUS_LOGGEDIN_OR_RECENTLY_LOGGOUT` packet
arrived from the socket. -/
def sampleLoggingOutSession : WorldSession :=
  sampleArrivals { sampleSession .POLICY_KICK with m_playerLogout := true } 1000
    [samplePacket 1 .CMSG_REALM_SPLIT]

/-- A session with no player, no logout in progress and no recent logout after a
`STATUS_LOGGEDIN_OR_RECENTLY_LOGGOUT` packet arrived from the socket. -/
def sampleFreshSession : WorldSession :=
  sampleArrivals (sampleSession .POLICY_KICK) 1000 [samplePacket 1 .CMSG_REALM_SPLIT]

/-- A session whose player is attached but not in world (in transfer) after a
`STATUS_TRANSFER` packet arrived from the socket. -/
def sampleTransferSession : WorldSession :=
  sampleArrivals { sampleSession .POLICY_KICK with _player := some ⟨false⟩ } 1000
    [samplePacket 1 .CMSG_TIME_SYNC_RESP]

/-- Whether an effect is a ban request. -/
def Event.isBan : Event → Bool
  | .BanAccount _ _ _ _ _ => true
  | _ => false

/-- Whether a run of the loop stopped at the dereference of a null table entry. -/
def LoopResult.faulted : LoopResult → Bool
  | .nullDeref _ => true
  | _ => false

/-- A session past the queue whose limiter has already counted three `CMSG_CHAR_ENUM`
packets (ceiling 3) in second 1000, after a fourth `CMSG_CHAR_ENUM` packet and then a
`CMSG_NAME_QUERY` packet arrived from the socket. -/
def sampleFloodSession (policy : Policy) : WorldSession :=
  sampleArrivals
    (DosProtection.EvaluateOpcodes sampleEnv (sampleSession policy)
      (List.replicate 3 (samplePacket 0 .CMSG_CHAR_ENUM, 1000))).2.1
    1000 [samplePacket 1 .CMSG_CHAR_ENUM, samplePacket 2 .CMSG_NAME_QUERY]

/-- The sample environment with the ban mode set to `BAN_CHARACTER`. -/
def sampleEnvBanCharacter : Env :=
  { sampleEnv with CONFIG_PACKET_SPOOF_BANMODE := .BAN_CHARACTER }

/-- The sample environment with the ban mode set to `BAN_IP`. -/
def sampleEnvBanIp : Env :=
  { sampleEnv with CONFIG_PACKET_SPOOF_BANMODE := .BAN_IP }

/-- The sample session after a packet arrived whose opcode has no entry in the sample
table. -/
def sampleUnknownSession : WorldSession :=
  sampleArrivals (sampleSession .POLICY_KICK) 1000 [samplePacket 1 .CMSG_QUERY_TIME]

/-- The loop state once the loop condition has dequeued the first packet of the flooding
sample session. -/
def sampleFloodDequeued (policy : Policy) : UpdateState :=
  { WorldSession.Update.initial (sampleFloodSession policy) with
    session := { sampleFloodSession policy with
      _recvQueue := [samplePacket 2 .CMSG_NAME_QUERY] } }

/-- What `Update` returned, when it returned. -/
def UpdateOutcome.result? : UpdateOutcome → Option UpdateReturn
  | .returned r => some r
  | _ => none

/-- Calls around the loop for a session that is not idle, has no warden, no completed query
and no logout due, updated from the world thread (`ProcessLogout()` is true). -/
def sampleCalls : UpdateCalls where
  idle := false
  hasWarden := false
  wardenUpdate := fun s => (s, [])
  ProcessQueryCallbacks := fun s => (s, [])
  ProcessLogout := true
  logoutDue := false
  LogoutPlayer := fun s => (s, [])

/-- The same calls for a session that is idle at the top of `Update`. -/
def sampleIdleCalls : UpdateCalls :=
  { sampleCalls with idle := true }

/-- A session whose client has disconnected (the socket is closed) while its player is
attached and in world; nothing is queued. -/
def sampleDisconnectedSession : WorldSession :=
  { sampleSession .POLICY_KICK with m_Socket := some ⟨true⟩, _player := some ⟨true⟩ }

/-! ## Helper definitions for statements about exceptions -/

/-- The handler `h` with every `ByteBufferException` replaced by a normal return that leaves
the same session and the same read position. -/
def OpcodeHandler.noThrow (h : OpcodeHandler) : OpcodeHandler :=
  { h with Handler := fun s p => { h.Handler s p with threw := false } }

/-- The state `st` with the effects `t` recorded before its own. -/
def UpdateState.prepend (t : List Event) (st : UpdateState) : UpdateState :=
  { st with trace := t ++ st.trace }

/-- The state `st` with no effect recorded. -/
def UpdateState.core (st : UpdateState) : UpdateState :=
  { st with trace := [] }

/-- The end of a run with the effects `t` recorded before its own. -/
def LoopResult.prepend (t : List Event) : LoopResult → LoopResult
  | .finished st => .finished (st.prepend t)
  | .nullDeref st => .nullDeref (st.prepend t)
  | .outOfFuel st => .outOfFuel (st.prepend t)

/-- The alive signal `Update` returned, when it returned. -/
def UpdateOutcome.alive? (o : UpdateOutcome) : Option Bool :=
  o.result?.map UpdateReturn.alive

/-- The sample session with a player in world and two packets queued: one whose handler
throws `ByteBufferException`, then one whose handler returns. -/
def sampleExceptionSession : WorldSession :=
  { samplePlayerSession true with
    _recvQueue := [samplePacket 1 .CMSG_PET_RENAME, samplePacket 2 .CMSG_LOGOUT_REQUEST] }

/-! ## The addon manifest: `ReadAddonsInfo` -/

/-- Modelled from the spec: `ByteBuffer` (its header is not in src/), the bytes of a packet
body with a read position. A read of `n` bytes throws `ByteBufferException` when fewer than
`n` bytes are left; integers are stored low byte first. -/
structure ByteBuffer where
  storage : List Nat
  rpos : Nat
  deriving DecidableEq, Repr

/-- Modelled from the spec: `ByteBuffer::size()`. -/
def ByteBuffer.size (b : ByteBuffer) : Nat :=
  b.storage.length

/-- The byte at position `i`. -/
def ByteBuffer.byte (b : ByteBuffer) (i : Nat) : Nat :=
  b.storage.getD i 0 % 256

/-- Modelled from the spec: `operator>>(uint8 &)`; `none` is `ByteBufferException`. -/
def ByteBuffer.readUInt8 (b : ByteBuffer) : Option (Nat × ByteBuffer) :=
  if b.rpos + 1 > b.size then none
  else some (b.byte b.rpos, { b with rpos := b.rpos + 1 })

/-- Modelled from the spec: `operator>>(uint32 &)`; `none` is `ByteBufferException`. -/
def ByteBuffer.readUInt32 (b : ByteBuffer) : Option (Nat × ByteBuffer) :=
  if b.rpos + 4 > b.size then none
  else
    some (b.byte b.rpos + 256 * b.byte (b.rpos + 1) + 65536 * b.byte (b.rpos + 2) +
        16777216 * b.byte (b.rpos + 3),
      { b with rpos := b.rpos + 4 })

/-- Modelled from the spec: `operator>>(std::string &)`: the bytes up to a zero byte, which
is consumed, or up to the end of the buffer. -/
def ByteBuffer.readString (b : ByteBuffer) : List Nat × ByteBuffer :=
  let rest := b.storage.drop b.rpos
  let name := rest.takeWhile (fun c => c % 256 != 0)
  (name, { b with rpos := b.rpos + name.length + (if name.length < rest.length then 1 else 0) })

/-- `AddonInfo`, built in `ReadAddonsInfo` as `AddonInfo(addonName, enabled, crc, 2, true)`. -/
structure AddonInfo where
  Name : List Nat
  Enabled : Nat
  CRC : Nat
  State : Nat
  UsePublicKeyOrCRC : Bool
  deriving DecidableEq, Repr

/-- `SavedAddon`: an entry of the side table of learned addons. -/
structure SavedAddon where
  Name : List Nat
  CRC : Nat
  deriving DecidableEq, Repr

/-- Modelled from the spec: `AddonMgr::GetAddonInfo` (`AddonMgr` is not in src/): the
learned entry for a name, if there is one. -/
def AddonMgr.GetAddonInfo (known : List SavedAddon) (name : List Nat) : Option SavedAddon :=
  known.find? (fun a => a.Name == name)

/-- Modelled from the spec: `AddonMgr::SaveAddon`: record the name and checksum of an addon
for future checks. -/
def AddonMgr.SaveAddon (known : List SavedAddon) (addon : AddonInfo) : List SavedAddon :=
  known ++ [⟨addon.Name, addon.CRC⟩]

/-- What the addon functions read and write: the session's `m_addonsList` and the side table
of learned addons kept by `AddonMgr`. -/
structure AddonState where
  m_addonsList : List AddonInfo
  knownAddons : List SavedAddon
  deriving DecidableEq, Repr

/-- The log lines of `ReadAddonsInfo`. -/
inductive AddonLog where
  | tooBig (size : Nat)
  | addonLine (name : List Nat) (enabled crc unk1 : Nat)
  | knownMismatch (name : List Nat) (savedCRC : Nat)
  | knownCorrect (name : List Nat) (savedCRC : Nat)
  | notKnown (name : List Nat) (crc : Nat)
  | currentTime (t : Nat)
  | underRead
  | uncompressError
  deriving DecidableEq, Repr

/-- The effects of `ReadAddonsInfo`: log lines, the allocation `addonInfo.resize(size)`, the
call of zlib `uncompress` with the capacity of the destination and the length of the source,
and `AddonMgr::SaveAddon`. -/
inductive AddonEvent where
  | log (level : LogLevel) (filter : LogFilter) (msg : AddonLog)
  | resize (size : Nat)
  | uncompress (destLen sourceLen : Nat)
  | SaveAddon (addon : AddonInfo)
  deriving DecidableEq, Repr

/-- The library call of `ReadAddonsInfo`: zlib `uncompress(dest, &destLen, source,
sourceLen)`, given the capacity of the destination and the source bytes; `some out` is
`Z_OK` with the bytes written, `none` any other return value. -/
structure AddonEnv where
  uncompress : Nat → List Nat → Option (List Nat)

/-- How a call of `ReadAddonsInfo` ends: the addon state, the packet with its read position,
the effects, and whether a `ByteBufferException` left the function. -/
structure AddonResult where
  state : AddonState
  data : ByteBuffer
  events : List AddonEvent
  threw : Bool
  deriving DecidableEq, Repr

/-- How the `for` loop over the entries ends: `completed` when all entries were read, with
the buffer after them; `left` when the function was left from inside the loop, by the
`return` of the format check or by a `ByteBufferException`. -/
inductive AddonLoop where
  | completed (addonInfo : ByteBuffer) (state : AddonState) (events : List AddonEvent)
  | left (state : AddonState) (events : List AddonEvent) (threw : Bool)

/-- The `for (uint32 i = 0; i < addonsCount; ++i)` loop of `ReadAddonsInfo`, by the number
of entries still to read. -/
def WorldSession.ReadAddonsInfo.entries :
    Nat → ByteBuffer → AddonState → List AddonEvent → AddonLoop
  | 0, addonInfo, st, evs => .completed addonInfo st evs
  | n + 1, addonInfo, st, evs =>
    -- check next addon data format correctness
    if addonInfo.rpos + 1 > addonInfo.size then .left st evs false
    else
      let r0 := addonInfo.readString
      match r0.2.readUInt8 with
      | none => .left st evs true
      | some r1 =>
        match r1.2.readUInt32 with
        | none => .left st evs true
        | some r2 =>
          match r2.2.readUInt32 with
          | none => .left st evs true
          | some r3 =>
            let addon : AddonInfo := ⟨r0.1, r1.1, r2.1, 2, true⟩
            let evs1 := evs ++ [AddonEvent.log .Info .GENERAL (.addonLine r0.1 r1.1 r2.1 r3.1)]
            match AddonMgr.GetAddonInfo st.knownAddons r0.1 with
            | some savedAddon =>
              WorldSession.ReadAddonsInfo.entries n r3.2
                { st with m_addonsList := st.m_addonsList ++ [addon] }
                (evs1 ++
                  [if addon.CRC ≠ savedAddon.CRC then
                      AddonEvent.log .Info .GENERAL (.knownMismatch addon.Name savedAddon.CRC)
                    else AddonEvent.log .Info .GENERAL (.knownCorrect addon.Name savedAddon.CRC)])
            | none =>
              WorldSession.ReadAddonsInfo.entries n r3.2
                { m_addonsList := st.m_addonsList ++ [addon],
                  knownAddons := AddonMgr.SaveAddon st.knownAddons addon }
                (evs1 ++ [AddonEvent.SaveAddon addon,
                  AddonEvent.log .Info .GENERAL (.notKnown addon.Name addon.CRC)])

/-- The branch of `ReadAddonsInfo` after `uncompress` returned `Z_OK` with the bytes `out`:
`addonInfo` holds `size` bytes, those written by `uncompress` and zeros after them. -/
def WorldSession.ReadAddonsInfo.parse (st : AddonState) (data : ByteBuffer) (size : Nat)
    (out : List Nat) (evs : List AddonEvent) : AddonResult :=
  let addonInfo : ByteBuffer := ⟨out.take size ++ List.replicate (size - out.length) 0, 0⟩
  match addonInfo.readUInt32 with
  | none => ⟨st, data, evs, true⟩
  | some r =>
    match WorldSession.ReadAddonsInfo.entries r.1 r.2 st evs with
    | .left st1 evs1 threw => ⟨st1, data, evs1, threw⟩
    | .completed addonInfo1 st1 evs1 =>
      match addonInfo1.readUInt32 with
      | none => ⟨st1, data, evs1, true⟩
      | some t =>
        ⟨st1, data,
          evs1 ++ [AddonEvent.log .Debug .NETWORK (.currentTime t.1)] ++
            (if t.2.rpos ≠ t.2.size then [AddonEvent.log .Debug .NETWORK .underRead] else []),
          false⟩

/-- `WorldSession::ReadAddonsInfo(data)`. -/
def WorldSession.ReadAddonsInfo (A : AddonEnv) (st : AddonState) (data : ByteBuffer) :
    AddonResult :=
  if data.rpos + 4 > data.size then ⟨st, data, [], false⟩
  else
    match data.readUInt32 with
    | none => ⟨st, data, [], true⟩
    | some r =>
      let size := r.1
      let data1 := r.2
      if size = 0 then ⟨st, data1, [], false⟩
      else if size > 0xFFFFF then
        ⟨st, data1, [AddonEvent.log .Error .GENERAL (.tooBig size)], false⟩
      else
        let pos := data1.rpos % 2 ^ 32
        let evs := [AddonEvent.resize size, AddonEvent.uncompress size (data1.size - pos)]
        match A.uncompress size (data1.storage.drop pos) with
        | some out => WorldSession.ReadAddonsInfo.parse st data1 size out evs
        | none =>
          ⟨st, data1, evs ++ [AddonEvent.log .Error .GENERAL .uncompressError], false⟩

/-- The effects recorded when the loop over the entries ends. -/
def AddonLoop.events : AddonLoop → List AddonEvent
  | .completed _ _ events => events
  | .left _ events _ => events

/-- A stand-in for zlib in the concrete examples: an empty source or one longer than the
destination is an error, any other source is copied. -/
def sampleAddonEnv : AddonEnv where
  uncompress := fun destLen source =>
    if source.isEmpty || decide (destLen < source.length) then none else some source

/-- An addon state with an entry in the list and a learned addon. -/
def sampleAddonState : AddonState where
  m_addonsList := [⟨[65], 1, 7, 2, true⟩]
  knownAddons := [⟨[65], 7⟩]

/-- A packet body that holds the declared length `size` and then the bytes `body`. -/
def sampleAddonData (size : Nat) (body : List Nat) : ByteBuffer where
  storage := [size % 256, size / 256 % 256, size / 65536 % 256, size / 16777216 % 256] ++ body
  rpos := 0

/-! ## More samples for the `STATUS_AUTHED` branch -/

/-- The flooding sample session under `POLICY_KICK` with the flag `m_playerRecentlyLogout`
set: the player has just logged out. -/
def sampleFloodRecentSession : WorldSession :=
  { sampleFloodSession .POLICY_KICK with m_playerRecentlyLogout := true }

/-- The sample session past the queue, with the flag `m_playerRecentlyLogout` set, after one
`CMSG_CHAR_ENUM` packet arrived from the socket. -/
def sampleCharEnumSession : WorldSession :=
  sampleArrivals { sampleSession .POLICY_KICK with m_playerRecentlyLogout := true } 1000
    [samplePacket 1 .CMSG_CHAR_ENUM]

/-- The loop state once the loop condition has dequeued the first packet of
`sampleFloodRecentSession`. -/
def sampleFloodRecentDequeued : UpdateState :=
  { WorldSession.Update.initial sampleFloodRecentSession with
    session := { sampleFloodRecentSession with
      _recvQueue := [samplePacket 2 .CMSG_NAME_QUERY] } }

/-! ## Helper definitions for statements about runs of calls -/

/-- The number of calls at the end of the sequence `times` of time values, the last one
included, that were made with the time value `t`. -/
def runLength (times : List Int) (t : Int) : Nat :=
  (times.reverse.takeWhile (fun x => decide (x = t))).length

/-! ## Asynchronous query callbacks: `ProcessQueryCallbacks` -/

/-- Modelled from the spec: a completion slot (`QueryResultFuture`, `QueryCallback`; their
headers are not in src/): the result once the query has completed, and the parameter
stored with the query. -/
structure QuerySlot where
  result : Option Nat
  param : Nat
  deriving DecidableEq, Repr

/-- Modelled from the spec: `ready()` / `IsReady()`: the slot holds a completed result. -/
def QuerySlot.ready (q : QuerySlot) : Bool :=
  q.result.isSome

/-- Modelled from the spec: `get(result)` / `GetResult(result)`. -/
def QuerySlot.get (q : QuerySlot) : Nat :=
  q.result.getD 0

/-- Modelled from the spec: `cancel()` / `FreeResult()`: the slot is reset to empty. -/
def QuerySlot.cancel (q : QuerySlot) : QuerySlot :=
  { q with result := none }

/-- The seven completion slots of a session. -/
structure QueryCallbacks where
  _charEnumCallback : QuerySlot
  _charCreateCallback : QuerySlot
  _charLoginCallback : QuerySlot
  _addFriendCallback : QuerySlot
  _charRenameCallback : QuerySlot
  _addIgnoreCallback : QuerySlot
  _guildRenameCallback : QuerySlot
  deriving DecidableEq, Repr

/-- The invocations of the continuations, each with the arguments it is given. -/
inductive QueryEvent where
  | HandleCharEnum (result : Nat)
  | HandleCharCreateCallback (result param : Nat)
  | HandlePlayerLogin (holder : Nat)
  | HandleAddFriendOpcodeCallBack (result param : Nat)
  | HandleChangePlayerNameOpcodeCallBack (result param : Nat)
  | HandleAddIgnoreOpcodeCallBack (result : Nat)
  | HandleGuildRenameCallback (param : Nat)
  deriving DecidableEq, Repr

/-- The continuations, which are defined in other files: what each does to the slots of the
session when it is invoked with the given arguments. -/
structure QueryHandlers where
  HandleCharEnum : Nat → QueryCallbacks → QueryCallbacks
  HandleCharCreateCallback : Nat → Nat → QueryCallbacks → QueryCallbacks
  HandlePlayerLogin : Nat → QueryCallbacks → QueryCallbacks
  HandleAddFriendOpcodeCallBack : Nat → Nat → QueryCallbacks → QueryCallbacks
  HandleChangePlayerNameOpcodeCallBack : Nat → Nat → QueryCallbacks → QueryCallbacks
  HandleAddIgnoreOpcodeCallBack : Nat → QueryCallbacks → QueryCallbacks
  HandleGuildRenameCallback : Nat → QueryCallbacks → QueryCallbacks

/-- The block `if (_charEnumCallback.ready()) { get; HandleCharEnum; cancel }`. -/
def WorldSession.ProcessQueryCallbacks.charEnum (H : QueryHandlers) (q : QueryCallbacks) :
    QueryCallbacks × List QueryEvent :=
  if q._charEnumCallback.ready then
    let q1 := H.HandleCharEnum q._charEnumCallback.get q
    ({ q1 with _charEnumCallback := q1._charEnumCallback.cancel },
      [QueryEvent.HandleCharEnum q._charEnumCallback.get])
  else (q, [])

/-- The block `if (_charCreateCallback.IsReady()) { GetResult; HandleCharCreateCallback }`,
which does not call `FreeResult()`. -/
def WorldSession.ProcessQueryCallbacks.charCreate (H : QueryHandlers) (q : QueryCallbacks) :
    QueryCallbacks × List QueryEvent :=
  if q._charCreateCallback.ready then
    (H.HandleCharCreateCallback q._charCreateCallback.get q._charCreateCallback.param q,
      [QueryEvent.HandleCharCreateCallback q._charCreateCallback.get
        q._charCreateCallback.param])
  else (q, [])

/-- The block `if (_charLoginCallback.ready()) { get; HandlePlayerLogin; cancel }`. -/
def WorldSession.ProcessQueryCallbacks.charLogin (H : QueryHandlers) (q : QueryCallbacks) :
    QueryCallbacks × List QueryEvent :=
  if q._charLoginCallback.ready then
    let q1 := H.HandlePlayerLogin q._charLoginCallback.get q
    ({ q1 with _charLoginCallback := q1._charLoginCallback.cancel },
      [QueryEvent.HandlePlayerLogin q._charLoginCallback.get])
  else (q, [])

/-- The block `if (_addFriendCallback.IsReady()) { GetParam; GetResult;
HandleAddFriendOpcodeCallBack; FreeResult }`. -/
def WorldSession.ProcessQueryCallbacks.addFriend (H : QueryHandlers) (q : QueryCallbacks) :
    QueryCallbacks × List QueryEvent :=
  if q._addFriendCallback.ready then
    let q1 := H.HandleAddFriendOpcodeCallBack q._addFriendCallback.get
      q._addFriendCallback.param q
    ({ q1 with _addFriendCallback := q1._addFriendCallback.cancel },
      [QueryEvent.HandleAddFriendOpcodeCallBack q._addFriendCallback.get
        q._addFriendCallback.param])
  else (q, [])

/-- The block `if (_charRenameCallback.IsReady()) { GetParam; GetResult;
HandleChangePlayerNameOpcodeCallBack; FreeResult }`. -/
def WorldSession.ProcessQueryCallbacks.charRename (H : QueryHandlers) (q : QueryCallbacks) :
    QueryCallbacks × List QueryEvent :=
  if q._charRenameCallback.ready then
    let q1 := H.HandleChangePlayerNameOpcodeCallBack q._charRenameCallback.get
      q._charRenameCallback.param q
    ({ q1 with _charRenameCallback := q1._charRenameCallback.cancel },
      [QueryEvent.HandleChangePlayerNameOpcodeCallBack q._charRenameCallback.get
        q._charRenameCallback.param])
  else (q, [])

/-- The block `if (_addIgnoreCallback.ready()) { get; HandleAddIgnoreOpcodeCallBack;
cancel }`. -/
def WorldSession.ProcessQueryCallbacks.addIgnore (H : QueryHandlers) (q : QueryCallbacks) :
    QueryCallbacks × List QueryEvent :=
  if q._addIgnoreCallback.ready then
    let q1 := H.HandleAddIgnoreOpcodeCallBack q._addIgnoreCallback.get q
    ({ q1 with _addIgnoreCallback := q1._addIgnoreCallback.cancel },
      [QueryEvent.HandleAddIgnoreOpcodeCallBack q._addIgnoreCallback.get])
  else (q, [])

/-- The block `if (_guildRenameCallback.IsReady()) { GetParam; GetResult;
HandleGuildRenameCallback(param); FreeResult }`. -/
def WorldSession.ProcessQueryCallbacks.guildRename (H : QueryHandlers) (q : QueryCallbacks) :
    QueryCallbacks × List QueryEvent :=
  if q._guildRenameCallback.ready then
    let q1 := H.HandleGuildRenameCallback q._guildRenameCallback.param q
    ({ q1 with _guildRenameCallback := q1._guildRenameCallback.cancel },
      [QueryEvent.HandleGuildRenameCallback q._guildRenameCallback.param])
  else (q, [])

/-- `WorldSession::ProcessQueryCallbacks()`: the seven blocks in source order. Returns the
slots afterwards and the invocations made. -/
def WorldSession.ProcessQueryCallbacks (H : QueryHandlers) (q : QueryCallbacks) :
    QueryCallbacks × List QueryEvent :=
  let a1 := WorldSession.ProcessQueryCallbacks.charEnum H q
  let a2 := WorldSession.ProcessQueryCallbacks.charCreate H a1.1
  let a3 := WorldSession.ProcessQueryCallbacks.charLogin H a2.1
  let a4 := WorldSession.ProcessQueryCallbacks.addFriend H a3.1
  let a5 := WorldSession.ProcessQueryCallbacks.charRename H a4.1
  let a6 := WorldSession.ProcessQueryCallbacks.addIgnore H a5.1
  let a7 := WorldSession.ProcessQueryCallbacks.guildRename H a6.1
  (a7.1, a1.2 ++ a2.2 ++ a3.2 ++ a4.2 ++ a5.2 ++ a6.2 ++ a7.2)

/-- Each continuation changes no slot but its own. -/
def QueryHandlers.ownSlotOnly (H : QueryHandlers) : Prop :=
  (∀ r q, H.HandleCharEnum r q =
    { q with _charEnumCallback := (H.HandleCharEnum r q)._charEnumCallback }) ∧
  (∀ r p q, H.HandleCharCreateCallback r p q =
    { q with _charCreateCallback := (H.HandleCharCreateCallback r p q)._charCreateCallback }) ∧
  (∀ r q, H.HandlePlayerLogin r q =
    { q with _charLoginCallback := (H.HandlePlayerLogin r q)._charLoginCallback }) ∧
  (∀ r p q, H.HandleAddFriendOpcodeCallBack r p q =
    { q with _addFriendCallback := (H.HandleAddFriendOpcodeCallBack r p q)._addFriendCallback })
  ∧
  (∀ r p q, H.HandleChangePlayerNameOpcodeCallBack r p q =
    { q with _charRenameCallback :=
      (H.HandleChangePlayerNameOpcodeCallBack r p q)._charRenameCallback }) ∧
  (∀ r q, H.HandleAddIgnoreOpcodeCallBack r q =
    { q with _addIgnoreCallback := (H.HandleAddIgnoreOpcodeCallBack r q)._addIgnoreCallback }) ∧
  (∀ p q, H.HandleGuildRenameCallback p q =
    { q with _guildRenameCallback := (H.HandleGuildRenameCallback p q)._guildRenameCallback })

/-- Continuations that leave every slot as it is. -/
def sampleQueryHandlers : QueryHandlers where
  HandleCharEnum := fun _ q => q
  HandleCharCreateCallback := fun _ _ q => q
  HandlePlayerLogin := fun _ q => q
  HandleAddFriendOpcodeCallBack := fun _ _ q => q
  HandleChangePlayerNameOpcodeCallBack := fun _ _ q => q
  HandleAddIgnoreOpcodeCallBack := fun _ q => q
  HandleGuildRenameCallback := fun _ q => q

/-- Continuations as `sampleQueryHandlers`, but `HandleCharCreateCallback` frees the result
of its own slot. -/
def sampleFreeingHandlers : QueryHandlers :=
  { sampleQueryHandlers with
    HandleCharCreateCallback := fun _ _ q =>
      { q with _charCreateCallback := q._charCreateCallback.cancel } }

/-- Slots of which the char-enum query (result 4) and the char-create query (result 5,
parameter 9) have completed. -/
def sampleQueryCallbacks : QueryCallbacks where
  _charEnumCallback := ⟨some 4, 0⟩
  _charCreateCallback := ⟨some 5, 9⟩
  _charLoginCallback := ⟨none, 0⟩
  _addFriendCallback := ⟨none, 0⟩
  _charRenameCallback := ⟨none, 0⟩
  _addIgnoreCallback := ⟨none, 0⟩
  _guildRenameCallback := ⟨none, 0⟩

/-! ## The addon reply: `SendPacket` and `SendAddonsInfo` -/

/-- A packet to send: its opcode and the bytes written into it. -/
structure OutPacket where
  opcode : Nat
  contents : List Nat
  deriving DecidableEq, Repr

/-- The log lines of `SendPacket` and `SendAddonsInfo`. -/
inductive ReplyLog where
  | preventedNull
  | preventedUnknown
  | statusUnhandled (opcode size : Nat)
  | preventedDisabled (opcode : Nat)
  | crcWrong (crc : Nat) (name : List Nat) (expected : Nat)
  deriving DecidableEq, Repr

/-- The effects of `SendPacket` and `SendAddonsInfo`: log lines, the hand-over of a packet to
the socket (`m_Socket->SendPacket(*packet)`) and the closing of the socket. -/
inductive ReplyEvent where
  | log (level : LogLevel) (filter : LogFilter) (msg : ReplyLog)
  | socketSend (packet : OutPacket)
  | CloseSocket
  deriving DecidableEq, Repr

/-- What the reply functions take from outside src/: the constant `STANDARD_ADDON_CRC` and
the opcode number of `SMSG_ADDON_INFO` from other headers, and whether the socket's
`SendPacket` returns -1 for a packet. -/
structure ReplyEnv where
  STANDARD_ADDON_CRC : Nat
  SMSG_ADDON_INFO : Nat
  socketSendFails : OutPacket → Bool

/-- `WorldSession::SendPacket(packet, forced)`, without the statistics block that is
compiled under `TRINITY_DEBUG` only. -/
def WorldSession.SendPacket (E : Env) (R : ReplyEnv) (s : WorldSession) (packet : OutPacket)
    (forced : Bool) : WorldSession × List ReplyEvent :=
  match s.m_Socket with
  | none => (s, [])
  | some sock =>
    if packet.opcode = E.code .NULL_OPCODE then
      (s, [ReplyEvent.log .Error .OPCODES .preventedNull])
    else if packet.opcode = E.code .UNKNOWN_OPCODE then
      (s, [ReplyEvent.log .Error .OPCODES .preventedUnknown])
    else if !forced &&
        (match E.opcodeTable packet.opcode with
          | none => true
          | some handler => decide (handler.Status = .STATUS_UNHANDLED)) then
      (s, [ReplyEvent.log .Info .BAD_OPCODE_HANDLER
            (.statusUnhandled packet.opcode (packet.contents.length % 2 ^ 32)),
           ReplyEvent.log .Error .OPCODES (.preventedDisabled packet.opcode)])
    else if R.socketSendFails packet then
      ({ s with m_Socket := some { sock with closed := true } },
        [ReplyEvent.socketSend packet, ReplyEvent.CloseSocket])
    else (s, [ReplyEvent.socketSend packet])

/-- One write into a packet: `data << uint8(v)`, `data << uint32(v)` or
`data.append(bytes, n)`. -/
inductive Write where
  | uint8 (v : Nat)
  | uint32 (v : Nat)
  | append (bytes : List Nat)
  deriving DecidableEq, Repr

/-- Modelled from the spec: the bytes a write puts at the end of a `ByteBuffer` (its header
is not in src/): integers low byte first. -/
def Write.bytes : Write → List Nat
  | .uint8 v => [v % 256]
  | .uint32 v => [v % 256, v / 256 % 256, v / 65536 % 256, v / 16777216 % 256]
  | .append bs => bs

/-- The bytes of a sequence of writes. -/
def Write.payload (ws : List Write) : List Nat :=
  (ws.map Write.bytes).flatten

/-- The array `addonPublicKey` of `SendAddonsInfo`. -/
def addonPublicKey : List Nat :=
  [0xC3, 0x5B, 0x50, 0x84, 0xB9, 0x3E, 0x32, 0x42, 0x8C, 0xD0, 0xC7, 0x48, 0xFA, 0x0E, 0x5D, 0x54,
   0x5A, 0xA3, 0x0E, 0x14, 0xBA, 0x9E, 0x0D, 0xB9, 0x5D, 0x8B, 0xEE, 0xB6, 0x84, 0x93, 0x45, 0x75,
   0xFF, 0x31, 0xFE, 0x2F, 0x64, 0x3F, 0x3D, 0x6D, 0x07, 0xD9, 0x44, 0x9B, 0x40, 0x85, 0x59, 0x34,
   0x4E, 0x10, 0xE1, 0xE7, 0x43, 0x69, 0xEF, 0x7C, 0x16, 0xFC, 0xB4, 0xED, 0x1B, 0x95, 0x28, 0xA8,
   0x23, 0x76, 0x51, 0x31, 0x57, 0x30, 0x2B, 0x79, 0x08, 0x50, 0x10, 0x1C, 0x4A, 0x1A, 0x2C, 0xC8,
   0x8B, 0x8F, 0x05, 0x2D, 0x22, 0x3D, 0xDB, 0x5A, 0x24, 0x7A, 0x0F, 0x13, 0x50, 0x37, 0x8F, 0x5A,
   0xCC, 0x9E, 0x04, 0x44, 0x0E, 0x87, 0x01, 0xD4, 0xA3, 0x15, 0x94, 0x16, 0x34, 0xC6, 0xC2, 0xC3,
   0xFB, 0x49, 0xFE, 0xE1, 0xF9, 0xDA, 0x8C, 0x50, 0x3C, 0xBE, 0x2C, 0xBB, 0x57, 0xED, 0x46, 0xB9,
   0xAD, 0x8B, 0xC6, 0xDF, 0x0E, 0xD6, 0x0F, 0xBE, 0x80, 0xB3, 0x8B, 0x1E, 0x77, 0xCF, 0xAD, 0x22,
   0xCF, 0xB7, 0x4B, 0xCF, 0xFB, 0xF0, 0x6B, 0x11, 0x45, 0x2D, 0x7A, 0x81, 0x18, 0xF2, 0x92, 0x7E,
   0x98, 0x56, 0x5D, 0x5E, 0x69, 0x72, 0x0A, 0x0D, 0x03, 0x0A, 0x85, 0xA2, 0x85, 0x9C, 0xCB, 0xFB,
   0x56, 0x6E, 0x8F, 0x44, 0xBB, 0x8F, 0x02, 0x22, 0x68, 0x63, 0x97, 0xBC, 0x85, 0xBA, 0xA8, 0xF7,
   0xB5, 0x40, 0x68, 0x3C, 0x77, 0x86, 0x6F, 0x4B, 0xD7, 0x88, 0xCA, 0x8A, 0xD7, 0xCE, 0x36, 0xF0,
   0x45, 0x6E, 0xD5, 0x64, 0x79, 0x0F, 0x17, 0xFC, 0x64, 0xDD, 0x10, 0x6F, 0xF3, 0xF5, 0xE0, 0xA6,
   0xC3, 0xFB, 0x1B, 0x8C, 0x29, 0xEF, 0x8E, 0xE5, 0x34, 0xCB, 0xD1, 0x2A, 0xCE, 0x79, 0xC3, 0x9A,
   0x0D, 0x36, 0xEA, 0x01, 0xE0, 0xAA, 0x91, 0x20, 0x54, 0xF0, 0x72, 0xD8, 0x1E, 0xC7, 0x89, 0xD2]

/-- The body of the `for` loop of `SendAddonsInfo` for one entry: the writes and the log
line. -/
def WorldSession.SendAddonsInfo.entry (R : ReplyEnv) (a : AddonInfo) :
    List Write × List ReplyEvent :=
  let crcpub := a.UsePublicKeyOrCRC
  let mid : List Write × List ReplyEvent :=
    if crcpub then
      if a.CRC ≠ R.STANDARD_ADDON_CRC then
        ([Write.uint8 1, Write.append addonPublicKey, Write.uint32 0],
          [ReplyEvent.log .Info .GENERAL (.crcWrong a.CRC a.Name R.STANDARD_ADDON_CRC)])
      else ([Write.uint8 0, Write.uint32 0], [])
    else ([], [])
  -- `uint8 unk3 = 0; data << uint8(unk3);`
  ([Write.uint8 a.State, Write.uint8 (if crcpub then 1 else 0)] ++ mid.1 ++ [Write.uint8 0],
    mid.2)

/-- How a call of `SendAddonsInfo` ends: the addon state, the session, the writes into the
packet `data` and the effects. -/
structure ReplyResult where
  state : AddonState
  session : WorldSession
  writes : List Write
  events : List ReplyEvent

/-- `WorldSession::SendAddonsInfo()`. -/
def WorldSession.SendAddonsInfo (E : Env) (R : ReplyEnv) (st : AddonState) (s : WorldSession) :
    ReplyResult :=
  let entries := st.m_addonsList.map (WorldSession.SendAddonsInfo.entry R)
  let writes := (entries.map Prod.fst).flatten ++ [Write.uint32 0]
  let sent := s.SendPacket E R ⟨R.SMSG_ADDON_INFO, Write.payload writes⟩ false
  { state := { st with m_addonsList := [] },
    session := sent.1,
    writes := writes,
    events := (entries.map Prod.snd).flatten ++ sent.2 }

/-- The addon state when the loop over the entries ends. -/
def AddonLoop.state : AddonLoop → AddonState
  | .completed _ state _ => state
  | .left state _ _ => state

/-- Sample constants for the reply: the standard checksum is 9, `SMSG_ADDON_INFO` has the
number 600, and the socket takes every packet. -/
def sampleReplyEnv : ReplyEnv where
  STANDARD_ADDON_CRC := 9
  SMSG_ADDON_INFO := 600
  socketSendFails := fun _ => false

/-- The sample environment with a table entry for the opcode 600. -/
def sampleEnvReply : Env :=
  { sampleEnv with
    opcodeTable := fun k =>
      if k = 600 then some ⟨.STATUS_NEVER, .PROCESS_INPLACE, sampleHandler⟩
      else sampleEnv.opcodeTable k }

/-- An addon state with no entry in the list and one learned addon. -/
def sampleEmptyAddonState : AddonState where
  m_addonsList := []
  knownAddons := [⟨[65], 7⟩]

/-- A request whose manifest holds two entries, named `B` (checksum 9) and `A`
(checksum 8), and the client time 5. -/
def sampleManifestData : ByteBuffer :=
  sampleAddonData 30
    [2, 0, 0, 0, 66, 0, 1, 9, 0, 0, 0, 0, 0, 0, 0, 65, 0, 1, 8, 0, 0, 0, 0, 0, 0, 0, 5, 0, 0, 0]

/-- The bytes of one entry record of the reply, field by field: the state, the flag
`UsePublicKeyOrCRC`, then, only when that flag is set, the mismatch flag, the key when the
checksum mismatches and a 32-bit zero, and last a zero byte. -/
def AddonReply.record (R : ReplyEnv) (a : AddonInfo) : List Nat :=
  [a.State % 256, if a.UsePublicKeyOrCRC then 1 else 0] ++
    (if a.UsePublicKeyOrCRC then
      [if a.CRC ≠ R.STANDARD_ADDON_CRC then 1 else 0] ++
        (if a.CRC ≠ R.STANDARD_ADDON_CRC then addonPublicKey else []) ++ [0, 0, 0, 0]
     else []) ++
    [0]

/-! ## The wire format of the addon manifest -/

/-- A 32-bit integer on the wire, low byte first. -/
def le32 (v : Nat) : List Nat :=
  [v % 256, v / 256 % 256, v / 65536 % 256, v / 16777216 % 256]

/-- An entry of the manifest as the client sends it: name, enabled flag, checksum and the
reserved field. -/
structure ManifestEntry where
  name : List Nat
  enabled : Nat
  checksum : Nat
  reserved : Nat
  deriving DecidableEq, Repr

/-- The fields of an entry fit their wire types: the name is made of non-zero bytes, the flag
is a byte, the checksum and the reserved field are 32-bit values. -/
def ManifestEntry.wellFormed (e : ManifestEntry) : Prop :=
  (∀ c ∈ e.name, 0 < c ∧ c < 256) ∧ e.enabled < 256 ∧ e.checksum < 2 ^ 32 ∧
    e.reserved < 2 ^ 32

/-- The bytes of an entry: `[string name][u8 enabled][u32 checksum][u32 reserved]`, the
string ended by a zero byte. -/
def ManifestEntry.encode (e : ManifestEntry) : List Nat :=
  e.name ++ (0 :: e.enabled :: (le32 e.checksum ++ le32 e.reserved))

/-- The decompressed payload of a request:
`[u32 count]{entry} x count [u32 client_time]`. -/
def Manifest.encode (es : List ManifestEntry) (clientTime : Nat) : List Nat :=
  le32 es.length ++ ((es.map ManifestEntry.encode).flatten ++ le32 clientTime)

/-- The record `ReadAddonsInfo` is to build for an entry of the manifest. -/
def ManifestEntry.toAddonInfo (e : ManifestEntry) : AddonInfo :=
  ⟨e.name, e.enabled, e.checksum, 2, true⟩

/-- The addon state after the loop body of `ReadAddonsInfo` has handled the record `a`: the
record is appended to the list, and it is saved in the table of learned addons when the table
has no entry for its name. -/
def AddonState.learn (st : AddonState) (a : AddonInfo) : AddonState :=
  match AddonMgr.GetAddonInfo st.knownAddons a.Name with
  | some _ => { st with m_addonsList := st.m_addonsList ++ [a] }
  | none =>
    { m_addonsList := st.m_addonsList ++ [a],
      knownAddons := AddonMgr.SaveAddon st.knownAddons a }

/-- The log lines and the call of `SaveAddon` of the loop body of `ReadAddonsInfo` for the
record `a` read with the reserved field `unk1`. -/
def AddonState.learnEvents (st : AddonState) (a : AddonInfo) (unk1 : Nat) : List AddonEvent :=
  match AddonMgr.GetAddonInfo st.knownAddons a.Name with
  | some savedAddon =>
    [AddonEvent.log .Info .GENERAL (.addonLine a.Name a.Enabled a.CRC unk1),
     if a.CRC ≠ savedAddon.CRC then
       AddonEvent.log .Info .GENERAL (.knownMismatch a.Name savedAddon.CRC)
     else AddonEvent.log .Info .GENERAL (.knownCorrect a.Name savedAddon.CRC)]
  | none =>
    [AddonEvent.log .Info .GENERAL (.addonLine a.Name a.Enabled a.CRC unk1),
     AddonEvent.SaveAddon a,
     AddonEvent.log .Info .GENERAL (.notKnown a.Name a.CRC)]

/-- The entries of the sample manifest: `B` with checksum 9 and `A` with checksum 8. -/
def sampleManifest : List ManifestEntry :=
  [⟨[66], 1, 9, 0⟩, ⟨[65], 1, 8, 0⟩]

/-- Whether an effect belongs to the handling of one complete entry: the `outInfo` lines
of the loop body and the call of `SaveAddon`. -/
def AddonEvent.isEntryLine : AddonEvent → Bool
  | .log .Info .GENERAL (.addonLine _ _ _ _) => true
  | .log .Info .GENERAL (.knownMismatch _ _) => true
  | .log .Info .GENERAL (.knownCorrect _ _) => true
  | .log .Info .GENERAL (.notKnown _ _) => true
  | .SaveAddon _ => true
  | _ => false

/-- An addon state whose list holds two records with the flag set and the standard checksum
of `sampleReplyEnv`. -/
def sampleStandardAddons : AddonState where
  m_addonsList := [⟨[65], 1, 9, 2, true⟩, ⟨[66], 1, 9, 2, true⟩]
  knownAddons := []

/-! ## Helper definitions for statements about `SendPacket` and the ban request -/

/-- Whether an effect is the hand-over of a packet to the socket. -/
def ReplyEvent.isSocketSend : ReplyEvent → Bool
  | .socketSend _ => true
  | _ => false

/-- The effect `e` with the duration of the log line about the automatic ban set to `d`. -/
def Event.setBanDuration (d : Nat) : Event → Event
  | .log level filter (.antiDosBanned _) => .log level filter (.antiDosBanned d)
  | e => e

/-- The case labels of `GetMaxPacketCounterAllowed`, all groups together. -/
def casesAll : List OpcodeName :=
  casesUnlimited ++ cases200 ++ cases50 ++ [.CMSG_QUEST_POI_QUERY] ++ cases20 ++ cases10 ++
    cases3 ++ [.CMSG_ITEM_REFUND_INFO]

/-- Slots of which only the char-login query (result 7) and the guild-rename query (result
1, parameter 3) have completed; the other queries are pending. -/
def samplePendingCallbacks : QueryCallbacks where
  _charEnumCallback := ⟨none, 0⟩
  _charCreateCallback := ⟨none, 0⟩
  _charLoginCallback := ⟨some 7, 0⟩
  _addFriendCallback := ⟨none, 0⟩
  _charRenameCallback := ⟨none, 0⟩
  _addIgnoreCallback := ⟨none, 0⟩
  _guildRenameCallback := ⟨some 1, 3⟩

/-- Consecutive `MustDiscard` calls for one opcode, all reading the clock value `now`; the
list holds, per call, the clock value `LogDiscarded` would read. Returns the results in call
order and the throttler afterwards. -/
def PacketThrottler.MustDiscards (E : Env) (opcode account : Nat) (address : String)
    (now : Int) : PacketThrottler → List Int → List Bool × PacketThrottler
  | t, [] => ([], t)
  | t, logNow :: rest =>
    let r := t.MustDiscard E opcode account address now logNow
    let rs := PacketThrottler.MustDiscards E opcode account address now r.2.1 rest
    (r.1 :: rs.1, rs.2)

/-! ## Registered addon prefixes -/

/-- The fields of `WorldSession` the addon prefix handlers and `IsAddonRegistered` use. -/
structure PrefixState where
  _filterAddonMessages : Bool
  _registeredAddonPrefixes : List String
  deriving DecidableEq, Repr

/-- The prefix fields as the constructor of `WorldSession` leaves them:
`_filterAddonMessages(false)` and an empty vector. -/
def PrefixState.new : PrefixState :=
  ⟨false, []⟩

/-- A received `CMSG_ADDON_REGISTERED_PREFIXES` packet, as what the reads of the handler
give on it (the buffer class is not part of the sources): `count` is the result of
`ReadBits(25)`, `ReadBits5 i` the result of the `i`-th `ReadBits(5)` and `ReadString i len`
the result of the `i`-th `ReadString(len)`; `none` stands for a read that runs past the end
of the packet and throws `ByteBufferException`. -/
structure PrefixesPacket where
  count : Option Nat
  ReadBits5 : Nat → Option Nat
  ReadString : Nat → Nat → Option String

/-- The debug lines of the two prefix handlers. -/
inductive PrefixLog where
  | receivedUnregisterAll
  | receivedRegisteredPrefixes
  deriving DecidableEq, Repr

/-- What a prefix handler leaves: the fields, the log lines, and whether it ended by
throwing `ByteBufferException` (which `Update` catches, so the session goes on with the
fields as they are then). -/
structure PrefixResult where
  state : PrefixState
  log : List PrefixLog
  threw : Bool
  deriving DecidableEq, Repr

/-- `WorldSession::IsAddonRegistered(prefix)`. -/
def WorldSession.IsAddonRegistered (s : PrefixState) (prefixName : String) : Bool :=
  if !s._filterAddonMessages then true
  else if s._registeredAddonPrefixes.isEmpty then false
  else s._registeredAddonPrefixes.contains prefixName

/-- `WorldSession::HandleUnregisterAddonPrefixesOpcode`: the packet is not read. -/
def WorldSession.HandleUnregisterAddonPrefixesOpcode (s : PrefixState) : PrefixResult :=
  ⟨{ s with _registeredAddonPrefixes := [] }, [.receivedUnregisterAll], false⟩

/-- The loop `for (i = 0; i < count; ++i) lengths[i] = recvPacket.ReadBits(5)`, from index
`i` for `n` more rounds; `lengths` is a vector of `uint8`. The result is `none` when a read
throws. -/
def WorldSession.HandleAddonRegisteredPrefixesOpcode.lengths (recvPacket : PrefixesPacket) :
    Nat → Nat → Option (List Nat)
  | _, 0 => some []
  | i, n + 1 =>
    match recvPacket.ReadBits5 i with
    | none => none
    | some len =>
      match WorldSession.HandleAddonRegisteredPrefixesOpcode.lengths recvPacket (i + 1) n with
      | none => none
      | some rest => some (len % 2 ^ 8 :: rest)

/-- The loop `for (i = 0; i < count; ++i)
_registeredAddonPrefixes.push_back(recvPacket.ReadString(lengths[i]))`, from index `i` over
the remaining lengths. Returns the vector and whether a read threw; the strings pushed
before the throw stay in the vector. -/
def WorldSession.HandleAddonRegisteredPrefixesOpcode.push (recvPacket : PrefixesPacket) :
    List String → Nat → List Nat → List String × Bool
  | prefixes, _, [] => (prefixes, false)
  | prefixes, i, len :: rest =>
    match recvPacket.ReadString i len with
    | none => (prefixes, true)
    | some str =>
      WorldSession.HandleAddonRegisteredPrefixesOpcode.push recvPacket (prefixes ++ [str])
        (i + 1) rest

/-- `WorldSession::HandleAddonRegisteredPrefixesOpcode(recvPacket)`; the parameter is the
constant `REGISTERED_ADDON_PREFIX_SOFTCAP`, which is not defined in the sources (64 by the
comments). `recvPacket.rfinish()` only moves the read position of the packet, which is not
part of the fields. -/
def WorldSession.HandleAddonRegisteredPrefixesOpcode (REGISTERED_ADDON_PREFIX_SOFTCAP : Nat)
    (s : PrefixState) (recvPacket : PrefixesPacket) : PrefixResult :=
  match recvPacket.count with
  | none => ⟨s, [.receivedRegisteredPrefixes], true⟩
  | some count =>
    if count > REGISTERED_ADDON_PREFIX_SOFTCAP then
      ⟨{ s with _filterAddonMessages := false }, [.receivedRegisteredPrefixes], false⟩
    else
      match WorldSession.HandleAddonRegisteredPrefixesOpcode.lengths recvPacket 0 count with
      | none => ⟨s, [.receivedRegisteredPrefixes], true⟩
      | some lengths =>
        let pushed := WorldSession.HandleAddonRegisteredPrefixesOpcode.push recvPacket
          s._registeredAddonPrefixes 0 lengths
        let s1 : PrefixState := { s with _registeredAddonPrefixes := pushed.1 }
        if pushed.2 then ⟨s1, [.receivedRegisteredPrefixes], true⟩
        else if s1._registeredAddonPrefixes.length > REGISTERED_ADDON_PREFIX_SOFTCAP then
          ⟨{ s1 with _filterAddonMessages := false }, [.receivedRegisteredPrefixes], false⟩
        else ⟨{ s1 with _filterAddonMessages := true }, [.receivedRegisteredPrefixes], false⟩

/-- One call of a prefix handler. -/
inductive PrefixCall where
  | registered (recvPacket : PrefixesPacket)
  | unregisterAll

/-- One call of a prefix handler on the fields `s`. -/
def PrefixCall.run (REGISTERED_ADDON_PREFIX_SOFTCAP : Nat) (s : PrefixState) :
    PrefixCall → PrefixResult
  | .registered recvPacket =>
    WorldSession.HandleAddonRegisteredPrefixesOpcode REGISTERED_ADDON_PREFIX_SOFTCAP s
      recvPacket
  | .unregisterAll => WorldSession.HandleUnregisterAddonPrefixesOpcode s

/-- The fields after a sequence of handler calls, each on the fields the previous call
left. -/
def PrefixCall.runAll (REGISTERED_ADDON_PREFIX_SOFTCAP : Nat) :
    PrefixState → List PrefixCall → PrefixState
  | s, [] => s
  | s, c :: rest =>
    PrefixCall.runAll REGISTERED_ADDON_PREFIX_SOFTCAP
      (PrefixCall.run REGISTERED_ADDON_PREFIX_SOFTCAP s c).state rest

/-- A well-formed packet that registers `n` prefixes, all `"DBM"`. -/
def samplePrefixesPacket (n : Nat) : PrefixesPacket where
  count := some n
  ReadBits5 := fun i => if i < n then some 3 else none
  ReadString := fun i _ => if i < n then some "DBM" else none

/-- A packet that announces two prefixes and ends after the first: the second
`ReadString` throws. -/
def sampleCutPrefixesPacket : PrefixesPacket where
  count := some 2
  ReadBits5 := fun i => if i < 2 then some 3 else none
  ReadString := fun i _ => if i < 1 then some "BigWigs" else none

/-! ## The order of dispatch -/

/-- The packet of a handler invocation. -/
def Event.handled : Event → Option WorldPacket
  | .Handler packet => some packet
  | _ => none

/-- The packets whose handlers were invoked, in the order of invocation. -/
def handledPackets (trace : List Event) : List WorldPacket :=
  trace.filterMap Event.handled

/-- What both filters test of the session: `player && player->IsInWorld()`. -/
def WorldSession.playerInWorld (s : WorldSession) : Bool :=
  match s._player with
  | none => false
  | some player => player.inWorld

/-- No handler of the opcode table changes whether a player is attached and in world, and
none touches the receive queue. -/
def Env.handlersKeepEligibility (E : Env) : Prop :=
  ∀ (k : Nat) (opHandle : OpcodeHandler) (s : WorldSession) (packet : WorldPacket),
    E.opcodeTable k = some opHandle →
    (opHandle.Handler s packet).session.playerInWorld = s.playerInWorld ∧
      (opHandle.Handler s packet).session._recvQueue = s._recvQueue

/-- The invariant of the dispatch loop behind the order of dispatch, for a call that found
the session `s0` with the receive queue `Q0`: the queue is a part `R` of `Q0` still to be
looked at, followed by the packets `D` deferred in this call; the packets handled so far,
followed by the packets of `R` the filter lets through, are in the order of `Q0`; and the
deferred packets are `STATUS_LOGGEDIN` packets of a session with no player in world. -/
def UpdateState.inOrder (E : Env) (updater : PacketFilter) (s0 : WorldSession)
    (Q0 : List WorldPacket) (st : UpdateState) : Prop :=
  st.session.playerInWorld = s0.playerInWorld ∧
    ∃ R D, st.session._recvQueue = R ++ D ∧
      (handledPackets st.trace ++
        R.filter (fun x => decide (updater.Process E s0 x = some true))).Sublist Q0 ∧
      ∀ d ∈ D, s0.playerInWorld = false ∧
        ∃ opHandle, E.opcodeTable d.opcode = some opHandle ∧
          opHandle.Status = .STATUS_LOGGEDIN

/-- The number of whole entries, of the `claimed` ones, that the bytes of `addonInfo` from the
read position on supply: an entry is supplied when the format check passes and the reads of
its name, flag, checksum and reserved word all succeed. -/
def Manifest.supply : Nat → ByteBuffer → Nat
  | 0, _ => 0
  | claimed + 1, addonInfo =>
    if addonInfo.rpos + 1 > addonInfo.size then 0
    else
      match addonInfo.readString.2.readUInt8 with
      | none => 0
      | some r1 =>
        match r1.2.readUInt32 with
        | none => 0
        | some r2 =>
          match r2.2.readUInt32 with
          | none => 0
          | some r3 => Manifest.supply claimed r3.2 + 1

/-- A session constructed without a socket (`sock == NULL`, so `m_Socket` is `NULL` and the
time-out timer was never reset), with one packet in the receive queue. -/
def sampleNoSocketSession : WorldSession :=
  { sampleSession .POLICY_KICK with
    m_Socket := none, m_Address := "", _recvQueue := [samplePacket 1 .CMSG_BUG] }

theorem unlimited_call (E : Env) (s : WorldSession) (p : WorldPacket) (time : Int)
    (h : DosProtection.GetMaxPacketCounterAllowed E (p.opcode % 65536) = 0) :
    DosProtection.EvaluateOpcode E s p time = (true, s, []) := by
  simp [DosProtection.EvaluateOpcode, h]

theorem bump_eq (d : DosProtection) (k : Nat) (time : Int) :
    d.bump k time = ⟨time, (d.countAt k time + 1) % 2 ^ 32⟩ := by
  unfold DosProtection.bump DosProtection.countAt
  cases hm : d._PacketThrottlingMap k with
  | none =>
    by_cases ht : (0 : Int) = time
    · subst ht; simp
    · simp [ht]
  | some pc =>
    by_cases ht : pc.lastReceiveTime = time
    · subst ht; simp
    · simp [ht]

theorem within_ceiling_call (E : Env) (s : WorldSession) (p : WorldPacket) (time : Int)
    (hpos : DosProtection.GetMaxPacketCounterAllowed E (p.opcode % 65536) ≠ 0)
    (hle : (s.AntiDOS.countAt (p.opcode % 65536) time + 1) % 2 ^ 32 ≤
      DosProtection.GetMaxPacketCounterAllowed E (p.opcode % 65536)) :
    DosProtection.EvaluateOpcode E s p time =
      (true, s.withCounter (p.opcode % 65536)
        ⟨time, (s.AntiDOS.countAt (p.opcode % 65536) time + 1) % 2 ^ 32⟩, []) := by
  simp only [DosProtection.EvaluateOpcode, bump_eq, if_neg hpos, if_pos hle]

theorem over_ceiling_call (E : Env) (s : WorldSession) (p : WorldPacket) (time : Int)
    (hpos : DosProtection.GetMaxPacketCounterAllowed E (p.opcode % 65536) ≠ 0)
    (hgt : ¬ (s.AntiDOS.countAt (p.opcode % 65536) time + 1) % 2 ^ 32 ≤
      DosProtection.GetMaxPacketCounterAllowed E (p.opcode % 65536)) :
    DosProtection.EvaluateOpcode E s p time =
      DosProtection.applyPolicy E (s.withCounter (p.opcode % 65536)
        ⟨time, (s.AntiDOS.countAt (p.opcode % 65536) time + 1) % 2 ^ 32⟩) := by
  simp only [DosProtection.EvaluateOpcode, bump_eq, if_neg hpos, if_neg hgt]

theorem applyPolicy_fst (E : Env) (s : WorldSession) :
    (DosProtection.applyPolicy E s).1 = s.AntiDOS._policy.admitsOverCeiling := by
  unfold DosProtection.applyPolicy Policy.admitsOverCeiling
  cases s.AntiDOS._policy <;> rfl

theorem countAt_withCounter (s : WorldSession) (k : Nat) (time : Int) (n : Nat) :
    (s.withCounter k ⟨time, n⟩).AntiDOS.countAt k time = n := by
  simp [WorldSession.withCounter, DosProtection.countAt, setAt]

theorem policy_withCounter (s : WorldSession) (k : Nat) (pc : PacketCounter) :
    (s.withCounter k pc).AntiDOS._policy = s.AntiDOS._policy := rfl

theorem ceiling_fits (E : Env) (k : Nat) (hq : E.MAX_QUEST_LOG_SIZE < 2 ^ 32 - 1)
    (hs : E.PLAYER_SLOTS_COUNT < 2 ^ 32 - 1) :
    DosProtection.GetMaxPacketCounterAllowed E k + 1 < 2 ^ 32 := by
  have h1 : E.MAX_QUEST_LOG_SIZE % 2 ^ 32 = E.MAX_QUEST_LOG_SIZE := Nat.mod_eq_of_lt (by omega)
  have h2 : E.PLAYER_SLOTS_COUNT % 2 ^ 32 = E.PLAYER_SLOTS_COUNT := Nat.mod_eq_of_lt (by omega)
  unfold DosProtection.GetMaxPacketCounterAllowed
  rw [h1, h2]
  split_ifs <;> omega

theorem evaluateOpcodes_append (E : Env) (s : WorldSession)
    (l₁ l₂ : List (WorldPacket × Int)) :
    DosProtection.EvaluateOpcodes E s (l₁ ++ l₂) =
      ((DosProtection.EvaluateOpcodes E s l₁).1 ++
          (DosProtection.EvaluateOpcodes E (DosProtection.EvaluateOpcodes E s l₁).2.1 l₂).1,
        (DosProtection.EvaluateOpcodes E (DosProtection.EvaluateOpcodes E s l₁).2.1 l₂).2.1,
        (DosProtection.EvaluateOpcodes E s l₁).2.2 ++
          (DosProtection.EvaluateOpcodes E (DosProtection.EvaluateOpcodes E s l₁).2.1
            l₂).2.2) := by
  induction l₁ generalizing s with
  | nil => simp [DosProtection.EvaluateOpcodes]
  | cons c l ih =>
    obtain ⟨p, t⟩ := c
    simp [DosProtection.EvaluateOpcodes, ih]

theorem within_ceiling_calls (E : Env) (k : Nat) (time : Int) (ps : List WorldPacket) :
    ∀ (s : WorldSession), (∀ p ∈ ps, p.opcode % 65536 = k) →
      DosProtection.GetMaxPacketCounterAllowed E k ≠ 0 →
      DosProtection.GetMaxPacketCounterAllowed E k < 2 ^ 32 →
      s.AntiDOS.countAt k time + ps.length ≤ DosProtection.GetMaxPacketCounterAllowed E k →
      ∃ s', DosProtection.EvaluateOpcodes E s (ps.map fun p => (p, time)) =
          (List.replicate ps.length true, s', []) ∧
        s'.AntiDOS.countAt k time = s.AntiDOS.countAt k time + ps.length ∧
        s'.AntiDOS._policy = s.AntiDOS._policy := by
  induction ps with
  | nil => intro s _ _ _ _; exact ⟨s, by simp [DosProtection.EvaluateOpcodes]⟩
  | cons p ps ih =>
    intro s hk hpos hfit hle
    have hp : p.opcode % 65536 = k := hk p (List.mem_cons_self _ _)
    simp only [List.length_cons] at hle
    have hmod : (s.AntiDOS.countAt k time + 1) % 2 ^ 32 = s.AntiDOS.countAt k time + 1 :=
      Nat.mod_eq_of_lt (by omega)
    have hstep := within_ceiling_call E s p time (by rw [hp]; exact hpos)
      (by rw [hp, hmod]; omega)
    rw [hp, hmod] at hstep
    obtain ⟨s', hs', hc', hpol'⟩ :=
      ih (s.withCounter k ⟨time, s.AntiDOS.countAt k time + 1⟩)
      (fun q hq => hk q (List.mem_cons_of_mem _ hq)) hpos hfit
      (by rw [countAt_withCounter]; omega)
    refine ⟨s', ?_, ?_, ?_⟩
    · simp only [List.map_cons, DosProtection.EvaluateOpcodes, hstep, hs', List.length_cons,
        List.replicate_succ, List.append_nil]
    · rw [hc', countAt_withCounter, List.length_cons]; omega
    · rw [hpol', policy_withCounter]

/-- C1. For an opcode with a positive ceiling `c` and a limiter holding no counter for it,
`c + 1` consecutive `EvaluateOpcode` calls with one time value admit the first `c`; the
last one is admitted under `POLICY_LOG` and rejected under `POLICY_KICK` and `POLICY_BAN`.
The two ceilings that come from other headers are assumed to leave room for the `uint32`
counter to reach `c + 1`. -/
theorem EvaluateOpcode_burst_admits_ceiling (E : Env) (s : WorldSession) (k : Nat) (time : Int)
    (ps : List WorldPacket)
    (hq : E.MAX_QUEST_LOG_SIZE < 2 ^ 32 - 1) (hs : E.PLAYER_SLOTS_COUNT < 2 ^ 32 - 1)
    (hk : ∀ p ∈ ps, p.opcode % 65536 = k)
    (hpos : 0 < DosProtection.GetMaxPacketCounterAllowed E k)
    (hlen : ps.length = DosProtection.GetMaxPacketCounterAllowed E k + 1)
    (hnone : s.AntiDOS._PacketThrottlingMap k = none) :
    ((DosProtection.EvaluateOpcodes E s (ps.map fun p => (p, time))).1.take
        (DosProtection.GetMaxPacketCounterAllowed E k) =
      List.replicate (DosProtection.GetMaxPacketCounterAllowed E k) true) ∧
    (s.AntiDOS._policy = .POLICY_LOG →
      (DosProtection.EvaluateOpcodes E s (ps.map fun p => (p, time))).1 =
        List.replicate (DosProtection.GetMaxPacketCounterAllowed E k) true ++ [true]) ∧
    (s.AntiDOS._policy = .POLICY_KICK →
      (DosProtection.EvaluateOpcodes E s (ps.map fun p => (p, time))).1 =
        List.replicate (DosProtection.GetMaxPacketCounterAllowed E k) true ++ [false]) ∧
    (s.AntiDOS._policy = .POLICY_BAN →
      (DosProtection.EvaluateOpcodes E s (ps.map fun p => (p, time))).1 =
        List.replicate (DosProtection.GetMaxPacketCounterAllowed E k) true ++ [false]) := by
  have hfit := ceiling_fits E k hq hs
  have h0 : s.AntiDOS.countAt k time = 0 := by simp [DosProtection.countAt, hnone]
  have hne : ps ≠ [] := by intro h; rw [h] at hlen; simp at hlen
  obtain ⟨init, last, rfl⟩ : ∃ init last, ps = init ++ [last] :=
    ⟨ps.dropLast, ps.getLast hne, (List.dropLast_append_getLast hne).symm⟩
  have hinit : init.length = DosProtection.GetMaxPacketCounterAllowed E k := by
    simp at hlen; exact hlen
  obtain ⟨s', hs', hc', hpol'⟩ := within_ceiling_calls E k time init s
    (fun p hp => hk p (List.mem_append_left _ hp)) (by omega) (by omega) (by omega)
  have hlast : last.opcode % 65536 = k := hk last (by simp)
  have hover := over_ceiling_call E s' last time (by rw [hlast]; omega)
    (by rw [hlast, hc', h0, hinit, Nat.zero_add, Nat.mod_eq_of_lt hfit]; omega)
  have hres : (DosProtection.EvaluateOpcodes E s ((init ++ [last]).map fun p => (p, time))).1 =
      List.replicate (DosProtection.GetMaxPacketCounterAllowed E k) true ++
        [s.AntiDOS._policy.admitsOverCeiling] := by
    rw [List.map_append, evaluateOpcodes_append, hs']
    simp only [List.map_cons, List.map_nil, DosProtection.EvaluateOpcodes, hover, applyPolicy_fst,
      policy_withCounter, hpol', hinit]
  rw [hres]
  refine ⟨?_, ?_, ?_, ?_⟩
  · simp
  · intro h; rw [h]; rfl
  · intro h; rw [h]; rfl
  · intro h; rw [h]; rfl

/-- Witness for C1: `CMSG_CHAR_ENUM` has ceiling 3; four calls in second 7 under
`POLICY_KICK`, from a fresh limiter, return true, true, true, false. -/
theorem EvaluateOpcode_burst_admits_ceiling_witness :
    (DosProtection.EvaluateOpcodes sampleEnv (sampleSession .POLICY_KICK)
      ((List.replicate 4 (samplePacket 1 .CMSG_CHAR_ENUM)).map fun p => (p, 7))).1 =
        [true, true, true, false] :=
  (EvaluateOpcode_burst_admits_ceiling sampleEnv (sampleSession .POLICY_KICK)
    (sampleCode .CMSG_CHAR_ENUM) 7
    (List.replicate 4 (samplePacket 1 .CMSG_CHAR_ENUM))
    (by decide) (by decide) (by decide) (by decide) (by decide) rfl).2.2.1 rfl

theorem unlimited_calls (E : Env) (calls : List (WorldPacket × Int)) :
    ∀ (s : WorldSession),
      (∀ c ∈ calls, DosProtection.GetMaxPacketCounterAllowed E (c.1.opcode % 65536) = 0) →
      DosProtection.EvaluateOpcodes E s calls = (List.replicate calls.length true, s, []) := by
  induction calls with
  | nil => intro s _; rfl
  | cons c calls ih =>
    intro s h
    obtain ⟨p, t⟩ := c
    have h1 := unlimited_call E s p t (h (p, t) (List.mem_cons_self _ _))
    have h2 := ih s (fun c hc => h c (List.mem_cons_of_mem _ hc))
    simp only [DosProtection.EvaluateOpcodes, h1, h2, List.length_cons, List.replicate_succ,
      List.append_nil]

theorem logout_request_unlimited (E : Env) :
    DosProtection.GetMaxPacketCounterAllowed E (E.code .CMSG_LOGOUT_REQUEST) = 0 := by
  unfold DosProtection.GetMaxPacketCounterAllowed
  rw [if_pos]
  exact List.mem_map_of_mem E.code (by decide)

/-- C3. For an opcode whose ceiling is 0, `EvaluateOpcode` returns true for every time
value, policy and prior state, however often it is called; the calls leave the whole
session (every counter included) as it was and have no effect at all, so no kick and no
ban. The ceiling of `CMSG_LOGOUT_REQUEST` is 0. -/
theorem EvaluateOpcode_zero_ceiling_unlimited (E : Env) (s : WorldSession)
    (calls : List (WorldPacket × Int))
    (h : ∀ c ∈ calls, DosProtection.GetMaxPacketCounterAllowed E (c.1.opcode % 65536) = 0) :
    DosProtection.EvaluateOpcodes E s calls = (List.replicate calls.length true, s, []) ∧
    DosProtection.GetMaxPacketCounterAllowed E (E.code .CMSG_LOGOUT_REQUEST) = 0 :=
  ⟨unlimited_calls E calls s h, logout_request_unlimited E⟩

/-- Witness for C3: 500 `CMSG_LOGOUT_REQUEST` calls in second 1000 under `POLICY_BAN` all
return true and leave the session as it was. -/
theorem EvaluateOpcode_zero_ceiling_unlimited_witness :
    DosProtection.EvaluateOpcodes sampleEnv (sampleSession .POLICY_BAN)
      (List.replicate 500 (samplePacket 1 .CMSG_LOGOUT_REQUEST, 1000)) =
        (List.replicate 500 true, sampleSession .POLICY_BAN, []) := by
  have h := (EvaluateOpcode_zero_ceiling_unlimited sampleEnv (sampleSession .POLICY_BAN)
    (List.replicate 500 (samplePacket 1 .CMSG_LOGOUT_REQUEST, 1000))
    (fun c hc => by rw [List.eq_of_mem_replicate hc]; decide)).1
  rw [List.length_replicate] at h
  exact h

theorem spaced_calls_aux (E : Env) (k : Nat)
    (hpos : DosProtection.GetMaxPacketCounterAllowed E k ≠ 0)
    (calls : List (WorldPacket × Int)) :
    ∀ (s : WorldSession), (∀ c ∈ calls, c.1.opcode % 65536 = k) →
      (∀ pc c, s.AntiDOS._PacketThrottlingMap k = some pc → calls.head? = some c →
        pc.lastReceiveTime ≠ c.2) →
      List.Chain' (fun a b => a.2 ≠ b.2) calls →
      (DosProtection.EvaluateOpcodes E s calls).1 = List.replicate calls.length true ∧
      (DosProtection.EvaluateOpcodes E s calls).2.2 = [] ∧
      (DosProtection.EvaluateOpcodes E s calls).2.1.m_Socket = s.m_Socket := by
  induction calls with
  | nil => intro s _ _ _; exact ⟨rfl, rfl, rfl⟩
  | cons c calls ih =>
    intro s hk hfirst hchain
    obtain ⟨p, t⟩ := c
    have hp : p.opcode % 65536 = k := hk (p, t) (List.mem_cons_self _ _)
    have h0 : s.AntiDOS.countAt k t = 0 := by
      unfold DosProtection.countAt
      cases hm : s.AntiDOS._PacketThrottlingMap k with
      | none => rfl
      | some pc => simp [hfirst pc (p, t) hm rfl]
    have hone : DosProtection.GetMaxPacketCounterAllowed E k ≥ 1 := Nat.pos_of_ne_zero hpos
    have hstep := within_ceiling_call E s p t (by rw [hp]; exact hpos)
      (by rw [hp, h0]; exact hone)
    rw [hp, h0] at hstep
    rw [List.chain'_cons'] at hchain
    obtain ⟨h1, h2, h3⟩ := ih (s.withCounter k ⟨t, (0 + 1) % 2 ^ 32⟩)
      (fun c hc => hk c (List.mem_cons_of_mem _ hc))
      (by
        intro pc c hm hc
        simp [WorldSession.withCounter, setAt] at hm
        rw [← hm]
        exact hchain.1 c hc)
      hchain.2
    simp only [DosProtection.EvaluateOpcodes, hstep, h1, h2, h3, List.length_cons,
      List.replicate_succ, List.append_nil, true_and]
    rfl

/-- C2. In any sequence of `EvaluateOpcode` calls for one opcode in which each call's time
value differs from the time value of the previous call for that opcode (for the first call
of the sequence: from the time stored by the prior state, when it stores one), every call
returns true, whatever the policy and the prior state; no effect is produced (so no kick
and no ban) and the socket is left as it was. -/
theorem EvaluateOpcode_spaced_calls_admitted (E : Env) (s : WorldSession) (k : Nat)
    (calls : List (WorldPacket × Int))
    (hk : ∀ c ∈ calls, c.1.opcode % 65536 = k)
    (hfirst : ∀ pc c, s.AntiDOS._PacketThrottlingMap k = some pc → calls.head? = some c →
      pc.lastReceiveTime ≠ c.2)
    (hchain : List.Chain' (fun a b => a.2 ≠ b.2) calls) :
    (DosProtection.EvaluateOpcodes E s calls).1 = List.replicate calls.length true ∧
    (DosProtection.EvaluateOpcodes E s calls).2.2 = [] ∧
    (DosProtection.EvaluateOpcodes E s calls).2.1.m_Socket = s.m_Socket := by
  by_cases hpos : DosProtection.GetMaxPacketCounterAllowed E k = 0
  · have h := unlimited_calls E calls s (fun c hc => by rw [hk c hc]; exact hpos)
    rw [h]
    exact ⟨rfl, rfl, rfl⟩
  · exact spaced_calls_aux E k hpos calls s hk hfirst hchain

/-- Witness for C2: five `CMSG_CHAR_ENUM` calls (ceiling 3) in five different seconds under
`POLICY_BAN` all return true. -/
theorem EvaluateOpcode_spaced_calls_admitted_witness :
    (DosProtection.EvaluateOpcodes sampleEnv (sampleSession .POLICY_BAN)
      [(samplePacket 1 .CMSG_CHAR_ENUM, 1), (samplePacket 2 .CMSG_CHAR_ENUM, 2),
       (samplePacket 3 .CMSG_CHAR_ENUM, 3), (samplePacket 4 .CMSG_CHAR_ENUM, 4),
       (samplePacket 5 .CMSG_CHAR_ENUM, 5)]).1 = [true, true, true, true, true] :=
  (EvaluateOpcode_spaced_calls_admitted sampleEnv (sampleSession .POLICY_BAN)
    (sampleCode .CMSG_CHAR_ENUM)
    [(samplePacket 1 .CMSG_CHAR_ENUM, 1), (samplePacket 2 .CMSG_CHAR_ENUM, 2),
     (samplePacket 3 .CMSG_CHAR_ENUM, 3), (samplePacket 4 .CMSG_CHAR_ENUM, 4),
     (samplePacket 5 .CMSG_CHAR_ENUM, 5)]
    (by decide) (fun pc c h => by simp [sampleSession] at h) (by simp)).1

/-! ## The dispatch loop: lemmas -/

theorem next_removes (check : WorldPacket → Option Bool) :
    ∀ (q : List WorldPacket) (p : WorldPacket) (q' : List WorldPacket),
      LockedQueue.next check q = some (some (p, q')) →
      ∃ pre post, q = pre ++ p :: post ∧ q' = pre ++ post := by
  intro q
  induction q with
  | nil => intro p q' h; simp [LockedQueue.next] at h
  | cons x q ih =>
    intro p q' h
    unfold LockedQueue.next at h
    split at h
    · simp at h
    · simp only [Option.some.injEq, Prod.mk.injEq] at h
      exact ⟨[], q, by simp [h.1], by simp [h.2]⟩
    · split at h
      · simp at h
      · simp at h
      · rename_i r hr
        simp only [Option.some.injEq, Prod.mk.injEq] at h
        obtain ⟨pre, post, h1, h2⟩ := ih r.1 r.2 hr
        refine ⟨x :: pre, post, ?_, ?_⟩
        · rw [List.cons_append, ← h.1, ← h1]
        · rw [List.cons_append, ← h.2, ← h2]

theorem next_session_eq (E : Env) (updater : PacketFilter) (st0 st : UpdateState)
    (packet : WorldPacket)
    (hdq : WorldSession.Update.cond E updater st0 = some (some (packet, st))) :
    (∃ pre post, st0.session._recvQueue = pre ++ packet :: post ∧
        st.session._recvQueue = pre ++ post) ∧
      st = { st0 with session := { st0.session with _recvQueue := st.session._recvQueue } } := by
  unfold WorldSession.Update.cond at hdq
  split at hdq
  · simp at hdq
  · split_ifs at hdq
    · simp at hdq
    · simp at hdq
    · split at hdq
      · simp at hdq
      · split_ifs at hdq
        · simp at hdq
        · split at hdq
          · simp at hdq
          · simp at hdq
          · rename_i r hr
            simp only [Option.some.injEq, Prod.mk.injEq] at hdq
            obtain ⟨h1, h2⟩ := hdq
            subst h2
            refine ⟨?_, rfl⟩
            rw [← h1]
            exact next_removes _ _ _ _ hr

theorem body_eq (E : Env) (clock : UpdateClock) (st : UpdateState) (packet : WorldPacket)
    (opHandle : OpcodeHandler) (htab : E.opcodeTable packet.opcode = some opHandle) :
    WorldSession.Update.body E clock st packet =
      some { WorldSession.Update.dispatch E clock st packet opHandle with
        trace := (WorldSession.Update.dispatch E clock st packet opHandle).trace ++
          WorldSession.Update.closing clock st.iter
            (WorldSession.Update.dispatch E clock st packet opHandle).deletePacket packet,
        iter := st.iter + 1 } := by
  simp only [WorldSession.Update.body, htab]

theorem dispatch_never (E : Env) (clock : UpdateClock) (st : UpdateState) (packet : WorldPacket)
    (opHandle : OpcodeHandler) (h : opHandle.Status = .STATUS_NEVER) :
    WorldSession.Update.dispatch E clock st packet opHandle =
      { st with trace := st.trace ++
          [Event.log .Error .OPCODES (.notAllowedOpcode packet.opcode)] } := by
  simp only [WorldSession.Update.dispatch, h]

theorem dispatch_unhandled (E : Env) (clock : UpdateClock) (st : UpdateState)
    (packet : WorldPacket) (opHandle : OpcodeHandler) (h : opHandle.Status = .STATUS_UNHANDLED) :
    WorldSession.Update.dispatch E clock st packet opHandle =
      { st with trace := st.trace ++
          [Event.log .Info .BAD_OPCODE_HANDLER (.statusUnhandled packet.opcode packet.wpos),
           Event.log .Error .OPCODES (.notHandledOpcode packet.opcode)] } := by
  simp only [WorldSession.Update.dispatch, h]

theorem dispatch_authed_queued (E : Env) (clock : UpdateClock) (st : UpdateState)
    (packet : WorldPacket) (opHandle : OpcodeHandler) (h : opHandle.Status = .STATUS_AUTHED)
    (hq : st.session.m_inQueue = true) :
    WorldSession.Update.dispatch E clock st packet opHandle =
      { st with trace := st.trace ++
          [Event.log .Error .OPCODES
            (.unexpectedOpcode packet.opcode "STATUS_AUTHED"
              "the player not pass queue yet")] } := by
  simp only [WorldSession.Update.dispatch, h, hq, if_true, WorldSession.LogUnexpectedOpcode]

theorem closing_not_handler (clock : UpdateClock) (iter : Nat) (d : Bool) (packet : WorldPacket) :
    ∀ e ∈ WorldSession.Update.closing clock iter d packet,
      e.isHandler = false ∧ e.isKickOrBan = false ∧ e.isLog = false := by
  intro e he
  unfold WorldSession.Update.closing at he
  rw [List.mem_append] at he
  rcases he with he | he
  · split_ifs at he
    · simp only [List.mem_singleton] at he; subst he; exact ⟨rfl, rfl, rfl⟩
    · simp at he
  · split_ifs at he
    · simp only [List.mem_singleton] at he; subst he; exact ⟨rfl, rfl, rfl⟩
    · simp at he

/-- C4. A packet dequeued by `Update` whose descriptor has `STATUS_NEVER` or
`STATUS_UNHANDLED` is dropped: the loop body completes, no handler is invoked, no kick or
ban is issued, and the session afterwards is the session before the iteration with only the
dequeued packet taken out of the receive queue, so the attached player, `m_inQueue`,
`m_playerRecentlyLogout` and the limiter's counters are unchanged. -/
theorem Update_drops_never_unhandled (E : Env) (clock : UpdateClock) (updater : PacketFilter)
    (st0 st : UpdateState) (packet : WorldPacket) (opHandle : OpcodeHandler)
    (hdq : WorldSession.Update.cond E updater st0 = some (some (packet, st)))
    (htab : E.opcodeTable packet.opcode = some opHandle)
    (hst : opHandle.Status = .STATUS_NEVER ∨ opHandle.Status = .STATUS_UNHANDLED) :
    ∃ st', WorldSession.Update.body E clock st packet = some st' ∧
      (∃ pre post, st0.session._recvQueue = pre ++ packet :: post ∧
        st'.session._recvQueue = pre ++ post) ∧
      st'.session = { st0.session with _recvQueue := st'.session._recvQueue } ∧
      st'.session.AntiDOS = st0.session.AntiDOS ∧
      (∀ e ∈ st'.eventsSince st0,
        e.isHandler = false ∧ e.isKickOrBan = false) := by
  obtain ⟨hq, hst0⟩ := next_session_eq E updater st0 st packet hdq
  have htr : st.trace = st0.trace := by rw [hst0]
  rw [body_eq E clock st packet opHandle htab]
  refine ⟨_, rfl, ?_⟩
  rcases hst with h | h
  · rw [dispatch_never E clock st packet opHandle h]
    refine ⟨hq, ?_, ?_, ?_⟩
    · show st.session = _
      rw [hst0]
    · show st.session.AntiDOS = _
      rw [hst0]
    · intro e he
      simp only [UpdateState.eventsSince, htr, List.append_assoc, List.drop_left,
        List.mem_append, List.mem_singleton] at he
      rcases he with he | he
      · subst he; exact ⟨rfl, rfl⟩
      · have := closing_not_handler _ _ _ _ e he
        exact ⟨this.1, this.2.1⟩
  · rw [dispatch_unhandled E clock st packet opHandle h]
    refine ⟨hq, ?_, ?_, ?_⟩
    · show st.session = _
      rw [hst0]
    · show st.session.AntiDOS = _
      rw [hst0]
    · intro e he
      simp only [UpdateState.eventsSince, htr, List.append_assoc, List.drop_left,
        List.mem_append, List.mem_cons, List.mem_singleton, List.not_mem_nil, or_false] at he
      rcases he with (he | he) | he
      · subst he; exact ⟨rfl, rfl⟩
      · subst he; exact ⟨rfl, rfl⟩
      · have := closing_not_handler _ _ _ _ e he
        exact ⟨this.1, this.2.1⟩

/-- Witness for C4: the `STATUS_NEVER` packet of the sample session is dequeued and
dropped. -/
theorem Update_drops_never_unhandled_witness :
    WorldSession.Update.cond sampleEnv .WorldSessionFilter
        (WorldSession.Update.initial sampleNeverSession) =
      some (some (samplePacket 1 .CMSG_BUG, sampleDequeued sampleNeverSession)) ∧
    ∃ st', WorldSession.Update.body sampleEnv sampleClock (sampleDequeued sampleNeverSession)
        (samplePacket 1 .CMSG_BUG) = some st' ∧
      st'.session.AntiDOS = sampleNeverSession.AntiDOS ∧
      ∀ e ∈ st'.eventsSince (WorldSession.Update.initial sampleNeverSession),
        e.isHandler = false ∧ e.isKickOrBan = false := by
  have hdq : WorldSession.Update.cond sampleEnv .WorldSessionFilter
        (WorldSession.Update.initial sampleNeverSession) =
      some (some (samplePacket 1 .CMSG_BUG, sampleDequeued sampleNeverSession)) := rfl
  obtain ⟨st', h1, _, _, h4, h5⟩ := Update_drops_never_unhandled sampleEnv sampleClock
    .WorldSessionFilter (WorldSession.Update.initial sampleNeverSession)
    (sampleDequeued sampleNeverSession) (samplePacket 1 .CMSG_BUG)
    ⟨.STATUS_NEVER, .PROCESS_INPLACE, sampleHandler⟩ hdq rfl (Or.inl rfl)
  exact ⟨hdq, st', h1, h4, h5⟩

theorem filter_isLog_closing (clock : UpdateClock) (iter : Nat) (d : Bool) (packet : WorldPacket) :
    (WorldSession.Update.closing clock iter d packet).filter Event.isLog = [] := by
  rw [List.filter_eq_nil_iff]
  intro e he
  simp [(closing_not_handler clock iter d packet e he).2.2]

/-- C5, as the code has it. A dequeued packet with `STATUS_NEVER` produces exactly one log
line (the error "Received not allowed opcode"); a dequeued packet with `STATUS_UNHANDLED`
produces exactly two: the info line "STATUS_UNHANDLED" to the bad-opcode-handler filter,
then the error "Received not handled opcode" to the opcodes filter. -/
theorem Update_never_unhandled_diagnostics (E : Env) (clock : UpdateClock) (st : UpdateState)
    (packet : WorldPacket) (opHandle : OpcodeHandler)
    (htab : E.opcodeTable packet.opcode = some opHandle) :
    ∃ st', WorldSession.Update.body E clock st packet = some st' ∧
      (opHandle.Status = .STATUS_NEVER →
        (st'.eventsSince st).filter Event.isLog =
          [Event.log .Error .OPCODES (.notAllowedOpcode packet.opcode)]) ∧
      (opHandle.Status = .STATUS_UNHANDLED →
        (st'.eventsSince st).filter Event.isLog =
          [Event.log .Info .BAD_OPCODE_HANDLER (.statusUnhandled packet.opcode packet.wpos),
           Event.log .Error .OPCODES (.notHandledOpcode packet.opcode)]) := by
  rw [body_eq E clock st packet opHandle htab]
  refine ⟨_, rfl, ?_, ?_⟩
  · intro h
    rw [dispatch_never E clock st packet opHandle h]
    simp only [UpdateState.eventsSince, List.append_assoc, List.drop_left, List.filter_append,
      filter_isLog_closing, List.append_nil]
    rfl
  · intro h
    rw [dispatch_unhandled E clock st packet opHandle h]
    simp only [UpdateState.eventsSince, List.append_assoc, List.drop_left, List.filter_append,
      filter_isLog_closing, List.append_nil]
    rfl

/-- Witness for C5 as amended: the `STATUS_NEVER` packet of the sample session yields the
one log line. -/
theorem Update_never_unhandled_diagnostics_witness :
    ∃ st', WorldSession.Update.body sampleEnv sampleClock (sampleDequeued sampleNeverSession)
        (samplePacket 1 .CMSG_BUG) = some st' ∧
      (st'.eventsSince (sampleDequeued sampleNeverSession)).filter Event.isLog =
        [Event.log .Error .OPCODES (.notAllowedOpcode (sampleCode .CMSG_BUG))] := by
  obtain ⟨st', h1, h2, _⟩ := Update_never_unhandled_diagnostics sampleEnv sampleClock
    (sampleDequeued sampleNeverSession) (samplePacket 1 .CMSG_BUG)
    ⟨.STATUS_NEVER, .PROCESS_INPLACE, sampleHandler⟩ rfl
  exact ⟨st', h1, h2 rfl⟩

/-- C5 fails as stated: for the `STATUS_UNHANDLED` packet of the sample session the loop
body emits two log lines, not one. -/
theorem Update_unhandled_two_diagnostics :
    (sampleEnv.opcodeTable (samplePacket 1 .CMSG_SPELLCLICK).opcode).map OpcodeHandler.Status =
      some .STATUS_UNHANDLED ∧
    (WorldSession.Update.body sampleEnv sampleClock (sampleDequeued sampleUnhandledSession)
        (samplePacket 1 .CMSG_SPELLCLICK)).map
      (fun st' => (st'.eventsSince (sampleDequeued sampleUnhandledSession)).countP Event.isLog) =
      some 2 := by
  constructor
  · rfl
  · rfl

/-- C6. A dequeued `STATUS_AUTHED` packet on a session that is still queued (`m_inQueue`) is
dropped: the only effects are the unexpected-opcode error with reason "the player not pass
queue yet" and the closing record/deletion; no handler is invoked, and the session
afterwards is the session before the iteration with only the packet taken out of the receive
queue, so the limiter is untouched and `m_playerRecentlyLogout` keeps its value, whatever
the opcode. -/
theorem Update_authed_in_queue_dropped (E : Env) (clock : UpdateClock) (updater : PacketFilter)
    (st0 st : UpdateState) (packet : WorldPacket) (opHandle : OpcodeHandler)
    (hdq : WorldSession.Update.cond E updater st0 = some (some (packet, st)))
    (htab : E.opcodeTable packet.opcode = some opHandle)
    (hst : opHandle.Status = .STATUS_AUTHED)
    (hqueued : st0.session.m_inQueue = true) :
    ∃ st', WorldSession.Update.body E clock st packet = some st' ∧
      (∃ pre post, st0.session._recvQueue = pre ++ packet :: post ∧
        st'.session._recvQueue = pre ++ post) ∧
      st'.session = { st0.session with _recvQueue := st'.session._recvQueue } ∧
      st'.session.AntiDOS = st0.session.AntiDOS ∧
      st'.session.m_playerRecentlyLogout = st0.session.m_playerRecentlyLogout ∧
      st'.eventsSince st0 =
        Event.log .Error .OPCODES
            (.unexpectedOpcode packet.opcode "STATUS_AUTHED" "the player not pass queue yet") ::
          WorldSession.Update.closing clock st0.iter st0.deletePacket packet ∧
      (∀ e ∈ st'.eventsSince st0, e.isHandler = false) := by
  obtain ⟨hq, hst0⟩ := next_session_eq E updater st0 st packet hdq
  have htr : st.trace = st0.trace := by rw [hst0]
  have hit : st.iter = st0.iter := by rw [hst0]
  have hdel : st.deletePacket = st0.deletePacket := by rw [hst0]
  have hinq : st.session.m_inQueue = true := by rw [hst0]; exact hqueued
  rw [body_eq E clock st packet opHandle htab,
    dispatch_authed_queued E clock st packet opHandle hst hinq]
  have hev : UpdateState.eventsSince
      { session := st.session,
        trace := (st.trace ++ [Event.log .Error .OPCODES
          (.unexpectedOpcode packet.opcode "STATUS_AUTHED" "the player not pass queue yet")]) ++
            WorldSession.Update.closing clock st.iter st.deletePacket packet,
        deletePacket := st.deletePacket, firstDelayedPacket := st.firstDelayedPacket,
        iter := st.iter + 1 } st0 =
      Event.log .Error .OPCODES
          (.unexpectedOpcode packet.opcode "STATUS_AUTHED" "the player not pass queue yet") ::
        WorldSession.Update.closing clock st0.iter st0.deletePacket packet := by
    simp only [UpdateState.eventsSince, htr, hit, hdel, List.append_assoc, List.drop_left,
      List.singleton_append]
  refine ⟨_, rfl, hq, ?_, ?_, ?_, hev, ?_⟩
  · show st.session = _
    rw [hst0]
  · show st.session.AntiDOS = _
    rw [hst0]
  · show st.session.m_playerRecentlyLogout = _
    rw [hst0]
  · intro e he
    rw [hev] at he
    rcases List.mem_cons.mp he with he | he
    · subst he; rfl
    · exact (closing_not_handler _ _ _ _ e he).1

/-- Witness for C6: a `CMSG_CHAR_ENUM` packet on a queued session whose recently-logged-out
flag is set is dropped with the diagnostic and the flag stays set. -/
theorem Update_authed_in_queue_dropped_witness :
    sampleQueuedSession.m_playerRecentlyLogout = true ∧
    ∃ st', WorldSession.Update.body sampleEnv sampleClock (sampleDequeued sampleQueuedSession)
        (samplePacket 1 .CMSG_CHAR_ENUM) = some st' ∧
      st'.session.m_playerRecentlyLogout = true ∧
      st'.eventsSince (WorldSession.Update.initial sampleQueuedSession) =
        [Event.log .Error .OPCODES (.unexpectedOpcode (sampleCode .CMSG_CHAR_ENUM)
          "STATUS_AUTHED" "the player not pass queue yet"), Event.delete 1] := by
  obtain ⟨st', h1, _, _, _, h5, h6, _⟩ := Update_authed_in_queue_dropped sampleEnv sampleClock
    .WorldSessionFilter (WorldSession.Update.initial sampleQueuedSession)
    (sampleDequeued sampleQueuedSession) (samplePacket 1 .CMSG_CHAR_ENUM)
    ⟨.STATUS_AUTHED, .PROCESS_THREADUNSAFE, sampleHandler⟩ rfl rfl rfl rfl
  exact ⟨rfl, st', h1, h5, h6⟩

theorem KickPlayer_events (s : WorldSession) (reason : String) :
    ∀ e ∈ (s.KickPlayer reason).2, e.isHandler = false := by
  intro e he
  unfold WorldSession.KickPlayer at he
  split at he
  · simp only [List.mem_cons, List.mem_singleton, List.not_mem_nil, or_false] at he
    rcases he with he | he <;> subst he <;> rfl
  · simp only [List.mem_singleton] at he
    subst he; rfl

theorem applyPolicy_events (E : Env) (s : WorldSession) :
    ∀ e ∈ (DosProtection.applyPolicy E s).2.2, e.isHandler = false := by
  intro e he
  unfold DosProtection.applyPolicy at he
  split at he
  · simp at he
  · rcases List.mem_cons.mp he with he | he
    · subst he; rfl
    · exact KickPlayer_events s _ e he
  · rcases List.mem_cons.mp he with he | he
    · subst he; rfl
    · rcases List.mem_cons.mp he with he | he
      · subst he; rfl
      · exact KickPlayer_events s _ e he
  · simp at he

theorem evaluateOpcode_events (E : Env) (s : WorldSession) (p : WorldPacket) (time : Int) :
    ∀ e ∈ (DosProtection.EvaluateOpcode E s p time).2.2, e.isHandler = false := by
  intro e he
  unfold DosProtection.EvaluateOpcode at he
  simp only at he
  split_ifs at he
  · simp at he
  · simp at he
  · exact applyPolicy_events E _ e he

theorem LogUnprocessedTail_events (E : Env) (packet : WorldPacket) :
    ∀ e ∈ WorldSession.LogUnprocessedTail E packet, e.isHandler = false := by
  intro e he
  unfold WorldSession.LogUnprocessedTail at he
  rw [List.mem_append] at he
  rcases he with he | he
  · split_ifs at he
    · simp only [List.mem_singleton] at he; subst he; rfl
    · simp at he
  · split_ifs at he
    · simp at he
    · simp only [List.mem_cons, List.mem_singleton, List.not_mem_nil, or_false] at he
      rcases he with he | he <;> subst he <;> rfl

theorem invoke_handler_mem (E : Env) (s : WorldSession) (packet : WorldPacket)
    (opHandle : OpcodeHandler) :
    Event.Handler packet ∈ (WorldSession.Update.invoke E s packet opHandle).2 := by
  unfold WorldSession.Update.invoke
  simp only
  split_ifs <;> simp

theorem invoke_handler_only (E : Env) (s : WorldSession) (packet : WorldPacket)
    (opHandle : OpcodeHandler) :
    ∀ e ∈ (WorldSession.Update.invoke E s packet opHandle).2,
      e.isHandler = true → e = Event.Handler packet := by
  intro e he hh
  unfold WorldSession.Update.invoke at he
  simp only at he
  split_ifs at he
  · simp only [List.mem_cons, List.mem_singleton, List.not_mem_nil, or_false] at he
    rcases he with he | he | he | he | he <;> subst he <;> first | rfl | cases hh
  · simp only [List.cons_append, List.nil_append, List.mem_cons] at he
    rcases he with he | he | he
    · subst he; cases hh
    · exact he
    · rw [LogUnprocessedTail_events E _ e he] at hh; cases hh

theorem dispatch_loggedin_player (E : Env) (clock : UpdateClock) (st : UpdateState)
    (packet : WorldPacket) (opHandle : OpcodeHandler) (player : Player)
    (h : opHandle.Status = .STATUS_LOGGEDIN) (hp : st.session._player = some player) :
    WorldSession.Update.dispatch E clock st packet opHandle =
      if player.inWorld then
        if (DosProtection.EvaluateOpcode E st.session packet clock.currentTime).1 then
          { st with
            session := (WorldSession.Update.invoke E
              (DosProtection.EvaluateOpcode E st.session packet clock.currentTime).2.1 packet
              opHandle).1,
            trace := st.trace ++
              (DosProtection.EvaluateOpcode E st.session packet clock.currentTime).2.2 ++
              (WorldSession.Update.invoke E
                (DosProtection.EvaluateOpcode E st.session packet clock.currentTime).2.1 packet
                opHandle).2 }
        else
          { st with
            session := (DosProtection.EvaluateOpcode E st.session packet clock.currentTime).2.1,
            trace := st.trace ++
              (DosProtection.EvaluateOpcode E st.session packet clock.currentTime).2.2 }
      else st := by
  simp only [WorldSession.Update.dispatch, h, hp]

/-- C10. For a dequeued `STATUS_LOGGEDIN` packet while a player is attached: the handler is
invoked (once, for this packet) if and only if the player is in world and `EvaluateOpcode`
admits the packet; when the player is not in world the packet is dropped: the session
afterwards is the session before the iteration with only the packet taken out of the
receive queue (the limiter is not consulted, the packet is not re-enqueued) and the only
effects are the closing record/deletion. -/
theorem Update_loggedin_with_player (E : Env) (clock : UpdateClock) (updater : PacketFilter)
    (st0 st : UpdateState) (packet : WorldPacket) (opHandle : OpcodeHandler) (player : Player)
    (hdq : WorldSession.Update.cond E updater st0 = some (some (packet, st)))
    (htab : E.opcodeTable packet.opcode = some opHandle)
    (hst : opHandle.Status = .STATUS_LOGGEDIN)
    (hpl : st0.session._player = some player) :
    ∃ st', WorldSession.Update.body E clock st packet = some st' ∧
      (Event.Handler packet ∈ st'.eventsSince st0 ↔
        player.inWorld = true ∧
          (DosProtection.EvaluateOpcode E st.session packet clock.currentTime).1 = true) ∧
      (∀ e ∈ st'.eventsSince st0, e.isHandler = true → e = Event.Handler packet) ∧
      (player.inWorld = false →
        (∃ pre post, st0.session._recvQueue = pre ++ packet :: post ∧
          st'.session._recvQueue = pre ++ post) ∧
        st'.session = { st0.session with _recvQueue := st'.session._recvQueue } ∧
        st'.session.AntiDOS = st0.session.AntiDOS ∧
        st'.eventsSince st0 =
          WorldSession.Update.closing clock st0.iter st0.deletePacket packet) := by
  obtain ⟨hq, hst0⟩ := next_session_eq E updater st0 st packet hdq
  have htr : st.trace = st0.trace := by rw [hst0]
  have hit : st.iter = st0.iter := by rw [hst0]
  have hdel : st.deletePacket = st0.deletePacket := by rw [hst0]
  have hp : st.session._player = some player := by rw [hst0]; exact hpl
  rw [body_eq E clock st packet opHandle htab,
    dispatch_loggedin_player E clock st packet opHandle player hst hp]
  refine ⟨_, rfl, ?_⟩
  cases hw : player.inWorld with
  | false =>
    simp only [Bool.false_eq_true, if_false, false_and, iff_false, true_implies]
    have hev : UpdateState.eventsSince
        { session := st.session,
          trace := st.trace ++ WorldSession.Update.closing clock st.iter st.deletePacket packet,
          deletePacket := st.deletePacket, firstDelayedPacket := st.firstDelayedPacket,
          iter := st.iter + 1 } st0 =
        WorldSession.Update.closing clock st0.iter st0.deletePacket packet := by
      simp only [UpdateState.eventsSince, htr, hit, hdel, List.drop_left]
    refine ⟨?_, ?_, hq, ?_, ?_, hev⟩
    · rw [hev]
      intro hmem
      have := (closing_not_handler _ _ _ _ _ hmem).1
      cases this
    · intro e he hh
      rw [hev] at he
      rw [(closing_not_handler _ _ _ _ e he).1] at hh
      cases hh
    · show st.session = _
      rw [hst0]
    · show st.session.AntiDOS = _
      rw [hst0]
  | true =>
    simp only [if_true, true_and, Bool.true_eq_false, false_implies, and_true]
    cases hadm : (DosProtection.EvaluateOpcode E st.session packet clock.currentTime).1 with
    | false =>
      simp only [Bool.false_eq_true, if_false, iff_false]
      have hev : ∀ e, e ∈ UpdateState.eventsSince
          { session := (DosProtection.EvaluateOpcode E st.session packet clock.currentTime).2.1,
            trace := st.trace ++
                (DosProtection.EvaluateOpcode E st.session packet clock.currentTime).2.2 ++
              WorldSession.Update.closing clock st.iter st.deletePacket packet,
            deletePacket := st.deletePacket, firstDelayedPacket := st.firstDelayedPacket,
            iter := st.iter + 1 } st0 → e.isHandler = false := by
        intro e he
        simp only [UpdateState.eventsSince, htr, List.append_assoc, List.drop_left,
          List.mem_append] at he
        rcases he with he | he
        · exact evaluateOpcode_events _ _ _ _ e he
        · exact (closing_not_handler _ _ _ _ e he).1
      refine ⟨?_, ?_⟩
      · intro hmem
        have := hev _ hmem
        cases this
      · intro e he hh
        rw [hev e he] at hh
        cases hh
    | true =>
      simp only [if_true, iff_true]
      have hsub : ∀ e, e ∈ UpdateState.eventsSince
          { session := (WorldSession.Update.invoke E
              (DosProtection.EvaluateOpcode E st.session packet clock.currentTime).2.1 packet
              opHandle).1,
            trace := st.trace ++
                (DosProtection.EvaluateOpcode E st.session packet clock.currentTime).2.2 ++
                (WorldSession.Update.invoke E
                  (DosProtection.EvaluateOpcode E st.session packet clock.currentTime).2.1 packet
                  opHandle).2 ++
              WorldSession.Update.closing clock st.iter st.deletePacket packet,
            deletePacket := st.deletePacket, firstDelayedPacket := st.firstDelayedPacket,
            iter := st.iter + 1 } st0 ↔
          (e ∈ (DosProtection.EvaluateOpcode E st.session packet clock.currentTime).2.2 ∨
            e ∈ (WorldSession.Update.invoke E
              (DosProtection.EvaluateOpcode E st.session packet clock.currentTime).2.1 packet
              opHandle).2 ∨
            e ∈ WorldSession.Update.closing clock st.iter st.deletePacket packet) := by
        intro e
        simp only [UpdateState.eventsSince, htr, List.append_assoc, List.drop_left,
          List.mem_append]
      refine ⟨?_, ?_⟩
      · exact (hsub _).mpr (Or.inr (Or.inl (invoke_handler_mem _ _ _ _)))
      · intro e he hh
        rcases (hsub e).mp he with he | he | he
        · rw [evaluateOpcode_events _ _ _ _ e he] at hh; cases hh
        · exact invoke_handler_only _ _ _ _ e he hh
        · rw [(closing_not_handler _ _ _ _ e he).1] at hh; cases hh

/-- Witness for C10: with a player in world, the `CMSG_NAME_QUERY` packet (no ceiling) is
handed to its handler. -/
theorem Update_loggedin_with_player_witness :
    ∃ st', WorldSession.Update.body sampleEnv sampleClock
        (sampleDequeued (samplePlayerSession true)) (samplePacket 1 .CMSG_NAME_QUERY) = some st' ∧
      Event.Handler (samplePacket 1 .CMSG_NAME_QUERY) ∈
        st'.eventsSince (WorldSession.Update.initial (samplePlayerSession true)) := by
  obtain ⟨st', h1, h2, _⟩ := Update_loggedin_with_player sampleEnv sampleClock
    .MapSessionFilter (WorldSession.Update.initial (samplePlayerSession true))
    (sampleDequeued (samplePlayerSession true)) (samplePacket 1 .CMSG_NAME_QUERY)
    ⟨.STATUS_LOGGEDIN, .PROCESS_THREADSAFE, sampleHandler⟩ ⟨true⟩ rfl rfl rfl rfl
  exact ⟨st', h1, h2.mpr ⟨rfl, rfl⟩⟩

/-! ## The dispatch loop: deferred packets -/

/-- C7 at a failing input. A `CMSG_WHO` packet (`STATUS_LOGGEDIN`) arrived in second 1000
while no player is attached; `QueuePacket` throttles this opcode to one a second. `Update`
runs in the same second: the packet is dequeued, the re-enqueue goes through `QueuePacket`,
whose throttler counts the packet a second time and destroys it. After the iteration the
receive queue is empty and the packet has been deleted. -/
theorem Update_reenqueue_discarded :
    sampleThrottledSession._recvQueue = [samplePacket 1 .CMSG_WHO] ∧
    WorldSession.Update.cond sampleEnv .WorldSessionFilter
        (WorldSession.Update.initial sampleThrottledSession) =
      some (some (samplePacket 1 .CMSG_WHO, sampleDequeued sampleThrottledSession)) ∧
    (WorldSession.Update.body sampleEnv sampleClock (sampleDequeued sampleThrottledSession)
        (samplePacket 1 .CMSG_WHO)).map (fun st' => (st'.session._recvQueue, st'.trace)) =
      some ([], [Event.log .Info .NETWORK (.discarded 1 (sampleCode .CMSG_WHO) 1 "127.0.0.1"),
        Event.delete 1, Event.log .Debug .NETWORK (.reenqueue (sampleCode .CMSG_WHO))]) :=
  ⟨rfl, rfl, rfl⟩

/-- C9 at a failing input. A `STATUS_LOGGEDIN` packet (address 1) and a `STATUS_NEVER`
packet (address 2) are queued while no player is attached. The first iteration defers
packet 1 and clears `deletePacket`, which is never set again; the second iteration drops
packet 2 without deleting it. The loop then stops with packet 2 neither in the receive
queue nor deleted. -/
theorem Update_leaks_after_deferral :
    sampleLeakSession._recvQueue = [samplePacket 1 .CMSG_NAME_QUERY, samplePacket 2 .CMSG_BUG] ∧
    (WorldSession.Update.loop sampleEnv sampleClock .WorldSessionFilter 2
      (WorldSession.Update.initial sampleLeakSession)).isFinished = true ∧
    (WorldSession.Update.loop sampleEnv sampleClock .WorldSessionFilter 2
      (WorldSession.Update.initial sampleLeakSession)).state.session._recvQueue =
        [samplePacket 1 .CMSG_NAME_QUERY] ∧
    (WorldSession.Update.loop sampleEnv sampleClock .WorldSessionFilter 2
      (WorldSession.Update.initial sampleLeakSession)).state.trace =
        [Event.log .Debug .NETWORK (.reenqueue (sampleCode .CMSG_NAME_QUERY)),
         Event.log .Error .OPCODES (.notAllowedOpcode (sampleCode .CMSG_BUG))] ∧
    Event.delete 2 ∉ (WorldSession.Update.loop sampleEnv sampleClock .WorldSessionFilter 2
      (WorldSession.Update.initial sampleLeakSession)).state.trace :=
  ⟨rfl, rfl, rfl, rfl, by decide⟩

theorem MustDiscard_unthrottled (E : Env) (t : PacketThrottler) (opcode account : Nat)
    (address : String) (now logNow : Int) (h : E.opcodePerSecond opcode % 2 ^ 32 = 0) :
    t.MustDiscard E opcode account address now logNow = (false, t, []) := by
  simp only [PacketThrottler.MustDiscard, h, ne_eq, not_true_eq_false, if_false]

theorem QueuePacket_unthrottled (E : Env) (s : WorldSession) (p : WorldPacket)
    (now logNow : Int) (h : E.opcodePerSecond (p.opcode % 65536) % 2 ^ 32 = 0) :
    s.QueuePacket E p now logNow = ({ s with _recvQueue := s._recvQueue ++ [p] }, []) := by
  simp [WorldSession.QueuePacket, MustDiscard_unthrottled E _ _ _ _ _ _ h, LockedQueue.add]

theorem dispatch_loggedin_deferred (E : Env) (clock : UpdateClock) (st : UpdateState)
    (packet : WorldPacket) (opHandle : OpcodeHandler)
    (h : opHandle.Status = .STATUS_LOGGEDIN) (hp : st.session._player = none)
    (hr : st.session.m_playerRecentlyLogout = false) :
    WorldSession.Update.dispatch E clock st packet opHandle =
      { st with
        firstDelayedPacket :=
          (if st.firstDelayedPacket.isNone then some packet.addr else st.firstDelayedPacket),
        deletePacket := false,
        session := (st.session.QueuePacket E packet (clock.throttleTime st.iter)
          (clock.logTime st.iter)).1,
        trace := st.trace ++ (st.session.QueuePacket E packet (clock.throttleTime st.iter)
          (clock.logTime st.iter)).2 ++
          [Event.log .Debug .NETWORK (.reenqueue packet.opcode)] } := by
  simp only [WorldSession.Update.dispatch, h, hp, hr, Bool.not_false, if_true]

theorem sampleStuck_cond (st : UpdateState) (h : sampleStuck st) :
    WorldSession.Update.cond sampleEnv .WorldSessionFilter st =
      some (some (samplePacket 2 .CMSG_NAME_QUERY,
        { st with session := { st.session with _recvQueue := [] } })) := by
  obtain ⟨hq, hs, hp, _, hf⟩ := h
  have htab : sampleEnv.opcodeTable
      (sampleEnv.DropHighBytes (samplePacket 2 .CMSG_NAME_QUERY).opcode) =
      some ⟨.STATUS_LOGGEDIN, .PROCESS_THREADSAFE, sampleHandler⟩ := rfl
  have hfilter : PacketFilter.Process sampleEnv .WorldSessionFilter st.session
      (samplePacket 2 .CMSG_NAME_QUERY) = some true := by
    simp [PacketFilter.Process, WorldSessionFilter.Process, htab, hp]
  have haddr :
      ¬ (Option.map WorldPacket.addr (some (samplePacket 2 .CMSG_NAME_QUERY)) = some 1) := by
    decide
  simp only [WorldSession.Update.cond, hs, hq, LockedQueue.empty, LockedQueue.peek,
    LockedQueue.next, hfilter, hf, haddr, List.isEmpty_cons, Bool.false_eq_true, if_false]

theorem sampleStuck_body (clock : UpdateClock) (st : UpdateState) (h : sampleStuck st) :
    ∃ st1, WorldSession.Update.body sampleEnv clock
        { st with session := { st.session with _recvQueue := [] } }
        (samplePacket 2 .CMSG_NAME_QUERY) = some st1 ∧ sampleStuck st1 ∧
        st1.iter = st.iter + 1 := by
  obtain ⟨_, hs, hp, hr, hf⟩ := h
  have htab : sampleEnv.opcodeTable (samplePacket 2 .CMSG_NAME_QUERY).opcode =
      some ⟨.STATUS_LOGGEDIN, .PROCESS_THREADSAFE, sampleHandler⟩ := rfl
  have hd := dispatch_loggedin_deferred sampleEnv clock
    { st with session := { st.session with _recvQueue := [] } }
    (samplePacket 2 .CMSG_NAME_QUERY) ⟨.STATUS_LOGGEDIN, .PROCESS_THREADSAFE, sampleHandler⟩
    rfl hp hr
  have hthr : sampleEnv.opcodePerSecond ((samplePacket 2 .CMSG_NAME_QUERY).opcode % 65536) %
      2 ^ 32 = 0 := by decide
  rw [body_eq sampleEnv clock _ _ _ htab, hd,
    QueuePacket_unthrottled sampleEnv _ (samplePacket 2 .CMSG_NAME_QUERY) _ _ hthr]
  refine ⟨_, rfl, ?_, rfl⟩
  refine ⟨rfl, hs, hp, hr, ?_⟩
  simp [hf]

theorem sampleStuck_diverges (clock : UpdateClock) (fuel : Nat) :
    ∀ st, sampleStuck st →
      ∃ st', WorldSession.Update.loop sampleEnv clock .WorldSessionFilter fuel st =
        .outOfFuel st' ∧ st'.iter = st.iter + fuel := by
  induction fuel with
  | zero =>
    intro st h
    exact ⟨st, by simp only [WorldSession.Update.loop, sampleStuck_cond st h], rfl⟩
  | succ n ih =>
    intro st h
    obtain ⟨st1, hb, h1, hi⟩ := sampleStuck_body clock st h
    obtain ⟨st', hl, hi'⟩ := ih st1 h1
    refine ⟨st', ?_, ?_⟩
    · simp only [WorldSession.Update.loop, sampleStuck_cond st h, hb, hl]
    · rw [hi', hi]; omega

theorem MustDiscard_over (E : Env) (t : PacketThrottler) (opcode account : Nat)
    (address : String) (now logNow : Int) (hmax : E.opcodePerSecond opcode % 2 ^ 32 ≠ 0)
    (htime : now = (t.m_opcodes opcode).time)
    (hcount : ((t.m_opcodes opcode).count + 1) % 2 ^ 32 > E.opcodePerSecond opcode % 2 ^ 32) :
    (t.MustDiscard E opcode account address now logNow).1 = true := by
  simp only [PacketThrottler.MustDiscard, if_pos hmax, if_pos htime, if_pos hcount]
  split_ifs <;> rfl

theorem QueuePacket_frame (E : Env) (s : WorldSession) (p : WorldPacket) (now logNow : Int) :
    (s.QueuePacket E p now logNow).1 =
      { s with
        m_packetThrottler := (s.m_packetThrottler.MustDiscard E (p.opcode % 65536) s._accountId
          s.m_Address now logNow).2.1,
        _recvQueue :=
          if (s.m_packetThrottler.MustDiscard E (p.opcode % 65536) s._accountId
            s.m_Address now logNow).1 then s._recvQueue
          else s._recvQueue ++ [p] } := by
  unfold WorldSession.QueuePacket
  simp only
  split_ifs <;> rfl

theorem sampleStuck_reached (clock : UpdateClock) (h0 : clock.throttleTime 0 = 1000) :
    ∃ st1,
      WorldSession.Update.body sampleEnv clock
        { WorldSession.Update.initial sampleStuckSession with
          session := { sampleStuckSession with
            _recvQueue := [samplePacket 2 .CMSG_NAME_QUERY] } }
        (samplePacket 1 .CMSG_WHO) = some st1 ∧
      sampleStuck st1 ∧ st1.iter = 1 := by
  have htab : sampleEnv.opcodeTable (samplePacket 1 .CMSG_WHO).opcode =
      some ⟨.STATUS_LOGGEDIN, .PROCESS_THREADSAFE, sampleHandler⟩ := rfl
  have hd := dispatch_loggedin_deferred sampleEnv clock
    { WorldSession.Update.initial sampleStuckSession with
      session := { sampleStuckSession with _recvQueue := [samplePacket 2 .CMSG_NAME_QUERY] } }
    (samplePacket 1 .CMSG_WHO) ⟨.STATUS_LOGGEDIN, .PROCESS_THREADSAFE, sampleHandler⟩
    rfl rfl rfl
  have hdis := MustDiscard_over sampleEnv sampleStuckSession.m_packetThrottler
    ((samplePacket 1 .CMSG_WHO).opcode % 65536) 1 "127.0.0.1" 1000 (clock.logTime 0)
    (by decide) rfl (by decide)
  rw [body_eq sampleEnv clock _ _ _ htab, hd, QueuePacket_frame]
  refine ⟨_, rfl, ?_, rfl⟩
  refine ⟨?_, rfl, rfl, rfl, rfl⟩
  show (if (PacketThrottler.MustDiscard sampleEnv sampleStuckSession.m_packetThrottler
      ((samplePacket 1 .CMSG_WHO).opcode % 65536) 1 "127.0.0.1" (clock.throttleTime 0)
      (clock.logTime 0)).1 = true then [samplePacket 2 .CMSG_NAME_QUERY]
    else [samplePacket 2 .CMSG_NAME_QUERY] ++ [samplePacket 1 .CMSG_WHO]) = _
  rw [h0, if_pos hdis]

theorem stuck_from_start (clock : UpdateClock) (h0 : clock.throttleTime 0 = 1000)
    (fuel : Nat) :
    ∃ st, WorldSession.Update.loop sampleEnv clock .WorldSessionFilter fuel
        (WorldSession.Update.initial sampleStuckSession) = .outOfFuel st ∧ st.iter = fuel := by
  have hc : WorldSession.Update.cond sampleEnv .WorldSessionFilter
      (WorldSession.Update.initial sampleStuckSession) =
      some (some (samplePacket 1 .CMSG_WHO,
        { WorldSession.Update.initial sampleStuckSession with
          session := { sampleStuckSession with
            _recvQueue := [samplePacket 2 .CMSG_NAME_QUERY] } })) := rfl
  cases fuel with
  | zero =>
    exact ⟨WorldSession.Update.initial sampleStuckSession,
      by simp only [WorldSession.Update.loop, hc], rfl⟩
  | succ n =>
    obtain ⟨st1, hb, h1, hi⟩ := sampleStuck_reached clock h0
    obtain ⟨st', hl, hi'⟩ := sampleStuck_diverges clock n st1 h1
    refine ⟨st', ?_, ?_⟩
    · simp only [WorldSession.Update.loop, hc, hb, hl]
    · rw [hi', hi]; omega

/-- C8 at a failing input. A throttled `CMSG_WHO` packet (address 1) and an unthrottled
`CMSG_NAME_QUERY` packet (address 2), both `STATUS_LOGGEDIN`, arrived in second 1000 while no
player is attached. `Update` runs in the same second: packet 1 is deferred first, so
`firstDelayedPacket` holds its address, but the re-enqueue destroys it in `QueuePacket`;
packet 2 is then dequeued and re-enqueued in every iteration and the loop condition never
finds `firstDelayedPacket` in the queue. For every number of iterations the loop is still
running. -/
theorem Update_deferral_loops_forever (fuel : Nat) :
    sampleStuckSession._recvQueue = [samplePacket 1 .CMSG_WHO, samplePacket 2 .CMSG_NAME_QUERY] ∧
    ∃ st, WorldSession.Update.loop sampleEnv sampleClock .WorldSessionFilter fuel
        (WorldSession.Update.initial sampleStuckSession) = .outOfFuel st ∧ st.iter = fuel :=
  ⟨rfl, stuck_from_start sampleClock rfl fuel⟩

/-! ## The dispatch loop: the rate-limited branches -/

theorem dispatch_of_consulted (E : Env) (clock : UpdateClock) (st : UpdateState)
    (packet : WorldPacket) (opHandle : OpcodeHandler) (s' : WorldSession)
    (hc : WorldSession.Update.consulted E st.session packet opHandle = some s') :
    WorldSession.Update.dispatch E clock st packet opHandle =
      WorldSession.Update.evaluated E clock st s' packet opHandle
        (WorldSession.Update.rejected packet opHandle) := by
  unfold WorldSession.Update.consulted at hc
  unfold WorldSession.Update.dispatch WorldSession.Update.evaluated WorldSession.Update.rejected
  cases hs : opHandle.Status <;> simp only [hs] at hc ⊢
  · -- STATUS_AUTHED
    by_cases hq : st.session.m_inQueue = true
    · simp [hq] at hc
    · simp only [hq, Bool.false_eq_true, if_false, Option.some.injEq] at hc
      subst hc
      simp only [hq, Bool.false_eq_true, if_false, if_true]
  · -- STATUS_LOGGEDIN
    cases hp : st.session._player with
    | none => simp [hp] at hc
    | some player =>
      simp only [hp] at hc ⊢
      split_ifs at hc with hw
      simp only [Option.some.injEq] at hc
      subst hc
      simp [hw]
  · -- STATUS_TRANSFER
    cases hp : st.session._player with
    | none => simp [hp] at hc
    | some player =>
      simp only [hp] at hc ⊢
      split_ifs at hc with hw
      simp only [Option.some.injEq] at hc
      subst hc
      simp [hw]
  · -- STATUS_LOGGEDIN_OR_RECENTLY_LOGGOUT
    by_cases hq : (st.session._player.isNone && !st.session.m_playerRecentlyLogout &&
        !st.session.m_playerLogout) = true
    · simp [hq] at hc
    · simp only [hq, Bool.false_eq_true, if_false, Option.some.injEq] at hc
      subst hc
      simp only [hq, Bool.false_eq_true, if_false, if_true]
      split_ifs <;> first | contradiction | simp
  · simp at hc
  · simp at hc

theorem rejected_not_handler (packet : WorldPacket) (opHandle : OpcodeHandler) :
    ∀ e ∈ WorldSession.Update.rejected packet opHandle, e.isHandler = false := by
  intro e he
  unfold WorldSession.Update.rejected at he
  split_ifs at he
  · simp only [List.mem_singleton] at he; subst he; rfl
  · simp at he

theorem bodyWith_eq (E : Env) (clock : UpdateClock) (st : UpdateState) (packet : WorldPacket)
    (opHandle : OpcodeHandler) (htab : E.opcodeTable packet.opcode = some opHandle) :
    WorldSession.Update.body E clock st packet =
      some (WorldSession.Update.bodyWith E clock st packet opHandle) := by
  rw [body_eq E clock st packet opHandle htab]
  rfl

theorem bodyWith_events (E : Env) (clock : UpdateClock) (st0 st : UpdateState)
    (packet : WorldPacket) (opHandle : OpcodeHandler) (evs : List Event)
    (htr : st.trace = st0.trace)
    (hd : (WorldSession.Update.dispatch E clock st packet opHandle).trace = st.trace ++ evs) :
    (WorldSession.Update.bodyWith E clock st packet opHandle).eventsSince st0 =
      evs ++ WorldSession.Update.closing clock st.iter
        (WorldSession.Update.dispatch E clock st packet opHandle).deletePacket packet := by
  simp only [UpdateState.eventsSince, WorldSession.Update.bodyWith, hd, htr, List.append_assoc,
    List.drop_left]

theorem evaluated_trace (E : Env) (clock : UpdateClock) (st : UpdateState) (s' : WorldSession)
    (packet : WorldPacket) (opHandle : OpcodeHandler) (rej : List Event) :
    (WorldSession.Update.evaluated E clock st s' packet opHandle rej).trace =
      st.trace ++ ((DosProtection.EvaluateOpcode E s' packet clock.currentTime).2.2 ++
        if (DosProtection.EvaluateOpcode E s' packet clock.currentTime).1 then
          (WorldSession.Update.invoke E
            (DosProtection.EvaluateOpcode E s' packet clock.currentTime).2.1 packet opHandle).2
        else rej) := by
  unfold WorldSession.Update.evaluated
  split_ifs <;> simp [List.append_assoc]

theorem evaluated_locals (E : Env) (clock : UpdateClock) (st : UpdateState) (s' : WorldSession)
    (packet : WorldPacket) (opHandle : OpcodeHandler) (rej : List Event) :
    (WorldSession.Update.evaluated E clock st s' packet opHandle rej).deletePacket =
        st.deletePacket ∧
      (WorldSession.Update.evaluated E clock st s' packet opHandle rej).firstDelayedPacket =
        st.firstDelayedPacket ∧
      (WorldSession.Update.evaluated E clock st s' packet opHandle rej).iter = st.iter := by
  unfold WorldSession.Update.evaluated
  split_ifs <;> exact ⟨rfl, rfl, rfl⟩

theorem invoke_session (E : Env) (s : WorldSession) (packet : WorldPacket)
    (opHandle : OpcodeHandler) :
    (WorldSession.Update.invoke E s packet opHandle).1 = (opHandle.Handler s packet).session := by
  unfold WorldSession.Update.invoke
  simp only
  split_ifs <;> rfl

theorem evaluated_session (E : Env) (clock : UpdateClock) (st : UpdateState) (s' : WorldSession)
    (packet : WorldPacket) (opHandle : OpcodeHandler) (rej : List Event) :
    (WorldSession.Update.evaluated E clock st s' packet opHandle rej).session =
      if (DosProtection.EvaluateOpcode E s' packet clock.currentTime).1 then
        (opHandle.Handler (DosProtection.EvaluateOpcode E s' packet clock.currentTime).2.1
          packet).session
      else (DosProtection.EvaluateOpcode E s' packet clock.currentTime).2.1 := by
  unfold WorldSession.Update.evaluated
  split_ifs
  · exact invoke_session _ _ _ _
  · rfl

/-- For the branches that consult the limiter: the effects of the iteration hold the
invocation of the packet's handler exactly when `EvaluateOpcode` returns true, and no other
handler invocation. -/
theorem consulted_handler_iff (E : Env) (clock : UpdateClock) (st0 st : UpdateState)
    (packet : WorldPacket) (opHandle : OpcodeHandler) (s' : WorldSession)
    (htr : st.trace = st0.trace)
    (hc : WorldSession.Update.consulted E st.session packet opHandle = some s') :
    (Event.Handler packet ∈
        (WorldSession.Update.bodyWith E clock st packet opHandle).eventsSince st0 ↔
      (DosProtection.EvaluateOpcode E s' packet clock.currentTime).1 = true) ∧
    (∀ e ∈ (WorldSession.Update.bodyWith E clock st packet opHandle).eventsSince st0,
      e.isHandler = true → e = Event.Handler packet) := by
  have hd := dispatch_of_consulted E clock st packet opHandle s' hc
  have hev := bodyWith_events E clock st0 st packet opHandle _ htr
    (by rw [hd]; exact evaluated_trace E clock st s' packet opHandle _)
  rw [hev]
  cases hadm : (DosProtection.EvaluateOpcode E s' packet clock.currentTime).1 with
  | true =>
    simp only [if_true, iff_true]
    refine ⟨?_, ?_⟩
    · simp only [List.mem_append]
      exact Or.inl (Or.inr (invoke_handler_mem _ _ _ _))
    · intro e he hh
      simp only [List.mem_append] at he
      rcases he with (he | he) | he
      · rw [evaluateOpcode_events _ _ _ _ e he] at hh; cases hh
      · exact invoke_handler_only _ _ _ _ e he hh
      · rw [(closing_not_handler _ _ _ _ e he).1] at hh; cases hh
  | false =>
    simp only [Bool.false_eq_true, if_false, iff_false]
    have hno : ∀ e ∈ ((DosProtection.EvaluateOpcode E s' packet clock.currentTime).2.2 ++
        WorldSession.Update.rejected packet opHandle) ++
        WorldSession.Update.closing clock st.iter
          (WorldSession.Update.dispatch E clock st packet opHandle).deletePacket packet,
        e.isHandler = false := by
      intro e he
      simp only [List.mem_append] at he
      rcases he with (he | he) | he
      · exact evaluateOpcode_events _ _ _ _ e he
      · exact rejected_not_handler _ _ e he
      · exact (closing_not_handler _ _ _ _ e he).1
    refine ⟨?_, ?_⟩
    · intro hmem
      have := hno _ hmem
      cases this
    · intro e he hh
      rw [hno e he] at hh
      cases hh

theorem dispatch_recently_unexpected (E : Env) (clock : UpdateClock) (st : UpdateState)
    (packet : WorldPacket) (opHandle : OpcodeHandler)
    (h : opHandle.Status = .STATUS_LOGGEDIN_OR_RECENTLY_LOGGOUT)
    (hp : st.session._player = none) (hr : st.session.m_playerRecentlyLogout = false)
    (hl : st.session.m_playerLogout = false) :
    WorldSession.Update.dispatch E clock st packet opHandle =
      { st with trace := st.trace ++
          [Event.log .Error .OPCODES
            (.unexpectedOpcode packet.opcode "STATUS_LOGGEDIN_OR_RECENTLY_LOGGOUT"
              "the player has not logged in yet and not recently logout")] } := by
  simp only [WorldSession.Update.dispatch, h, hp, hr, hl, Option.isNone_none, Bool.not_false,
    Bool.and_self, if_true, WorldSession.LogUnexpectedOpcode]

theorem consulted_recently (E : Env) (s : WorldSession) (packet : WorldPacket)
    (opHandle : OpcodeHandler) (h : opHandle.Status = .STATUS_LOGGEDIN_OR_RECENTLY_LOGGOUT)
    (hn : ¬ (s._player = none ∧ s.m_playerRecentlyLogout = false ∧ s.m_playerLogout = false)) :
    WorldSession.Update.consulted E s packet opHandle = some s := by
  simp only [WorldSession.Update.consulted, h]
  rw [if_neg]
  intro hq
  apply hn
  simp only [Bool.and_eq_true, Bool.not_eq_true', Option.isNone_iff_eq_none] at hq
  exact ⟨hq.1.1, hq.1.2, hq.2⟩

/-- What the dequeue leaves of the state: facts used by the per-status theorems. -/
theorem dequeued_frame (E : Env) (updater : PacketFilter) (st0 st : UpdateState)
    (packet : WorldPacket)
    (hdq : WorldSession.Update.cond E updater st0 = some (some (packet, st))) :
    st.trace = st0.trace ∧ st.iter = st0.iter ∧ st.deletePacket = st0.deletePacket ∧
      st.firstDelayedPacket = st0.firstDelayedPacket ∧
      st.session = { st0.session with _recvQueue := st.session._recvQueue } ∧
      st.session._player = st0.session._player ∧
      st.session.m_playerRecentlyLogout = st0.session.m_playerRecentlyLogout ∧
      st.session.m_playerLogout = st0.session.m_playerLogout ∧
      st.session.m_inQueue = st0.session.m_inQueue ∧
      st.session.AntiDOS = st0.session.AntiDOS ∧
      st.session.m_Socket = st0.session.m_Socket := by
  obtain ⟨_, hst0⟩ := next_session_eq E updater st0 st packet hdq
  refine ⟨?_, ?_, ?_, ?_, ?_, ?_, ?_, ?_, ?_, ?_, ?_⟩ <;> rw [hst0]

/-- C11, as the code has it. For a dequeued `STATUS_LOGGEDIN_OR_RECENTLY_LOGGOUT` packet:
when no player is attached, `m_playerRecentlyLogout` is not set and no logout is in progress
(`m_playerLogout` is not set), the packet is logged as unexpected and dropped: no handler
runs and the session only loses the packet from the receive queue, so the limiter is not
consulted. In every other state the handler is invoked if and only if `EvaluateOpcode`
admits the packet. -/
theorem Update_loggedin_or_recently_out (E : Env) (clock : UpdateClock)
    (updater : PacketFilter) (st0 st : UpdateState) (packet : WorldPacket)
    (opHandle : OpcodeHandler)
    (hdq : WorldSession.Update.cond E updater st0 = some (some (packet, st)))
    (htab : E.opcodeTable packet.opcode = some opHandle)
    (hst : opHandle.Status = .STATUS_LOGGEDIN_OR_RECENTLY_LOGGOUT) :
    ∃ st', WorldSession.Update.body E clock st packet = some st' ∧
      ((st0.session._player = none ∧ st0.session.m_playerRecentlyLogout = false ∧
          st0.session.m_playerLogout = false) →
        (∃ pre post, st0.session._recvQueue = pre ++ packet :: post ∧
          st'.session._recvQueue = pre ++ post) ∧
        st'.session = { st0.session with _recvQueue := st'.session._recvQueue } ∧
        st'.session.AntiDOS = st0.session.AntiDOS ∧
        st'.eventsSince st0 =
          Event.log .Error .OPCODES
              (.unexpectedOpcode packet.opcode "STATUS_LOGGEDIN_OR_RECENTLY_LOGGOUT"
                "the player has not logged in yet and not recently logout") ::
            WorldSession.Update.closing clock st0.iter st0.deletePacket packet ∧
        (∀ e ∈ st'.eventsSince st0, e.isHandler = false)) ∧
      (¬ (st0.session._player = none ∧ st0.session.m_playerRecentlyLogout = false ∧
          st0.session.m_playerLogout = false) →
        (Event.Handler packet ∈ st'.eventsSince st0 ↔
          (DosProtection.EvaluateOpcode E st.session packet clock.currentTime).1 = true) ∧
        (∀ e ∈ st'.eventsSince st0, e.isHandler = true → e = Event.Handler packet)) := by
  obtain ⟨hq, _⟩ := next_session_eq E updater st0 st packet hdq
  obtain ⟨htr, hit, hdel, _, hses, hpl, hrl, hlo, _, hanti, _⟩ :=
    dequeued_frame E updater st0 st packet hdq
  refine ⟨_, bodyWith_eq E clock st packet opHandle htab, ?_, ?_⟩
  · rintro ⟨hp, hr, hl⟩
    have hd := dispatch_recently_unexpected E clock st packet opHandle hst
      (hpl.trans hp) (hrl.trans hr) (hlo.trans hl)
    have hev := bodyWith_events E clock st0 st packet opHandle _ htr
      (by rw [hd])
    have hdp : (WorldSession.Update.dispatch E clock st packet opHandle).deletePacket =
        st0.deletePacket := by rw [hd]; exact hdel
    have hds : (WorldSession.Update.bodyWith E clock st packet opHandle).session =
        st.session := by
      show (WorldSession.Update.dispatch E clock st packet opHandle).session = _
      rw [hd]
    rw [hev, hdp, hit, hds]
    refine ⟨hq, hses, hanti, rfl, ?_⟩
    intro e he
    rcases List.mem_cons.mp he with he | he
    · subst he; rfl
    · exact (closing_not_handler _ _ _ _ e he).1
  · intro hn
    have hc := consulted_recently E st.session packet opHandle hst
      (by rw [hpl, hrl, hlo]; exact hn)
    exact consulted_handler_iff E clock st0 st packet opHandle st.session htr hc

/-- Witness for C11 as amended: with no player, no recent logout and no logout in progress
the packet of the sample session is logged as unexpected and dropped. -/
theorem Update_loggedin_or_recently_out_witness :
    ∃ st', WorldSession.Update.body sampleEnvMore sampleClock (sampleDequeued sampleFreshSession)
        (samplePacket 1 .CMSG_REALM_SPLIT) = some st' ∧
      st'.eventsSince (WorldSession.Update.initial sampleFreshSession) =
        [Event.log .Error .OPCODES
          (.unexpectedOpcode (sampleCode .CMSG_REALM_SPLIT) "STATUS_LOGGEDIN_OR_RECENTLY_LOGGOUT"
            "the player has not logged in yet and not recently logout"), Event.delete 1] := by
  obtain ⟨st', h1, h2, _⟩ := Update_loggedin_or_recently_out sampleEnvMore sampleClock
    .WorldSessionFilter (WorldSession.Update.initial sampleFreshSession)
    (sampleDequeued sampleFreshSession) (samplePacket 1 .CMSG_REALM_SPLIT)
    ⟨.STATUS_LOGGEDIN_OR_RECENTLY_LOGGOUT, .PROCESS_THREADUNSAFE, sampleHandler⟩ rfl rfl rfl
  exact ⟨st', h1, (h2 ⟨rfl, rfl, rfl⟩).2.2.2.1⟩

/-- C11 fails as stated: in the sample session no player is attached and
`m_playerRecentlyLogout` is not set, but a logout is in progress (`m_playerLogout`); the
packet is not logged as unexpected, its handler is invoked. -/
theorem Update_recently_out_during_logout :
    sampleLoggingOutSession._player = none ∧
    sampleLoggingOutSession.m_playerRecentlyLogout = false ∧
    (sampleEnvMore.opcodeTable (samplePacket 1 .CMSG_REALM_SPLIT).opcode).map
        OpcodeHandler.Status = some .STATUS_LOGGEDIN_OR_RECENTLY_LOGGOUT ∧
    WorldSession.Update.cond sampleEnvMore .WorldSessionFilter
        (WorldSession.Update.initial sampleLoggingOutSession) =
      some (some (samplePacket 1 .CMSG_REALM_SPLIT, sampleDequeued sampleLoggingOutSession)) ∧
    (WorldSession.Update.body sampleEnvMore sampleClock (sampleDequeued sampleLoggingOutSession)
        (samplePacket 1 .CMSG_REALM_SPLIT)).map UpdateState.trace =
      some [Event.OnPacketReceive (samplePacket 1 .CMSG_REALM_SPLIT),
        Event.Handler (samplePacket 1 .CMSG_REALM_SPLIT), Event.delete 1] :=
  ⟨rfl, rfl, rfl, rfl, rfl⟩

theorem dispatch_transfer_no_player (E : Env) (clock : UpdateClock) (st : UpdateState)
    (packet : WorldPacket) (opHandle : OpcodeHandler) (h : opHandle.Status = .STATUS_TRANSFER)
    (hp : st.session._player = none) :
    WorldSession.Update.dispatch E clock st packet opHandle =
      { st with trace := st.trace ++
          [Event.log .Error .OPCODES
            (.unexpectedOpcode packet.opcode "STATUS_TRANSFER"
              "the player has not logged in yet")] } := by
  simp only [WorldSession.Update.dispatch, h, hp, WorldSession.LogUnexpectedOpcode]

theorem dispatch_transfer_in_world (E : Env) (clock : UpdateClock) (st : UpdateState)
    (packet : WorldPacket) (opHandle : OpcodeHandler) (player : Player)
    (h : opHandle.Status = .STATUS_TRANSFER)
    (hp : st.session._player = some player) (hw : player.inWorld = true) :
    WorldSession.Update.dispatch E clock st packet opHandle =
      { st with trace := st.trace ++
          [Event.log .Error .OPCODES
            (.unexpectedOpcode packet.opcode "STATUS_TRANSFER"
              "the player is still in world")] } := by
  simp only [WorldSession.Update.dispatch, h, hp, hw, if_true, WorldSession.LogUnexpectedOpcode]

/-- A branch that only logs the packet as unexpected: the session keeps everything but the
dequeued packet, the effects are the log line and the end of the body. -/
theorem unexpected_dropped (E : Env) (clock : UpdateClock) (updater : PacketFilter)
    (st0 st : UpdateState) (packet : WorldPacket) (opHandle : OpcodeHandler)
    (status reason : String)
    (hdq : WorldSession.Update.cond E updater st0 = some (some (packet, st)))
    (hd : WorldSession.Update.dispatch E clock st packet opHandle =
      { st with trace := st.trace ++
          [Event.log .Error .OPCODES (.unexpectedOpcode packet.opcode status reason)] }) :
    (∃ pre post, st0.session._recvQueue = pre ++ packet :: post ∧
        (WorldSession.Update.bodyWith E clock st packet opHandle).session._recvQueue =
          pre ++ post) ∧
      (WorldSession.Update.bodyWith E clock st packet opHandle).session =
        { st0.session with _recvQueue :=
          (WorldSession.Update.bodyWith E clock st packet opHandle).session._recvQueue } ∧
      (WorldSession.Update.bodyWith E clock st packet opHandle).session.AntiDOS =
        st0.session.AntiDOS ∧
      (WorldSession.Update.bodyWith E clock st packet opHandle).eventsSince st0 =
        Event.log .Error .OPCODES (.unexpectedOpcode packet.opcode status reason) ::
          WorldSession.Update.closing clock st0.iter st0.deletePacket packet ∧
      (∀ e ∈ (WorldSession.Update.bodyWith E clock st packet opHandle).eventsSince st0,
        e.isHandler = false) := by
  obtain ⟨hq, _⟩ := next_session_eq E updater st0 st packet hdq
  obtain ⟨htr, hit, hdel, _, hses, _, _, _, _, hanti, _⟩ :=
    dequeued_frame E updater st0 st packet hdq
  have hev := bodyWith_events E clock st0 st packet opHandle _ htr (by rw [hd])
  have hdp : (WorldSession.Update.dispatch E clock st packet opHandle).deletePacket =
      st0.deletePacket := by rw [hd]; exact hdel
  have hds : (WorldSession.Update.bodyWith E clock st packet opHandle).session =
      st.session := by
    show (WorldSession.Update.dispatch E clock st packet opHandle).session = _
    rw [hd]
  rw [hev, hdp, hit, hds]
  refine ⟨hq, hses, hanti, rfl, ?_⟩
  intro e he
  rcases List.mem_cons.mp he with he | he
  · subst he; rfl
  · exact (closing_not_handler _ _ _ _ e he).1

theorem consulted_transfer (E : Env) (s : WorldSession) (packet : WorldPacket)
    (opHandle : OpcodeHandler) (player : Player) (h : opHandle.Status = .STATUS_TRANSFER)
    (hp : s._player = some player) (hw : player.inWorld = false) :
    WorldSession.Update.consulted E s packet opHandle = some s := by
  simp [WorldSession.Update.consulted, h, hp, hw]

/-- C12. For a dequeued `STATUS_TRANSFER` packet: the handler is invoked if and only if a
player is attached, that player is not in world and `EvaluateOpcode` admits the packet. When
no player is attached, or the player is still in world, the packet is logged as unexpected
(with the reason for the case) and dropped: the session only loses the packet from the
receive queue, so the limiter is not consulted. -/
theorem Update_transfer (E : Env) (clock : UpdateClock) (updater : PacketFilter)
    (st0 st : UpdateState) (packet : WorldPacket) (opHandle : OpcodeHandler)
    (hdq : WorldSession.Update.cond E updater st0 = some (some (packet, st)))
    (htab : E.opcodeTable packet.opcode = some opHandle)
    (hst : opHandle.Status = .STATUS_TRANSFER) :
    ∃ st', WorldSession.Update.body E clock st packet = some st' ∧
      (Event.Handler packet ∈ st'.eventsSince st0 ↔
        ∃ player, st0.session._player = some player ∧ player.inWorld = false ∧
          (DosProtection.EvaluateOpcode E st.session packet clock.currentTime).1 = true) ∧
      (∀ e ∈ st'.eventsSince st0, e.isHandler = true → e = Event.Handler packet) ∧
      (st0.session._player = none →
        (∃ pre post, st0.session._recvQueue = pre ++ packet :: post ∧
          st'.session._recvQueue = pre ++ post) ∧
        st'.session = { st0.session with _recvQueue := st'.session._recvQueue } ∧
        st'.session.AntiDOS = st0.session.AntiDOS ∧
        st'.eventsSince st0 =
          Event.log .Error .OPCODES
              (.unexpectedOpcode packet.opcode "STATUS_TRANSFER"
                "the player has not logged in yet") ::
            WorldSession.Update.closing clock st0.iter st0.deletePacket packet) ∧
      (∀ player, st0.session._player = some player → player.inWorld = true →
        (∃ pre post, st0.session._recvQueue = pre ++ packet :: post ∧
          st'.session._recvQueue = pre ++ post) ∧
        st'.session = { st0.session with _recvQueue := st'.session._recvQueue } ∧
        st'.session.AntiDOS = st0.session.AntiDOS ∧
        st'.eventsSince st0 =
          Event.log .Error .OPCODES
              (.unexpectedOpcode packet.opcode "STATUS_TRANSFER"
                "the player is still in world") ::
            WorldSession.Update.closing clock st0.iter st0.deletePacket packet) := by
  obtain ⟨htr, _, _, _, _, hpl, _, _, _, _, _⟩ := dequeued_frame E updater st0 st packet hdq
  refine ⟨_, bodyWith_eq E clock st packet opHandle htab, ?_⟩
  cases hp : st0.session._player with
  | none =>
    have hd := dispatch_transfer_no_player E clock st packet opHandle hst (hpl.trans hp)
    obtain ⟨h1, h2, h3, h4, h5⟩ := unexpected_dropped E clock updater st0 st packet opHandle _ _
      hdq hd
    refine ⟨?_, ?_, ?_, ?_⟩
    · constructor
      · intro hmem; have := h5 _ hmem; cases this
      · rintro ⟨player, hpp, _⟩; cases hpp
    · intro e he hh; rw [h5 e he] at hh; cases hh
    · intro _; exact ⟨h1, h2, h3, h4⟩
    · intro player hpp; cases hpp
  | some player =>
    cases hw : player.inWorld with
    | true =>
      have hd := dispatch_transfer_in_world E clock st packet opHandle player hst
        (hpl.trans hp) hw
      obtain ⟨h1, h2, h3, h4, h5⟩ := unexpected_dropped E clock updater st0 st packet opHandle
        _ _ hdq hd
      refine ⟨?_, ?_, ?_, ?_⟩
      · constructor
        · intro hmem; have := h5 _ hmem; cases this
        · rintro ⟨pl, hpp, hpw, _⟩
          simp only [Option.some.injEq] at hpp
          subst hpp
          rw [hw] at hpw
          cases hpw
      · intro e he hh; rw [h5 e he] at hh; cases hh
      · intro hnone; cases hnone
      · intro _ _ _; exact ⟨h1, h2, h3, h4⟩
    | false =>
      have hc := consulted_transfer E st.session packet opHandle player hst (hpl.trans hp) hw
      obtain ⟨h1, h2⟩ := consulted_handler_iff E clock st0 st packet opHandle st.session htr hc
      refine ⟨?_, h2, ?_, ?_⟩
      · rw [h1]
        constructor
        · intro hadm; exact ⟨player, rfl, hw, hadm⟩
        · rintro ⟨_, _, _, hadm⟩; exact hadm
      · intro hnone; cases hnone
      · intro pl hpp hpw
        simp only [Option.some.injEq] at hpp
        subst hpp
        rw [hw] at hpw
        cases hpw

/-- Witness for C12: the player of the sample session is attached and not in world; the
`STATUS_TRANSFER` packet is handed to its handler. -/
theorem Update_transfer_witness :
    ∃ st', WorldSession.Update.body sampleEnvMore sampleClock
        (sampleDequeued sampleTransferSession) (samplePacket 1 .CMSG_TIME_SYNC_RESP) = some st' ∧
      Event.Handler (samplePacket 1 .CMSG_TIME_SYNC_RESP) ∈
        st'.eventsSince (WorldSession.Update.initial sampleTransferSession) := by
  obtain ⟨st', h1, h2, _⟩ := Update_transfer sampleEnvMore sampleClock
    .WorldSessionFilter (WorldSession.Update.initial sampleTransferSession)
    (sampleDequeued sampleTransferSession) (samplePacket 1 .CMSG_TIME_SYNC_RESP)
    ⟨.STATUS_TRANSFER, .PROCESS_THREADUNSAFE, sampleHandler⟩ rfl rfl rfl
  exact ⟨st', h1, h2.mpr ⟨⟨false⟩, rfl, rfl, rfl⟩⟩

/-! ## Kick and ban on a ceiling violation -/

theorem cond_socket_open (E : Env) (updater : PacketFilter) (st0 st : UpdateState)
    (packet : WorldPacket)
    (hdq : WorldSession.Update.cond E updater st0 = some (some (packet, st))) :
    ∃ sock, st0.session.m_Socket = some sock ∧ sock.closed = false := by
  unfold WorldSession.Update.cond at hdq
  split at hdq
  · simp at hdq
  · rename_i sock hs
    refine ⟨sock, hs, ?_⟩
    cases hcl : sock.closed with
    | false => rfl
    | true => simp [hcl] at hdq

theorem cond_closed (E : Env) (updater : PacketFilter) (st : UpdateState) (sock : WorldSocket)
    (hs : st.session.m_Socket = some sock) (hcl : sock.closed = true) :
    WorldSession.Update.cond E updater st = some none := by
  simp [WorldSession.Update.cond, hs, hcl]

theorem loop_closed (E : Env) (clock : UpdateClock) (updater : PacketFilter) (fuel : Nat)
    (st : UpdateState) (sock : WorldSocket)
    (hs : st.session.m_Socket = some sock) (hcl : sock.closed = true) :
    WorldSession.Update.loop E clock updater fuel st = .finished st := by
  cases fuel <;> simp only [WorldSession.Update.loop, cond_closed E updater st sock hs hcl]

theorem consulted_frame (E : Env) (s s' : WorldSession) (packet : WorldPacket)
    (opHandle : OpcodeHandler)
    (hc : WorldSession.Update.consulted E s packet opHandle = some s') :
    s'.m_Socket = s.m_Socket ∧ s'.AntiDOS = s.AntiDOS ∧ s'._recvQueue = s._recvQueue ∧
      s'._player = s._player := by
  unfold WorldSession.Update.consulted at hc
  split at hc
  · split at hc
    · simp at hc
    · split_ifs at hc
      simp only [Option.some.injEq] at hc
      subst hc
      exact ⟨rfl, rfl, rfl, rfl⟩
  · split_ifs at hc
    simp only [Option.some.injEq] at hc
    subst hc
    exact ⟨rfl, rfl, rfl, rfl⟩
  · split at hc
    · simp at hc
    · split_ifs at hc
      simp only [Option.some.injEq] at hc
      subst hc
      exact ⟨rfl, rfl, rfl, rfl⟩
  · split_ifs at hc <;> simp only [Option.some.injEq] at hc <;> subst hc <;>
      exact ⟨rfl, rfl, rfl, rfl⟩
  · simp at hc
  · simp at hc

theorem KickPlayer_closes (s : WorldSession) (reason : String) (sock : WorldSocket)
    (hs : s.m_Socket = some sock) :
    (s.KickPlayer reason).1 = { s with m_Socket := some { sock with closed := true } } ∧
      (s.KickPlayer reason).2 =
        [Event.log .Info .KICK (.kick s._accountId reason), Event.CloseSocket] := by
  simp [WorldSession.KickPlayer, hs]

theorem applyPolicy_kick (E : Env) (s : WorldSession) (sock : WorldSocket)
    (hs : s.m_Socket = some sock) (hp : s.AntiDOS._policy = .POLICY_KICK) :
    DosProtection.applyPolicy E s =
      (false, { s with m_Socket := some { sock with closed := true } },
        [Event.log .Error .GENERAL .antiDosKicked,
         Event.log .Info .KICK (.kick s._accountId "AntiDos"), Event.CloseSocket]) := by
  simp [DosProtection.applyPolicy, hp, KickPlayer_closes s "AntiDos" sock hs]

theorem applyPolicy_ban (E : Env) (s : WorldSession) (sock : WorldSocket)
    (hs : s.m_Socket = some sock) (hp : s.AntiDOS._policy = .POLICY_BAN) :
    DosProtection.applyPolicy E s =
      (false, { s with m_Socket := some { sock with closed := true } },
        [Event.BanAccount E.CONFIG_PACKET_SPOOF_BANMODE
           (DosProtection.banTarget E s E.CONFIG_PACKET_SPOOF_BANMODE) "-1"
           "DOS (Packet Flooding/Spoofing" "Server: AutoDOS",
         Event.log .Error .GENERAL (.antiDosBanned E.CONFIG_PACKET_SPOOF_BANDURATION),
         Event.log .Info .KICK (.kick s._accountId "AntiDos"), Event.CloseSocket]) := by
  simp [DosProtection.applyPolicy, hp, KickPlayer_closes s "AntiDos" sock hs]

/-- C16. When, in a loop iteration of `Update`, `EvaluateOpcode` is consulted for the
dequeued packet and finds the count over the ceiling under `POLICY_KICK` or `POLICY_BAN`: it
returns false and closes the socket; the iteration invokes no handler and leaves the rest of
the receive queue as it is; the loop stops there (for every fuel, the loop from the state
after the iteration performs no further iteration); and under `POLICY_KICK` no ban request
is among the effects. -/
theorem Update_violation_kick_ban (E : Env) (clock : UpdateClock) (updater : PacketFilter)
    (st0 st : UpdateState) (packet : WorldPacket) (opHandle : OpcodeHandler)
    (s' : WorldSession)
    (hdq : WorldSession.Update.cond E updater st0 = some (some (packet, st)))
    (htab : E.opcodeTable packet.opcode = some opHandle)
    (hc : WorldSession.Update.consulted E st.session packet opHandle = some s')
    (hpos : DosProtection.GetMaxPacketCounterAllowed E (packet.opcode % 65536) ≠ 0)
    (hover : ¬ (s'.AntiDOS.countAt (packet.opcode % 65536) clock.currentTime + 1) % 2 ^ 32 ≤
      DosProtection.GetMaxPacketCounterAllowed E (packet.opcode % 65536))
    (hpol : s'.AntiDOS._policy = .POLICY_KICK ∨ s'.AntiDOS._policy = .POLICY_BAN) :
    (DosProtection.EvaluateOpcode E s' packet clock.currentTime).1 = false ∧
    (∃ sock, (DosProtection.EvaluateOpcode E s' packet clock.currentTime).2.1.m_Socket =
        some sock ∧ sock.closed = true) ∧
    Event.CloseSocket ∈ (DosProtection.EvaluateOpcode E s' packet clock.currentTime).2.2 ∧
    ∃ st', WorldSession.Update.body E clock st packet = some st' ∧
      (∀ e ∈ st'.eventsSince st0, e.isHandler = false) ∧
      st'.session._recvQueue = st.session._recvQueue ∧
      (∀ fuel, WorldSession.Update.loop E clock updater fuel st' = .finished st') ∧
      (s'.AntiDOS._policy = .POLICY_KICK → ∀ e ∈ st'.eventsSince st0, e.isBan = false) := by
  obtain ⟨sock, hsock, _⟩ := cond_socket_open E updater st0 st packet hdq
  obtain ⟨htr, _, _, _, _, _, _, _, _, _, hsk⟩ := dequeued_frame E updater st0 st packet hdq
  obtain ⟨hcs, _, hcq, _⟩ := consulted_frame E st.session s' packet opHandle hc
  have hs' : (s'.withCounter (packet.opcode % 65536)
      ⟨clock.currentTime,
        (s'.AntiDOS.countAt (packet.opcode % 65536) clock.currentTime + 1) % 2 ^ 32⟩).m_Socket =
      some sock := by
    show s'.m_Socket = _
    rw [hcs, hsk, hsock]
  have hev := over_ceiling_call E s' packet clock.currentTime hpos hover
  have hres : (DosProtection.EvaluateOpcode E s' packet clock.currentTime).1 = false ∧
      (DosProtection.EvaluateOpcode E s' packet clock.currentTime).2.1.m_Socket =
        some { sock with closed := true } ∧
      (DosProtection.EvaluateOpcode E s' packet clock.currentTime).2.1._recvQueue =
        s'._recvQueue ∧
      Event.CloseSocket ∈ (DosProtection.EvaluateOpcode E s' packet clock.currentTime).2.2 ∧
      (s'.AntiDOS._policy = .POLICY_KICK →
        ∀ e ∈ (DosProtection.EvaluateOpcode E s' packet clock.currentTime).2.2,
          e.isBan = false) := by
    rcases hpol with hp | hp
    · rw [hev, applyPolicy_kick E _ sock hs' (by rw [policy_withCounter]; exact hp)]
      refine ⟨rfl, rfl, rfl, by simp, ?_⟩
      intro _ e he
      simp only [List.mem_cons, List.mem_singleton, List.not_mem_nil, or_false] at he
      rcases he with he | he | he <;> subst he <;> rfl
    · rw [hev, applyPolicy_ban E _ sock hs' (by rw [policy_withCounter]; exact hp)]
      refine ⟨rfl, rfl, rfl, by simp, ?_⟩
      intro hk
      rw [hp] at hk
      cases hk
  obtain ⟨hfalse, hclosed, hqueue, hmem, hnoban⟩ := hres
  refine ⟨hfalse, ⟨_, hclosed, rfl⟩, hmem, _, bodyWith_eq E clock st packet opHandle htab,
    ?_, ?_, ?_, ?_⟩
  · intro e he
    have h := (consulted_handler_iff E clock st0 st packet opHandle s' htr hc)
    cases hh : e.isHandler with
    | false => rfl
    | true =>
      have := h.2 e he hh
      subst this
      have := h.1.mp he
      rw [hfalse] at this
      cases this
  · show (WorldSession.Update.dispatch E clock st packet opHandle).session._recvQueue = _
    rw [dispatch_of_consulted E clock st packet opHandle s' hc, evaluated_session, hfalse]
    simp only [Bool.false_eq_true, if_false]
    rw [hqueue, hcq]
  · intro fuel
    apply loop_closed E clock updater fuel _ { sock with closed := true }
    · show (WorldSession.Update.dispatch E clock st packet opHandle).session.m_Socket = _
      rw [dispatch_of_consulted E clock st packet opHandle s' hc, evaluated_session, hfalse]
      simp only [Bool.false_eq_true, if_false]
      exact hclosed
    · rfl
  · intro hk e he
    have hd := dispatch_of_consulted E clock st packet opHandle s' hc
    have hev2 := bodyWith_events E clock st0 st packet opHandle _ htr
      (by rw [hd]; exact evaluated_trace E clock st s' packet opHandle _)
    rw [hev2, hfalse] at he
    simp only [Bool.false_eq_true, if_false, List.mem_append] at he
    rcases he with (he | he) | he
    · exact hnoban hk e he
    · unfold WorldSession.Update.rejected at he
      split_ifs at he
      · simp only [List.mem_singleton] at he; subst he; rfl
      · simp at he
    · unfold WorldSession.Update.closing at he
      rw [List.mem_append] at he
      rcases he with he | he
      · split_ifs at he
        · simp only [List.mem_singleton] at he; subst he; rfl
        · simp at he
      · split_ifs at he
        · simp only [List.mem_singleton] at he; subst he; rfl
        · simp at he

/-- Witness for C16: the fourth `CMSG_CHAR_ENUM` packet of second 1000 under `POLICY_KICK`;
the `CMSG_NAME_QUERY` packet queued behind it stays in the queue and the loop stops. -/
theorem Update_violation_kick_ban_witness :
    WorldSession.Update.cond sampleEnv .WorldSessionFilter
        (WorldSession.Update.initial (sampleFloodSession .POLICY_KICK)) =
      some (some (samplePacket 1 .CMSG_CHAR_ENUM, sampleFloodDequeued .POLICY_KICK)) ∧
    ∃ st', WorldSession.Update.body sampleEnv sampleClock (sampleFloodDequeued .POLICY_KICK)
        (samplePacket 1 .CMSG_CHAR_ENUM) = some st' ∧
      (∀ e ∈ st'.eventsSince (WorldSession.Update.initial (sampleFloodSession .POLICY_KICK)),
        e.isHandler = false) ∧
      st'.session._recvQueue = [samplePacket 2 .CMSG_NAME_QUERY] ∧
      WorldSession.Update.loop sampleEnv sampleClock .WorldSessionFilter 5 st' =
        .finished st' := by
  have hdq : WorldSession.Update.cond sampleEnv .WorldSessionFilter
        (WorldSession.Update.initial (sampleFloodSession .POLICY_KICK)) =
      some (some (samplePacket 1 .CMSG_CHAR_ENUM, sampleFloodDequeued .POLICY_KICK)) := rfl
  obtain ⟨_, _, _, st', h1, h2, h3, h4, _⟩ := Update_violation_kick_ban sampleEnv sampleClock
    .WorldSessionFilter (WorldSession.Update.initial (sampleFloodSession .POLICY_KICK))
    (sampleFloodDequeued .POLICY_KICK) (samplePacket 1 .CMSG_CHAR_ENUM)
    ⟨.STATUS_AUTHED, .PROCESS_THREADUNSAFE, sampleHandler⟩
    { (sampleFloodDequeued .POLICY_KICK).session with m_playerRecentlyLogout := false }
    hdq rfl rfl (by decide) (by decide) (Or.inl rfl)
  exact ⟨hdq, st', h1, h2, h3, h4 5⟩

/-- C17 at a failing input. Under `POLICY_BAN` with the ban mode set to `BAN_CHARACTER`, the
fourth `CMSG_CHAR_ENUM` call of one second (ceiling 3) issues a ban request whose mode is
`BAN_CHARACTER`, with the account name as target; with the ban mode set to `BAN_ACCOUNT`
the same call issues the request with mode `BAN_ACCOUNT` and the same target. The two
requests differ in the mode. (With `BAN_IP` the target is the remote address.) -/
theorem EvaluateOpcode_ban_character_mode :
    (DosProtection.EvaluateOpcodes sampleEnvBanCharacter (sampleSession .POLICY_BAN)
      (List.replicate 4 (samplePacket 1 .CMSG_CHAR_ENUM, 7))).2.2.filter Event.isBan =
      [Event.BanAccount .BAN_CHARACTER "ACCOUNT" "-1" "DOS (Packet Flooding/Spoofing"
        "Server: AutoDOS"] ∧
    (DosProtection.EvaluateOpcodes sampleEnv (sampleSession .POLICY_BAN)
      (List.replicate 4 (samplePacket 1 .CMSG_CHAR_ENUM, 7))).2.2.filter Event.isBan =
      [Event.BanAccount .BAN_ACCOUNT "ACCOUNT" "-1" "DOS (Packet Flooding/Spoofing"
        "Server: AutoDOS"] ∧
    (DosProtection.EvaluateOpcodes sampleEnvBanIp (sampleSession .POLICY_BAN)
      (List.replicate 4 (samplePacket 1 .CMSG_CHAR_ENUM, 7))).2.2.filter Event.isBan =
      [Event.BanAccount .BAN_IP "127.0.0.1" "-1" "DOS (Packet Flooding/Spoofing"
        "Server: AutoDOS"] :=
  ⟨rfl, rfl, rfl⟩

/-! ## Packet filters and the opcode table -/

/-- C18. For a packet whose opcode has a descriptor: when the processing place is
`PROCESS_THREADUNSAFE`, `MapSessionFilter::Process` returns false and
`WorldSessionFilter::Process` returns true, whatever the session and its player; when it is
`PROCESS_INPLACE`, both return true. -/
theorem filters_by_processing_place (E : Env) (s : WorldSession) (packet : WorldPacket)
    (opHandle : OpcodeHandler)
    (htab : E.opcodeTable (E.DropHighBytes packet.opcode) = some opHandle) :
    (opHandle.ProcessingPlace = .PROCESS_THREADUNSAFE →
      MapSessionFilter.Process E s packet = some false ∧
      WorldSessionFilter.Process E s packet = some true) ∧
    (opHandle.ProcessingPlace = .PROCESS_INPLACE →
      MapSessionFilter.Process E s packet = some true ∧
      WorldSessionFilter.Process E s packet = some true) := by
  constructor
  · intro h
    simp [MapSessionFilter.Process, WorldSessionFilter.Process, htab, h]
  · intro h
    simp [MapSessionFilter.Process, WorldSessionFilter.Process, htab, h]

/-- Witness for C18: `CMSG_LOGOUT_REQUEST` is `PROCESS_THREADUNSAFE` in the sample table;
with a player in world the map filter refuses it and the world filter takes it. -/
theorem filters_by_processing_place_witness :
    MapSessionFilter.Process sampleEnv (samplePlayerSession true)
        (samplePacket 1 .CMSG_LOGOUT_REQUEST) = some false ∧
      WorldSessionFilter.Process sampleEnv (samplePlayerSession true)
        (samplePacket 1 .CMSG_LOGOUT_REQUEST) = some true :=
  (filters_by_processing_place sampleEnv (samplePlayerSession true)
    (samplePacket 1 .CMSG_LOGOUT_REQUEST)
    ⟨.STATUS_LOGGEDIN, .PROCESS_THREADUNSAFE, sampleHandler⟩ rfl).1 rfl

/-- C19 at a failing input. The opcode of the queued packet has no entry in the opcode
table. Both filters and the loop body dereference the null entry: the filters and the body
yield no result, and `Update` stops at the dereference, for either filter. -/
theorem Update_unknown_opcode_faults :
    sampleUnknownSession._recvQueue = [samplePacket 1 .CMSG_QUERY_TIME] ∧
    sampleEnv.opcodeTable (samplePacket 1 .CMSG_QUERY_TIME).opcode = none ∧
    MapSessionFilter.Process sampleEnv sampleUnknownSession (samplePacket 1 .CMSG_QUERY_TIME) =
      none ∧
    WorldSessionFilter.Process sampleEnv sampleUnknownSession
      (samplePacket 1 .CMSG_QUERY_TIME) = none ∧
    (WorldSession.Update.body sampleEnv sampleClock (sampleDequeued sampleUnknownSession)
      (samplePacket 1 .CMSG_QUERY_TIME)).isNone = true ∧
    WorldSession.Update sampleEnv sampleCalls sampleClock .WorldSessionFilter 1
      sampleUnknownSession = .nullDeref ∧
    WorldSession.Update sampleEnv sampleCalls sampleClock .MapSessionFilter 1
      sampleUnknownSession = .nullDeref :=
  ⟨rfl, rfl, rfl, rfl, rfl, rfl, rfl⟩

/-! ## `Update`: the idle check and the alive signal -/

/-- When the session is idle at the top of `Update` and has a socket, the socket is
closed before the loop starts; the loop condition is false at once, so for every fuel the
loop performs no iteration: no packet is dequeued, no handler is invoked, and at the end of
the loop the session is the one `Update` was called on with the socket closed (the receive
queue is unchanged). `Update` then returns through the statements after the loop. -/
theorem Update_idle_closes_first (E : Env) (X : UpdateCalls) (clock : UpdateClock)
    (updater : PacketFilter) (fuel : Nat) (s : WorldSession) (sock : WorldSocket)
    (hidle : X.idle = true) (hs : s.m_Socket = some sock) :
    ∃ st, WorldSession.Update.start X s = some st ∧
      st.session = { s with m_Socket := some { sock with closed := true } } ∧
      st.session._recvQueue = s._recvQueue ∧
      st.trace = [Event.CloseSocket] ∧
      WorldSession.Update.cond E updater st = some none ∧
      WorldSession.Update.loop E clock updater fuel st = .finished st ∧
      WorldSession.Update E X clock updater fuel s =
        .returned (WorldSession.Update.finish X st) := by
  have hstart : WorldSession.Update.start X s =
      some { session := { s with m_Socket := some { sock with closed := true } },
             trace := [Event.CloseSocket], deletePacket := true, firstDelayedPacket := none,
             iter := 0 } := by
    simp [WorldSession.Update.start, hidle, hs]
  have hloop := loop_closed E clock updater fuel
    { session := { s with m_Socket := some { sock with closed := true } },
      trace := [Event.CloseSocket], deletePacket := true, firstDelayedPacket := none,
      iter := 0 } { sock with closed := true } rfl rfl
  refine ⟨_, hstart, rfl, rfl, rfl, cond_closed E updater _ { sock with closed := true } rfl rfl,
    hloop, ?_⟩
  simp only [WorldSession.Update, WorldSession.Update.conclude, hstart, hloop]

/-- An instance: the idle sample session has a socket and holds one packet; the loop of
`Update` does not run and the packet is still queued. -/
theorem Update_idle_closes_first_witness :
    ∃ st, WorldSession.Update.start sampleIdleCalls sampleNeverSession = some st ∧
      st.session._recvQueue = [samplePacket 1 .CMSG_BUG] ∧
      st.trace = [Event.CloseSocket] ∧
      WorldSession.Update.loop sampleEnv sampleClock .WorldSessionFilter 5 st = .finished st := by
  obtain ⟨st, h1, _, h3, h4, _, h6, _⟩ := Update_idle_closes_first sampleEnv sampleIdleCalls
    sampleClock .WorldSessionFilter 5 sampleNeverSession ⟨false⟩ rfl rfl
  exact ⟨st, h1, h3.trans rfl, h4, h6⟩

theorem idle_null_socket (E : Env) (X : UpdateCalls) (clock : UpdateClock)
    (updater : PacketFilter) (fuel : Nat) (s : WorldSession)
    (hidle : X.idle = true) (hs : s.m_Socket = none) :
    WorldSession.Update E X clock updater fuel s = .nullDeref := by
  simp [WorldSession.Update, WorldSession.Update.start, hidle, hs]

/-- C14 at a failing input. The session was constructed without a socket and is idle at the
top of `Update`: the call `m_Socket->CloseSocket()` goes through the null pointer, so
`Update` stops there, for either filter and every fuel, while the same call on the session
with a socket closes it and returns. -/
theorem Update_idle_null_socket_faults :
    sampleNoSocketSession.m_Socket = none ∧
    sampleIdleCalls.idle = true ∧
    (WorldSession.Update.start sampleIdleCalls sampleNoSocketSession).isNone = true ∧
    (∀ fuel, WorldSession.Update sampleEnv sampleIdleCalls sampleClock .WorldSessionFilter fuel
      sampleNoSocketSession = .nullDeref) ∧
    (∀ fuel, WorldSession.Update sampleEnv sampleIdleCalls sampleClock .MapSessionFilter fuel
      sampleNoSocketSession = .nullDeref) ∧
    (WorldSession.Update sampleEnv sampleIdleCalls sampleClock .WorldSessionFilter 5
      { sampleNoSocketSession with m_Socket := some ⟨false⟩ }).result?.isSome = true :=
  ⟨rfl, rfl, rfl, fun fuel => idle_null_socket _ _ _ _ fuel _ rfl rfl,
    fun fuel => idle_null_socket _ _ _ _ fuel _ rfl rfl, rfl⟩

theorem cleanupSocket_none_iff (s : WorldSession) :
    (WorldSession.Update.cleanupSocket s).m_Socket = none ↔
      (s.m_Socket = none ∨ ∃ sock, s.m_Socket = some sock ∧ sock.closed = true) := by
  unfold WorldSession.Update.cleanupSocket
  cases hs : s.m_Socket with
  | none => simp [hs]
  | some sock =>
    cases hc : sock.closed with
    | true => simp [hc]
    | false => simp [hc, hs]

theorem cleanupSocket_open (s : WorldSession) (sock : WorldSocket)
    (h : (WorldSession.Update.cleanupSocket s).m_Socket = some sock) : sock.closed = false := by
  unfold WorldSession.Update.cleanupSocket at h
  cases hs : s.m_Socket with
  | none => simp [hs] at h
  | some sock' =>
    simp only [hs] at h
    cases hc : sock'.closed with
    | true => simp [hc] at h
    | false =>
      simp only [hc, Bool.false_eq_true, if_false] at h
      rw [hs] at h
      simp only [Option.some.injEq] at h
      rw [← h]; exact hc

theorem Update_returned (E : Env) (X : UpdateCalls) (clock : UpdateClock) (updater : PacketFilter)
    (fuel : Nat) (s : WorldSession) (r : UpdateReturn)
    (h : WorldSession.Update E X clock updater fuel s = .returned r) :
    ∃ st, r = WorldSession.Update.finish X st := by
  unfold WorldSession.Update at h
  split at h
  · cases h
  · unfold WorldSession.Update.conclude at h
    split at h
    · simp only [UpdateOutcome.returned.injEq] at h
      exact ⟨_, h.symm⟩
    · cases h
    · cases h

/-- C15, as the code has it. When `Update` returns false, the filter processes the logout
(`ProcessLogout()`), and at the statement that clears the socket pointer the socket was
absent or closed; the returned session has no socket. Nothing is required of the player: it
may still be attached. When `Update` returns true under a filter that processes the logout,
the session has a socket that is not closed; under a filter that does not, `Update` always
returns true. -/
theorem Update_alive_signal (E : Env) (X : UpdateCalls) (clock : UpdateClock)
    (updater : PacketFilter) (fuel : Nat) (s : WorldSession) (r : UpdateReturn)
    (h : WorldSession.Update E X clock updater fuel s = .returned r) :
    (r.alive = false ↔ X.ProcessLogout = true ∧ r.session.m_Socket = none) ∧
    (r.alive = false →
      ∃ s4, r.session = WorldSession.Update.cleanupSocket s4 ∧
        (s4.m_Socket = none ∨ ∃ sock, s4.m_Socket = some sock ∧ sock.closed = true)) ∧
    (r.alive = true → X.ProcessLogout = true →
      ∃ sock, r.session.m_Socket = some sock ∧ sock.closed = false) ∧
    (X.ProcessLogout = false → r.alive = true) := by
  obtain ⟨st, rfl⟩ := Update_returned E X clock updater fuel s r h
  unfold WorldSession.Update.finish
  cases hpl : X.ProcessLogout with
  | false => simp
  | true =>
    simp only [if_true]
    cases hn : (WorldSession.Update.cleanupSocket
        (WorldSession.Update.logoutPart X
          (WorldSession.Update.afterLoop X st.session).1).1).m_Socket with
    | none =>
      simp only [Option.isNone_none, if_true, hn]
      refine ⟨by simp, fun _ => ⟨_, rfl, (cleanupSocket_none_iff _).mp hn⟩, ?_, ?_⟩
      · intro h; cases h
      · intro h; cases h
    | some sock =>
      simp only [Option.isNone_some, Bool.false_eq_true, if_false, hn]
      refine ⟨by simp, ?_, ?_, ?_⟩
      · intro h; cases h
      · intro _ _; exact ⟨sock, rfl, cleanupSocket_open _ sock hn⟩
      · intro h; cases h

/-- Witness for C15 as amended: the disconnected sample session, updated from the world
thread, makes `Update` return false with the socket pointer cleared. -/
theorem Update_alive_signal_witness :
    WorldSession.Update sampleEnv sampleCalls sampleClock .WorldSessionFilter 5
        sampleDisconnectedSession =
      .returned (WorldSession.Update.finish sampleCalls
        (WorldSession.Update.initial sampleDisconnectedSession)) ∧
    (WorldSession.Update.finish sampleCalls
      (WorldSession.Update.initial sampleDisconnectedSession)).alive = false ∧
    (WorldSession.Update.finish sampleCalls
      (WorldSession.Update.initial sampleDisconnectedSession)).session.m_Socket = none :=
  ⟨rfl, rfl,
    ((Update_alive_signal sampleEnv sampleCalls sampleClock .WorldSessionFilter 5
      sampleDisconnectedSession _ rfl).1.mp rfl).2⟩

/-- C15 fails as stated: the client of the sample session has disconnected while its player
is attached and in world, and no logout is due; `Update` called from the world thread
returns false and the player is still attached. -/
theorem Update_false_with_player_attached :
    sampleDisconnectedSession._player = some ⟨true⟩ ∧
    (WorldSession.Update sampleEnv sampleCalls sampleClock .WorldSessionFilter 5
      sampleDisconnectedSession).result?.map (fun r => (r.alive, r.session._player)) =
      some (false, some ⟨true⟩) :=
  ⟨rfl, rfl⟩

/-! ## The dispatch loop: a handler that throws -/

theorem dispatch_prepend (E : Env) (clock : UpdateClock) (t : List Event) (st : UpdateState)
    (packet : WorldPacket) (opHandle : OpcodeHandler) :
    WorldSession.Update.dispatch E clock (st.prepend t) packet opHandle =
      (WorldSession.Update.dispatch E clock st packet opHandle).prepend t := by
  unfold WorldSession.Update.dispatch UpdateState.prepend
  cases hs : opHandle.Status <;> simp only [hs]
  all_goals (repeat' split)
  all_goals first | rfl | simp_all [List.append_assoc]

theorem body_prepend (E : Env) (clock : UpdateClock) (t : List Event) (st : UpdateState)
    (packet : WorldPacket) :
    WorldSession.Update.body E clock (st.prepend t) packet =
      (WorldSession.Update.body E clock st packet).map (UpdateState.prepend t) := by
  unfold WorldSession.Update.body
  cases E.opcodeTable packet.opcode with
  | none => rfl
  | some opHandle =>
    simp only [Option.map_some', dispatch_prepend]
    simp [UpdateState.prepend, List.append_assoc]

theorem cond_prepend (E : Env) (updater : PacketFilter) (t : List Event) (st : UpdateState) :
    WorldSession.Update.cond E updater (st.prepend t) =
      (WorldSession.Update.cond E updater st).map
        (Option.map (fun r => (r.1, r.2.prepend t))) := by
  unfold WorldSession.Update.cond UpdateState.prepend
  simp only
  repeat' split
  all_goals rfl

theorem loop_prepend (E : Env) (clock : UpdateClock) (updater : PacketFilter) (t : List Event)
    (fuel : Nat) : ∀ st : UpdateState,
    WorldSession.Update.loop E clock updater fuel (st.prepend t) =
      (WorldSession.Update.loop E clock updater fuel st).prepend t := by
  induction fuel with
  | zero =>
    intro st
    unfold WorldSession.Update.loop
    rw [cond_prepend]
    cases WorldSession.Update.cond E updater st with
    | none => rfl
    | some c => cases c <;> rfl
  | succ n ih =>
    intro st
    unfold WorldSession.Update.loop
    rw [cond_prepend]
    cases WorldSession.Update.cond E updater st with
    | none => rfl
    | some c =>
      cases c with
      | none => rfl
      | some r =>
        simp only [Option.map_some', body_prepend]
        cases WorldSession.Update.body E clock r.2 r.1 with
        | none => rfl
        | some st1 => simp only [Option.map_some']; exact ih st1

theorem prepend_core (st : UpdateState) : st.core.prepend st.trace = st := by
  simp [UpdateState.core, UpdateState.prepend]

theorem loop_from_core (E : Env) (clock : UpdateClock) (updater : PacketFilter) (fuel : Nat)
    (st : UpdateState) :
    WorldSession.Update.loop E clock updater fuel st =
      (WorldSession.Update.loop E clock updater fuel st.core).prepend st.trace := by
  rw [← loop_prepend, prepend_core]

theorem finish_prepend (X : UpdateCalls) (t : List Event) (st : UpdateState) :
    (WorldSession.Update.finish X (st.prepend t)).alive =
        (WorldSession.Update.finish X st).alive ∧
      (WorldSession.Update.finish X (st.prepend t)).session =
        (WorldSession.Update.finish X st).session := by
  unfold WorldSession.Update.finish UpdateState.prepend
  simp only
  split_ifs <;> exact ⟨rfl, rfl⟩

theorem conclude_prepend (X : UpdateCalls) (t : List Event) (r : LoopResult) :
    (WorldSession.Update.conclude X (r.prepend t)).alive? =
      (WorldSession.Update.conclude X r).alive? := by
  cases r with
  | finished st =>
    simp only [LoopResult.prepend, WorldSession.Update.conclude, UpdateOutcome.alive?,
      UpdateOutcome.result?, Option.map_some', (finish_prepend X t st).1]
  | nullDeref st => rfl
  | outOfFuel st => rfl

theorem loop_empty_queue (E : Env) (clock : UpdateClock) (updater : PacketFilter) (fuel : Nat)
    (st : UpdateState) (h : LockedQueue.empty st.session._recvQueue = true) :
    WorldSession.Update.loop E clock updater fuel st = .finished st := by
  have hc : WorldSession.Update.cond E updater st = some none := by
    unfold WorldSession.Update.cond
    cases hs : st.session.m_Socket with
    | none => rfl
    | some sock =>
      simp only
      split_ifs <;> rfl
  cases fuel with
  | zero => unfold WorldSession.Update.loop; rw [hc]
  | succ n => unfold WorldSession.Update.loop; rw [hc]

theorem consulted_noThrow (E : Env) (s : WorldSession) (packet : WorldPacket)
    (opHandle : OpcodeHandler) :
    WorldSession.Update.consulted E s packet opHandle.noThrow =
      WorldSession.Update.consulted E s packet opHandle := rfl

theorem bodyWith_threw (E : Env) (clock : UpdateClock) (st : UpdateState)
    (packet : WorldPacket) (opHandle : OpcodeHandler) (s' : WorldSession)
    (hc : WorldSession.Update.consulted E st.session packet opHandle = some s')
    (hadm : (DosProtection.EvaluateOpcode E s' packet clock.currentTime).1 = true)
    (hthrow : (opHandle.Handler (DosProtection.EvaluateOpcode E s' packet clock.currentTime).2.1
      packet).threw = true) :
    WorldSession.Update.bodyWith E clock st packet opHandle =
      { session := (opHandle.Handler
          (DosProtection.EvaluateOpcode E s' packet clock.currentTime).2.1 packet).session,
        trace := st.trace ++ ((DosProtection.EvaluateOpcode E s' packet clock.currentTime).2.2 ++
          [Event.OnPacketReceive packet, Event.Handler packet,
           Event.log .Info .BAD_OPCODE_HANDLER (.exceptionInfo packet.opcode packet.wpos),
           Event.log .Error .NETWORK (.byteBufferException packet.opcode
             (opHandle.Handler (DosProtection.EvaluateOpcode E s' packet
               clock.currentTime).2.1 packet).session.m_Address
             (opHandle.Handler (DosProtection.EvaluateOpcode E s' packet
               clock.currentTime).2.1 packet).session._accountId),
           Event.dump packet] ++
          WorldSession.Update.closing clock st.iter st.deletePacket packet),
        deletePacket := st.deletePacket,
        firstDelayedPacket := st.firstDelayedPacket,
        iter := st.iter + 1 } := by
  unfold WorldSession.Update.bodyWith
  rw [dispatch_of_consulted E clock st packet opHandle s' hc]
  unfold WorldSession.Update.evaluated
  simp only [hadm, if_true]
  unfold WorldSession.Update.invoke
  simp only [hthrow, if_true, List.append_assoc]

theorem bodyWith_core_noThrow (E : Env) (clock : UpdateClock) (st : UpdateState)
    (packet : WorldPacket) (opHandle : OpcodeHandler) (s' : WorldSession)
    (hc : WorldSession.Update.consulted E st.session packet opHandle = some s')
    (hadm : (DosProtection.EvaluateOpcode E s' packet clock.currentTime).1 = true) :
    (WorldSession.Update.bodyWith E clock st packet opHandle.noThrow).core =
      { session := (opHandle.Handler
          (DosProtection.EvaluateOpcode E s' packet clock.currentTime).2.1 packet).session,
        trace := [],
        deletePacket := st.deletePacket,
        firstDelayedPacket := st.firstDelayedPacket,
        iter := st.iter + 1 } := by
  unfold WorldSession.Update.bodyWith UpdateState.core
  rw [dispatch_of_consulted E clock st packet opHandle.noThrow s' hc]
  unfold WorldSession.Update.evaluated
  simp only [hadm, if_true]
  rw [invoke_session]
  rfl

/-- C13. A packet's handler is invoked (a rate-limited branch of the `switch`, the limiter
admits) and throws `ByteBufferException`. The iteration completes: the session is the one
the handler left (`Update` puts nothing back into the queue), the locals of the loop are
unchanged, the effects are those of the limiter, the invocation, the three diagnostics of the
`catch` and the end of the body, which deletes the packet when `deletePacket` is set. For
every fuel the loop then runs on as after a normal return of the handler with the same
session: both runs are one run `r` with the effects recorded so far put in front, `Update`
returns in the one when it returns in the other, with the same alive signal, and when
nothing is queued any more `Update` returns. -/
theorem Update_handler_exception (E : Env) (X : UpdateCalls) (clock : UpdateClock)
    (updater : PacketFilter) (st : UpdateState) (packet : WorldPacket)
    (opHandle : OpcodeHandler) (s' : WorldSession)
    (htab : E.opcodeTable packet.opcode = some opHandle)
    (hc : WorldSession.Update.consulted E st.session packet opHandle = some s')
    (hadm : (DosProtection.EvaluateOpcode E s' packet clock.currentTime).1 = true)
    (hthrow : (opHandle.Handler (DosProtection.EvaluateOpcode E s' packet clock.currentTime).2.1
      packet).threw = true) :
    ∃ st', WorldSession.Update.body E clock st packet = some st' ∧
      st'.session = (opHandle.Handler
        (DosProtection.EvaluateOpcode E s' packet clock.currentTime).2.1 packet).session ∧
      st'.deletePacket = st.deletePacket ∧
      st'.firstDelayedPacket = st.firstDelayedPacket ∧
      st'.iter = st.iter + 1 ∧
      st'.eventsSince st =
        (DosProtection.EvaluateOpcode E s' packet clock.currentTime).2.2 ++
          [Event.OnPacketReceive packet, Event.Handler packet,
           Event.log .Info .BAD_OPCODE_HANDLER (.exceptionInfo packet.opcode packet.wpos),
           Event.log .Error .NETWORK (.byteBufferException packet.opcode
             st'.session.m_Address st'.session._accountId),
           Event.dump packet] ++
          WorldSession.Update.closing clock st.iter st.deletePacket packet ∧
      (st.deletePacket = true → Event.delete packet.addr ∈ st'.eventsSince st) ∧
      (∀ fuel, ∃ r : LoopResult,
        WorldSession.Update.loop E clock updater fuel st' = r.prepend st'.trace ∧
        WorldSession.Update.loop E clock updater fuel
            (WorldSession.Update.bodyWith E clock st packet opHandle.noThrow) =
          r.prepend (WorldSession.Update.bodyWith E clock st packet opHandle.noThrow).trace) ∧
      (∀ fuel,
        (WorldSession.Update.conclude X
          (WorldSession.Update.loop E clock updater fuel st')).alive? =
        (WorldSession.Update.conclude X (WorldSession.Update.loop E clock updater fuel
          (WorldSession.Update.bodyWith E clock st packet opHandle.noThrow))).alive?) ∧
      (LockedQueue.empty st'.session._recvQueue = true →
        ∀ fuel, WorldSession.Update.conclude X
          (WorldSession.Update.loop E clock updater fuel st') =
            .returned (WorldSession.Update.finish X st')) := by
  have hb := bodyWith_threw E clock st packet opHandle s' hc hadm hthrow
  have hn := bodyWith_core_noThrow E clock st packet opHandle s' hc hadm
  have hcore : (WorldSession.Update.bodyWith E clock st packet opHandle).core =
      (WorldSession.Update.bodyWith E clock st packet opHandle.noThrow).core := by
    rw [hn, hb]; rfl
  have hev : (WorldSession.Update.bodyWith E clock st packet opHandle).eventsSince st =
      (DosProtection.EvaluateOpcode E s' packet clock.currentTime).2.2 ++
          [Event.OnPacketReceive packet, Event.Handler packet,
           Event.log .Info .BAD_OPCODE_HANDLER (.exceptionInfo packet.opcode packet.wpos),
           Event.log .Error .NETWORK (.byteBufferException packet.opcode
             (WorldSession.Update.bodyWith E clock st packet opHandle).session.m_Address
             (WorldSession.Update.bodyWith E clock st packet opHandle).session._accountId),
           Event.dump packet] ++
          WorldSession.Update.closing clock st.iter st.deletePacket packet := by
    rw [hb]
    simp only [UpdateState.eventsSince, List.drop_left, List.append_assoc]
  have hpair : ∀ fuel,
      WorldSession.Update.loop E clock updater fuel
          (WorldSession.Update.bodyWith E clock st packet opHandle) =
        (WorldSession.Update.loop E clock updater fuel
          (WorldSession.Update.bodyWith E clock st packet opHandle).core).prepend
          (WorldSession.Update.bodyWith E clock st packet opHandle).trace ∧
      WorldSession.Update.loop E clock updater fuel
          (WorldSession.Update.bodyWith E clock st packet opHandle.noThrow) =
        (WorldSession.Update.loop E clock updater fuel
          (WorldSession.Update.bodyWith E clock st packet opHandle).core).prepend
          (WorldSession.Update.bodyWith E clock st packet opHandle.noThrow).trace := by
    intro fuel
    refine ⟨loop_from_core E clock updater fuel _, ?_⟩
    rw [hcore]
    exact loop_from_core E clock updater fuel _
  refine ⟨_, bodyWith_eq E clock st packet opHandle htab, ?_, ?_, ?_, ?_, hev, ?_,
    fun fuel => ⟨_, (hpair fuel).1, (hpair fuel).2⟩, ?_, ?_⟩
  · rw [hb]
  · rw [hb]
  · rw [hb]
  · rw [hb]
  · intro hdel
    rw [hev]
    simp [WorldSession.Update.closing, hdel]
  · intro fuel
    rw [(hpair fuel).1, (hpair fuel).2, conclude_prepend, conclude_prepend]
  · intro hq fuel
    rw [loop_empty_queue E clock updater fuel _ hq]
    rfl

/-- Witness for C13: in the sample session the handler of the first packet throws; the
iteration completes and deletes that packet, and `Update`, run on the whole session,
invokes the handler of the second packet and returns true. -/
theorem Update_handler_exception_witness :
    (∃ st', WorldSession.Update.body sampleEnvMore sampleClock
        { WorldSession.Update.initial sampleExceptionSession with
          session := { sampleExceptionSession with
            _recvQueue := [samplePacket 2 .CMSG_LOGOUT_REQUEST] } }
        (samplePacket 1 .CMSG_PET_RENAME) = some st' ∧
      st'.session._recvQueue = [samplePacket 2 .CMSG_LOGOUT_REQUEST] ∧
      Event.delete 1 ∈ st'.eventsSince (WorldSession.Update.initial sampleExceptionSession)) ∧
    (WorldSession.Update sampleEnvMore sampleCalls sampleClock .WorldSessionFilter 5
        sampleExceptionSession).result?.map
      (fun r => (r.alive,
        decide (Event.Handler (samplePacket 2 .CMSG_LOGOUT_REQUEST) ∈ r.trace))) =
      some (true, true) := by
  obtain ⟨st', h1, h2, _, _, _, _, h7, _⟩ := Update_handler_exception sampleEnvMore sampleCalls
    sampleClock .WorldSessionFilter
    { WorldSession.Update.initial sampleExceptionSession with
      session := { sampleExceptionSession with
        _recvQueue := [samplePacket 2 .CMSG_LOGOUT_REQUEST] } }
    (samplePacket 1 .CMSG_PET_RENAME)
    ⟨.STATUS_LOGGEDIN, .PROCESS_THREADUNSAFE, sampleThrowingHandler⟩
    { sampleExceptionSession with _recvQueue := [samplePacket 2 .CMSG_LOGOUT_REQUEST] }
    rfl rfl rfl rfl
  exact ⟨⟨st', h1, (congrArg WorldSession._recvQueue h2).trans rfl, h7 rfl⟩, by decide⟩

/-! ## The addon manifest: the guards of `ReadAddonsInfo` -/

theorem entries_events (n : Nat) : ∀ (b : ByteBuffer) (st : AddonState) (evs : List AddonEvent),
    ∃ rest, (WorldSession.ReadAddonsInfo.entries n b st evs).events = evs ++ rest := by
  induction n with
  | zero => intro b st evs; exact ⟨[], by simp [WorldSession.ReadAddonsInfo.entries,
      AddonLoop.events]⟩
  | succ n ih =>
    intro b st evs
    unfold WorldSession.ReadAddonsInfo.entries
    simp only
    split_ifs
    · exact ⟨[], by simp [AddonLoop.events]⟩
    · split
      · exact ⟨[], by simp [AddonLoop.events]⟩
      · split
        · exact ⟨[], by simp [AddonLoop.events]⟩
        · split
          · exact ⟨[], by simp [AddonLoop.events]⟩
          · split
            · obtain ⟨rest, h⟩ := ih _ _ _
              exact ⟨_, by rw [h, List.append_assoc, List.append_assoc]⟩
            · obtain ⟨rest, h⟩ := ih _ _ _
              exact ⟨_, by rw [h, List.append_assoc, List.append_assoc]⟩

theorem parse_events (st : AddonState) (data : ByteBuffer) (size : Nat) (out : List Nat)
    (evs : List AddonEvent) :
    ∃ rest, (WorldSession.ReadAddonsInfo.parse st data size out evs).events = evs ++ rest := by
  unfold WorldSession.ReadAddonsInfo.parse
  simp only
  split
  · exact ⟨[], by simp⟩
  · rename_i r _
    obtain ⟨rest, h⟩ := entries_events r.1 r.2 st evs
    split
    · rename_i heq
      rw [heq] at h
      exact ⟨rest, h⟩
    · rename_i heq
      rw [heq] at h
      simp only [AddonLoop.events] at h
      split
      · exact ⟨rest, h⟩
      · exact ⟨rest ++ _, by simp only [h, List.append_assoc]; rfl⟩

/-- C20. The guards of `ReadAddonsInfo`. With fewer than 4 bytes left the call changes
nothing and has no effect. Otherwise the declared length `size` is read, and: for 0 the call
ends with no effect; above `0xFFFFF` it ends with the one log line "addon info too big";
in both cases the addon list and the table of learned addons are as before and neither the
buffer is allocated nor `uncompress` called. From 1 to `0xFFFFF` the buffer of `size` bytes
is allocated and `uncompress` called, and when that fails the call ends with the log line
"uncompress error" and the addon list and the table as before. No exception leaves the
function in these cases. -/
theorem ReadAddonsInfo_fails_closed (A : AddonEnv) (st : AddonState) (data : ByteBuffer) :
    (data.rpos + 4 > data.size →
      WorldSession.ReadAddonsInfo A st data = ⟨st, data, [], false⟩) ∧
    (∀ size data1, data.readUInt32 = some (size, data1) →
      (size = 0 → WorldSession.ReadAddonsInfo A st data = ⟨st, data1, [], false⟩) ∧
      (size > 0xFFFFF →
        WorldSession.ReadAddonsInfo A st data =
          ⟨st, data1, [AddonEvent.log .Error .GENERAL (.tooBig size)], false⟩) ∧
      (0 < size → size ≤ 0xFFFFF →
        (∃ rest, (WorldSession.ReadAddonsInfo A st data).events =
          [AddonEvent.resize size,
           AddonEvent.uncompress size (data1.size - data1.rpos % 2 ^ 32)] ++ rest) ∧
        (A.uncompress size (data1.storage.drop (data1.rpos % 2 ^ 32)) = none →
          WorldSession.ReadAddonsInfo A st data =
            ⟨st, data1,
              [AddonEvent.resize size,
               AddonEvent.uncompress size (data1.size - data1.rpos % 2 ^ 32),
               AddonEvent.log .Error .GENERAL .uncompressError], false⟩))) := by
  refine ⟨?_, ?_⟩
  · intro h
    unfold WorldSession.ReadAddonsInfo
    rw [if_pos h]
  · intro size data1 hread
    have hlen : ¬ data.rpos + 4 > data.size := by
      intro h
      unfold ByteBuffer.readUInt32 at hread
      rw [if_pos h] at hread
      cases hread
    unfold WorldSession.ReadAddonsInfo
    rw [if_neg hlen, hread]
    simp only
    refine ⟨?_, ?_, ?_⟩
    · intro h0
      rw [if_pos h0]
    · intro hbig
      have h0 : ¬ size = 0 := by omega
      rw [if_neg h0, if_pos hbig]
    · intro hpos hle
      have h0 : ¬ size = 0 := by omega
      have hbig : ¬ size > 0xFFFFF := by omega
      rw [if_neg h0, if_neg hbig]
      refine ⟨?_, ?_⟩
      · cases hu : A.uncompress size (data1.storage.drop (data1.rpos % 2 ^ 32)) with
        | none => exact ⟨_, rfl⟩
        | some out => exact parse_events st data1 size out _
      · intro hu
        rw [hu]
        rfl

/-- Witness for C20: a packet of 3 bytes, and declared lengths 0, `0x100000` (1 MiB) and
`0x200000` (2 MiB) leave the sample addon state as it was, with no allocation and no call
of `uncompress`; the declared length `0xFFFFF` passes the guards, and the failure of
`uncompress` on the empty rest of the packet leaves the state as it was. -/
theorem ReadAddonsInfo_fails_closed_witness :
    WorldSession.ReadAddonsInfo sampleAddonEnv sampleAddonState ⟨[1, 2, 3], 0⟩ =
      ⟨sampleAddonState, ⟨[1, 2, 3], 0⟩, [], false⟩ ∧
    WorldSession.ReadAddonsInfo sampleAddonEnv sampleAddonState (sampleAddonData 0 [1, 2]) =
      ⟨sampleAddonState, ⟨[0, 0, 0, 0, 1, 2], 4⟩, [], false⟩ ∧
    WorldSession.ReadAddonsInfo sampleAddonEnv sampleAddonState
        (sampleAddonData 0x100000 [1, 2]) =
      ⟨sampleAddonState, ⟨[0, 0, 16, 0, 1, 2], 4⟩,
        [AddonEvent.log .Error .GENERAL (.tooBig 0x100000)], false⟩ ∧
    WorldSession.ReadAddonsInfo sampleAddonEnv sampleAddonState
        (sampleAddonData 0x200000 [1, 2]) =
      ⟨sampleAddonState, ⟨[0, 0, 32, 0, 1, 2], 4⟩,
        [AddonEvent.log .Error .GENERAL (.tooBig 0x200000)], false⟩ ∧
    WorldSession.ReadAddonsInfo sampleAddonEnv sampleAddonState (sampleAddonData 0xFFFFF []) =
      ⟨sampleAddonState, ⟨[255, 255, 15, 0], 4⟩,
        [AddonEvent.resize 0xFFFFF, AddonEvent.uncompress 0xFFFFF 0,
         AddonEvent.log .Error .GENERAL .uncompressError], false⟩ :=
  ⟨(ReadAddonsInfo_fails_closed sampleAddonEnv sampleAddonState ⟨[1, 2, 3], 0⟩).1 (by decide),
   ((ReadAddonsInfo_fails_closed sampleAddonEnv sampleAddonState
      (sampleAddonData 0 [1, 2])).2 0 ⟨[0, 0, 0, 0, 1, 2], 4⟩ (by decide)).1 rfl,
   ((ReadAddonsInfo_fails_closed sampleAddonEnv sampleAddonState
      (sampleAddonData 0x100000 [1, 2])).2 0x100000 ⟨[0, 0, 16, 0, 1, 2], 4⟩
      (by decide)).2.1 (by decide),
   ((ReadAddonsInfo_fails_closed sampleAddonEnv sampleAddonState
      (sampleAddonData 0x200000 [1, 2])).2 0x200000 ⟨[0, 0, 32, 0, 1, 2], 4⟩
      (by decide)).2.1 (by decide),
   (((ReadAddonsInfo_fails_closed sampleAddonEnv sampleAddonState
      (sampleAddonData 0xFFFFF [])).2 0xFFFFF ⟨[255, 255, 15, 0], 4⟩
      (by decide)).2.2 (by decide) (by decide)).2 (by decide)⟩

/-! ## The dispatch loop: the `STATUS_AUTHED` branch past the queue -/

theorem applyPolicy_admitted (E : Env) (s : WorldSession)
    (h : (DosProtection.applyPolicy E s).1 = true) :
    DosProtection.applyPolicy E s = (true, s, []) := by
  unfold DosProtection.applyPolicy at h ⊢
  split <;> simp_all

theorem evaluateOpcode_admitted (E : Env) (s : WorldSession) (p : WorldPacket) (time : Int)
    (h : (DosProtection.EvaluateOpcode E s p time).1 = true) :
    (DosProtection.EvaluateOpcode E s p time).2.2 = [] := by
  unfold DosProtection.EvaluateOpcode at h ⊢
  simp only at h ⊢
  split_ifs at h ⊢
  · rfl
  · rfl
  · rw [applyPolicy_admitted E _ h]

theorem KickPlayer_flag (s : WorldSession) (reason : String) :
    (s.KickPlayer reason).1.m_playerRecentlyLogout = s.m_playerRecentlyLogout := by
  unfold WorldSession.KickPlayer
  split <;> rfl

theorem applyPolicy_flag (E : Env) (s : WorldSession) :
    (DosProtection.applyPolicy E s).2.1.m_playerRecentlyLogout = s.m_playerRecentlyLogout := by
  unfold DosProtection.applyPolicy
  split
  · rfl
  · exact KickPlayer_flag s _
  · exact KickPlayer_flag s _
  · rfl

theorem evaluateOpcode_flag (E : Env) (s : WorldSession) (p : WorldPacket) (time : Int) :
    (DosProtection.EvaluateOpcode E s p time).2.1.m_playerRecentlyLogout =
      s.m_playerRecentlyLogout := by
  unfold DosProtection.EvaluateOpcode
  simp only
  split_ifs
  · rfl
  · rfl
  · rw [applyPolicy_flag]; rfl

theorem consulted_authed (E : Env) (s : WorldSession) (packet : WorldPacket)
    (opHandle : OpcodeHandler) (hst : opHandle.Status = .STATUS_AUTHED)
    (hq : s.m_inQueue = false) :
    WorldSession.Update.consulted E s packet opHandle =
      some (if packet.opcode = E.code .CMSG_CHAR_ENUM then
        { s with m_playerRecentlyLogout := false } else s) := by
  simp [WorldSession.Update.consulted, hst, hq]

theorem invoke_not_notAllowed (E : Env) (s : WorldSession) (packet : WorldPacket)
    (opHandle : OpcodeHandler) (k : Nat) :
    Event.log .Error .OPCODES (.notAllowedOpcode k) ∉
      (WorldSession.Update.invoke E s packet opHandle).2 := by
  unfold WorldSession.Update.invoke WorldSession.LogUnprocessedTail
  simp only
  split_ifs <;> simp

theorem closing_not_notAllowed (clock : UpdateClock) (iter : Nat) (d : Bool)
    (packet : WorldPacket) (k : Nat) :
    Event.log .Error .OPCODES (.notAllowedOpcode k) ∉
      WorldSession.Update.closing clock iter d packet := by
  unfold WorldSession.Update.closing
  split_ifs <;> simp

theorem invoke_handler_filter (E : Env) (s : WorldSession) (packet : WorldPacket)
    (opHandle : OpcodeHandler) :
    (WorldSession.Update.invoke E s packet opHandle).2.filter Event.isHandler =
      [Event.Handler packet] := by
  unfold WorldSession.Update.invoke WorldSession.LogUnprocessedTail
  simp only
  split_ifs <;> simp [List.filter, Event.isHandler]

theorem closing_handler_filter (clock : UpdateClock) (iter : Nat) (d : Bool)
    (packet : WorldPacket) :
    (WorldSession.Update.closing clock iter d packet).filter Event.isHandler = [] := by
  unfold WorldSession.Update.closing
  split_ifs <;> simp [List.filter, Event.isHandler]

theorem authed_events (E : Env) (clock : UpdateClock) (st : UpdateState)
    (packet : WorldPacket) (opHandle : OpcodeHandler) (s' : WorldSession)
    (hst : opHandle.Status = .STATUS_AUTHED) (hq : st.session.m_inQueue = false)
    (hs' : s' = if packet.opcode = E.code .CMSG_CHAR_ENUM then
      { st.session with m_playerRecentlyLogout := false } else st.session) :
    (WorldSession.Update.bodyWith E clock st packet opHandle).eventsSince st =
      ((DosProtection.EvaluateOpcode E s' packet clock.currentTime).2.2 ++
        if (DosProtection.EvaluateOpcode E s' packet clock.currentTime).1 then
          (WorldSession.Update.invoke E
            (DosProtection.EvaluateOpcode E s' packet clock.currentTime).2.1 packet opHandle).2
        else [Event.log .Error .OPCODES (.notAllowedOpcode packet.opcode)]) ++
      WorldSession.Update.closing clock st.iter st.deletePacket packet := by
  have hc : WorldSession.Update.consulted E st.session packet opHandle = some s' := by
    rw [hs']; exact consulted_authed E st.session packet opHandle hst hq
  have hd := dispatch_of_consulted E clock st packet opHandle s' hc
  have hrej : WorldSession.Update.rejected packet opHandle =
      [Event.log .Error .OPCODES (.notAllowedOpcode packet.opcode)] := by
    simp [WorldSession.Update.rejected, hst]
  have hev := bodyWith_events E clock st st packet opHandle _ rfl
    (by rw [hd]; exact evaluated_trace E clock st s' packet opHandle _)
  rw [hev, hd, (evaluated_locals E clock st s' packet opHandle _).1, hrej]

theorem authed_rejected_no_handler (E : Env) (clock : UpdateClock) (st : UpdateState)
    (packet : WorldPacket) (opHandle : OpcodeHandler) (s' : WorldSession)
    (hst : opHandle.Status = .STATUS_AUTHED) (hq : st.session.m_inQueue = false)
    (hs' : s' = if packet.opcode = E.code .CMSG_CHAR_ENUM then
      { st.session with m_playerRecentlyLogout := false } else st.session)
    (hrej : (DosProtection.EvaluateOpcode E s' packet clock.currentTime).1 = false) :
    ((WorldSession.Update.bodyWith E clock st packet opHandle).eventsSince st).filter
      Event.isHandler = [] := by
  rw [authed_events E clock st packet opHandle s' hst hq hs', hrej]
  simp only [Bool.false_eq_true, if_false]
  rw [List.filter_append, List.filter_append, closing_handler_filter]
  have h1 : (DosProtection.EvaluateOpcode E s' packet clock.currentTime).2.2.filter
      Event.isHandler = [] := by
    rw [List.filter_eq_nil_iff]
    intro e he
    rw [evaluateOpcode_events E s' packet _ e he]
    simp
  rw [h1]
  rfl

/-- C29. A dequeued `STATUS_AUTHED` packet on a session that is past the queue. When
`EvaluateOpcode` rejects it, the iteration invokes no handler and, the `if` having no `break`,
runs into `case STATUS_NEVER`: after the effects of the limiter comes the error "Received
not allowed opcode". When `EvaluateOpcode` admits it, the effects are those of the one
invocation of the handler, and that error is not among them. -/
theorem Update_authed_rejected_falls_through (E : Env) (clock : UpdateClock) (st : UpdateState)
    (packet : WorldPacket) (opHandle : OpcodeHandler) (s' : WorldSession)
    (htab : E.opcodeTable packet.opcode = some opHandle)
    (hst : opHandle.Status = .STATUS_AUTHED) (hq : st.session.m_inQueue = false)
    (hs' : s' = if packet.opcode = E.code .CMSG_CHAR_ENUM then
      { st.session with m_playerRecentlyLogout := false } else st.session) :
    ∃ st', WorldSession.Update.body E clock st packet = some st' ∧
      ((DosProtection.EvaluateOpcode E s' packet clock.currentTime).1 = false →
        st'.eventsSince st =
          (DosProtection.EvaluateOpcode E s' packet clock.currentTime).2.2 ++
            [Event.log .Error .OPCODES (.notAllowedOpcode packet.opcode)] ++
            WorldSession.Update.closing clock st.iter st.deletePacket packet ∧
        (st'.eventsSince st).filter Event.isHandler = []) ∧
      ((DosProtection.EvaluateOpcode E s' packet clock.currentTime).1 = true →
        st'.eventsSince st =
          (WorldSession.Update.invoke E
            (DosProtection.EvaluateOpcode E s' packet clock.currentTime).2.1 packet
              opHandle).2 ++
            WorldSession.Update.closing clock st.iter st.deletePacket packet ∧
        (st'.eventsSince st).filter Event.isHandler = [Event.Handler packet] ∧
        Event.log .Error .OPCODES (.notAllowedOpcode packet.opcode) ∉ st'.eventsSince st) := by
  have hev := authed_events E clock st packet opHandle s' hst hq hs'
  refine ⟨_, bodyWith_eq E clock st packet opHandle htab, ?_, ?_⟩
  · intro hrej
    rw [hev, hrej]
    simp only [Bool.false_eq_true, if_false]
    refine ⟨by simp only [List.append_assoc], ?_⟩
    have h := authed_rejected_no_handler E clock st packet opHandle s' hst hq hs' hrej
    rw [hev, hrej] at h
    exact h
  · intro hadm
    rw [hev, hadm, evaluateOpcode_admitted E s' packet _ hadm]
    simp only [if_true, List.nil_append]
    refine ⟨trivial, ?_, ?_⟩
    · rw [List.filter_append, closing_handler_filter, invoke_handler_filter]
      rfl
    · rw [List.mem_append]
      rintro (h | h)
      · exact invoke_not_notAllowed E _ packet opHandle _ h
      · exact closing_not_notAllowed clock _ _ packet _ h

/-- Witness for C29: the fourth `CMSG_CHAR_ENUM` packet of second 1000 under `POLICY_KICK`
is rejected; the effects of the iteration are the kick, the error "Received not allowed
opcode" and the deletion of the packet. -/
theorem Update_authed_rejected_falls_through_witness :
    ∃ st', WorldSession.Update.body sampleEnv sampleClock (sampleFloodDequeued .POLICY_KICK)
        (samplePacket 1 .CMSG_CHAR_ENUM) = some st' ∧
      st'.eventsSince (sampleFloodDequeued .POLICY_KICK) =
        [Event.log .Error .GENERAL .antiDosKicked,
         Event.log .Info .KICK (.kick 1 "AntiDos"), Event.CloseSocket,
         Event.log .Error .OPCODES (.notAllowedOpcode (sampleCode .CMSG_CHAR_ENUM)),
         Event.delete 1] := by
  obtain ⟨st', h1, h2, _⟩ := Update_authed_rejected_falls_through sampleEnv sampleClock
    (sampleFloodDequeued .POLICY_KICK) (samplePacket 1 .CMSG_CHAR_ENUM)
    ⟨.STATUS_AUTHED, .PROCESS_THREADUNSAFE, sampleHandler⟩ _ rfl rfl rfl rfl
  exact ⟨st', h1, (h2 (by decide)).1.trans (by decide)⟩

theorem bodyWith_session (E : Env) (clock : UpdateClock) (st : UpdateState)
    (packet : WorldPacket) (opHandle : OpcodeHandler) :
    (WorldSession.Update.bodyWith E clock st packet opHandle).session =
      (WorldSession.Update.dispatch E clock st packet opHandle).session := rfl

/-- C28, as the code has it. For a dequeued `STATUS_AUTHED` packet: in the queue the session
is left as it is. Past the queue the flag `m_playerRecentlyLogout` is cleared when the opcode
is `CMSG_CHAR_ENUM`, before `EvaluateOpcode` is called: the limiter runs on the session with
the flag cleared (for any other opcode, on the session as it is) and does not touch the flag.
When the limiter rejects the packet no handler runs and the flag is false for
`CMSG_CHAR_ENUM`, unchanged for any other opcode; when it admits the packet the handler
receives the session with that flag value. -/
theorem Update_authed_clears_flag (E : Env) (clock : UpdateClock) (st : UpdateState)
    (packet : WorldPacket) (opHandle : OpcodeHandler) (s' : WorldSession)
    (htab : E.opcodeTable packet.opcode = some opHandle)
    (hst : opHandle.Status = .STATUS_AUTHED)
    (hs' : s' = if packet.opcode = E.code .CMSG_CHAR_ENUM then
      { st.session with m_playerRecentlyLogout := false } else st.session) :
    ∃ st', WorldSession.Update.body E clock st packet = some st' ∧
      (st.session.m_inQueue = true → st'.session = st.session) ∧
      (st.session.m_inQueue = false →
        (DosProtection.EvaluateOpcode E s' packet clock.currentTime).2.1.m_playerRecentlyLogout =
          (if packet.opcode = E.code .CMSG_CHAR_ENUM then false
            else st.session.m_playerRecentlyLogout) ∧
        ((DosProtection.EvaluateOpcode E s' packet clock.currentTime).1 = false →
          (st'.eventsSince st).filter Event.isHandler = [] ∧
          st'.session = (DosProtection.EvaluateOpcode E s' packet clock.currentTime).2.1) ∧
        ((DosProtection.EvaluateOpcode E s' packet clock.currentTime).1 = true →
          st'.session = (opHandle.Handler
            (DosProtection.EvaluateOpcode E s' packet clock.currentTime).2.1 packet).session))
      := by
  refine ⟨_, bodyWith_eq E clock st packet opHandle htab, ?_, ?_⟩
  · intro hq
    rw [bodyWith_session, dispatch_authed_queued E clock st packet opHandle hst hq]
  · intro hq
    have hc : WorldSession.Update.consulted E st.session packet opHandle = some s' := by
      rw [hs']; exact consulted_authed E st.session packet opHandle hst hq
    have hd := dispatch_of_consulted E clock st packet opHandle s' hc
    have hses := evaluated_session E clock st s' packet opHandle
      (WorldSession.Update.rejected packet opHandle)
    refine ⟨?_, ?_, ?_⟩
    · rw [evaluateOpcode_flag, hs']
      split_ifs <;> rfl
    · intro hrej
      refine ⟨authed_rejected_no_handler E clock st packet opHandle s' hst hq hs' hrej, ?_⟩
      rw [bodyWith_session, hd, hses, hrej]
      simp
    · intro hadm
      rw [bodyWith_session, hd, hses, hadm]
      simp

/-- Witness for C28 as amended: the `CMSG_CHAR_ENUM` packet of the sample session is
admitted; the limiter and the handler run on the session with the flag cleared. -/
theorem Update_authed_clears_flag_witness :
    sampleCharEnumSession.m_playerRecentlyLogout = true ∧
    ∃ st', WorldSession.Update.body sampleEnv sampleClock (sampleDequeued sampleCharEnumSession)
        (samplePacket 1 .CMSG_CHAR_ENUM) = some st' ∧
      st'.session.m_playerRecentlyLogout = false := by
  obtain ⟨st', h1, _, h3⟩ := Update_authed_clears_flag sampleEnv sampleClock
    (sampleDequeued sampleCharEnumSession) (samplePacket 1 .CMSG_CHAR_ENUM)
    ⟨.STATUS_AUTHED, .PROCESS_THREADUNSAFE, sampleHandler⟩ _ rfl rfl rfl
  exact ⟨rfl, st', h1, (congrArg WorldSession.m_playerRecentlyLogout
    ((h3 rfl).2.2 (by decide))).trans (by decide)⟩

/-- C28 fails as stated: the flag `m_playerRecentlyLogout` of the sample session is set, its
fourth `CMSG_CHAR_ENUM` packet of second 1000 is rejected by the limiter under
`POLICY_KICK`; no handler is invoked, and the flag is cleared all the same. -/
theorem Update_flag_cleared_without_handler :
    sampleFloodRecentDequeued.session.m_playerRecentlyLogout = true ∧
    (DosProtection.EvaluateOpcode sampleEnv
      { sampleFloodRecentDequeued.session with m_playerRecentlyLogout := false }
      (samplePacket 1 .CMSG_CHAR_ENUM) sampleClock.currentTime).1 = false ∧
    (WorldSession.Update.body sampleEnv sampleClock sampleFloodRecentDequeued
      (samplePacket 1 .CMSG_CHAR_ENUM)).map
        (fun st' => ((st'.eventsSince sampleFloodRecentDequeued).filter Event.isHandler,
          st'.session.m_playerRecentlyLogout)) = some ([], false) := by
  decide

/-! ## The anti-flood limiter: the stored window -/

theorem runLength_snoc (ts : List Int) (t' t : Int) :
    runLength (ts ++ [t']) t = if t' = t then runLength ts t + 1 else 0 := by
  unfold runLength
  rw [List.reverse_append, List.reverse_singleton, List.singleton_append, List.takeWhile_cons]
  by_cases h : t' = t <;> simp [h]

theorem runLength_replicate (n : Nat) (t : Int) : runLength (List.replicate n t) t = n := by
  induction n with
  | zero => rfl
  | succ n ih => rw [List.replicate_succ', runLength_snoc, if_pos rfl, ih]

theorem KickPlayer_AntiDOS (s : WorldSession) (reason : String) :
    (s.KickPlayer reason).1.AntiDOS = s.AntiDOS := by
  unfold WorldSession.KickPlayer
  split <;> rfl

theorem applyPolicy_AntiDOS (E : Env) (s : WorldSession) :
    (DosProtection.applyPolicy E s).2.1.AntiDOS = s.AntiDOS := by
  unfold DosProtection.applyPolicy
  split
  · rfl
  · exact KickPlayer_AntiDOS s _
  · exact KickPlayer_AntiDOS s _
  · rfl

theorem evaluateOpcode_step (E : Env) (s : WorldSession) (p : WorldPacket) (t : Int)
    (hpos : DosProtection.GetMaxPacketCounterAllowed E (p.opcode % 65536) ≠ 0) :
    (DosProtection.EvaluateOpcode E s p t).2.1.AntiDOS =
        (s.withCounter (p.opcode % 65536)
          ⟨t, (s.AntiDOS.countAt (p.opcode % 65536) t + 1) % 2 ^ 32⟩).AntiDOS ∧
      (DosProtection.EvaluateOpcode E s p t).1 =
        (if (s.AntiDOS.countAt (p.opcode % 65536) t + 1) % 2 ^ 32 ≤
            DosProtection.GetMaxPacketCounterAllowed E (p.opcode % 65536) then true
          else s.AntiDOS._policy.admitsOverCeiling) := by
  by_cases hle : (s.AntiDOS.countAt (p.opcode % 65536) t + 1) % 2 ^ 32 ≤
      DosProtection.GetMaxPacketCounterAllowed E (p.opcode % 65536)
  · rw [within_ceiling_call E s p t hpos hle, if_pos hle]
    exact ⟨rfl, rfl⟩
  · rw [over_ceiling_call E s p t hpos hle, if_neg hle, applyPolicy_AntiDOS, applyPolicy_fst]
    exact ⟨rfl, rfl⟩

theorem evaluateOpcode_policy (E : Env) (s : WorldSession) (p : WorldPacket) (t : Int) :
    (DosProtection.EvaluateOpcode E s p t).2.1.AntiDOS._policy = s.AntiDOS._policy := by
  unfold DosProtection.EvaluateOpcode
  simp only
  split_ifs
  · rfl
  · rfl
  · rw [applyPolicy_AntiDOS]; rfl

theorem evaluateOpcodes_policy (E : Env) (calls : List (WorldPacket × Int)) :
    ∀ s : WorldSession,
      (DosProtection.EvaluateOpcodes E s calls).2.1.AntiDOS._policy = s.AntiDOS._policy := by
  induction calls with
  | nil => intro s; rfl
  | cons c calls ih =>
    intro s
    obtain ⟨p, t⟩ := c
    simp only [DosProtection.EvaluateOpcodes]
    rw [ih, evaluateOpcode_policy]

theorem countAt_of_entry (d : DosProtection) (k : Nat) (t' t : Int) (n : Nat)
    (h : d._PacketThrottlingMap k = some ⟨t', n⟩) :
    d.countAt k t = if t' = t then n else 0 := by
  simp [DosProtection.countAt, h]

theorem evaluateOpcodes_snoc (E : Env) (s : WorldSession) (pre : List (WorldPacket × Int))
    (p : WorldPacket) (t : Int) :
    (DosProtection.EvaluateOpcodes E s (pre ++ [(p, t)])).2.1 =
        (DosProtection.EvaluateOpcode E (DosProtection.EvaluateOpcodes E s pre).2.1 p t).2.1 ∧
      (DosProtection.EvaluateOpcodes E s (pre ++ [(p, t)])).1 =
        (DosProtection.EvaluateOpcodes E s pre).1 ++
          [(DosProtection.EvaluateOpcode E (DosProtection.EvaluateOpcodes E s pre).2.1 p t).1]
    := by
  rw [evaluateOpcodes_append]
  simp [DosProtection.EvaluateOpcodes]

theorem withCounter_entry (s : WorldSession) (k : Nat) (pc : PacketCounter) :
    (s.withCounter k pc).AntiDOS._PacketThrottlingMap k = some pc := by
  simp [WorldSession.withCounter, setAt]

theorem evaluateOpcodes_entry (E : Env) (s : WorldSession) (k : Nat)
    (hpos : DosProtection.GetMaxPacketCounterAllowed E k ≠ 0)
    (hnone : s.AntiDOS._PacketThrottlingMap k = none)
    (pre : List (WorldPacket × Int)) :
    ∀ (p : WorldPacket) (t : Int), (∀ c ∈ pre ++ [(p, t)], c.1.opcode % 65536 = k) →
      (DosProtection.EvaluateOpcodes E s pre).2.1.AntiDOS.countAt k t =
          runLength (pre.map Prod.snd) t % 2 ^ 32 ∧
        (DosProtection.EvaluateOpcodes E s (pre ++ [(p, t)])).2.1.AntiDOS._PacketThrottlingMap k
          = some ⟨t, runLength ((pre ++ [(p, t)]).map Prod.snd) t % 2 ^ 32⟩ := by
  induction pre using List.reverseRecOn with
  | nil =>
    intro p t hk
    have hp : p.opcode % 65536 = k := hk (p, t) (by simp)
    have h0 : (DosProtection.EvaluateOpcodes E s []).2.1.AntiDOS.countAt k t = 0 := by
      simp [DosProtection.EvaluateOpcodes, DosProtection.countAt, hnone]
    refine ⟨by rw [h0]; rfl, ?_⟩
    rw [(evaluateOpcodes_snoc E s [] p t).1,
      (evaluateOpcode_step E _ p t (by rw [hp]; exact hpos)).1,
      hp, withCounter_entry, h0]
    have hr : runLength (([] ++ [(p, t)] : List (WorldPacket × Int)).map Prod.snd) t = 0 + 1 := by
      rw [List.nil_append, List.map_singleton]
      exact (runLength_snoc [] t t).trans (by rw [if_pos rfl]; rfl)
    rw [hr]
  | append_singleton pre c ih =>
    intro p t hk
    obtain ⟨p', t'⟩ := c
    have hp : p.opcode % 65536 = k := hk (p, t) (by simp)
    have hpre := (ih p' t' (fun c hc => hk c (List.mem_append_left _ hc))).2
    have hcount : (DosProtection.EvaluateOpcodes E s (pre ++ [(p', t')])).2.1.AntiDOS.countAt k t =
        runLength ((pre ++ [(p', t')]).map Prod.snd) t % 2 ^ 32 := by
      rw [countAt_of_entry _ k t' t _ hpre]
      by_cases h : t' = t
      · subst h; simp
      · rw [if_neg h, List.map_append, List.map_singleton, runLength_snoc, if_neg h,
          Nat.zero_mod]
    refine ⟨hcount, ?_⟩
    rw [(evaluateOpcodes_snoc E s _ p t).1,
      (evaluateOpcode_step E _ p t (by rw [hp]; exact hpos)).1,
      hp, withCounter_entry, hcount]
    have hr : runLength ((pre ++ [(p', t')] ++ [(p, t)]).map Prod.snd) t =
        runLength ((pre ++ [(p', t')]).map Prod.snd) t + 1 := by
      rw [List.map_append _ (pre ++ [(p', t')]), List.map_singleton, runLength_snoc, if_pos rfl]
    rw [hr, Nat.add_mod, Nat.mod_mod, ← Nat.add_mod]

theorem evaluateOpcodes_last (E : Env) (s : WorldSession) (k : Nat)
    (hpos : DosProtection.GetMaxPacketCounterAllowed E k ≠ 0)
    (hnone : s.AntiDOS._PacketThrottlingMap k = none)
    (pre : List (WorldPacket × Int)) (p : WorldPacket) (t : Int)
    (hk : ∀ c ∈ pre ++ [(p, t)], c.1.opcode % 65536 = k) :
    (DosProtection.EvaluateOpcodes E s (pre ++ [(p, t)])).1.getLast? =
      some (if runLength ((pre ++ [(p, t)]).map Prod.snd) t % 2 ^ 32 ≤
          DosProtection.GetMaxPacketCounterAllowed E k then true
        else s.AntiDOS._policy.admitsOverCeiling) := by
  have hp : p.opcode % 65536 = k := hk (p, t) (by simp)
  have hcount := (evaluateOpcodes_entry E s k hpos hnone pre p t hk).1
  have hr : runLength ((pre ++ [(p, t)]).map Prod.snd) t =
      runLength (pre.map Prod.snd) t + 1 := by
    rw [List.map_append, List.map_singleton, runLength_snoc, if_pos rfl]
  rw [(evaluateOpcodes_snoc E s pre p t).2, List.getLast?_append, List.getLast?_singleton,
    Option.or_some, (evaluateOpcode_step E _ p t (by rw [hp]; exact hpos)).2, hp, hcount,
    evaluateOpcodes_policy, hr, Nat.add_mod, Nat.mod_mod, ← Nat.add_mod]

/-- C30, as the code has it. For an opcode with positive ceiling `c`, a limiter that holds no
counter for it, and any sequence of `EvaluateOpcode` calls for it: after the last call the
stored time is that call's time value and the stored count is the number of consecutive
calls made with that time value, this one included, modulo `2 ^ 32` (the counter is a
`uint32`), so the number itself below `2 ^ 32`. The call returns true when the stored count
is at most `c`, and otherwise what the policy gives: false under `POLICY_KICK` and
`POLICY_BAN`. -/
theorem EvaluateOpcode_window_count (E : Env) (s : WorldSession) (k : Nat)
    (pre : List (WorldPacket × Int)) (p : WorldPacket) (t : Int)
    (hk : ∀ c ∈ pre ++ [(p, t)], c.1.opcode % 65536 = k)
    (hpos : 0 < DosProtection.GetMaxPacketCounterAllowed E k)
    (hnone : s.AntiDOS._PacketThrottlingMap k = none) :
    (DosProtection.EvaluateOpcodes E s (pre ++ [(p, t)])).2.1.AntiDOS._PacketThrottlingMap k =
      some ⟨t, runLength ((pre ++ [(p, t)]).map Prod.snd) t % 2 ^ 32⟩ ∧
    (runLength ((pre ++ [(p, t)]).map Prod.snd) t < 2 ^ 32 →
      (DosProtection.EvaluateOpcodes E s (pre ++ [(p, t)])).2.1.AntiDOS._PacketThrottlingMap k =
        some ⟨t, runLength ((pre ++ [(p, t)]).map Prod.snd) t⟩) ∧
    (runLength ((pre ++ [(p, t)]).map Prod.snd) t % 2 ^ 32 ≤
        DosProtection.GetMaxPacketCounterAllowed E k →
      (DosProtection.EvaluateOpcodes E s (pre ++ [(p, t)])).1.getLast? = some true) ∧
    (DosProtection.GetMaxPacketCounterAllowed E k <
        runLength ((pre ++ [(p, t)]).map Prod.snd) t % 2 ^ 32 →
      (DosProtection.EvaluateOpcodes E s (pre ++ [(p, t)])).1.getLast? =
          some s.AntiDOS._policy.admitsOverCeiling ∧
        (s.AntiDOS._policy = .POLICY_KICK ∨ s.AntiDOS._policy = .POLICY_BAN →
          (DosProtection.EvaluateOpcodes E s (pre ++ [(p, t)])).1.getLast? = some false)) := by
  have hpos' : DosProtection.GetMaxPacketCounterAllowed E k ≠ 0 := by omega
  have hentry := (evaluateOpcodes_entry E s k hpos' hnone pre p t hk).2
  have hlast := evaluateOpcodes_last E s k hpos' hnone pre p t hk
  refine ⟨hentry, ?_, ?_, ?_⟩
  · intro hlt
    rw [hentry, Nat.mod_eq_of_lt hlt]
  · intro hle
    rw [hlast, if_pos hle]
  · intro hgt
    have hn : ¬ runLength ((pre ++ [(p, t)]).map Prod.snd) t % 2 ^ 32 ≤
        DosProtection.GetMaxPacketCounterAllowed E k := by omega
    rw [hlast, if_neg hn]
    refine ⟨rfl, ?_⟩
    rintro (h | h) <;> rw [h] <;> rfl

/-- Witness for C30 as amended: four `CMSG_CHAR_ENUM` calls (ceiling 3) in second 7 under
`POLICY_KICK` leave the stored window at second 7 with count 4, and the fourth call
returns false. -/
theorem EvaluateOpcode_window_count_witness :
    (DosProtection.EvaluateOpcodes sampleEnv (sampleSession .POLICY_KICK)
      (List.replicate 3 (samplePacket 1 .CMSG_CHAR_ENUM, 7) ++
        [(samplePacket 1 .CMSG_CHAR_ENUM, 7)])).2.1.AntiDOS._PacketThrottlingMap
        (sampleCode .CMSG_CHAR_ENUM) = some ⟨7, 4⟩ ∧
    (DosProtection.EvaluateOpcodes sampleEnv (sampleSession .POLICY_KICK)
      (List.replicate 3 (samplePacket 1 .CMSG_CHAR_ENUM, 7) ++
        [(samplePacket 1 .CMSG_CHAR_ENUM, 7)])).1.getLast? = some false :=
  ⟨(EvaluateOpcode_window_count sampleEnv (sampleSession .POLICY_KICK)
      (sampleCode .CMSG_CHAR_ENUM) (List.replicate 3 (samplePacket 1 .CMSG_CHAR_ENUM, 7))
      (samplePacket 1 .CMSG_CHAR_ENUM) 7 (by decide) (by decide) rfl).2.1 (by decide),
   ((EvaluateOpcode_window_count sampleEnv (sampleSession .POLICY_KICK)
      (sampleCode .CMSG_CHAR_ENUM) (List.replicate 3 (samplePacket 1 .CMSG_CHAR_ENUM, 7))
      (samplePacket 1 .CMSG_CHAR_ENUM) 7 (by decide) (by decide) rfl).2.2.2 (by decide)).2
      (Or.inl rfl)⟩

/-- C30 fails as stated: after `2 ^ 32` consecutive `CMSG_CHAR_ENUM` calls with the time
value 7, from a fresh limiter, the stored count is 0, not `2 ^ 32`. -/
theorem EvaluateOpcode_count_wraps :
    runLength ((List.replicate (4294967295 + 1) (samplePacket 1 .CMSG_CHAR_ENUM, (7 : Int))).map
      Prod.snd) 7 = 2 ^ 32 ∧
    (DosProtection.EvaluateOpcodes sampleEnv (sampleSession .POLICY_KICK)
      (List.replicate (4294967295 + 1)
        (samplePacket 1 .CMSG_CHAR_ENUM, 7))).2.1.AntiDOS._PacketThrottlingMap
        (sampleCode .CMSG_CHAR_ENUM) = some ⟨7, 0⟩ := by
  have hrun : runLength ((List.replicate (4294967295 + 1)
      (samplePacket 1 .CMSG_CHAR_ENUM, (7 : Int))).map Prod.snd) 7 = 4294967295 + 1 := by
    rw [List.map_replicate]
    exact runLength_replicate _ 7
  refine ⟨hrun.trans (by norm_num), ?_⟩
  have h := (evaluateOpcodes_entry sampleEnv (sampleSession .POLICY_KICK)
    (sampleCode .CMSG_CHAR_ENUM) (by decide) rfl
    (List.replicate 4294967295 (samplePacket 1 .CMSG_CHAR_ENUM, 7))
    (samplePacket 1 .CMSG_CHAR_ENUM) 7 (by
      intro c hc
      rw [← List.replicate_succ'] at hc
      rw [List.eq_of_mem_replicate hc]
      decide)).2
  rw [← List.replicate_succ'] at h
  rw [h, hrun]
  norm_num

/-! ## Asynchronous query callbacks -/

theorem cancel_not_ready (q : QuerySlot) : q.cancel.ready = false := rfl

theorem charEnum_eq (H : QueryHandlers) (hown : H.ownSlotOnly) (q : QueryCallbacks) :
    WorldSession.ProcessQueryCallbacks.charEnum H q =
      ({ q with _charEnumCallback :=
          if q._charEnumCallback.ready then
            (H.HandleCharEnum q._charEnumCallback.get q)._charEnumCallback.cancel
          else q._charEnumCallback },
        if q._charEnumCallback.ready then [QueryEvent.HandleCharEnum q._charEnumCallback.get]
        else []) := by
  unfold WorldSession.ProcessQueryCallbacks.charEnum
  split_ifs
  · rw [hown.1 q._charEnumCallback.get q]
  · rfl

theorem charCreate_eq (H : QueryHandlers) (hown : H.ownSlotOnly) (q : QueryCallbacks) :
    WorldSession.ProcessQueryCallbacks.charCreate H q =
      ({ q with _charCreateCallback :=
          if q._charCreateCallback.ready then
            (H.HandleCharCreateCallback q._charCreateCallback.get q._charCreateCallback.param
              q)._charCreateCallback
          else q._charCreateCallback },
        if q._charCreateCallback.ready then
          [QueryEvent.HandleCharCreateCallback q._charCreateCallback.get
            q._charCreateCallback.param]
        else []) := by
  unfold WorldSession.ProcessQueryCallbacks.charCreate
  split_ifs
  · rw [← hown.2.1 q._charCreateCallback.get q._charCreateCallback.param q]
  · rfl

theorem charLogin_eq (H : QueryHandlers) (hown : H.ownSlotOnly) (q : QueryCallbacks) :
    WorldSession.ProcessQueryCallbacks.charLogin H q =
      ({ q with _charLoginCallback :=
          if q._charLoginCallback.ready then
            (H.HandlePlayerLogin q._charLoginCallback.get q)._charLoginCallback.cancel
          else q._charLoginCallback },
        if q._charLoginCallback.ready then [QueryEvent.HandlePlayerLogin q._charLoginCallback.get]
        else []) := by
  unfold WorldSession.ProcessQueryCallbacks.charLogin
  split_ifs
  · rw [hown.2.2.1 q._charLoginCallback.get q]
  · rfl

theorem addFriend_eq (H : QueryHandlers) (hown : H.ownSlotOnly) (q : QueryCallbacks) :
    WorldSession.ProcessQueryCallbacks.addFriend H q =
      ({ q with _addFriendCallback :=
          if q._addFriendCallback.ready then
            (H.HandleAddFriendOpcodeCallBack q._addFriendCallback.get
              q._addFriendCallback.param q)._addFriendCallback.cancel
          else q._addFriendCallback },
        if q._addFriendCallback.ready then
          [QueryEvent.HandleAddFriendOpcodeCallBack q._addFriendCallback.get
            q._addFriendCallback.param]
        else []) := by
  unfold WorldSession.ProcessQueryCallbacks.addFriend
  split_ifs
  · rw [hown.2.2.2.1 q._addFriendCallback.get q._addFriendCallback.param q]
  · rfl

theorem charRename_eq (H : QueryHandlers) (hown : H.ownSlotOnly) (q : QueryCallbacks) :
    WorldSession.ProcessQueryCallbacks.charRename H q =
      ({ q with _charRenameCallback :=
          if q._charRenameCallback.ready then
            (H.HandleChangePlayerNameOpcodeCallBack q._charRenameCallback.get
              q._charRenameCallback.param q)._charRenameCallback.cancel
          else q._charRenameCallback },
        if q._charRenameCallback.ready then
          [QueryEvent.HandleChangePlayerNameOpcodeCallBack q._charRenameCallback.get
            q._charRenameCallback.param]
        else []) := by
  unfold WorldSession.ProcessQueryCallbacks.charRename
  split_ifs
  · rw [hown.2.2.2.2.1 q._charRenameCallback.get q._charRenameCallback.param q]
  · rfl

theorem addIgnore_eq (H : QueryHandlers) (hown : H.ownSlotOnly) (q : QueryCallbacks) :
    WorldSession.ProcessQueryCallbacks.addIgnore H q =
      ({ q with _addIgnoreCallback :=
          if q._addIgnoreCallback.ready then
            (H.HandleAddIgnoreOpcodeCallBack q._addIgnoreCallback.get q)._addIgnoreCallback.cancel
          else q._addIgnoreCallback },
        if q._addIgnoreCallback.ready then
          [QueryEvent.HandleAddIgnoreOpcodeCallBack q._addIgnoreCallback.get]
        else []) := by
  unfold WorldSession.ProcessQueryCallbacks.addIgnore
  split_ifs
  · rw [hown.2.2.2.2.2.1 q._addIgnoreCallback.get q]
  · rfl

theorem guildRename_eq (H : QueryHandlers) (hown : H.ownSlotOnly) (q : QueryCallbacks) :
    WorldSession.ProcessQueryCallbacks.guildRename H q =
      ({ q with _guildRenameCallback :=
          if q._guildRenameCallback.ready then
            (H.HandleGuildRenameCallback q._guildRenameCallback.param
              q)._guildRenameCallback.cancel
          else q._guildRenameCallback },
        if q._guildRenameCallback.ready then
          [QueryEvent.HandleGuildRenameCallback q._guildRenameCallback.param]
        else []) := by
  unfold WorldSession.ProcessQueryCallbacks.guildRename
  split_ifs
  · rw [hown.2.2.2.2.2.2 q._guildRenameCallback.param q]
  · rfl

theorem ite_cancel_not_ready (c : Bool) (a b : QuerySlot) (hb : c = false → b.ready = false) :
    (if c then a.cancel else b).ready = false := by
  cases c
  · simpa using hb rfl
  · rfl

theorem processQueryCallbacks_events (H : QueryHandlers) (hown : H.ownSlotOnly)
    (q : QueryCallbacks) :
    (WorldSession.ProcessQueryCallbacks H q).2 =
      (if q._charEnumCallback.ready then [QueryEvent.HandleCharEnum q._charEnumCallback.get]
        else []) ++
      (if q._charCreateCallback.ready then
        [QueryEvent.HandleCharCreateCallback q._charCreateCallback.get
          q._charCreateCallback.param] else []) ++
      (if q._charLoginCallback.ready then [QueryEvent.HandlePlayerLogin q._charLoginCallback.get]
        else []) ++
      (if q._addFriendCallback.ready then
        [QueryEvent.HandleAddFriendOpcodeCallBack q._addFriendCallback.get
          q._addFriendCallback.param] else []) ++
      (if q._charRenameCallback.ready then
        [QueryEvent.HandleChangePlayerNameOpcodeCallBack q._charRenameCallback.get
          q._charRenameCallback.param] else []) ++
      (if q._addIgnoreCallback.ready then
        [QueryEvent.HandleAddIgnoreOpcodeCallBack q._addIgnoreCallback.get] else []) ++
      (if q._guildRenameCallback.ready then
        [QueryEvent.HandleGuildRenameCallback q._guildRenameCallback.param] else []) := by
  unfold WorldSession.ProcessQueryCallbacks
  simp only [charEnum_eq H hown, charCreate_eq H hown, charLogin_eq H hown, addFriend_eq H hown,
    charRename_eq H hown, addIgnore_eq H hown, guildRename_eq H hown]

theorem processQueryCallbacks_slots (H : QueryHandlers) (hown : H.ownSlotOnly)
    (q : QueryCallbacks) :
    (WorldSession.ProcessQueryCallbacks H q).1._charEnumCallback.ready = false ∧
    (WorldSession.ProcessQueryCallbacks H q).1._charLoginCallback.ready = false ∧
    (WorldSession.ProcessQueryCallbacks H q).1._addFriendCallback.ready = false ∧
    (WorldSession.ProcessQueryCallbacks H q).1._charRenameCallback.ready = false ∧
    (WorldSession.ProcessQueryCallbacks H q).1._addIgnoreCallback.ready = false ∧
    (WorldSession.ProcessQueryCallbacks H q).1._guildRenameCallback.ready = false := by
  unfold WorldSession.ProcessQueryCallbacks
  simp only [charEnum_eq H hown, charCreate_eq H hown, charLogin_eq H hown, addFriend_eq H hown,
    charRename_eq H hown, addIgnore_eq H hown, guildRename_eq H hown]
  refine ⟨?_, ?_, ?_, ?_, ?_, ?_⟩ <;> exact ite_cancel_not_ready _ _ _ (fun h => h)

/-- C27, as the code has it. The continuations change no slot but their own. One call of
`ProcessQueryCallbacks` invokes, in source order, the continuation of each slot that is
ready, once, and of no other slot. After the call the slots char-enum, char-login,
add-friend, char-rename, add-ignore and guild-rename are empty, so a second call at once
invokes none of their continuations. The char-create slot is not reset by the call (its
block has no `FreeResult()`): it is as the continuation left it, and the second call invokes
the continuation again exactly when the slot is still ready. -/
theorem ProcessQueryCallbacks_once (H : QueryHandlers) (q : QueryCallbacks)
    (hown : H.ownSlotOnly) :
    (WorldSession.ProcessQueryCallbacks H q).2 =
      (if q._charEnumCallback.ready then [QueryEvent.HandleCharEnum q._charEnumCallback.get]
        else []) ++
      (if q._charCreateCallback.ready then
        [QueryEvent.HandleCharCreateCallback q._charCreateCallback.get
          q._charCreateCallback.param] else []) ++
      (if q._charLoginCallback.ready then [QueryEvent.HandlePlayerLogin q._charLoginCallback.get]
        else []) ++
      (if q._addFriendCallback.ready then
        [QueryEvent.HandleAddFriendOpcodeCallBack q._addFriendCallback.get
          q._addFriendCallback.param] else []) ++
      (if q._charRenameCallback.ready then
        [QueryEvent.HandleChangePlayerNameOpcodeCallBack q._charRenameCallback.get
          q._charRenameCallback.param] else []) ++
      (if q._addIgnoreCallback.ready then
        [QueryEvent.HandleAddIgnoreOpcodeCallBack q._addIgnoreCallback.get] else []) ++
      (if q._guildRenameCallback.ready then
        [QueryEvent.HandleGuildRenameCallback q._guildRenameCallback.param] else []) ∧
    ((WorldSession.ProcessQueryCallbacks H q).1._charEnumCallback.ready = false ∧
      (WorldSession.ProcessQueryCallbacks H q).1._charLoginCallback.ready = false ∧
      (WorldSession.ProcessQueryCallbacks H q).1._addFriendCallback.ready = false ∧
      (WorldSession.ProcessQueryCallbacks H q).1._charRenameCallback.ready = false ∧
      (WorldSession.ProcessQueryCallbacks H q).1._addIgnoreCallback.ready = false ∧
      (WorldSession.ProcessQueryCallbacks H q).1._guildRenameCallback.ready = false) ∧
    (WorldSession.ProcessQueryCallbacks H (WorldSession.ProcessQueryCallbacks H q).1).2 =
      (if (WorldSession.ProcessQueryCallbacks H q).1._charCreateCallback.ready then
        [QueryEvent.HandleCharCreateCallback
          (WorldSession.ProcessQueryCallbacks H q).1._charCreateCallback.get
          (WorldSession.ProcessQueryCallbacks H q).1._charCreateCallback.param]
      else []) := by
  have hs := processQueryCallbacks_slots H hown q
  refine ⟨processQueryCallbacks_events H hown q, hs, ?_⟩
  rw [processQueryCallbacks_events H hown, hs.1, hs.2.1, hs.2.2.1, hs.2.2.2.1, hs.2.2.2.2.1,
    hs.2.2.2.2.2]
  simp

theorem sampleFreeingHandlers_own : sampleFreeingHandlers.ownSlotOnly :=
  ⟨fun _ _ => rfl, fun _ _ _ => rfl, fun _ _ => rfl, fun _ _ _ => rfl, fun _ _ _ => rfl,
    fun _ _ => rfl, fun _ _ => rfl⟩

/-- Witness for C27 as amended: the char-enum and char-create queries have completed and
`HandleCharCreateCallback` frees its result; the first call invokes both continuations, the
second call none. -/
theorem ProcessQueryCallbacks_once_witness :
    (WorldSession.ProcessQueryCallbacks sampleFreeingHandlers sampleQueryCallbacks).2 =
      [QueryEvent.HandleCharEnum 4, QueryEvent.HandleCharCreateCallback 5 9] ∧
    (WorldSession.ProcessQueryCallbacks sampleFreeingHandlers
      (WorldSession.ProcessQueryCallbacks sampleFreeingHandlers sampleQueryCallbacks).1).2 =
      [] :=
  ⟨(ProcessQueryCallbacks_once sampleFreeingHandlers sampleQueryCallbacks
      sampleFreeingHandlers_own).1.trans (by decide),
    (ProcessQueryCallbacks_once sampleFreeingHandlers sampleQueryCallbacks
      sampleFreeingHandlers_own).2.2.trans (by decide)⟩

/-- C27 fails as stated for the char-create slot: the slot is ready and its continuation
leaves it alone; `ProcessQueryCallbacks` invokes the continuation and does not reset the
slot, and a second call with no new completion invokes the continuation again. -/
theorem ProcessQueryCallbacks_charCreate_twice :
    (WorldSession.ProcessQueryCallbacks sampleQueryHandlers sampleQueryCallbacks).2 =
      [QueryEvent.HandleCharEnum 4, QueryEvent.HandleCharCreateCallback 5 9] ∧
    (WorldSession.ProcessQueryCallbacks sampleQueryHandlers
      sampleQueryCallbacks).1._charCreateCallback = ⟨some 5, 9⟩ ∧
    (WorldSession.ProcessQueryCallbacks sampleQueryHandlers
      (WorldSession.ProcessQueryCallbacks sampleQueryHandlers sampleQueryCallbacks).1).2 =
      [QueryEvent.HandleCharCreateCallback 5 9] := by
  decide

/-! ## The addon reply -/

set_option maxRecDepth 8192 in
theorem addonPublicKey_length : addonPublicKey.length = 256 := by decide

theorem entry_writes_flagged (R : ReplyEnv) (a : AddonInfo) (hf : a.UsePublicKeyOrCRC = true) :
    (WorldSession.SendAddonsInfo.entry R a).1 =
      if a.CRC ≠ R.STANDARD_ADDON_CRC then
        [Write.uint8 a.State, Write.uint8 1, Write.uint8 1, Write.append addonPublicKey,
          Write.uint32 0, Write.uint8 0]
      else [Write.uint8 a.State, Write.uint8 1, Write.uint8 0, Write.uint32 0, Write.uint8 0]
    := by
  unfold WorldSession.SendAddonsInfo.entry
  simp only [hf, if_true]
  split_ifs <;> rfl

theorem entry_key_count (R : ReplyEnv) (a : AddonInfo) (hf : a.UsePublicKeyOrCRC = true) :
    (WorldSession.SendAddonsInfo.entry R a).1.count (Write.append addonPublicKey) =
      if a.CRC ≠ R.STANDARD_ADDON_CRC then 1 else 0 := by
  rw [entry_writes_flagged R a hf]
  split_ifs <;> simp [List.count_cons]

theorem entry_payload_length (R : ReplyEnv) (a : AddonInfo) (hf : a.UsePublicKeyOrCRC = true) :
    (Write.payload (WorldSession.SendAddonsInfo.entry R a).1).length =
      8 + if a.CRC ≠ R.STANDARD_ADDON_CRC then 256 else 0 := by
  rw [entry_writes_flagged R a hf]
  split_ifs <;> simp [Write.payload, Write.bytes, addonPublicKey_length]

theorem payload_append (ws₁ ws₂ : List Write) :
    Write.payload (ws₁ ++ ws₂) = Write.payload ws₁ ++ Write.payload ws₂ := by
  simp [Write.payload]

theorem entries_key_count (R : ReplyEnv) (l : List AddonInfo)
    (hf : ∀ a ∈ l, a.UsePublicKeyOrCRC = true) :
    ((l.map (fun a => (WorldSession.SendAddonsInfo.entry R a).1)).flatten).count
        (Write.append addonPublicKey) =
      (l.filter (fun a => decide (a.CRC ≠ R.STANDARD_ADDON_CRC))).length := by
  induction l with
  | nil => rfl
  | cons a l ih =>
    rw [List.map_cons, List.flatten_cons, List.count_append,
      entry_key_count R a (hf a (List.mem_cons_self _ _)),
      ih (fun b hb => hf b (List.mem_cons_of_mem _ hb)), List.filter_cons]
    by_cases h : a.CRC = R.STANDARD_ADDON_CRC
    · simp [h]
    · simp [h]
      omega

theorem entries_payload_length (R : ReplyEnv) (l : List AddonInfo)
    (hf : ∀ a ∈ l, a.UsePublicKeyOrCRC = true) :
    (Write.payload ((l.map (fun a => (WorldSession.SendAddonsInfo.entry R a).1)).flatten)).length =
      8 * l.length +
        256 * (l.filter (fun a => decide (a.CRC ≠ R.STANDARD_ADDON_CRC))).length := by
  induction l with
  | nil => rfl
  | cons a l ih =>
    rw [List.map_cons, List.flatten_cons, payload_append, List.length_append,
      entry_payload_length R a (hf a (List.mem_cons_self _ _)),
      ih (fun b hb => hf b (List.mem_cons_of_mem _ hb)), List.filter_cons]
    by_cases h : a.CRC = R.STANDARD_ADDON_CRC
    · simp [h]
      omega
    · simp [h]
      omega

theorem SendAddonsInfo_writes (E : Env) (R : ReplyEnv) (st : AddonState) (s : WorldSession) :
    (WorldSession.SendAddonsInfo E R st s).writes =
      (st.m_addonsList.map (fun a => (WorldSession.SendAddonsInfo.entry R a).1)).flatten ++
        [Write.uint32 0] := by
  simp [WorldSession.SendAddonsInfo, Function.comp_def]

theorem entries_flagged (n : Nat) : ∀ (b : ByteBuffer) (st : AddonState) (evs : List AddonEvent),
    (∀ a ∈ st.m_addonsList, a.UsePublicKeyOrCRC = true) →
    ∀ a ∈ (WorldSession.ReadAddonsInfo.entries n b st evs).state.m_addonsList,
      a.UsePublicKeyOrCRC = true := by
  induction n with
  | zero => intro b st evs h; exact h
  | succ n ih =>
    intro b st evs h
    unfold WorldSession.ReadAddonsInfo.entries
    simp only
    split_ifs
    · exact h
    · split
      · exact h
      · split
        · exact h
        · split
          · exact h
          · split
            · apply ih
              intro a ha
              rcases List.mem_append.mp ha with ha | ha
              · exact h a ha
              · rw [List.mem_singleton.mp ha]
            · apply ih
              intro a ha
              rcases List.mem_append.mp ha with ha | ha
              · exact h a ha
              · rw [List.mem_singleton.mp ha]

theorem parse_flagged (st : AddonState) (data : ByteBuffer) (size : Nat) (out : List Nat)
    (evs : List AddonEvent) (h : ∀ a ∈ st.m_addonsList, a.UsePublicKeyOrCRC = true) :
    ∀ a ∈ (WorldSession.ReadAddonsInfo.parse st data size out evs).state.m_addonsList,
      a.UsePublicKeyOrCRC = true := by
  unfold WorldSession.ReadAddonsInfo.parse
  simp only
  split
  · exact h
  · rename_i r _
    have hent := entries_flagged r.1 r.2 st evs h
    split
    · rename_i heq
      rw [heq] at hent
      exact hent
    · rename_i heq
      rw [heq] at hent
      split
      · exact hent
      · exact hent

theorem ReadAddonsInfo_flagged (A : AddonEnv) (st : AddonState) (data : ByteBuffer)
    (h : ∀ a ∈ st.m_addonsList, a.UsePublicKeyOrCRC = true) :
    ∀ a ∈ (WorldSession.ReadAddonsInfo A st data).state.m_addonsList,
      a.UsePublicKeyOrCRC = true := by
  unfold WorldSession.ReadAddonsInfo
  split_ifs
  · exact h
  · split
    · exact h
    · simp only
      split_ifs
      · exact h
      · exact h
      · split
        · exact parse_flagged st _ _ _ _ h
        · exact h

/-- C24. The addon list is one that `ReadAddonsInfo` produced from an empty list. In the
reply that `SendAddonsInfo` builds, the writes of an entry hold the key block
`addonPublicKey` once when the entry's checksum differs from `STANDARD_ADDON_CRC` and not at
all when it equals it; the writes of the reply are those of the entries in list order and the
final `uint32(0)`; so the reply holds as many key blocks as there are mismatched entries, and
its payload is `8 * n + 4` bytes plus 256 bytes for each mismatched entry. -/
theorem SendAddonsInfo_key_per_mismatch (E : Env) (R : ReplyEnv) (A : AddonEnv)
    (st0 st : AddonState) (data : ByteBuffer) (s : WorldSession)
    (h0 : st0.m_addonsList = [])
    (hst : st.m_addonsList = (WorldSession.ReadAddonsInfo A st0 data).state.m_addonsList) :
    (∀ a ∈ st.m_addonsList,
      (WorldSession.SendAddonsInfo.entry R a).1.count (Write.append addonPublicKey) =
        if a.CRC ≠ R.STANDARD_ADDON_CRC then 1 else 0) ∧
    (WorldSession.SendAddonsInfo E R st s).writes =
      (st.m_addonsList.map (fun a => (WorldSession.SendAddonsInfo.entry R a).1)).flatten ++
        [Write.uint32 0] ∧
    (WorldSession.SendAddonsInfo E R st s).writes.count (Write.append addonPublicKey) =
      (st.m_addonsList.filter (fun a => decide (a.CRC ≠ R.STANDARD_ADDON_CRC))).length ∧
    (Write.payload (WorldSession.SendAddonsInfo E R st s).writes).length =
      8 * st.m_addonsList.length + 4 +
        256 * (st.m_addonsList.filter
          (fun a => decide (a.CRC ≠ R.STANDARD_ADDON_CRC))).length := by
  have hf : ∀ a ∈ st.m_addonsList, a.UsePublicKeyOrCRC = true := by
    rw [hst]
    exact ReadAddonsInfo_flagged A st0 data (by rw [h0]; intro a ha; cases ha)
  refine ⟨fun a ha => entry_key_count R a (hf a ha), SendAddonsInfo_writes E R st s, ?_, ?_⟩
  · rw [SendAddonsInfo_writes, List.count_append, entries_key_count R _ hf]
    simp [List.count_cons]
  · rw [SendAddonsInfo_writes, payload_append, List.length_append,
      entries_payload_length R _ hf]
    simp [Write.payload, Write.bytes]
    omega

/-- Witness for C24: the sample manifest holds the entries `B` (checksum 9, the standard
one) and `A` (checksum 8); the reply holds one key block and `8 * 2 + 4 + 256` bytes. -/
theorem SendAddonsInfo_key_per_mismatch_witness :
    (WorldSession.ReadAddonsInfo sampleAddonEnv sampleEmptyAddonState
      sampleManifestData).state.m_addonsList =
      [⟨[66], 1, 9, 2, true⟩, ⟨[65], 1, 8, 2, true⟩] ∧
    (WorldSession.SendAddonsInfo sampleEnvReply sampleReplyEnv
      (WorldSession.ReadAddonsInfo sampleAddonEnv sampleEmptyAddonState sampleManifestData).state
      (sampleSession .POLICY_KICK)).writes.count (Write.append addonPublicKey) = 1 ∧
    (Write.payload (WorldSession.SendAddonsInfo sampleEnvReply sampleReplyEnv
      (WorldSession.ReadAddonsInfo sampleAddonEnv sampleEmptyAddonState sampleManifestData).state
      (sampleSession .POLICY_KICK)).writes).length = 276 :=
  ⟨by decide,
    (SendAddonsInfo_key_per_mismatch sampleEnvReply sampleReplyEnv sampleAddonEnv
      sampleEmptyAddonState _ sampleManifestData (sampleSession .POLICY_KICK) rfl rfl).2.2.1.trans
      (by decide),
    (SendAddonsInfo_key_per_mismatch sampleEnvReply sampleReplyEnv sampleAddonEnv
      sampleEmptyAddonState _ sampleManifestData (sampleSession .POLICY_KICK) rfl rfl).2.2.2.trans
      (by decide)⟩

theorem entry_payload (R : ReplyEnv) (a : AddonInfo) :
    Write.payload (WorldSession.SendAddonsInfo.entry R a).1 = AddonReply.record R a := by
  unfold WorldSession.SendAddonsInfo.entry AddonReply.record
  cases hf : a.UsePublicKeyOrCRC
  · simp [Write.payload, Write.bytes]
  · by_cases h : a.CRC = R.STANDARD_ADDON_CRC
    · simp [Write.payload, Write.bytes, h]
    · simp [Write.payload, Write.bytes, h]

theorem entries_payload (R : ReplyEnv) (l : List AddonInfo) :
    Write.payload ((l.map (fun a => (WorldSession.SendAddonsInfo.entry R a).1)).flatten) =
      (l.map (AddonReply.record R)).flatten := by
  induction l with
  | nil => rfl
  | cons a l ih =>
    rw [List.map_cons, List.flatten_cons, payload_append, ih, entry_payload, List.map_cons,
      List.flatten_cons]

/-- C25, as the code has it. For every addon list, the payload that `SendAddonsInfo` emits is
the concatenation of the entry records in list order, each `[u8 state][u8 use_key_or_crc]`,
then only when that flag is set `[u8 key_mismatch_flag][256-byte key if mismatched]
[u32 0]`, then `[u8 0]`, followed by a 32-bit zero count and nothing else. For `N` entries
with the flag set and no mismatch the payload is `8 * N + 4` bytes long. -/
theorem SendAddonsInfo_payload_layout (E : Env) (R : ReplyEnv) (st : AddonState)
    (s : WorldSession) :
    Write.payload (WorldSession.SendAddonsInfo E R st s).writes =
      (st.m_addonsList.map (AddonReply.record R)).flatten ++ [0, 0, 0, 0] ∧
    ((∀ a ∈ st.m_addonsList, a.UsePublicKeyOrCRC = true ∧ a.CRC = R.STANDARD_ADDON_CRC) →
      (Write.payload (WorldSession.SendAddonsInfo E R st s).writes).length =
        8 * st.m_addonsList.length + 4) := by
  refine ⟨?_, ?_⟩
  · rw [SendAddonsInfo_writes, payload_append, entries_payload]
    rfl
  · intro h
    rw [SendAddonsInfo_writes, payload_append, List.length_append,
      entries_payload_length R _ (fun a ha => (h a ha).1)]
    have hnone :
        st.m_addonsList.filter (fun a => decide (a.CRC ≠ R.STANDARD_ADDON_CRC)) = [] := by
      rw [List.filter_eq_nil_iff]
      intro a ha
      simp [(h a ha).2]
    rw [hnone]
    rfl

/-- Witness for C25 as amended: two entries with the flag set and the standard checksum give
a payload of 20 bytes, two records of 8 bytes and the 32-bit zero. -/
theorem SendAddonsInfo_payload_layout_witness :
    Write.payload (WorldSession.SendAddonsInfo sampleEnvReply sampleReplyEnv
      sampleStandardAddons (sampleSession .POLICY_KICK)).writes =
      [2, 1, 0, 0, 0, 0, 0, 0, 2, 1, 0, 0, 0, 0, 0, 0, 0, 0, 0, 0] ∧
    (Write.payload (WorldSession.SendAddonsInfo sampleEnvReply sampleReplyEnv
      sampleStandardAddons (sampleSession .POLICY_KICK)).writes).length =
      8 * 2 + 4 :=
  ⟨(SendAddonsInfo_payload_layout sampleEnvReply sampleReplyEnv
      sampleStandardAddons (sampleSession .POLICY_KICK)).1.trans
      (by decide),
    (SendAddonsInfo_payload_layout sampleEnvReply sampleReplyEnv
      sampleStandardAddons (sampleSession .POLICY_KICK)).2
      (by decide)⟩

/-- C25 fails as stated: for two entries with the flag set and no mismatch the payload is
20 bytes long, not `7 * 2 + 5`; each record ends with its own zero byte and no flag byte
stands between the records and the 32-bit zero. For the empty list the payload is the 32-bit
zero alone, 4 bytes and not 5. -/
theorem SendAddonsInfo_payload_not_7n5 :
    (Write.payload (WorldSession.SendAddonsInfo sampleEnvReply sampleReplyEnv
      sampleStandardAddons
      (sampleSession .POLICY_KICK)).writes).length = 20 ∧
    20 ≠ 7 * 2 + 5 ∧
    Write.payload (WorldSession.SendAddonsInfo sampleEnvReply sampleReplyEnv ⟨[], []⟩
      (sampleSession .POLICY_KICK)).writes = [0, 0, 0, 0] := by
  decide

/-- C26. After a call of `SendAddonsInfo` the addon list is empty, whatever it held and
whatever the session is (with or without a socket, whether or not the socket takes the
packet); the table of learned addons is as before. A second call made at once builds a reply
that holds only the final `uint32(0)`: no entry record. -/
theorem SendAddonsInfo_clears_list (E : Env) (R : ReplyEnv) (st : AddonState)
    (s : WorldSession) :
    (WorldSession.SendAddonsInfo E R st s).state.m_addonsList = [] ∧
    (WorldSession.SendAddonsInfo E R st s).state.knownAddons = st.knownAddons ∧
    (WorldSession.SendAddonsInfo E R (WorldSession.SendAddonsInfo E R st s).state
      (WorldSession.SendAddonsInfo E R st s).session).writes = [Write.uint32 0] ∧
    Write.payload (WorldSession.SendAddonsInfo E R (WorldSession.SendAddonsInfo E R st s).state
      (WorldSession.SendAddonsInfo E R st s).session).writes = [0, 0, 0, 0] := by
  refine ⟨rfl, rfl, ?_, ?_⟩
  · rw [SendAddonsInfo_writes]; rfl
  · rw [SendAddonsInfo_writes]; rfl

/-! ## The addon manifest: reading a well-formed request -/

theorem getD_mid (pre x post : List Nat) (i : Nat) (hi : i < x.length) :
    (pre ++ (x ++ post)).getD (pre.length + i) 0 = x.getD i 0 := by
  simp [List.getD_eq_getElem?_getD, List.getElem?_append_right, List.getElem?_append_left, hi]

theorem le32_decode (v : Nat) (h : v < 2 ^ 32) :
    v % 256 % 256 + 256 * (v / 256 % 256 % 256) + 65536 * (v / 65536 % 256 % 256) +
      16777216 * (v / 16777216 % 256 % 256) = v := by
  omega

theorem readUInt32_at (pre post : List Nat) (v : Nat) (h : v < 2 ^ 32) :
    ByteBuffer.readUInt32 ⟨pre ++ (le32 v ++ post), pre.length⟩ =
      some (v, ⟨pre ++ (le32 v ++ post), pre.length + 4⟩) := by
  have hsz : ¬ pre.length + 4 > (pre ++ (le32 v ++ post)).length := by
    simp [le32]
  have h0 := getD_mid pre (le32 v) post 0 (by simp [le32])
  have h1 := getD_mid pre (le32 v) post 1 (by simp [le32])
  have h2 := getD_mid pre (le32 v) post 2 (by simp [le32])
  have h3 := getD_mid pre (le32 v) post 3 (by simp [le32])
  simp only [Nat.add_zero] at h0
  unfold ByteBuffer.readUInt32 ByteBuffer.size ByteBuffer.byte
  simp only [if_neg hsz, h0, h1, h2, h3]
  simp only [le32, List.getD_cons_zero, List.getD_cons_succ]
  rw [le32_decode v h]

theorem readUInt8_at (pre post : List Nat) (v : Nat) (h : v < 256) :
    ByteBuffer.readUInt8 ⟨pre ++ (v :: post), pre.length⟩ =
      some (v, ⟨pre ++ (v :: post), pre.length + 1⟩) := by
  have hsz : ¬ pre.length + 1 > (pre ++ (v :: post)).length := by simp
  have h0 := getD_mid pre [v] post 0 (by simp)
  simp only [Nat.add_zero, List.singleton_append, List.getD_cons_zero] at h0
  unfold ByteBuffer.readUInt8 ByteBuffer.size ByteBuffer.byte
  simp only [if_neg hsz, h0, Nat.mod_eq_of_lt h]

theorem takeWhile_name (name post : List Nat) (hn : ∀ c ∈ name, 0 < c ∧ c < 256) :
    (name ++ (0 :: post)).takeWhile (fun c => c % 256 != 0) = name := by
  induction name with
  | nil => simp
  | cons c name ih =>
    have hc := hn c (List.mem_cons_self _ _)
    have hmod : c % 256 = c := Nat.mod_eq_of_lt hc.2
    have hne : (c % 256 != 0) = true := by
      rw [hmod]; simp; omega
    rw [List.cons_append, List.takeWhile_cons, hne, if_pos rfl,
      ih (fun d hd => hn d (List.mem_cons_of_mem _ hd))]

theorem readString_at (pre post name : List Nat) (hn : ∀ c ∈ name, 0 < c ∧ c < 256) :
    ByteBuffer.readString ⟨pre ++ (name ++ (0 :: post)), pre.length⟩ =
      (name, ⟨pre ++ (name ++ (0 :: post)), pre.length + name.length + 1⟩) := by
  unfold ByteBuffer.readString
  simp only [List.drop_left, takeWhile_name name post hn]
  have hlt : name.length < (name ++ (0 :: post)).length := by simp
  rw [if_pos hlt]

theorem readUInt32_in (S pre post : List Nat) (v k : Nat) (h : v < 2 ^ 32)
    (hS : S = pre ++ (le32 v ++ post)) (hk : k = pre.length) :
    ByteBuffer.readUInt32 ⟨S, k⟩ = some (v, ⟨S, k + 4⟩) := by
  subst hS hk
  exact readUInt32_at pre post v h

theorem readUInt8_in (S pre post : List Nat) (v k : Nat) (h : v < 256)
    (hS : S = pre ++ (v :: post)) (hk : k = pre.length) :
    ByteBuffer.readUInt8 ⟨S, k⟩ = some (v, ⟨S, k + 1⟩) := by
  subst hS hk
  exact readUInt8_at pre post v h

theorem readString_in (S pre post name : List Nat) (k : Nat)
    (hn : ∀ c ∈ name, 0 < c ∧ c < 256)
    (hS : S = pre ++ (name ++ (0 :: post))) (hk : k = pre.length) :
    ByteBuffer.readString ⟨S, k⟩ = (name, ⟨S, k + name.length + 1⟩) := by
  subst hS hk
  exact readString_at pre post name hn

theorem encode_length (e : ManifestEntry) : e.encode.length = e.name.length + 10 := by
  simp [ManifestEntry.encode, le32]

theorem entries_step (e : ManifestEntry) (he : e.wellFormed) (n : Nat)
    (pre post : List Nat) (st : AddonState) (evs : List AddonEvent) :
    WorldSession.ReadAddonsInfo.entries (n + 1)
        ⟨pre ++ (e.encode ++ post), pre.length⟩ st evs =
      WorldSession.ReadAddonsInfo.entries n
        ⟨pre ++ (e.encode ++ post), pre.length + e.encode.length⟩
        (st.learn e.toAddonInfo) (evs ++ st.learnEvents e.toAddonInfo e.reserved) := by
  obtain ⟨hname, hen, hcrc, hres⟩ := he
  have hguard : ¬ pre.length + 1 >
      (⟨pre ++ (e.encode ++ post), pre.length⟩ : ByteBuffer).size := by
    simp [ByteBuffer.size, encode_length]
  have hr0 := readString_in (pre ++ (e.encode ++ post)) pre
    (e.enabled :: (le32 e.checksum ++ (le32 e.reserved ++ post))) e.name pre.length hname
    (by simp [ManifestEntry.encode]) rfl
  have hr1 := readUInt8_in (pre ++ (e.encode ++ post)) (pre ++ (e.name ++ [0]))
    (le32 e.checksum ++ (le32 e.reserved ++ post)) e.enabled (pre.length + e.name.length + 1)
    hen (by simp [ManifestEntry.encode]) (by simp; omega)
  have hr2 := readUInt32_in (pre ++ (e.encode ++ post)) (pre ++ (e.name ++ [0, e.enabled]))
    (le32 e.reserved ++ post) e.checksum (pre.length + e.name.length + 1 + 1)
    hcrc (by simp [ManifestEntry.encode]) (by simp; omega)
  have hr3 := readUInt32_in (pre ++ (e.encode ++ post))
    (pre ++ (e.name ++ (0 :: e.enabled :: le32 e.checksum)))
    post e.reserved (pre.length + e.name.length + 1 + 1 + 4)
    hres (by simp [ManifestEntry.encode]) (by simp [le32]; omega)
  have hpos : pre.length + e.name.length + 1 + 1 + 4 + 4 = pre.length + e.encode.length := by
    rw [encode_length]; omega
  rw [WorldSession.ReadAddonsInfo.entries]
  simp only [if_neg hguard, hr0, hr1, hr2, hr3, hpos]
  unfold AddonState.learn AddonState.learnEvents ManifestEntry.toAddonInfo
  cases AddonMgr.GetAddonInfo st.knownAddons e.name with
  | none => simp only [List.append_assoc, List.cons_append, List.nil_append]
  | some saved => simp only [List.append_assoc, List.cons_append, List.nil_append]

theorem entries_wellFormed (es : List ManifestEntry) :
    ∀ (pre post : List Nat) (st : AddonState) (evs : List AddonEvent),
      (∀ e ∈ es, e.wellFormed) →
      ∃ evs', WorldSession.ReadAddonsInfo.entries es.length
          ⟨pre ++ ((es.map ManifestEntry.encode).flatten ++ post), pre.length⟩ st evs =
        .completed
          ⟨pre ++ ((es.map ManifestEntry.encode).flatten ++ post),
            pre.length + ((es.map ManifestEntry.encode).flatten).length⟩
          (es.foldl (fun st e => st.learn e.toAddonInfo) st) evs' := by
  induction es with
  | nil =>
    intro pre post st evs _
    exact ⟨evs, rfl⟩
  | cons e es ih =>
    intro pre post st evs hwf
    have hstep := entries_step e (hwf e (List.mem_cons_self _ _)) es.length pre
      ((es.map ManifestEntry.encode).flatten ++ post) st evs
    obtain ⟨evs', hih⟩ := ih (pre ++ e.encode) post (st.learn e.toAddonInfo)
      (evs ++ st.learnEvents e.toAddonInfo e.reserved)
      (fun e' he' => hwf e' (List.mem_cons_of_mem _ he'))
    refine ⟨evs', ?_⟩
    simp only [List.map_cons, List.flatten_cons, List.length_cons, List.foldl_cons,
      List.append_assoc, List.length_append] at hstep hih ⊢
    rw [hstep, hih, Nat.add_assoc]

theorem learn_list (st : AddonState) (a : AddonInfo) :
    (st.learn a).m_addonsList = st.m_addonsList ++ [a] := by
  unfold AddonState.learn
  split <;> rfl

theorem foldl_learn_list (es : List ManifestEntry) : ∀ st : AddonState,
    (es.foldl (fun st e => st.learn e.toAddonInfo) st).m_addonsList =
      st.m_addonsList ++ es.map ManifestEntry.toAddonInfo := by
  induction es with
  | nil => intro st; simp
  | cons e es ih =>
    intro st
    rw [List.foldl_cons, ih, learn_list, List.map_cons, List.append_assoc]
    rfl

theorem learn_lookup (st : AddonState) (a : AddonInfo) (name : List Nat) :
    AddonMgr.GetAddonInfo (st.learn a).knownAddons name =
      match AddonMgr.GetAddonInfo st.knownAddons name with
      | some saved => some saved
      | none => if a.Name = name then some ⟨a.Name, a.CRC⟩ else none := by
  unfold AddonState.learn
  cases ha : AddonMgr.GetAddonInfo st.knownAddons a.Name with
  | some saved =>
    simp only
    cases hn : AddonMgr.GetAddonInfo st.knownAddons name with
    | some saved' => rfl
    | none =>
      simp only
      have hne : ¬ a.Name = name := by
        intro h; rw [h, hn] at ha; cases ha
      rw [if_neg hne]
  | none =>
    simp only [AddonMgr.SaveAddon, AddonMgr.GetAddonInfo, List.find?_append]
    unfold AddonMgr.GetAddonInfo at ha
    cases hn : st.knownAddons.find? (fun a => a.Name == name) with
    | some saved' => simp
    | none =>
      by_cases h : a.Name = name
      · simp [h]
      · simp [h]

theorem foldl_learn_lookup (es : List ManifestEntry) : ∀ (st : AddonState) (name : List Nat),
    AddonMgr.GetAddonInfo (es.foldl (fun st e => st.learn e.toAddonInfo) st).knownAddons name =
      match AddonMgr.GetAddonInfo st.knownAddons name with
      | some saved => some saved
      | none => (es.find? (fun e => e.name == name)).map (fun e => ⟨e.name, e.checksum⟩) := by
  induction es with
  | nil =>
    intro st name
    cases h : AddonMgr.GetAddonInfo st.knownAddons name <;> simp [h]
  | cons e es ih =>
    intro st name
    rw [List.foldl_cons, ih, learn_lookup]
    cases h : AddonMgr.GetAddonInfo st.knownAddons name with
    | some saved => rfl
    | none =>
      by_cases hn : e.name = name
      · simp [ManifestEntry.toAddonInfo, hn]
      · simp [ManifestEntry.toAddonInfo, hn]

theorem parse_wellFormed (st : AddonState) (data : ByteBuffer) (es : List ManifestEntry)
    (clientTime : Nat) (evs : List AddonEvent)
    (hwf : ∀ e ∈ es, e.wellFormed) (hcount : es.length < 2 ^ 32)
    (htime : clientTime < 2 ^ 32) :
    ∃ evs', WorldSession.ReadAddonsInfo.parse st data (Manifest.encode es clientTime).length
        (Manifest.encode es clientTime) evs =
      ⟨es.foldl (fun st e => st.learn e.toAddonInfo) st, data, evs', false⟩ := by
  have hbuf : (Manifest.encode es clientTime).take (Manifest.encode es clientTime).length ++
      List.replicate ((Manifest.encode es clientTime).length -
        (Manifest.encode es clientTime).length) 0 = Manifest.encode es clientTime := by
    simp
  have hr0 := readUInt32_in (Manifest.encode es clientTime) []
    ((es.map ManifestEntry.encode).flatten ++ le32 clientTime) es.length 0 hcount rfl rfl
  obtain ⟨evs1, hent⟩ := entries_wellFormed es (le32 es.length) (le32 clientTime) st evs hwf
  have hr1 := readUInt32_in (Manifest.encode es clientTime)
    (le32 es.length ++ (es.map ManifestEntry.encode).flatten) [] clientTime
    ((le32 es.length).length + ((es.map ManifestEntry.encode).flatten).length) htime
    (by simp [Manifest.encode]) (by simp)
  have hend : (le32 es.length).length + ((es.map ManifestEntry.encode).flatten).length + 4 =
      (⟨Manifest.encode es clientTime,
        (le32 es.length).length + ((es.map ManifestEntry.encode).flatten).length + 4⟩ :
          ByteBuffer).size := by
    simp [ByteBuffer.size, Manifest.encode, le32]
    omega
  have h4 : (le32 es.length).length = 0 + 4 := rfl
  refine ⟨evs1 ++ [AddonEvent.log .Debug .NETWORK (.currentTime clientTime)], ?_⟩
  unfold WorldSession.ReadAddonsInfo.parse
  simp only [hbuf, hr0]
  rw [← h4]
  unfold Manifest.encode at hr1 hend ⊢
  rw [hent]
  simp only [hr1]
  rw [if_neg (by rw [← hend]; simp), List.append_nil]

theorem count_le_encode (es : List ManifestEntry) (clientTime : Nat) :
    es.length ≤ (Manifest.encode es clientTime).length := by
  have h : ∀ l : List ManifestEntry,
      l.length ≤ ((l.map ManifestEntry.encode).flatten).length := by
    intro l
    induction l with
    | nil => simp
    | cons e l ih =>
      simp only [List.map_cons, List.flatten_cons, List.length_cons, List.length_append,
        encode_length]
      omega
  have := h es
  simp only [Manifest.encode, List.length_append]
  omega

theorem ReadAddonsInfo_wellFormed (A : AddonEnv) (st : AddonState) (data data1 : ByteBuffer)
    (n : Nat) (es : List ManifestEntry) (clientTime : Nat)
    (hread : data.readUInt32 = some (n, data1)) (hpos : 0 < n) (hle : n ≤ 0xFFFFF)
    (hz : A.uncompress n (data1.storage.drop (data1.rpos % 2 ^ 32)) =
      some (Manifest.encode es clientTime))
    (hlen : (Manifest.encode es clientTime).length = n)
    (hwf : ∀ e ∈ es, e.wellFormed) (htime : clientTime < 2 ^ 32) :
    (WorldSession.ReadAddonsInfo A st data).state =
        es.foldl (fun st e => st.learn e.toAddonInfo) st ∧
      (WorldSession.ReadAddonsInfo A st data).threw = false := by
  have hguard : ¬ data.rpos + 4 > data.size := by
    intro h
    unfold ByteBuffer.readUInt32 at hread
    rw [if_pos h] at hread
    cases hread
  have hcount : es.length < 2 ^ 32 := by
    have := count_le_encode es clientTime
    omega
  obtain ⟨evs', hp⟩ := parse_wellFormed st data1 es clientTime
    [AddonEvent.resize n, AddonEvent.uncompress n (data1.size - data1.rpos % 2 ^ 32)]
    hwf hcount htime
  rw [hlen] at hp
  have h0 : ¬ n = 0 := by omega
  have hbig : ¬ n > 0xFFFFF := by omega
  unfold WorldSession.ReadAddonsInfo
  rw [if_neg hguard, hread]
  simp only
  rw [if_neg h0, if_neg hbig, hz]
  simp only [hp, and_self]

theorem sampleManifest_wellFormed : ∀ e ∈ sampleManifest, e.wellFormed := by
  intro e he
  simp only [sampleManifest, List.mem_cons, List.mem_singleton, List.not_mem_nil,
    or_false] at he
  rcases he with rfl | rfl <;> simp [ManifestEntry.wellFormed]

/-- C22. A well-formed request: the declared length `n` lies in `1 .. 0xFFFFF`, and
`uncompress` succeeds with exactly `n` bytes laid out as `[u32 count]{[string name]
[u8 enabled][u32 checksum][u32 reserved]} x count [u32 client_time]`. Then no exception
leaves `ReadAddonsInfo`, and the addon list afterwards is the list before followed by one
record for each entry of the manifest, in manifest order, with the entry's name, enabled
flag and checksum, `State` 2 and `UsePublicKeyOrCRC` set. -/
theorem ReadAddonsInfo_appends_manifest (A : AddonEnv) (st : AddonState)
    (data data1 : ByteBuffer) (n : Nat) (es : List ManifestEntry) (clientTime : Nat)
    (hread : data.readUInt32 = some (n, data1)) (hpos : 0 < n) (hle : n ≤ 0xFFFFF)
    (hz : A.uncompress n (data1.storage.drop (data1.rpos % 2 ^ 32)) =
      some (Manifest.encode es clientTime))
    (hlen : (Manifest.encode es clientTime).length = n)
    (hwf : ∀ e ∈ es, e.wellFormed) (htime : clientTime < 2 ^ 32) :
    (WorldSession.ReadAddonsInfo A st data).threw = false ∧
    (WorldSession.ReadAddonsInfo A st data).state.m_addonsList =
      st.m_addonsList ++ es.map ManifestEntry.toAddonInfo ∧
    (WorldSession.ReadAddonsInfo A st data).state.m_addonsList.length =
      st.m_addonsList.length + es.length := by
  obtain ⟨h1, h2⟩ := ReadAddonsInfo_wellFormed A st data data1 n es clientTime hread hpos hle hz
    hlen hwf htime
  refine ⟨h2, ?_, ?_⟩
  · rw [h1, foldl_learn_list]
  · rw [h1, foldl_learn_list, List.length_append, List.length_map]

/-- Witness for C22: the sample request on a list that holds one record; the two entries of
the manifest are appended behind it in manifest order. -/
theorem ReadAddonsInfo_appends_manifest_witness :
    (WorldSession.ReadAddonsInfo sampleAddonEnv sampleAddonState
      sampleManifestData).state.m_addonsList =
      [⟨[65], 1, 7, 2, true⟩, ⟨[66], 1, 9, 2, true⟩, ⟨[65], 1, 8, 2, true⟩] :=
  (ReadAddonsInfo_appends_manifest sampleAddonEnv sampleAddonState sampleManifestData
    ⟨sampleManifestData.storage, 4⟩ 30 sampleManifest 5 (by decide) (by decide) (by decide)
    (by decide) (by decide) sampleManifest_wellFormed (by decide)).2.1

/-- C23. For a well-formed request as in C22: after `ReadAddonsInfo` every name of the
manifest has an entry in the table of learned addons; a name that had an entry before the
call keeps that entry, whether or not the declared checksum equals the learned one; a name
that had none has the name and checksum of its first entry in the manifest, and a name that
is not in the manifest still has none; every entry of the manifest is appended to the addon
list. -/
theorem ReadAddonsInfo_learns_names (A : AddonEnv) (st : AddonState)
    (data data1 : ByteBuffer) (n : Nat) (es : List ManifestEntry) (clientTime : Nat)
    (hread : data.readUInt32 = some (n, data1)) (hpos : 0 < n) (hle : n ≤ 0xFFFFF)
    (hz : A.uncompress n (data1.storage.drop (data1.rpos % 2 ^ 32)) =
      some (Manifest.encode es clientTime))
    (hlen : (Manifest.encode es clientTime).length = n)
    (hwf : ∀ e ∈ es, e.wellFormed) (htime : clientTime < 2 ^ 32) :
    (∀ e ∈ es, ∃ saved,
      AddonMgr.GetAddonInfo (WorldSession.ReadAddonsInfo A st data).state.knownAddons e.name =
        some saved) ∧
    (∀ name saved, AddonMgr.GetAddonInfo st.knownAddons name = some saved →
      AddonMgr.GetAddonInfo (WorldSession.ReadAddonsInfo A st data).state.knownAddons name =
        some saved) ∧
    (∀ name, AddonMgr.GetAddonInfo st.knownAddons name = none →
      AddonMgr.GetAddonInfo (WorldSession.ReadAddonsInfo A st data).state.knownAddons name =
        (es.find? (fun e => e.name == name)).map (fun e => ⟨e.name, e.checksum⟩)) ∧
    (WorldSession.ReadAddonsInfo A st data).state.m_addonsList =
      st.m_addonsList ++ es.map ManifestEntry.toAddonInfo := by
  obtain ⟨h1, _⟩ := ReadAddonsInfo_wellFormed A st data data1 n es clientTime hread hpos hle hz
    hlen hwf htime
  have hlook := foldl_learn_lookup es st
  refine ⟨?_, ?_, ?_, ?_⟩
  · intro e he
    rw [h1, hlook]
    cases hk : AddonMgr.GetAddonInfo st.knownAddons e.name with
    | some saved => exact ⟨saved, rfl⟩
    | none =>
      simp only
      cases hf : es.find? (fun e' => e'.name == e.name) with
      | some e' => exact ⟨_, rfl⟩
      | none =>
        have := List.find?_eq_none.mp hf e he
        simp at this
  · intro name saved hk
    rw [h1, hlook, hk]
  · intro name hk
    rw [h1, hlook, hk]
  · rw [h1, foldl_learn_list]

/-- Witness for C23: the sample table has learned `A` with checksum 7; after the sample
request `A`, sent with checksum 8, still has 7, and `B` is learned with checksum 9. -/
theorem ReadAddonsInfo_learns_names_witness :
    AddonMgr.GetAddonInfo (WorldSession.ReadAddonsInfo sampleAddonEnv sampleAddonState
      sampleManifestData).state.knownAddons [65] = some ⟨[65], 7⟩ ∧
    AddonMgr.GetAddonInfo (WorldSession.ReadAddonsInfo sampleAddonEnv sampleAddonState
      sampleManifestData).state.knownAddons [66] = some ⟨[66], 9⟩ :=
  ⟨(ReadAddonsInfo_learns_names sampleAddonEnv sampleAddonState sampleManifestData
      ⟨sampleManifestData.storage, 4⟩ 30 sampleManifest 5 (by decide) (by decide) (by decide)
      (by decide) (by decide) sampleManifest_wellFormed (by decide)).2.1 [65] ⟨[65], 7⟩
      (by decide),
    ((ReadAddonsInfo_learns_names sampleAddonEnv sampleAddonState sampleManifestData
      ⟨sampleManifestData.storage, 4⟩ 30 sampleManifest 5 (by decide) (by decide) (by decide)
      (by decide) (by decide) sampleManifest_wellFormed (by decide)).2.2.1 [66]
      (by decide)).trans (by decide)⟩

/-! ## The addon manifest: a count that the bytes cannot supply -/

theorem readString_advances (b : ByteBuffer) (h : b.rpos + 1 ≤ b.size) :
    b.readString.2.storage = b.storage ∧ b.rpos + 1 ≤ b.readString.2.rpos := by
  unfold ByteBuffer.readString
  refine ⟨rfl, ?_⟩
  simp only
  have hlen : (b.storage.drop b.rpos).length = b.size - b.rpos := by
    simp [ByteBuffer.size]
  split_ifs with hlt
  · omega
  · omega

theorem readUInt8_advances (b : ByteBuffer) (r : Nat × ByteBuffer)
    (h : b.readUInt8 = some r) : r.2.storage = b.storage ∧ r.2.rpos = b.rpos + 1 := by
  unfold ByteBuffer.readUInt8 at h
  split_ifs at h
  simp only [Option.some.injEq] at h
  subst h
  exact ⟨rfl, rfl⟩

theorem readUInt32_advances (b : ByteBuffer) (r : Nat × ByteBuffer)
    (h : b.readUInt32 = some r) :
    r.2.storage = b.storage ∧ r.2.rpos = b.rpos + 4 ∧ b.rpos + 4 ≤ b.size := by
  unfold ByteBuffer.readUInt32 at h
  split_ifs at h with hg
  simp only [Option.some.injEq] at h
  subst h
  exact ⟨rfl, rfl, by omega⟩

theorem learnEvents_entryLines (st : AddonState) (a : AddonInfo) (unk1 : Nat) :
    ∀ e ∈ st.learnEvents a unk1, e.isEntryLine = true := by
  intro e he
  unfold AddonState.learnEvents at he
  split at he
  · simp only [List.mem_cons, List.mem_singleton, List.not_mem_nil, or_false] at he
    rcases he with rfl | rfl
    · rfl
    · split_ifs <;> rfl
  · simp only [List.mem_cons, List.mem_singleton, List.not_mem_nil, or_false] at he
    rcases he with rfl | rfl | rfl <;> rfl

theorem entries_succ_cases (n : Nat) (b : ByteBuffer) (st : AddonState)
    (evs : List AddonEvent) :
    (∃ threw, WorldSession.ReadAddonsInfo.entries (n + 1) b st evs = .left st evs threw) ∨
    (∃ (b' : ByteBuffer) (a : AddonInfo) (unk1 : Nat),
      b'.storage = b.storage ∧ b.rpos + 10 ≤ b'.rpos ∧ b'.rpos ≤ b'.size ∧
      WorldSession.ReadAddonsInfo.entries (n + 1) b st evs =
        WorldSession.ReadAddonsInfo.entries n b' (st.learn a)
          (evs ++ st.learnEvents a unk1)) := by
  rw [WorldSession.ReadAddonsInfo.entries]
  by_cases hg : b.rpos + 1 > b.size
  · exact Or.inl ⟨false, by rw [if_pos hg]⟩
  · rw [if_neg hg]
    have h0 := readString_advances b (by omega)
    simp only
    cases h1 : b.readString.2.readUInt8 with
    | none => exact Or.inl ⟨true, rfl⟩
    | some r1 =>
      have a1 := readUInt8_advances _ r1 h1
      simp only
      cases h2 : r1.2.readUInt32 with
      | none => exact Or.inl ⟨true, rfl⟩
      | some r2 =>
        have a2 := readUInt32_advances _ r2 h2
        simp only
        cases h3 : r2.2.readUInt32 with
        | none => exact Or.inl ⟨true, rfl⟩
        | some r3 =>
          have a3 := readUInt32_advances _ r3 h3
          simp only
          refine Or.inr ⟨r3.2, ⟨b.readString.1, r1.1, r2.1, 2, true⟩, r3.1, ?_, ?_, ?_, ?_⟩
          · rw [a3.1, a2.1, a1.1, h0.1]
          · rw [a3.2.1, a2.2.1, a1.2]; omega
          · have hsz : r3.2.size = r2.2.size := by unfold ByteBuffer.size; rw [a3.1]
            rw [hsz, a3.2.1]
            exact a3.2.2
          · unfold AddonState.learn AddonState.learnEvents
            cases AddonMgr.GetAddonInfo st.knownAddons b.readString.1 with
            | none => simp only [List.append_assoc, List.cons_append, List.nil_append]
            | some saved => simp only [List.append_assoc, List.cons_append, List.nil_append]

theorem entries_short (n : Nat) : ∀ (b : ByteBuffer) (st : AddonState) (evs : List AddonEvent),
    b.size - b.rpos < 10 * n →
    ∃ st' threw added rest,
      WorldSession.ReadAddonsInfo.entries n b st evs = .left st' (evs ++ rest) threw ∧
      st'.m_addonsList = st.m_addonsList ++ added ∧ added.length < n ∧
      ∀ e ∈ rest, e.isEntryLine = true := by
  induction n with
  | zero => intro b st evs h; omega
  | succ n ih =>
    intro b st evs h
    rcases entries_succ_cases n b st evs with ⟨threw, hl⟩ | ⟨b', a, unk1, hs, hr, hb, he⟩
    · exact ⟨st, threw, [], [], by rw [hl, List.append_nil], by simp, by simp, by simp⟩
    · have hsz : b'.size = b.size := by unfold ByteBuffer.size; rw [hs]
      obtain ⟨st', threw, added, rest, h1, h2, h3, h4⟩ := ih b' (st.learn a)
        (evs ++ st.learnEvents a unk1) (by omega)
      refine ⟨st', threw, a :: added, st.learnEvents a unk1 ++ rest, ?_, ?_, ?_, ?_⟩
      · rw [he, h1, List.append_assoc]
      · rw [h2, learn_list, List.append_assoc]; rfl
      · simp; omega
      · intro e hmem
        rcases List.mem_append.mp hmem with hmem | hmem
        · exact learnEvents_entryLines st a unk1 e hmem
        · exact h4 e hmem

theorem parse_short (st : AddonState) (data : ByteBuffer) (n : Nat) (out : List Nat)
    (evs : List AddonEvent) (count : Nat) (b : ByteBuffer)
    (hcount : (⟨out.take n ++ List.replicate (n - out.length) 0, 0⟩ : ByteBuffer).readUInt32 =
      some (count, b))
    (hshort : n - 4 < 10 * count) :
    ∃ st' threw added rest,
      WorldSession.ReadAddonsInfo.parse st data n out evs = ⟨st', data, evs ++ rest, threw⟩ ∧
      st'.m_addonsList = st.m_addonsList ++ added ∧ added.length < count ∧
      ∀ e ∈ rest, e.isEntryLine = true := by
  have hadv := readUInt32_advances _ _ hcount
  have hsize : b.size - b.rpos < 10 * count := by
    have h1 : b.size = n := by
      unfold ByteBuffer.size
      rw [hadv.1]
      simp
      omega
    rw [h1, hadv.2.1]
    simp only
    omega
  obtain ⟨st', threw, added, rest, h1, h2, h3, h4⟩ := entries_short count b st evs hsize
  refine ⟨st', threw, added, rest, ?_, h2, h3, h4⟩
  unfold WorldSession.ReadAddonsInfo.parse
  simp only [hcount, h1]

theorem supply_le (n : Nat) : ∀ b : ByteBuffer, Manifest.supply n b ≤ n := by
  induction n with
  | zero => intro b; simp [Manifest.supply]
  | succ n ih =>
    intro b
    rw [Manifest.supply]
    split_ifs
    · omega
    · split
      · omega
      · split
        · omega
        · split
          · omega
          · have := ih (by assumption : Nat × ByteBuffer).2
            omega

/-- C33. For a packet whose opcode has a descriptor, and every session: at least one of
`MapSessionFilter::Process` and `WorldSessionFilter::Process` returns true. When the
processing place is neither `PROCESS_INPLACE` nor `PROCESS_THREADUNSAFE`, the map filter
returns true exactly when a player is attached and in world, the world filter returns true
exactly when that is not so, and the two results are opposite. -/
theorem filters_cover_every_packet (E : Env) (s : WorldSession) (packet : WorldPacket)
    (opHandle : OpcodeHandler)
    (htab : E.opcodeTable (E.DropHighBytes packet.opcode) = some opHandle) :
    (MapSessionFilter.Process E s packet = some true ∨
      WorldSessionFilter.Process E s packet = some true) ∧
    (opHandle.ProcessingPlace ≠ .PROCESS_INPLACE →
      opHandle.ProcessingPlace ≠ .PROCESS_THREADUNSAFE →
      (MapSessionFilter.Process E s packet = some true ↔
        ∃ player, s._player = some player ∧ player.inWorld = true) ∧
      (WorldSessionFilter.Process E s packet = some true ↔
        ¬ ∃ player, s._player = some player ∧ player.inWorld = true) ∧
      ∃ b, MapSessionFilter.Process E s packet = some b ∧
        WorldSessionFilter.Process E s packet = some (!b)) := by
  unfold MapSessionFilter.Process WorldSessionFilter.Process
  rw [htab]
  simp only
  by_cases h1 : opHandle.ProcessingPlace = .PROCESS_INPLACE
  · simp [h1]
  · by_cases h2 : opHandle.ProcessingPlace = .PROCESS_THREADUNSAFE
    · simp [h2]
    · simp only [h1, h2, if_false]
      cases hp : s._player with
      | none => simp
      | some player => cases hw : player.inWorld <;> simp [hw]

/-- Witness for C33: `CMSG_NAME_QUERY` is `PROCESS_THREADSAFE` in the sample table; with a
player in world the map filter takes it and the world filter refuses it. -/
theorem filters_cover_every_packet_witness :
    MapSessionFilter.Process sampleEnv (samplePlayerSession true)
        (samplePacket 1 .CMSG_NAME_QUERY) = some true ∧
      WorldSessionFilter.Process sampleEnv (samplePlayerSession true)
        (samplePacket 1 .CMSG_NAME_QUERY) = some false := by
  obtain ⟨_, h⟩ := filters_cover_every_packet sampleEnv (samplePlayerSession true)
    (samplePacket 1 .CMSG_NAME_QUERY) ⟨.STATUS_LOGGEDIN, .PROCESS_THREADSAFE, sampleHandler⟩ rfl
  obtain ⟨h1, h2, _⟩ := h (by decide) (by decide)
  refine ⟨h1.mpr ⟨⟨true⟩, rfl, rfl⟩, ?_⟩
  decide

/-! ## The anti-flood limiter: other opcodes, the ban duration, the ceilings -/

theorem withCounter_other (s : WorldSession) (k j : Nat) (pc : PacketCounter) (h : j ≠ k) :
    (s.withCounter k pc).AntiDOS._PacketThrottlingMap j = s.AntiDOS._PacketThrottlingMap j := by
  simp [WorldSession.withCounter, setAt, h]

theorem evaluateOpcode_other (E : Env) (s : WorldSession) (p : WorldPacket) (t : Int) (j : Nat)
    (h : j ≠ p.opcode % 65536) :
    (DosProtection.EvaluateOpcode E s p t).2.1.AntiDOS._PacketThrottlingMap j =
      s.AntiDOS._PacketThrottlingMap j := by
  by_cases hpos : DosProtection.GetMaxPacketCounterAllowed E (p.opcode % 65536) = 0
  · rw [unlimited_call E s p t hpos]
  · rw [(evaluateOpcode_step E s p t hpos).1, withCounter_other s _ j _ h]

theorem evaluateOpcodes_other (E : Env) (j : Nat) (calls : List (WorldPacket × Int)) :
    ∀ s : WorldSession, (∀ c ∈ calls, c.1.opcode % 65536 ≠ j) →
      (DosProtection.EvaluateOpcodes E s calls).2.1.AntiDOS._PacketThrottlingMap j =
        s.AntiDOS._PacketThrottlingMap j := by
  induction calls with
  | nil => intro s _; rfl
  | cons c calls ih =>
    intro s h
    obtain ⟨p, t⟩ := c
    simp only [DosProtection.EvaluateOpcodes]
    rw [ih _ (fun c hc => h c (List.mem_cons_of_mem _ hc)),
      evaluateOpcode_other E s p t j (fun hj => h (p, t) (List.mem_cons_self _ _) hj.symm)]

theorem evaluateOpcode_result_congr (E : Env) (s s' : WorldSession) (p : WorldPacket) (t : Int)
    (hentry : s'.AntiDOS._PacketThrottlingMap (p.opcode % 65536) =
      s.AntiDOS._PacketThrottlingMap (p.opcode % 65536))
    (hpol : s'.AntiDOS._policy = s.AntiDOS._policy) :
    (DosProtection.EvaluateOpcode E s' p t).1 = (DosProtection.EvaluateOpcode E s p t).1 ∧
      (DosProtection.EvaluateOpcode E s' p t).2.1.AntiDOS._PacketThrottlingMap
          (p.opcode % 65536) =
        (DosProtection.EvaluateOpcode E s p t).2.1.AntiDOS._PacketThrottlingMap
          (p.opcode % 65536) := by
  have hcount : s'.AntiDOS.countAt (p.opcode % 65536) t =
      s.AntiDOS.countAt (p.opcode % 65536) t := by
    unfold DosProtection.countAt
    rw [hentry]
  by_cases hpos : DosProtection.GetMaxPacketCounterAllowed E (p.opcode % 65536) = 0
  · rw [unlimited_call E s p t hpos, unlimited_call E s' p t hpos]
    exact ⟨rfl, hentry⟩
  · rw [(evaluateOpcode_step E s p t hpos).2, (evaluateOpcode_step E s' p t hpos).2,
      (evaluateOpcode_step E s p t hpos).1, (evaluateOpcode_step E s' p t hpos).1,
      withCounter_entry, withCounter_entry, hcount, hpol]
    exact ⟨rfl, rfl⟩

/-- C35. `EvaluateOpcode` leaves the stored counter of every key but the packet's own as it
is. So after any calls for other opcodes, the call for a packet returns what it would have
returned without them, and leaves the same counter for the packet's opcode. -/
theorem EvaluateOpcode_other_opcodes (E : Env) (s : WorldSession) (p : WorldPacket) (t : Int)
    (others : List (WorldPacket × Int))
    (hothers : ∀ c ∈ others, c.1.opcode % 65536 ≠ p.opcode % 65536) :
    (∀ j, j ≠ p.opcode % 65536 →
      (DosProtection.EvaluateOpcode E s p t).2.1.AntiDOS._PacketThrottlingMap j =
        s.AntiDOS._PacketThrottlingMap j) ∧
    (DosProtection.EvaluateOpcode E (DosProtection.EvaluateOpcodes E s others).2.1 p t).1 =
      (DosProtection.EvaluateOpcode E s p t).1 ∧
    (DosProtection.EvaluateOpcode E (DosProtection.EvaluateOpcodes E s others).2.1
        p t).2.1.AntiDOS._PacketThrottlingMap (p.opcode % 65536) =
      (DosProtection.EvaluateOpcode E s p t).2.1.AntiDOS._PacketThrottlingMap
        (p.opcode % 65536) := by
  have h := evaluateOpcode_result_congr E s (DosProtection.EvaluateOpcodes E s others).2.1 p t
    (evaluateOpcodes_other E _ others s hothers) (evaluateOpcodes_policy E others s)
  exact ⟨fun j hj => evaluateOpcode_other E s p t j hj, h.1, h.2⟩

/-- Witness for C35: three `CMSG_CHAR_ENUM` calls (ceiling 3) in second 7 are followed by
five `CMSG_BUG` calls; a fourth `CMSG_CHAR_ENUM` call is rejected as it would have been
without them. -/
theorem EvaluateOpcode_other_opcodes_witness :
    (DosProtection.EvaluateOpcode sampleEnv
      (DosProtection.EvaluateOpcodes sampleEnv
        (DosProtection.EvaluateOpcodes sampleEnv (sampleSession .POLICY_KICK)
          (List.replicate 3 (samplePacket 1 .CMSG_CHAR_ENUM, 7))).2.1
        (List.replicate 5 (samplePacket 2 .CMSG_BUG, 7))).2.1
      (samplePacket 3 .CMSG_CHAR_ENUM) 7).1 = false :=
  ((EvaluateOpcode_other_opcodes sampleEnv
    (DosProtection.EvaluateOpcodes sampleEnv (sampleSession .POLICY_KICK)
      (List.replicate 3 (samplePacket 1 .CMSG_CHAR_ENUM, 7))).2.1
    (samplePacket 3 .CMSG_CHAR_ENUM) 7 (List.replicate 5 (samplePacket 2 .CMSG_BUG, 7))
    (by decide)).2.1).trans (by decide)

theorem filter_isBan_setBanDuration (d : Nat) (l : List Event) :
    (l.map (Event.setBanDuration d)).filter Event.isBan = l.filter Event.isBan := by
  induction l with
  | nil => rfl
  | cons e l ih =>
    cases e with
    | log level filter msg => cases msg <;> simpa [Event.setBanDuration, Event.isBan] using ih
    | _ => simpa [Event.setBanDuration, Event.isBan] using ih

theorem applyPolicy_duration (E : Env) (s : WorldSession) (d : Nat) :
    DosProtection.applyPolicy { E with CONFIG_PACKET_SPOOF_BANDURATION := d } s =
      ((DosProtection.applyPolicy E s).1, (DosProtection.applyPolicy E s).2.1,
        (DosProtection.applyPolicy E s).2.2.map (Event.setBanDuration d)) ∧
    (DosProtection.applyPolicy E s).2.2.filter Event.isBan =
      (if s.AntiDOS._policy = .POLICY_BAN then
        [Event.BanAccount E.CONFIG_PACKET_SPOOF_BANMODE
          (DosProtection.banTarget E s E.CONFIG_PACKET_SPOOF_BANMODE) "-1"
          "DOS (Packet Flooding/Spoofing" "Server: AutoDOS"]
      else []) := by
  unfold DosProtection.applyPolicy WorldSession.KickPlayer DosProtection.banTarget
  cases hp : s.AntiDOS._policy <;> cases hs : s.m_Socket <;>
    simp [Event.setBanDuration, Event.isBan]

theorem evaluateOpcode_duration (E : Env) (s : WorldSession) (p : WorldPacket) (t : Int)
    (d : Nat) :
    DosProtection.EvaluateOpcode { E with CONFIG_PACKET_SPOOF_BANDURATION := d } s p t =
      ((DosProtection.EvaluateOpcode E s p t).1, (DosProtection.EvaluateOpcode E s p t).2.1,
        (DosProtection.EvaluateOpcode E s p t).2.2.map (Event.setBanDuration d)) := by
  have hmax : DosProtection.GetMaxPacketCounterAllowed
      { E with CONFIG_PACKET_SPOOF_BANDURATION := d } (p.opcode % 65536) =
      DosProtection.GetMaxPacketCounterAllowed E (p.opcode % 65536) := rfl
  unfold DosProtection.EvaluateOpcode
  simp only [hmax]
  split_ifs
  · rfl
  · rfl
  · exact (applyPolicy_duration E _ d).1

/-- C36. Two `EvaluateOpcode` calls that differ only in the configured ban duration
(`CONFIG_PACKET_SPOOF_BANDURATION`) return the same result, leave the same session and issue
the same ban requests; their effects differ at most in the duration shown by the log line
about the ban. Under `POLICY_BAN`, when the call rejects the packet, exactly one ban request
is issued: its arguments are the ban mode, the target, the constant duration "-1", the
reason and the author, none of which is the configured duration. -/
theorem EvaluateOpcode_ban_ignores_duration (E : Env) (s : WorldSession) (p : WorldPacket)
    (t : Int) (d : Nat) (hp : s.AntiDOS._policy = .POLICY_BAN)
    (hrej : (DosProtection.EvaluateOpcode E s p t).1 = false) :
    (DosProtection.EvaluateOpcode { E with CONFIG_PACKET_SPOOF_BANDURATION := d } s p t).1 =
      false ∧
    (DosProtection.EvaluateOpcode { E with CONFIG_PACKET_SPOOF_BANDURATION := d } s p t).2.1 =
      (DosProtection.EvaluateOpcode E s p t).2.1 ∧
    (DosProtection.EvaluateOpcode { E with CONFIG_PACKET_SPOOF_BANDURATION := d }
        s p t).2.2.filter Event.isBan =
      (DosProtection.EvaluateOpcode E s p t).2.2.filter Event.isBan ∧
    (DosProtection.EvaluateOpcode E s p t).2.2.filter Event.isBan =
      [Event.BanAccount E.CONFIG_PACKET_SPOOF_BANMODE
        (DosProtection.banTarget E s E.CONFIG_PACKET_SPOOF_BANMODE) "-1"
        "DOS (Packet Flooding/Spoofing" "Server: AutoDOS"] ∧
    (DosProtection.EvaluateOpcode { E with CONFIG_PACKET_SPOOF_BANDURATION := d } s p t).2.2 =
      (DosProtection.EvaluateOpcode E s p t).2.2.map (Event.setBanDuration d) ∧
    Event.log .Error .GENERAL (.antiDosBanned d) ∈
      (DosProtection.EvaluateOpcode { E with CONFIG_PACKET_SPOOF_BANDURATION := d } s p t).2.2 := by
  have hd := evaluateOpcode_duration E s p t d
  have hban : (DosProtection.EvaluateOpcode E s p t).2.2.filter Event.isBan =
      [Event.BanAccount E.CONFIG_PACKET_SPOOF_BANMODE
        (DosProtection.banTarget E s E.CONFIG_PACKET_SPOOF_BANMODE) "-1"
        "DOS (Packet Flooding/Spoofing" "Server: AutoDOS"] ∧
      Event.log .Error .GENERAL (.antiDosBanned E.CONFIG_PACKET_SPOOF_BANDURATION) ∈
        (DosProtection.EvaluateOpcode E s p t).2.2 := by
    revert hrej
    unfold DosProtection.EvaluateOpcode
    simp only
    split_ifs
    · intro h; exact absurd h (by simp)
    · intro h; exact absurd h (by simp)
    · intro _
      have hp1 : (s.withCounter (p.opcode % 65536)
          (s.AntiDOS.bump (p.opcode % 65536) t)).AntiDOS._policy = .POLICY_BAN := hp
      refine ⟨?_, ?_⟩
      · rw [(applyPolicy_duration E _ d).2, if_pos hp1]
        rfl
      · unfold DosProtection.applyPolicy
        rw [hp1]
        simp
  rw [hd]
  refine ⟨hrej, rfl, ?_, hban.1, rfl, ?_⟩
  · show ((DosProtection.EvaluateOpcode E s p t).2.2.map (Event.setBanDuration d)).filter
      Event.isBan = _
    exact filter_isBan_setBanDuration d _
  · show _ ∈ (DosProtection.EvaluateOpcode E s p t).2.2.map (Event.setBanDuration d)
    exact List.mem_map.mpr ⟨_, hban.2, rfl⟩

/-- Witness for C36: a fourth `CMSG_CHAR_ENUM` packet (ceiling 3) in second 7 under
`POLICY_BAN`, with the ban duration configured as 60 instead of 86400: the ban request is
the same, with duration "-1". -/
theorem EvaluateOpcode_ban_ignores_duration_witness :
    (DosProtection.EvaluateOpcode { sampleEnv with CONFIG_PACKET_SPOOF_BANDURATION := 60 }
        (DosProtection.EvaluateOpcodes sampleEnv (sampleSession .POLICY_BAN)
          (List.replicate 3 (samplePacket 1 .CMSG_CHAR_ENUM, 7))).2.1
        (samplePacket 3 .CMSG_CHAR_ENUM) 7).2.2.filter Event.isBan =
      [Event.BanAccount .BAN_ACCOUNT "ACCOUNT" "-1" "DOS (Packet Flooding/Spoofing"
        "Server: AutoDOS"] :=
  let h := EvaluateOpcode_ban_ignores_duration sampleEnv
    (DosProtection.EvaluateOpcodes sampleEnv (sampleSession .POLICY_BAN)
      (List.replicate 3 (samplePacket 1 .CMSG_CHAR_ENUM, 7))).2.1
    (samplePacket 3 .CMSG_CHAR_ENUM) 7 60 (by decide) (by decide)
  h.2.2.1.trans h.2.2.2.1

/-! ## `SendPacket`: what reaches the socket -/

/-- C38. `SendPacket` hands the socket no packet whose opcode is `NULL_OPCODE` or
`UNKNOWN_OPCODE`, forced or not; unforced, it hands the socket no packet whose opcode has no
table entry or whose entry has `STATUS_UNHANDLED`; forced, with a socket, it hands a packet
with any other opcode to the socket whatever its table entry; and without a socket it does
nothing. -/
theorem SendPacket_guards (E : Env) (R : ReplyEnv) (s : WorldSession) (packet : OutPacket)
    (forced : Bool) :
    ((packet.opcode = E.code .NULL_OPCODE ∨ packet.opcode = E.code .UNKNOWN_OPCODE) →
      ∀ e ∈ (WorldSession.SendPacket E R s packet forced).2, e.isSocketSend = false) ∧
    (forced = false →
      (E.opcodeTable packet.opcode = none ∨
        ∃ handler, E.opcodeTable packet.opcode = some handler ∧
          handler.Status = .STATUS_UNHANDLED) →
      ∀ e ∈ (WorldSession.SendPacket E R s packet forced).2, e.isSocketSend = false) ∧
    (forced = true → s.m_Socket ≠ none → packet.opcode ≠ E.code .NULL_OPCODE →
      packet.opcode ≠ E.code .UNKNOWN_OPCODE →
      ReplyEvent.socketSend packet ∈ (WorldSession.SendPacket E R s packet forced).2) ∧
    (s.m_Socket = none → WorldSession.SendPacket E R s packet forced = (s, [])) := by
  unfold WorldSession.SendPacket
  cases hs : s.m_Socket with
  | none => simp
  | some sock =>
    refine ⟨?_, ?_, ?_, ?_⟩
    · rintro (h | h)
      · simp [h, ReplyEvent.isSocketSend]
      · by_cases h0 : packet.opcode = E.code .NULL_OPCODE
        · simp [h0, ReplyEvent.isSocketSend]
        · rw [if_neg h0, if_pos h]
          simp [ReplyEvent.isSocketSend]
    · intro hf hbad
      subst hf
      by_cases h0 : packet.opcode = E.code .NULL_OPCODE
      · simp [h0, ReplyEvent.isSocketSend]
      · by_cases h1 : packet.opcode = E.code .UNKNOWN_OPCODE
        · rw [if_neg h0, if_pos h1]
          simp [ReplyEvent.isSocketSend]
        · rcases hbad with hnone | ⟨handler, hsome, hst⟩
          · simp [h0, h1, hnone, ReplyEvent.isSocketSend]
          · simp [h0, h1, hsome, hst, ReplyEvent.isSocketSend]
    · intro hf _ h0 h1
      subst hf
      by_cases hfail : R.socketSendFails packet = true
      · simp [h0, h1, hfail]
      · simp [h0, h1, hfail]
    · intro h; exact absurd h (by simp)

/-- Witness for C38: a forced packet with an opcode that has no table entry reaches the
socket. -/
theorem SendPacket_guards_witness :
    ReplyEvent.socketSend ⟨sampleCode .CMSG_PLAYER_LOGIN, [1, 2]⟩ ∈
      (WorldSession.SendPacket sampleEnv sampleReplyEnv (sampleSession .POLICY_KICK)
        ⟨sampleCode .CMSG_PLAYER_LOGIN, [1, 2]⟩ true).2 :=
  (SendPacket_guards sampleEnv sampleReplyEnv (sampleSession .POLICY_KICK)
    ⟨sampleCode .CMSG_PLAYER_LOGIN, [1, 2]⟩ true).2.2.1 rfl (by decide) (by decide) (by decide)

/-! ## The ceilings of `GetMaxPacketCounterAllowed` -/

/-- C39. `GetMaxPacketCounterAllowed` has a result for every opcode, and the result is one of
0, 3, 10, 20, 50, 100, 200, `MAX_QUEST_LOG_SIZE` and `PLAYER_SLOTS_COUNT` (both constants fit
the `uint32` result); it is 100 for every opcode that is not the value of a case label; it
is 0 for `CMSG_LOGOUT_REQUEST`; and it is 3 for `CMSG_CHAR_ENUM`, whose value is not the
value of a label of a group listed before its own (case labels are pairwise distinct). -/
theorem GetMaxPacketCounterAllowed_values (E : Env) (opcode : Nat)
    (hq : E.MAX_QUEST_LOG_SIZE < 2 ^ 32) (hs : E.PLAYER_SLOTS_COUNT < 2 ^ 32)
    (hdistinct : E.code .CMSG_CHAR_ENUM ∉
      (casesUnlimited ++ cases200 ++ cases50 ++ [OpcodeName.CMSG_QUEST_POI_QUERY] ++ cases20 ++
        cases10).map E.code) :
    DosProtection.GetMaxPacketCounterAllowed E opcode ∈
      [0, 3, 10, 20, 50, 100, 200, E.MAX_QUEST_LOG_SIZE, E.PLAYER_SLOTS_COUNT] ∧
    (opcode ∉ casesAll.map E.code → DosProtection.GetMaxPacketCounterAllowed E opcode = 100) ∧
    DosProtection.GetMaxPacketCounterAllowed E (E.code .CMSG_LOGOUT_REQUEST) = 0 ∧
    DosProtection.GetMaxPacketCounterAllowed E (E.code .CMSG_CHAR_ENUM) = 3 := by
  have h1 : E.MAX_QUEST_LOG_SIZE % 2 ^ 32 = E.MAX_QUEST_LOG_SIZE := Nat.mod_eq_of_lt hq
  have h2 : E.PLAYER_SLOTS_COUNT % 2 ^ 32 = E.PLAYER_SLOTS_COUNT := Nat.mod_eq_of_lt hs
  refine ⟨?_, ?_, logout_request_unlimited E, ?_⟩
  · unfold DosProtection.GetMaxPacketCounterAllowed
    rw [h1, h2]
    split_ifs <;> simp
  · intro hnot
    simp only [casesAll, List.map_append, List.mem_append, List.map_cons, List.map_nil,
      List.mem_singleton, not_or] at hnot
    obtain ⟨⟨⟨⟨⟨⟨⟨ha, hb⟩, hc⟩, hd⟩, he⟩, hf⟩, hg⟩, hh⟩ := hnot
    unfold DosProtection.GetMaxPacketCounterAllowed
    rw [if_neg ha, if_neg hb, if_neg hc, if_neg hd, if_neg he, if_neg hf, if_neg hg, if_neg hh]
  · simp only [List.map_append, List.mem_append, List.map_cons, List.map_nil,
      List.mem_singleton, not_or] at hdistinct
    obtain ⟨⟨⟨⟨⟨ha, hb⟩, hc⟩, hd⟩, he⟩, hf⟩ := hdistinct
    unfold DosProtection.GetMaxPacketCounterAllowed
    rw [if_neg ha, if_neg hb, if_neg hc, if_neg hd, if_neg he, if_neg hf, if_pos]
    exact List.mem_map_of_mem E.code (by decide)

/-- Witness for C39: in the sample numbering the ceiling of `CMSG_CHAR_ENUM` is 3. -/
theorem GetMaxPacketCounterAllowed_values_witness :
    DosProtection.GetMaxPacketCounterAllowed sampleEnv (sampleCode .CMSG_CHAR_ENUM) = 3 :=
  (GetMaxPacketCounterAllowed_values sampleEnv 0 (by decide) (by decide) (by decide)).2.2.2

/-! ## `ProcessQueryCallbacks`: the slots are polled independently -/

theorem mem_ite_singleton {α : Type} (c : Bool) (a b : α) :
    a ∈ (if c = true then [b] else []) ↔ c = true ∧ a = b := by
  cases c <;> simp

theorem block_events (H : QueryHandlers) (q : QueryCallbacks) :
    (WorldSession.ProcessQueryCallbacks.charEnum H q).2 =
      (if q._charEnumCallback.ready then [QueryEvent.HandleCharEnum q._charEnumCallback.get]
        else []) ∧
    (WorldSession.ProcessQueryCallbacks.charCreate H q).2 =
      (if q._charCreateCallback.ready then
        [QueryEvent.HandleCharCreateCallback q._charCreateCallback.get
          q._charCreateCallback.param] else []) ∧
    (WorldSession.ProcessQueryCallbacks.charLogin H q).2 =
      (if q._charLoginCallback.ready then [QueryEvent.HandlePlayerLogin q._charLoginCallback.get]
        else []) ∧
    (WorldSession.ProcessQueryCallbacks.addFriend H q).2 =
      (if q._addFriendCallback.ready then
        [QueryEvent.HandleAddFriendOpcodeCallBack q._addFriendCallback.get
          q._addFriendCallback.param] else []) ∧
    (WorldSession.ProcessQueryCallbacks.charRename H q).2 =
      (if q._charRenameCallback.ready then
        [QueryEvent.HandleChangePlayerNameOpcodeCallBack q._charRenameCallback.get
          q._charRenameCallback.param] else []) ∧
    (WorldSession.ProcessQueryCallbacks.addIgnore H q).2 =
      (if q._addIgnoreCallback.ready then
        [QueryEvent.HandleAddIgnoreOpcodeCallBack q._addIgnoreCallback.get] else []) ∧
    (WorldSession.ProcessQueryCallbacks.guildRename H q).2 =
      (if q._guildRenameCallback.ready then
        [QueryEvent.HandleGuildRenameCallback q._guildRenameCallback.param] else []) := by
  unfold WorldSession.ProcessQueryCallbacks.charEnum WorldSession.ProcessQueryCallbacks.charCreate
    WorldSession.ProcessQueryCallbacks.charLogin WorldSession.ProcessQueryCallbacks.addFriend
    WorldSession.ProcessQueryCallbacks.charRename WorldSession.ProcessQueryCallbacks.addIgnore
    WorldSession.ProcessQueryCallbacks.guildRename
  refine ⟨?_, ?_, ?_, ?_, ?_, ?_, ?_⟩ <;> split <;> rfl

/-- C32. In one `ProcessQueryCallbacks` call the continuation of a slot is invoked exactly
when the slot is ready at the moment its block polls it, with the result (and parameter)
the slot holds then, whatever the other slots hold: the seven blocks are tested one after
the other and none is skipped because another slot is pending. When the continuations change
no slot but their own, the slot a block polls is the slot as the call found it, so the
continuation is invoked exactly when its slot was ready at the start of the call. -/
theorem ProcessQueryCallbacks_slots_independent (H : QueryHandlers) (q : QueryCallbacks) :
    let q1 := (WorldSession.ProcessQueryCallbacks.charEnum H q).1
    let q2 := (WorldSession.ProcessQueryCallbacks.charCreate H q1).1
    let q3 := (WorldSession.ProcessQueryCallbacks.charLogin H q2).1
    let q4 := (WorldSession.ProcessQueryCallbacks.addFriend H q3).1
    let q5 := (WorldSession.ProcessQueryCallbacks.charRename H q4).1
    let q6 := (WorldSession.ProcessQueryCallbacks.addIgnore H q5).1
    let events := (WorldSession.ProcessQueryCallbacks H q).2
    (∀ r, QueryEvent.HandleCharEnum r ∈ events ↔
      q._charEnumCallback.ready = true ∧ r = q._charEnumCallback.get) ∧
    (∀ r p, QueryEvent.HandleCharCreateCallback r p ∈ events ↔
      q1._charCreateCallback.ready = true ∧ r = q1._charCreateCallback.get ∧
        p = q1._charCreateCallback.param) ∧
    (∀ r, QueryEvent.HandlePlayerLogin r ∈ events ↔
      q2._charLoginCallback.ready = true ∧ r = q2._charLoginCallback.get) ∧
    (∀ r p, QueryEvent.HandleAddFriendOpcodeCallBack r p ∈ events ↔
      q3._addFriendCallback.ready = true ∧ r = q3._addFriendCallback.get ∧
        p = q3._addFriendCallback.param) ∧
    (∀ r p, QueryEvent.HandleChangePlayerNameOpcodeCallBack r p ∈ events ↔
      q4._charRenameCallback.ready = true ∧ r = q4._charRenameCallback.get ∧
        p = q4._charRenameCallback.param) ∧
    (∀ r, QueryEvent.HandleAddIgnoreOpcodeCallBack r ∈ events ↔
      q5._addIgnoreCallback.ready = true ∧ r = q5._addIgnoreCallback.get) ∧
    (∀ p, QueryEvent.HandleGuildRenameCallback p ∈ events ↔
      q6._guildRenameCallback.ready = true ∧ p = q6._guildRenameCallback.param) ∧
    (H.ownSlotOnly →
      q1._charCreateCallback = q._charCreateCallback ∧
      q2._charLoginCallback = q._charLoginCallback ∧
      q3._addFriendCallback = q._addFriendCallback ∧
      q4._charRenameCallback = q._charRenameCallback ∧
      q5._addIgnoreCallback = q._addIgnoreCallback ∧
      q6._guildRenameCallback = q._guildRenameCallback) := by
  intro q1 q2 q3 q4 q5 q6 events
  have hev : events =
      (WorldSession.ProcessQueryCallbacks.charEnum H q).2 ++
      (WorldSession.ProcessQueryCallbacks.charCreate H q1).2 ++
      (WorldSession.ProcessQueryCallbacks.charLogin H q2).2 ++
      (WorldSession.ProcessQueryCallbacks.addFriend H q3).2 ++
      (WorldSession.ProcessQueryCallbacks.charRename H q4).2 ++
      (WorldSession.ProcessQueryCallbacks.addIgnore H q5).2 ++
      (WorldSession.ProcessQueryCallbacks.guildRename H q6).2 := rfl
  rw [hev, (block_events H q).1, (block_events H q1).2.1, (block_events H q2).2.2.1,
    (block_events H q3).2.2.2.1, (block_events H q4).2.2.2.2.1, (block_events H q5).2.2.2.2.2.1,
    (block_events H q6).2.2.2.2.2.2]
  refine ⟨?_, ?_, ?_, ?_, ?_, ?_, ?_, ?_⟩
  · intro r; simp only [List.mem_append, mem_ite_singleton]; simp
  · intro r p; simp only [List.mem_append, mem_ite_singleton]; simp
  · intro r; simp only [List.mem_append, mem_ite_singleton]; simp
  · intro r p; simp only [List.mem_append, mem_ite_singleton]; simp
  · intro r p; simp only [List.mem_append, mem_ite_singleton]; simp
  · intro r; simp only [List.mem_append, mem_ite_singleton]; simp
  · intro p; simp only [List.mem_append, mem_ite_singleton]; simp
  · intro hown
    simp only [q1, q2, q3, q4, q5, q6, charEnum_eq H hown, charCreate_eq H hown,
      charLogin_eq H hown, addFriend_eq H hown, charRename_eq H hown, addIgnore_eq H hown]
    simp

/-- Witness for C32: the char-enum, char-create, add-friend, char-rename and add-ignore
queries are pending, the char-login query (result 7) and the guild-rename query (parameter
3) have completed: both continuations are invoked. -/
theorem ProcessQueryCallbacks_slots_independent_witness :
    sampleFreeingHandlers.ownSlotOnly ∧
      (WorldSession.ProcessQueryCallbacks sampleFreeingHandlers samplePendingCallbacks).2 =
        [QueryEvent.HandlePlayerLogin 7, QueryEvent.HandleGuildRenameCallback 3] ∧
      QueryEvent.HandlePlayerLogin 7 ∈
        (WorldSession.ProcessQueryCallbacks sampleFreeingHandlers samplePendingCallbacks).2 ∧
      (WorldSession.ProcessQueryCallbacks.addIgnore sampleFreeingHandlers
        samplePendingCallbacks).1._guildRenameCallback = ⟨some 1, 3⟩ :=
  ⟨sampleFreeingHandlers_own, rfl,
    ((ProcessQueryCallbacks_slots_independent sampleFreeingHandlers
      samplePendingCallbacks).2.2.1 7).mpr ⟨rfl, rfl⟩,
    ((ProcessQueryCallbacks_slots_independent sampleFreeingHandlers
      samplePendingCallbacks).2.2.2.2.2.2.2 sampleFreeingHandlers_own).2.2.2.2.2⟩

/-! ## The throttler of `QueuePacket`: calls within one second -/

theorem MustDiscard_same_second (E : Env) (t : PacketThrottler) (opcode account : Nat)
    (address : String) (now logNow : Int) (hmax : E.opcodePerSecond opcode % 2 ^ 32 ≠ 0)
    (htime : (t.m_opcodes opcode).time = now) :
    (t.MustDiscard E opcode account address now logNow).1 =
        decide (E.opcodePerSecond opcode % 2 ^ 32 < ((t.m_opcodes opcode).count + 1) % 2 ^ 32) ∧
      (t.MustDiscard E opcode account address now logNow).2.1.m_opcodes opcode =
        ⟨now, ((t.m_opcodes opcode).count + 1) % 2 ^ 32⟩ := by
  unfold PacketThrottler.MustDiscard PacketThrottler.LogDiscarded
  simp only [if_pos hmax, htime, if_true]
  split_ifs with h1 h2 <;> simp_all [setAt]

theorem MustDiscard_new_second (E : Env) (t : PacketThrottler) (opcode account : Nat)
    (address : String) (now logNow : Int) (hmax : E.opcodePerSecond opcode % 2 ^ 32 ≠ 0)
    (htime : (t.m_opcodes opcode).time ≠ now) :
    (t.MustDiscard E opcode account address now logNow).1 = false ∧
      (t.MustDiscard E opcode account address now logNow).2.1.m_opcodes opcode = ⟨now, 1⟩ := by
  unfold PacketThrottler.MustDiscard
  simp only [if_pos hmax, if_neg (Ne.symm htime)]
  simp [setAt]

theorem MustDiscards_same_second (E : Env) (opcode account : Nat) (address : String)
    (now : Int) (hmax : E.opcodePerSecond opcode % 2 ^ 32 ≠ 0) (logNows : List Int) :
    ∀ (t : PacketThrottler) (c : Nat), c < 2 ^ 32 → t.m_opcodes opcode = ⟨now, c⟩ →
      (PacketThrottler.MustDiscards E opcode account address now t logNows).1 =
          (List.range logNows.length).map
            (fun i => decide (E.opcodePerSecond opcode % 2 ^ 32 < (c + i + 1) % 2 ^ 32)) ∧
        (PacketThrottler.MustDiscards E opcode account address now t logNows).2.m_opcodes
          opcode = ⟨now, (c + logNows.length) % 2 ^ 32⟩ := by
  induction logNows with
  | nil =>
    intro t c hc ht
    refine ⟨rfl, ?_⟩
    simp only [PacketThrottler.MustDiscards, List.length_nil, Nat.add_zero,
      Nat.mod_eq_of_lt hc, ht]
  | cons l ls ih =>
    intro t c hc ht
    have h1 := MustDiscard_same_second E t opcode account address now l hmax (by rw [ht])
    rw [ht] at h1
    simp only at h1
    have h2 := ih _ _ (Nat.mod_lt _ (by norm_num)) h1.2
    simp only [PacketThrottler.MustDiscards, List.length_cons, List.range_succ_eq_map,
      List.map_cons, List.map_map]
    refine ⟨?_, ?_⟩
    · rw [h1.1, h2.1]
      congr 1
      apply List.map_congr_left
      intro i _
      simp only [Function.comp, Nat.succ_eq_add_one]
      congr 2
      omega
    · rw [h2.2]
      congr 1
      omega

theorem range_threshold (m : Nat) (n : Nat) :
    (List.range n).map (fun i => decide (m < i + 1)) =
      List.replicate (min n m) false ++ List.replicate (n - min n m) true := by
  induction n with
  | zero => simp
  | succ n ih =>
    rw [List.range_succ, List.map_append, ih, List.map_singleton]
    by_cases h : n < m
    · have h1 : min n m = n := by omega
      have h2 : min (n + 1) m = n + 1 := by omega
      have h3 : ¬ m < n + 1 := by omega
      rw [h1, h2]
      simp only [h3, decide_False, Nat.sub_self, List.replicate_zero, List.append_nil]
      rw [List.replicate_succ']
    · have h1 : min n m = m := by omega
      have h2 : min (n + 1) m = m := by omega
      have h3 : m < n + 1 := by omega
      have h4 : n + 1 - m = (n - m) + 1 := by omega
      rw [h1, h2, h4, List.replicate_succ', List.append_assoc]
      simp only [h3, decide_True]

theorem MustDiscards_new_second (E : Env) (t : PacketThrottler) (opcode account : Nat)
    (address : String) (now logNow : Int) (logNows : List Int)
    (hmax : E.opcodePerSecond opcode % 2 ^ 32 ≠ 0)
    (hnew : (t.m_opcodes opcode).time ≠ now) :
    (PacketThrottler.MustDiscards E opcode account address now t (logNow :: logNows)).1 =
        (List.range (logNows.length + 1)).map
          (fun i => decide (E.opcodePerSecond opcode % 2 ^ 32 < (i + 1) % 2 ^ 32)) ∧
      (PacketThrottler.MustDiscards E opcode account address now t
        (logNow :: logNows)).2.m_opcodes opcode = ⟨now, (logNows.length + 1) % 2 ^ 32⟩ := by
  have h1 := MustDiscard_new_second E t opcode account address now logNow hmax hnew
  have h2 := MustDiscards_same_second E opcode account address now hmax logNows _ 1
    (by norm_num) h1.2
  simp only [PacketThrottler.MustDiscards, List.range_succ_eq_map, List.map_cons, List.map_map]
  refine ⟨?_, ?_⟩
  · rw [h1.1, h2.1]
    have hz : decide (E.opcodePerSecond opcode % 2 ^ 32 < (0 + 1) % 2 ^ 32) = false := by
      have : (0 + 1) % 2 ^ 32 = 1 := by norm_num
      rw [this]
      exact decide_eq_false (by omega)
    rw [hz]
    congr 1
    apply List.map_congr_left
    intro i _
    simp only [Function.comp, Nat.succ_eq_add_one]
    congr 2
    omega
  · rw [h2.2]
    congr 1
    omega

/-- C34, as the code has it. For an opcode whose `opcodePerSecond` limit `m` is positive, and
`n` calls of `MustDiscard` that read the same clock second, the first of which opens a new
window, with `n` below `2 ^ 32` (the counter is a `uint32`): the first `min n m` calls return
false and all later ones return true. For an opcode whose limit is 0 the call returns false,
leaves the throttler as it is and has no effect. `QueuePacket` appends the packet to the
receive queue when `MustDiscard` returns false, and otherwise destroys it and leaves the
queue as it is. -/
theorem MustDiscard_keeps_first_calls (E : Env) (t : PacketThrottler) (opcode account : Nat)
    (address : String) (now logNow : Int) (logNows : List Int)
    (hmax : 0 < E.opcodePerSecond opcode % 2 ^ 32)
    (hnew : (t.m_opcodes opcode).time ≠ now)
    (hn : logNows.length + 1 < 2 ^ 32) :
    (PacketThrottler.MustDiscards E opcode account address now t (logNow :: logNows)).1 =
      List.replicate (min (logNows.length + 1) (E.opcodePerSecond opcode % 2 ^ 32)) false ++
        List.replicate
          (logNows.length + 1 - min (logNows.length + 1) (E.opcodePerSecond opcode % 2 ^ 32))
          true ∧
    (∀ (t0 : PacketThrottler) (opcode0 : Nat) (now0 logNow0 : Int),
      E.opcodePerSecond opcode0 % 2 ^ 32 = 0 →
      t0.MustDiscard E opcode0 account address now0 logNow0 = (false, t0, [])) ∧
    (∀ (s : WorldSession) (p : WorldPacket) (now0 logNow0 : Int),
      ((s.m_packetThrottler.MustDiscard E (p.opcode % 65536) s._accountId s.m_Address now0
          logNow0).1 = false →
        s.QueuePacket E p now0 logNow0 =
          ({ s with
              m_packetThrottler := (s.m_packetThrottler.MustDiscard E (p.opcode % 65536)
                s._accountId s.m_Address now0 logNow0).2.1,
              _recvQueue := s._recvQueue ++ [p] },
            (s.m_packetThrottler.MustDiscard E (p.opcode % 65536) s._accountId s.m_Address now0
              logNow0).2.2)) ∧
      ((s.m_packetThrottler.MustDiscard E (p.opcode % 65536) s._accountId s.m_Address now0
          logNow0).1 = true →
        s.QueuePacket E p now0 logNow0 =
          ({ s with
              m_packetThrottler := (s.m_packetThrottler.MustDiscard E (p.opcode % 65536)
                s._accountId s.m_Address now0 logNow0).2.1 },
            (s.m_packetThrottler.MustDiscard E (p.opcode % 65536) s._accountId s.m_Address now0
              logNow0).2.2 ++ [Event.delete p.addr]))) := by
  refine ⟨?_, ?_, ?_⟩
  · rw [(MustDiscards_new_second E t opcode account address now logNow logNows (by omega)
      hnew).1, ← range_threshold]
    apply List.map_congr_left
    intro i hi
    have hi' : i < logNows.length + 1 := List.mem_range.mp hi
    rw [Nat.mod_eq_of_lt (by omega : i + 1 < 2 ^ 32)]
  · intro t0 opcode0 now0 logNow0 h0
    exact MustDiscard_unthrottled E t0 opcode0 account address now0 logNow0 h0
  · intro s p now0 logNow0
    unfold WorldSession.QueuePacket
    simp only
    refine ⟨?_, ?_⟩
    · intro h
      rw [h]
      rfl
    · intro h
      rw [h]
      rfl

/-- Witness for C34 as amended: `CMSG_WHO` has the limit 1; of three calls in second 1000
the first returns false and the other two return true. -/
theorem MustDiscard_keeps_first_calls_witness :
    (PacketThrottler.MustDiscards sampleEnv (sampleCode .CMSG_WHO) 1 "127.0.0.1" 1000
      (sampleSession .POLICY_KICK).m_packetThrottler [1000, 1000, 1000]).1 =
      [false, true, true] :=
  (MustDiscard_keeps_first_calls sampleEnv (sampleSession .POLICY_KICK).m_packetThrottler
    (sampleCode .CMSG_WHO) 1 "127.0.0.1" 1000 1000 [1000, 1000] (by decide) (by decide)
    (by decide)).1

/-- C34 fails as stated: `CMSG_WHO` has the limit 1; of `2 ^ 32` calls of `MustDiscard` in
second 1000, the first of which opens a new window, the last one returns false (the
`uint32` counter has wrapped to 0), although it is not among the first `min (2 ^ 32) 1`. -/
theorem MustDiscard_count_wraps :
    sampleEnv.opcodePerSecond (sampleCode .CMSG_WHO) % 2 ^ 32 = 1 ∧
    ((sampleSession .POLICY_KICK).m_packetThrottler.m_opcodes (sampleCode .CMSG_WHO)).time ≠
      1000 ∧
    (1000 :: List.replicate (4294967294 + 1) (1000 : Int)).length = 2 ^ 32 ∧
    (PacketThrottler.MustDiscards sampleEnv (sampleCode .CMSG_WHO) 1 "127.0.0.1" 1000
      (sampleSession .POLICY_KICK).m_packetThrottler
      (1000 :: List.replicate (4294967294 + 1) 1000)).1.getLast? = some false := by
  refine ⟨by decide, by decide, ?_, ?_⟩
  · rw [List.length_cons, List.length_replicate]
    norm_num
  · rw [(MustDiscards_new_second sampleEnv (sampleSession .POLICY_KICK).m_packetThrottler
      (sampleCode .CMSG_WHO) 1 "127.0.0.1" 1000 1000 (List.replicate (4294967294 + 1) 1000)
      (by decide) (by decide)).1, List.length_replicate, List.range_succ, List.map_append,
      List.map_singleton, List.getLast?_append, List.getLast?_singleton, Option.or_some]
    have h1 : sampleEnv.opcodePerSecond (sampleCode .CMSG_WHO) % 2 ^ 32 = 1 := by decide
    rw [h1]
    norm_num

/-! ## Registered addon prefixes: the soft cap -/

theorem IsAddonRegistered_iff (s : PrefixState) (prefixName : String) :
    WorldSession.IsAddonRegistered s prefixName = true ↔
      s._filterAddonMessages = false ∨ prefixName ∈ s._registeredAddonPrefixes := by
  unfold WorldSession.IsAddonRegistered
  cases hf : s._filterAddonMessages
  · simp
  · cases hl : s._registeredAddonPrefixes with
    | nil => simp
    | cons a l => simp

theorem prefixCall_run_invariant (cap : Nat) (s : PrefixState) (c : PrefixCall)
    (hthrew : (PrefixCall.run cap s c).threw = false) :
    (PrefixCall.run cap s c).state._filterAddonMessages = true →
      (PrefixCall.run cap s c).state._registeredAddonPrefixes.length ≤ cap := by
  cases c with
  | unregisterAll =>
    intro _
    simp [PrefixCall.run, WorldSession.HandleUnregisterAddonPrefixesOpcode]
  | registered recvPacket =>
    revert hthrew
    simp only [PrefixCall.run, WorldSession.HandleAddonRegisteredPrefixesOpcode]
    cases hc : recvPacket.count with
    | none => simp
    | some count =>
      simp only
      split_ifs with h1
      · simp
      · cases hl : WorldSession.HandleAddonRegisteredPrefixesOpcode.lengths recvPacket 0 count with
        | none => simp
        | some lengths =>
          simp only
          split_ifs with h2 h3
          · simp
          · simp
          · intro _ _
            simpa using h3

/-- C37 on the code: with the soft cap 64, a new session receives a
`CMSG_ADDON_REGISTERED_PREFIXES` packet with 64 prefixes and then one that announces two
prefixes and ends after the first. The second handler call pushes one prefix and then
throws out of `ReadString`, before the size check that would switch filtering off: filtering
stays on with 65 registered prefixes, and addon messages with another prefix are filtered. -/
theorem HandleAddonRegisteredPrefixesOpcode_exceeds_softcap :
    (PrefixCall.run 64 PrefixState.new (.registered (samplePrefixesPacket 64))).threw = false ∧
    (PrefixCall.run 64
      (PrefixCall.run 64 PrefixState.new (.registered (samplePrefixesPacket 64))).state
      (.registered sampleCutPrefixesPacket)).threw = true ∧
    (PrefixCall.runAll 64 PrefixState.new
      [.registered (samplePrefixesPacket 64),
        .registered sampleCutPrefixesPacket])._filterAddonMessages = true ∧
    (PrefixCall.runAll 64 PrefixState.new
      [.registered (samplePrefixesPacket 64),
        .registered sampleCutPrefixesPacket])._registeredAddonPrefixes.length = 65 ∧
    WorldSession.IsAddonRegistered
      (PrefixCall.runAll 64 PrefixState.new
        [.registered (samplePrefixesPacket 64), .registered sampleCutPrefixesPacket])
      "Recount" = false := by
  refine ⟨?_, ?_, ?_, ?_, ?_⟩ <;> decide

/-! ## The order of dispatch within one `Update` call -/

theorem next_split (check : WorldPacket → Option Bool) :
    ∀ (q : List WorldPacket) (p : WorldPacket) (q' : List WorldPacket),
      LockedQueue.next check q = some (some (p, q')) →
      ∃ pre post, q = pre ++ p :: post ∧ q' = pre ++ post ∧
        (∀ a ∈ pre, check a = some false) ∧ check p = some true := by
  intro q
  induction q with
  | nil => intro p q' h; simp [LockedQueue.next] at h
  | cons x q ih =>
    intro p q' h
    unfold LockedQueue.next at h
    cases hx : check x with
    | none => simp [hx] at h
    | some b =>
      cases b with
      | true =>
        simp only [hx, Option.some.injEq, Prod.mk.injEq] at h
        exact ⟨[], q, by simp [h.1], by simp [h.2], by simp, h.1 ▸ hx⟩
      | false =>
        simp only [hx] at h
        cases hn : LockedQueue.next check q with
        | none => simp [hn] at h
        | some r =>
          cases r with
          | none => simp [hn] at h
          | some r =>
            simp only [hn, Option.some.injEq, Prod.mk.injEq] at h
            obtain ⟨pre, post, h1, h2, h3, h4⟩ := ih r.1 r.2 hn
            refine ⟨x :: pre, post, by simp [h1, ← h.1], by simp [← h.2, h2], ?_,
              h.1 ▸ h4⟩
            intro a ha
            rcases List.mem_cons.mp ha with ha | ha
            · rw [ha]; exact hx
            · exact h3 a ha

theorem cond_split (E : Env) (updater : PacketFilter) (st0 st : UpdateState)
    (packet : WorldPacket)
    (hdq : WorldSession.Update.cond E updater st0 = some (some (packet, st))) :
    ∃ pre post, st0.session._recvQueue = pre ++ packet :: post ∧
      st.session._recvQueue = pre ++ post ∧
      (∀ a ∈ pre, updater.Process E st0.session a = some false) ∧
      updater.Process E st0.session packet = some true := by
  unfold WorldSession.Update.cond at hdq
  split at hdq
  · simp at hdq
  · split_ifs at hdq
    · simp at hdq
    · simp at hdq
    · split at hdq
      · simp at hdq
      · split_ifs at hdq
        · simp at hdq
        · split at hdq
          · simp at hdq
          · simp at hdq
          · rename_i r hn
            simp only [Option.some.injEq, Prod.mk.injEq] at hdq
            obtain ⟨pre, post, h1, h2, h3, h4⟩ := next_split _ _ r.1 r.2 hn
            refine ⟨pre, post, hdq.1 ▸ h1, ?_, h3, hdq.1 ▸ h4⟩
            rw [← hdq.2]
            exact h2

theorem Process_playerInWorld (E : Env) (updater : PacketFilter) (s s' : WorldSession)
    (x : WorldPacket) (h : s'.playerInWorld = s.playerInWorld) :
    updater.Process E s' x = updater.Process E s x := by
  unfold WorldSession.playerInWorld at h
  cases updater <;>
    simp only [PacketFilter.Process, MapSessionFilter.Process, WorldSessionFilter.Process] <;>
    cases hp : s._player <;> cases hp' : s'._player <;> simp_all

theorem handledPackets_append (a b : List Event) :
    handledPackets (a ++ b) = handledPackets a ++ handledPackets b := by
  simp [handledPackets, List.filterMap_append]

theorem handledPackets_nil_of_not_handler (l : List Event)
    (h : ∀ e ∈ l, e.isHandler = false) : handledPackets l = [] := by
  induction l with
  | nil => rfl
  | cons e l ih =>
    have he := h e (List.mem_cons_self _ _)
    have hl := ih (fun e' he' => h e' (List.mem_cons_of_mem _ he'))
    cases e <;> simp_all [handledPackets, Event.handled, Event.isHandler]

theorem handledPackets_invoke (E : Env) (s : WorldSession) (packet : WorldPacket)
    (opHandle : OpcodeHandler) :
    handledPackets (WorldSession.Update.invoke E s packet opHandle).2 = [packet] := by
  unfold WorldSession.Update.invoke WorldSession.LogUnprocessedTail
  simp only
  split_ifs <;> simp [handledPackets, Event.handled]

theorem evaluateOpcode_player_queue (E : Env) (s : WorldSession) (p : WorldPacket) (t : Int) :
    (DosProtection.EvaluateOpcode E s p t).2.1._player = s._player ∧
      (DosProtection.EvaluateOpcode E s p t).2.1._recvQueue = s._recvQueue := by
  unfold DosProtection.EvaluateOpcode DosProtection.applyPolicy WorldSession.KickPlayer
    WorldSession.withCounter
  simp only
  split_ifs
  · exact ⟨rfl, rfl⟩
  · exact ⟨rfl, rfl⟩
  · split <;> (try split) <;> exact ⟨rfl, rfl⟩

theorem MustDiscard_events (E : Env) (t : PacketThrottler) (opcode account : Nat)
    (address : String) (now logNow : Int) :
    ∀ e ∈ (t.MustDiscard E opcode account address now logNow).2.2, e.isHandler = false := by
  intro e he
  unfold PacketThrottler.MustDiscard at he
  simp only at he
  split_ifs at he
  · unfold PacketThrottler.LogDiscarded at he
    obtain ⟨a, _, rfl⟩ := List.mem_map.mp he
    rfl
  all_goals simp at he

theorem QueuePacket_events (E : Env) (s : WorldSession) (p : WorldPacket) (now logNow : Int) :
    ∀ e ∈ (s.QueuePacket E p now logNow).2, e.isHandler = false := by
  intro e he
  unfold WorldSession.QueuePacket at he
  simp only at he
  split_ifs at he
  · rcases List.mem_append.mp he with he | he
    · exact MustDiscard_events E _ _ _ _ _ _ e he
    · rw [List.mem_singleton.mp he]; rfl
  · exact MustDiscard_events E _ _ _ _ _ _ e he

theorem QueuePacket_player_queue (E : Env) (s : WorldSession) (p : WorldPacket)
    (now logNow : Int) :
    (s.QueuePacket E p now logNow).1._player = s._player ∧
      ((s.QueuePacket E p now logNow).1._recvQueue = s._recvQueue ∨
        (s.QueuePacket E p now logNow).1._recvQueue = s._recvQueue ++ [p]) := by
  unfold WorldSession.QueuePacket
  simp only
  split_ifs
  · exact ⟨rfl, Or.inl rfl⟩
  · exact ⟨rfl, Or.inr rfl⟩

theorem playerInWorld_of_player (s s' : WorldSession) (h : s'._player = s._player) :
    s'.playerInWorld = s.playerInWorld := by
  unfold WorldSession.playerInWorld
  rw [h]

theorem evaluated_order_frame (E : Env) (clock : UpdateClock) (st : UpdateState)
    (s' : WorldSession) (packet : WorldPacket) (opHandle : OpcodeHandler) (rej : List Event)
    (hrej : handledPackets rej = [])
    (hs' : s'._player = st.session._player ∧ s'._recvQueue = st.session._recvQueue)
    (hkeep : ∀ s : WorldSession,
      (opHandle.Handler s packet).session.playerInWorld = s.playerInWorld ∧
        (opHandle.Handler s packet).session._recvQueue = s._recvQueue) :
    (WorldSession.Update.evaluated E clock st s' packet opHandle rej).session.playerInWorld =
        st.session.playerInWorld ∧
      (WorldSession.Update.evaluated E clock st s' packet opHandle rej).session._recvQueue =
        st.session._recvQueue ∧
      (handledPackets (WorldSession.Update.evaluated E clock st s' packet opHandle rej).trace =
          handledPackets st.trace ∨
        handledPackets (WorldSession.Update.evaluated E clock st s' packet opHandle rej).trace =
          handledPackets st.trace ++ [packet]) := by
  have he := evaluateOpcode_player_queue E s' packet clock.currentTime
  have hev := handledPackets_nil_of_not_handler _
    (evaluateOpcode_events E s' packet clock.currentTime)
  unfold WorldSession.Update.evaluated
  split_ifs
  · simp only [invoke_session, handledPackets_append, hev, handledPackets_invoke,
      List.append_nil]
    refine ⟨?_, ?_, Or.inr trivial⟩
    · rw [(hkeep _).1]
      exact playerInWorld_of_player _ _ (he.1.trans hs'.1)
    · rw [(hkeep _).2]
      exact he.2.trans hs'.2
  · simp only [handledPackets_append, hev, hrej, List.append_nil]
    exact ⟨playerInWorld_of_player _ _ (he.1.trans hs'.1), he.2.trans hs'.2, Or.inl trivial⟩

theorem dispatch_order_frame (E : Env) (clock : UpdateClock) (st : UpdateState)
    (packet : WorldPacket) (opHandle : OpcodeHandler)
    (hkeep : ∀ s : WorldSession,
      (opHandle.Handler s packet).session.playerInWorld = s.playerInWorld ∧
        (opHandle.Handler s packet).session._recvQueue = s._recvQueue) :
    (WorldSession.Update.dispatch E clock st packet opHandle).session.playerInWorld =
        st.session.playerInWorld ∧
      ((WorldSession.Update.dispatch E clock st packet opHandle).session._recvQueue =
          st.session._recvQueue ∨
        ((WorldSession.Update.dispatch E clock st packet opHandle).session._recvQueue =
            st.session._recvQueue ++ [packet] ∧
          opHandle.Status = .STATUS_LOGGEDIN ∧ st.session.playerInWorld = false)) ∧
      (handledPackets (WorldSession.Update.dispatch E clock st packet opHandle).trace =
          handledPackets st.trace ∨
        (handledPackets (WorldSession.Update.dispatch E clock st packet opHandle).trace =
            handledPackets st.trace ++ [packet] ∧
          ¬ (opHandle.Status = .STATUS_LOGGEDIN ∧ st.session.playerInWorld = false))) := by
  cases hc : WorldSession.Update.consulted E st.session packet opHandle with
  | some s' =>
    rw [dispatch_of_consulted E clock st packet opHandle s' hc]
    have hf := consulted_frame E st.session s' packet opHandle hc
    have hrej : handledPackets (WorldSession.Update.rejected packet opHandle) = [] := by
      unfold WorldSession.Update.rejected
      split_ifs <;> rfl
    obtain ⟨h1, h2, h3⟩ := evaluated_order_frame E clock st s' packet opHandle _ hrej
      ⟨hf.2.2.2, hf.2.2.1⟩ hkeep
    refine ⟨h1, Or.inl h2, ?_⟩
    rcases h3 with h3 | h3
    · exact Or.inl h3
    · refine Or.inr ⟨h3, ?_⟩
      rintro ⟨hst, hw⟩
      unfold WorldSession.Update.consulted at hc
      unfold WorldSession.playerInWorld at hw
      rw [hst] at hc
      simp only at hc
      cases hp : st.session._player with
      | none => simp [hp] at hc
      | some player =>
        simp only [hp] at hc hw
        simp [hw] at hc
  | none =>
    unfold WorldSession.Update.consulted at hc
    unfold WorldSession.Update.dispatch
    cases hs : opHandle.Status <;> simp only [hs] at hc ⊢
    · -- STATUS_AUTHED
      by_cases hq : st.session.m_inQueue = true
      · simp [hq, handledPackets_append, handledPackets, WorldSession.LogUnexpectedOpcode,
          Event.handled]
      · simp [hq] at hc
    · -- STATUS_LOGGEDIN
      cases hp : st.session._player with
      | none =>
        have hw : st.session.playerInWorld = false := by
          unfold WorldSession.playerInWorld
          rw [hp]
        by_cases hr : st.session.m_playerRecentlyLogout = true
        · simp [hr]
        · have hq := QueuePacket_player_queue E st.session packet (clock.throttleTime st.iter)
            (clock.logTime st.iter)
          have hev := handledPackets_nil_of_not_handler _ (QueuePacket_events E st.session packet
            (clock.throttleTime st.iter) (clock.logTime st.iter))
          simp only [hr, Bool.not_false, if_true, Bool.not_eq_true, handledPackets_append, hev,
            List.append_nil]
          refine ⟨?_, ?_, Or.inl ?_⟩
          · rw [playerInWorld_of_player _ _ hq.1]
          · rcases hq.2 with h | h
            · exact Or.inl h
            · exact Or.inr ⟨h, trivial, hw⟩
          · simp [handledPackets, Event.handled]
      | some player =>
        simp only [hp] at hc ⊢
        by_cases hw : player.inWorld = true
        · simp [hw] at hc
        · simp [hw]
    · -- STATUS_TRANSFER
      cases hp : st.session._player with
      | none =>
        simp [handledPackets_append, handledPackets, WorldSession.LogUnexpectedOpcode,
          Event.handled]
      | some player =>
        simp only [hp] at hc ⊢
        by_cases hw : player.inWorld = true
        · simp [hw, handledPackets_append, handledPackets, WorldSession.LogUnexpectedOpcode,
            Event.handled]
        · simp [hw] at hc
    · -- STATUS_LOGGEDIN_OR_RECENTLY_LOGGOUT
      split_ifs at hc with h
      simp [h, handledPackets_append, handledPackets, WorldSession.LogUnexpectedOpcode,
        Event.handled]
    · -- STATUS_NEVER
      simp [handledPackets_append, handledPackets, Event.handled]
    · -- STATUS_UNHANDLED
      simp [handledPackets_append, handledPackets, Event.handled]

theorem closing_handledPackets (clock : UpdateClock) (iter : Nat) (d : Bool)
    (packet : WorldPacket) :
    handledPackets (WorldSession.Update.closing clock iter d packet) = [] := by
  unfold WorldSession.Update.closing
  split_ifs <;> simp [handledPackets, Event.handled]

theorem filter_eq_nil_of_false (check : WorldPacket → Option Bool) (l : List WorldPacket)
    (h : ∀ a ∈ l, check a = some false) :
    l.filter (fun x => decide (check x = some true)) = [] := by
  rw [List.filter_eq_nil_iff]
  intro a ha
  rw [h a ha]
  simp

theorem step_inOrder (E : Env) (clock : UpdateClock) (updater : PacketFilter)
    (hkeep : E.handlersKeepEligibility) (s0 : WorldSession) (Q0 : List WorldPacket)
    (st st1 st2 : UpdateState) (packet : WorldPacket)
    (hdq : WorldSession.Update.cond E updater st = some (some (packet, st1)))
    (hbody : WorldSession.Update.body E clock st1 packet = some st2)
    (hinv : st.inOrder E updater s0 Q0) : st2.inOrder E updater s0 Q0 := by
  obtain ⟨hw, R, D, hq, hsub, hD⟩ := hinv
  obtain ⟨pre, post, hq0, hq1, hpre, hp⟩ := cond_split E updater st st1 packet hdq
  have hfr := dequeued_frame E updater st st1 packet hdq
  have hw1 : st1.session.playerInWorld = s0.playerInWorld :=
    (playerInWorld_of_player _ _ hfr.2.2.2.2.2.1).trans hw
  rw [Process_playerInWorld E updater s0 st.session packet hw] at hp
  have hpre' : ∀ a ∈ pre, updater.Process E s0 a = some false := by
    intro a ha
    rw [← Process_playerInWorld E updater s0 st.session a hw]
    exact hpre a ha
  cases htab : E.opcodeTable packet.opcode with
  | none => simp [WorldSession.Update.body, htab] at hbody
  | some opHandle =>
    rw [body_eq E clock st1 packet opHandle htab] at hbody
    simp only [Option.some.injEq] at hbody
    obtain ⟨h1, h2, h3⟩ := dispatch_order_frame E clock st1 packet opHandle
      (fun s => hkeep packet.opcode opHandle s packet htab)
    have htr : handledPackets st2.trace =
        handledPackets (WorldSession.Update.dispatch E clock st1 packet opHandle).trace := by
      rw [← hbody]
      simp only [handledPackets_append, closing_handledPackets, List.append_nil]
    have hses : st2.session =
        (WorldSession.Update.dispatch E clock st1 packet opHandle).session := by
      rw [← hbody]
    rw [hfr.1] at h3
    rw [hq1] at h2
    rw [hw1] at h2 h3
    refine ⟨by rw [hses, h1, hw1], ?_⟩
    rw [hq] at hq0
    have hqueue : ∀ (R' D' : List WorldPacket), pre ++ post = R' ++ D' →
        (∀ d ∈ D', s0.playerInWorld = false ∧
          ∃ h, E.opcodeTable d.opcode = some h ∧ h.Status = .STATUS_LOGGEDIN) →
        ∃ D'', st2.session._recvQueue = R' ++ D'' ∧
          ∀ d ∈ D'', s0.playerInWorld = false ∧
            ∃ h, E.opcodeTable d.opcode = some h ∧ h.Status = .STATUS_LOGGEDIN := by
      intro R' D' hsplit hD'
      rcases h2 with h2 | ⟨h2, hst, hwf⟩
      · exact ⟨D', by rw [hses, h2, hsplit], hD'⟩
      · refine ⟨D' ++ [packet], by rw [hses, h2, hsplit, List.append_assoc], ?_⟩
        intro d hd
        rcases List.mem_append.mp hd with hd | hd
        · exact hD' d hd
        · rw [List.mem_singleton.mp hd]
          exact ⟨hwf, opHandle, htab, hst⟩
    rcases List.append_eq_append_iff.mp hq0 with ⟨a', ha1, ha2⟩ | ⟨c', hc1, hc2⟩
    · -- the packet is taken from the deferred part
      obtain ⟨D'', hD1, hD2⟩ := hqueue R (a' ++ post) (by rw [ha1, List.append_assoc]) (by
        intro d hd
        apply hD d
        rw [ha2]
        rcases List.mem_append.mp hd with hd | hd
        · exact List.mem_append_left _ hd
        · exact List.mem_append_right _ (List.mem_cons_of_mem _ hd))
      obtain ⟨hwf, h, hh1, hh2⟩ := hD packet (by rw [ha2]; simp)
      rw [htab] at hh1
      have hh : opHandle = h := Option.some.inj hh1
      refine ⟨R, D'', hD1, ?_, hD2⟩
      rcases h3 with h3 | ⟨_, h3⟩
      · rw [htr, h3]; exact hsub
      · exact absurd ⟨hh ▸ hh2, hwf⟩ h3
    · -- the packet is taken from the part still to be looked at
      cases c' with
      | nil =>
        -- the boundary case: the packet is the first deferred one
        simp only [List.append_nil, List.nil_append] at hc1 hc2
        obtain ⟨D'', hD1, hD2⟩ := hqueue R post (by rw [hc1]) (by
          intro d hd
          apply hD d
          rw [← hc2]
          exact List.mem_cons_of_mem _ hd)
        obtain ⟨hwf, h, hh1, hh2⟩ := hD packet (by rw [← hc2]; simp)
        rw [htab] at hh1
        have hh : opHandle = h := Option.some.inj hh1
        refine ⟨R, D'', hD1, ?_, hD2⟩
        rcases h3 with h3 | ⟨_, h3⟩
        · rw [htr, h3]; exact hsub
        · exact absurd ⟨hh ▸ hh2, hwf⟩ h3
      | cons x c'' =>
        simp only [List.cons_append, List.cons.injEq] at hc2
        obtain ⟨hx, hpost⟩ := hc2
        subst hx
        obtain ⟨D'', hD1, hD2⟩ := hqueue (pre ++ c'') D (by rw [hpost, List.append_assoc]) hD
        refine ⟨pre ++ c'', D'', hD1, ?_, hD2⟩
        rw [hc1, List.filter_append, filter_eq_nil_of_false _ pre hpre', List.nil_append,
          List.filter_cons, hp] at hsub
        simp only [decide_True, if_true] at hsub
        rw [List.filter_append, filter_eq_nil_of_false _ pre hpre', List.nil_append, htr]
        rcases h3 with h3 | ⟨h3, _⟩
        · rw [h3]
          exact (List.Sublist.append_left (List.sublist_cons_self _ _) _).trans hsub
        · rw [h3, List.append_assoc]
          exact hsub

theorem inOrder_sublist (E : Env) (updater : PacketFilter) (s0 : WorldSession)
    (Q0 : List WorldPacket) (st : UpdateState) (h : st.inOrder E updater s0 Q0) :
    (handledPackets st.trace).Sublist Q0 := by
  obtain ⟨_, R, D, _, hsub, _⟩ := h
  exact (List.sublist_append_left _ _).trans hsub

theorem loop_inOrder (E : Env) (clock : UpdateClock) (updater : PacketFilter)
    (hkeep : E.handlersKeepEligibility) (s0 : WorldSession) (Q0 : List WorldPacket) :
    ∀ (fuel : Nat) (st : UpdateState), st.inOrder E updater s0 Q0 →
      (handledPackets (WorldSession.Update.loop E clock updater fuel st).state.trace).Sublist
        Q0 := by
  intro fuel
  induction fuel with
  | zero =>
    intro st hinv
    have h := inOrder_sublist E updater s0 Q0 st hinv
    unfold WorldSession.Update.loop
    split <;> exact h
  | succ fuel ih =>
    intro st hinv
    have h := inOrder_sublist E updater s0 Q0 st hinv
    unfold WorldSession.Update.loop
    split
    · exact h
    · exact h
    · rename_i r hdq
      have hfr := dequeued_frame E updater st r.2 r.1 hdq
      split
      · show (handledPackets r.2.trace).Sublist Q0
        rw [hfr.1]
        exact h
      · rename_i st2 hbody
        exact ih st2 (step_inOrder E clock updater hkeep s0 Q0 st r.2 st2 r.1 hdq hbody hinv)

theorem initial_inOrder (E : Env) (updater : PacketFilter) (s : WorldSession)
    (st : UpdateState) (hs : st.session._recvQueue = s._recvQueue)
    (hw : st.session.playerInWorld = s.playerInWorld) (ht : handledPackets st.trace = []) :
    st.inOrder E updater s s._recvQueue := by
  refine ⟨hw, s._recvQueue, [], by rw [hs, List.append_nil], ?_, by simp⟩
  rw [ht, List.nil_append]
  exact List.filter_sublist _

theorem start_inOrder (E : Env) (X : UpdateCalls) (updater : PacketFilter) (s : WorldSession)
    (st0 : UpdateState) (hstart : WorldSession.Update.start X s = some st0) :
    st0.inOrder E updater s s._recvQueue := by
  unfold WorldSession.Update.start at hstart
  split_ifs at hstart
  · split at hstart
    · simp at hstart
    · simp only [Option.some.injEq] at hstart
      subst hstart
      exact initial_inOrder E updater s _ rfl rfl rfl
  · simp only [Option.some.injEq] at hstart
    subst hstart
    exact initial_inOrder E updater s _ rfl rfl rfl

theorem sampleEnv_handlersKeepEligibility : sampleEnv.handlersKeepEligibility := by
  intro k opHandle s packet htab
  have h : opHandle.Handler = sampleHandler := by
    change sampleTable k = some opHandle at htab
    unfold sampleTable at htab
    split_ifs at htab <;> simp only [Option.some.injEq] at htab <;> rw [← htab]
  rw [h]
  exact ⟨rfl, rfl⟩

